import Mathlib

/-!
# RenderStream-NvVFX: the frame loop of `src/RenderStreamNvVFX.cpp`

A shallow embedding of the `while (true)` loop of `main` (lines 563-836) and of the
helpers it calls (`createTexture`, `getStreams`).  Every call that leaves the program
(RenderStream, Direct3D 11, NvCVImage / NvVFX) is recorded as an `Event`; the value such
a call returns is read from an `Env`, one per loop iteration.  Objects that the C++ code
compares or passes by pointer carry a numeric identity drawn from a counter kept in the
state.  `uint32_t` arithmetic is `Nat` arithmetic modulo `2 ^ 32`.
-/

namespace RenderStreamNvVFX

/-! ## Status codes and formats -/

/-- Return codes of the RenderStream API: the enumerators the source names, and any other. -/
inductive RS_ERROR where
  | RS_ERROR_SUCCESS
  | RS_ERROR_STREAMS_CHANGED
  | RS_ERROR_TIMEOUT
  | RS_ERROR_BUFFER_OVERFLOW
  | other (code : Nat)
  deriving DecidableEq, Repr

/-- Return codes of the NvCVImage / NvVFX API: the enumerators the source names, and any other. -/
inductive NvCV_Status where
  | NVCV_SUCCESS
  | NVCV_ERR_INITIALIZATION
  | other (code : Nat)
  deriving DecidableEq, Repr

/-- Pixel formats of `NvCVImage`: the enumerators the source names, and any other. -/
inductive NvCVImage_PixelFormat where
  | NVCV_BGR
  | NVCV_A
  | NVCV_RGBA
  | other (code : Nat)
  deriving DecidableEq, Repr

/-- Component types of `NvCVImage`: the enumerators the source names, and any other. -/
inductive NvCVImage_ComponentType where
  | NVCV_U8
  | NVCV_F32
  | other (code : Nat)
  deriving DecidableEq, Repr

/-- Pixel layouts (`unsigned char` in the source): the values the source names, and any other. -/
inductive NvCVImage_Layout where
  | NVCV_CHUNKY
  | NVCV_PLANAR
  | other (code : Nat)
  deriving DecidableEq, Repr

/-- The `DXGI_FORMAT` enumerators used by the source. -/
inductive DXGI_FORMAT where
  | DXGI_FORMAT_B8G8R8A8_UNORM
  | DXGI_FORMAT_A8_UNORM
  | DXGI_FORMAT_R8G8B8A8_UNORM
  | DXGI_FORMAT_D24_UNORM_S8_UINT
  deriving DecidableEq, Repr

/-- The effect selectors passed to `createEffect`; an effect handle is identified by its selector. -/
inductive NvVFX_EffectSelector where
  | NVVFX_FX_TRANSFER
  | NVVFX_FX_GREEN_SCREEN
  | NVVFX_FX_ARTIFACT_REDUCTION
  | NVVFX_FX_SUPER_RES
  | NVVFX_FX_SR_UPSCALE
  deriving DecidableEq, Repr

/-- The two image slots of an effect: `NVVFX_INPUT_IMAGE` and `NVVFX_OUTPUT_IMAGE`. -/
inductive NvVFX_ParameterSelector where
  | NVVFX_INPUT_IMAGE
  | NVVFX_OUTPUT_IMAGE
  deriving DecidableEq, Repr

/-- The scale argument of `NvCVImage_Transfer`, as the literal written in the source:
`1/255.f` (line 681), `255.f` (line 755) and `1` (line 767). -/
inductive TransferScale where
  | oneOver255
  | times255
  | one
  deriving DecidableEq, Repr

/-! ## Data model -/

/-- A pixel format, component type and layout, as `NvCVImage_FromD3DFormat` reports them. -/
structure FormatTriple where
  pixelFormat : NvCVImage_PixelFormat
  componentType : NvCVImage_ComponentType
  layout : NvCVImage_Layout
  deriving DecidableEq, Repr

/-- An `NvCVImage` made by `std::make_shared<NvCVImage>(width, height, format, type, layout,
NVCV_GPU, alignment)`.  `ptr` is the identity of the object (what `shared_ptr::get` returns). -/
structure NvCVImage where
  ptr : Nat
  width : Nat
  height : Nat
  pixelFormat : NvCVImage_PixelFormat
  componentType : NvCVImage_ComponentType
  layout : NvCVImage_Layout
  alignment : Nat
  deriving DecidableEq, Repr

/-- The `struct Texture` of the source (lines 192-199).  `resource`, `srv` and `image` hold
the identity of the object pointed to, `none` for a null pointer. -/
structure Texture where
  width : Nat := 0
  height : Nat := 0
  format : Option DXGI_FORMAT := none
  resource : Option Nat := none
  srv : Option Nat := none
  image : Option Nat := none
  deriving DecidableEq, Repr

/-- The `struct Effect` of `main` (lines 407-421). -/
structure Effect where
  name : String
  inputPixelFormat : NvCVImage_PixelFormat
  inputComponentType : NvCVImage_ComponentType
  inputLayout : NvCVImage_Layout
  outputTextureFormat : DXGI_FORMAT
  outputPixelFormat : NvCVImage_PixelFormat
  outputComponentType : NvCVImage_ComponentType
  outputLayout : NvCVImage_Layout
  effect : NvVFX_EffectSelector
  upscale : Bool
  shaderTechnique : Nat
  loaded : Bool := false
  deriving DecidableEq, Repr

/-- Stream handles are opaque 64-bit values. -/
abbrev StreamHandle := Nat

/-- The fields of `StreamDescription` the frame loop reads. -/
structure StreamDescription where
  handle : StreamHandle
  width : Nat
  height : Nat
  deriving DecidableEq, Repr

/-- A Direct3D 2D texture created for a stream: its identity and the size and format it was
created with. -/
structure Texture2D where
  ptr : Nat
  width : Nat
  height : Nat
  format : DXGI_FORMAT
  deriving DecidableEq, Repr

/-- The `struct RenderTarget` of `main` (lines 547-553); `none` is a null `ComPtr`. -/
structure RenderTarget where
  texture : Option Texture2D := none
  view : Option Nat := none
  depth : Option Texture2D := none
  depthView : Option Nat := none
  deriving DecidableEq, Repr

/-- The fields of `FrameData` the frame loop reads.  `tTracked` is a `double` that is only
copied, so it is kept as an uninterpreted token. -/
structure FrameData where
  scene : Nat
  tTracked : Nat
  deriving DecidableEq, Repr

/-- The fields of `ImageFrameData` the frame loop reads. -/
structure ImageFrameData where
  width : Nat
  height : Nat
  imageId : Nat
  deriving DecidableEq, Repr

/-- The `CameraResponseData` handed to `rs_sendFrame`; the camera block is only copied, so it
is kept as an uninterpreted token. -/
structure CameraResponseData where
  tTracked : Nat
  camera : Nat
  deriving DecidableEq, Repr

/-- The effects vector as `main` fills it (lines 425-497), before any model is loaded. -/
def effects : List Effect :=
  [ { name := "Transfer",
      inputPixelFormat := .NVCV_BGR, inputComponentType := .NVCV_U8, inputLayout := .NVCV_CHUNKY,
      outputTextureFormat := .DXGI_FORMAT_B8G8R8A8_UNORM,
      outputPixelFormat := .NVCV_BGR, outputComponentType := .NVCV_U8, outputLayout := .NVCV_CHUNKY,
      effect := .NVVFX_FX_TRANSFER, upscale := false, shaderTechnique := 0 },
    { name := "Green screen",
      inputPixelFormat := .NVCV_BGR, inputComponentType := .NVCV_U8, inputLayout := .NVCV_CHUNKY,
      outputTextureFormat := .DXGI_FORMAT_A8_UNORM,
      outputPixelFormat := .NVCV_A, outputComponentType := .NVCV_U8, outputLayout := .NVCV_CHUNKY,
      effect := .NVVFX_FX_GREEN_SCREEN, upscale := false, shaderTechnique := 1 },
    { name := "Artifact reduction",
      inputPixelFormat := .NVCV_BGR, inputComponentType := .NVCV_F32, inputLayout := .NVCV_PLANAR,
      outputTextureFormat := .DXGI_FORMAT_B8G8R8A8_UNORM,
      outputPixelFormat := .NVCV_BGR, outputComponentType := .NVCV_F32, outputLayout := .NVCV_PLANAR,
      effect := .NVVFX_FX_ARTIFACT_REDUCTION, upscale := false, shaderTechnique := 0 },
    { name := "Super resolution",
      inputPixelFormat := .NVCV_BGR, inputComponentType := .NVCV_F32, inputLayout := .NVCV_PLANAR,
      outputTextureFormat := .DXGI_FORMAT_B8G8R8A8_UNORM,
      outputPixelFormat := .NVCV_BGR, outputComponentType := .NVCV_F32, outputLayout := .NVCV_PLANAR,
      effect := .NVVFX_FX_SUPER_RES, upscale := true, shaderTechnique := 0 },
    { name := "Upscale",
      inputPixelFormat := .NVCV_RGBA, inputComponentType := .NVCV_U8, inputLayout := .NVCV_CHUNKY,
      outputTextureFormat := .DXGI_FORMAT_R8G8B8A8_UNORM,
      outputPixelFormat := .NVCV_RGBA, outputComponentType := .NVCV_U8, outputLayout := .NVCV_CHUNKY,
      effect := .NVVFX_FX_SR_UPSCALE, upscale := true, shaderTechnique := 0 } ]

/-- The value of `scoped.schema.scenes.nScenes`, set once to `uint32_t(effects.size())`
(line 508). -/
def nScenes : Nat := effects.length

/-! ## The world outside the program -/

/-- The diagnostics posted with `rs_logToD3`; each constructor stands for the string literal
quoted with it. -/
inductive Diagnostic where
  /-- The text "Scene out of bounds\n" (line 647). -/
  | sceneOutOfBounds
  /-- The text "Failed to get image parameter data\n" (line 657). -/
  | getImageDataFailed
  /-- The text "Failed to get image parameter\n" (line 671). -/
  | getImageFailed
  /-- The text "Failed to map input image\n" (line 678). -/
  | mapInputFailed
  /-- The text "Failed to transfer input image\n" (line 683). -/
  | transferInputFailed
  /-- The text "Failed to unmap input image\n" (line 688). -/
  | unmapInputFailed
  /-- The text "Failed to set input image\n" (line 696). -/
  | setInputFailed
  /-- The text "Failed to load model\n" (line 739). -/
  | loadFailed
  /-- The text "Failed to run NAME effect, status: STATUS\n" (lines 749-751). -/
  | runFailed (name : String) (status : NvCV_Status)
  /-- The text "Failed to transfer effect output to output image\n" (line 757). -/
  | transferEffectOutputFailed
  /-- The text "Failed to map output image\n" (line 764). -/
  | mapOutputFailed
  /-- The text "Failed to transfer output image\n" (line 769). -/
  | transferOutputFailed
  /-- The text "Failed to unmap output image\n" (line 774). -/
  | unmapOutputFailed
  deriving DecidableEq, Repr

/-- The lines written to `tcerr` / `tcout` inside the loop and after it. -/
inductive ConsoleLine where
  /-- The `e.what()` of an exception caught at line 623. -/
  | what (message : String)
  /-- The line "Found N streams" (line 632). -/
  | foundStreams (n : Nat)
  /-- The line "rs_awaitFrameData returned ERR" (line 641). -/
  | awaitReturned (err : RS_ERROR)
  /-- The line "Failed to determine output image format" (line 714). -/
  | outputFormatFailed
  /-- The line "Failed to set output image" (line 729). -/
  | setOutputFailed
  /-- The line "Failed to send frame" (line 826). -/
  | sendFrameFailed
  /-- The line "Failed to shutdown RenderStream" (line 844). -/
  | shutdownFailed
  deriving DecidableEq, Repr

/-- One call that leaves the program, with its arguments and, where it has one, its result.
Pointer arguments are given by the identity of the object pointed to. -/
inductive Event where
  | rs_awaitFrameData (timeoutMs : Nat) (result : RS_ERROR)
  | rs_getStreamsSize
  | rs_getStreams (result : RS_ERROR)
  | rs_logToD3 (message : Diagnostic)
  | tcerr (line : ConsoleLine)
  | tcout (line : ConsoleLine)
  | rs_getFrameImageData (scene : Nat) (result : RS_ERROR)
  | rs_getFrameImage (imageId : Nat) (resource : Option Nat) (result : RS_ERROR)
  | CreateTexture2D (width height : Nat) (format : DXGI_FORMAT) (succeeded : Bool)
  | CreateShaderResourceView (resource : Nat) (succeeded : Bool)
  | CreateRenderTargetView (resource : Nat) (succeeded : Bool)
  | CreateDepthStencilView (resource : Nat) (succeeded : Bool)
  | NvCVImage_InitFromD3D11Texture (image resource : Nat) (result : NvCV_Status)
  | makeNvCVImage (image : NvCVImage)
  | NvCVImage_MapResource (image : Option Nat) (result : NvCV_Status)
  | NvCVImage_UnmapResource (image : Option Nat) (result : NvCV_Status)
  | NvCVImage_Transfer (src dst : Option Nat) (scale : TransferScale) (result : NvCV_Status)
  | NvCVImage_FromD3DFormat (format : DXGI_FORMAT) (result : NvCV_Status)
  | NvVFX_SetImage (effect : NvVFX_EffectSelector) (slot : NvVFX_ParameterSelector)
      (image : Option Nat) (result : NvCV_Status)
  | NvVFX_Load (effect : NvVFX_EffectSelector) (result : NvCV_Status)
  | NvVFX_Run (effect : NvVFX_EffectSelector) (result : NvCV_Status)
  | rs_getFrameCamera (handle : StreamHandle) (result : RS_ERROR)
  | OMSetRenderTargets (view depthView : Option Nat)
  | ClearRenderTargetView (view : Option Nat)
  | ClearDepthStencilView (depthView : Option Nat)
  | RSSetViewports (width height : Nat)
  | UpdateSubresource (iTechnique : Nat)
  | Draw (inputSrv outputSrv : Option Nat)
  | rs_sendFrame (handle : StreamHandle) (resource : Option Nat)
      (response : CameraResponseData) (result : RS_ERROR)
  | NvVFX_DestroyEffect (effect : NvVFX_EffectSelector)
  | NvVFX_CudaStreamDestroy
  | rs_shutdown (result : RS_ERROR)
  deriving DecidableEq, Repr

/-- What the three fallible calls of one `createTexture` return. -/
structure CreateTextureResults where
  createTexture2D : Bool
  createShaderResourceView : Bool
  initFromD3D11Texture : NvCV_Status
  deriving DecidableEq, Repr

/-- What the four fallible Direct3D calls made for one stream's render target return. -/
structure RenderTargetResults where
  createTexture : Bool
  createView : Bool
  createDepth : Bool
  createDepthView : Bool
  deriving DecidableEq, Repr

/-- Everything the outside world returns during one iteration of the loop.  Calls made once
per stream are indexed by the position of the stream in the enumeration. -/
structure Env where
  /-- The result of `rs_awaitFrameData` and the frame data it fills in. -/
  await : RS_ERROR
  frameData : FrameData
  /-- The constant `sizeof(StreamDescriptions)`, fixed by `d3renderstream.h`. -/
  sizeofStreamDescriptions : Nat
  /-- The result of the k-th `rs_getStreams` call of the retry loop. -/
  getStreamsResult : Nat → RS_ERROR
  /-- The byte count after the last `rs_getStreams` call and the streams it wrote. -/
  streamsBytesWritten : Nat
  streams : List StreamDescription
  renderTarget : Nat → RenderTargetResults
  getFrameImageData : RS_ERROR
  image : ImageFrameData
  inputTexture : CreateTextureResults
  getFrameImage : RS_ERROR
  mapInput : NvCV_Status
  transferInput : NvCV_Status
  unmapInput : NvCV_Status
  setInputImage : NvCV_Status
  outputTexture : CreateTextureResults
  fromD3DFormat : DXGI_FORMAT → NvCV_Status × FormatTriple
  setOutputImage : NvCV_Status
  load : NvCV_Status
  run : NvCV_Status
  transferEffectOutput : NvCV_Status
  mapOutput : NvCV_Status
  transferOutput : NvCV_Status
  unmapOutput : NvCV_Status
  getFrameCamera : Nat → RS_ERROR
  camera : Nat → Nat
  sendFrame : Nat → RS_ERROR
  shutdown : RS_ERROR

/-! ## Program state -/

/-- The variables of `main` that live across iterations of the loop (lines 545-562), the
`effects` vector, and the counter from which object identities are drawn. -/
structure PipelineState where
  effects : List Effect
  header : Option (List StreamDescription)
  renderTargets : List (StreamHandle × RenderTarget)
  input : Texture
  effectInput : Option NvCVImage
  output : Texture
  effectOutput : Option NvCVImage
  outputImage : Option NvCVImage
  temporary : Nat
  lastScene : Nat
  nextPtr : Nat
  deriving DecidableEq, Repr

/-- The state on entry to the loop: the effects as created, no streams, empty textures,
null image pointers, a fresh `temporary` image (identity 0), `lastScene = 0`. -/
def initialState : PipelineState :=
  { effects := effects, header := none, renderTargets := [],
    input := {}, effectInput := none, output := {}, effectOutput := none,
    outputImage := none, temporary := 0, lastScene := 0, nextPtr := 1 }

/-- How an iteration of the loop leaves the loop body. -/
inductive Exit where
  /-- A `continue` statement: the rest of the body is skipped. -/
  | skip
  /-- The `break` at line 642 followed by the code after the loop, or a `return`; the payload
  is the value `main` returns. -/
  | exit (code : Nat)
  /-- An exception that no handler catches: `std::terminate` is called. -/
  | uncaught (what : String)
  deriving DecidableEq, Repr

/-- The result of running a piece of the loop body: the state it leaves, the calls it made,
and `none` if control falls through to the next statement. -/
structure Step where
  state : PipelineState
  trace : List Event
  exit : Option Exit
  deriving DecidableEq, Repr

/-- Sequencing: run `next` from the state `first` leaves unless `first` left the body. -/
def Step.andThen (first : Step) (next : PipelineState → Step) : Step :=
  match first.exit with
  | some _ => first
  | none =>
    let r := next first.state
    { state := r.state, trace := first.trace ++ r.trace, exit := r.exit }

/-- A step that makes the calls `trace`, leaves the state `st` and falls through. -/
def Step.pass (st : PipelineState) (trace : List Event) : Step :=
  { state := st, trace := trace, exit := none }

/-- A step that makes the calls `trace` and leaves the loop body by `e`. -/
def Step.leave (st : PipelineState) (trace : List Event) (e : Exit) : Step :=
  { state := st, trace := trace, exit := some e }

/-- The calls of `first` put in front of those of `s`. -/
def Step.after (trace : List Event) (s : Step) : Step :=
  { state := s.state, trace := trace ++ s.trace, exit := s.exit }

/-! ## Helpers of the loop -/

/-- The function `createTexture` (lines 201-236).  `ptr`, `ptr + 1` and `ptr + 2` become the
identities of the texture resource, of its shader resource view and of its `NvCVImage`
wrapper.  A `throw std::runtime_error(what)` is `Except.error what`. -/
def createTexture (r : CreateTextureResults) (ptr width height : Nat) (format : DXGI_FORMAT) :
    Except String Texture × List Event :=
  let e1 := Event.CreateTexture2D width height format r.createTexture2D
  if !r.createTexture2D then
    (.error "Failed to create texture for image parameter", [e1])
  else
    let e2 := Event.CreateShaderResourceView ptr r.createShaderResourceView
    if !r.createShaderResourceView then
      (.error "Failed to create shader resource view for image parameter", [e1, e2])
    else
      let e3 := Event.NvCVImage_InitFromD3D11Texture (ptr + 2) ptr r.initFromD3D11Texture
      if r.initFromD3D11Texture ≠ .NVCV_SUCCESS then
        (.error "Failed to create Nvidia CV image for image parameter", [e1, e2, e3])
      else
        (.ok { width := width, height := height, format := some format,
               resource := some ptr, srv := some (ptr + 1), image := some (ptr + 2) },
         [e1, e2, e3])

/-- The constant `MAX_TRIES` of `getStreams` (line 148). -/
def MAX_TRIES : Nat := 3

/-- The `do ... while` loop of `getStreams` (lines 152-161), entered with `iterations` tries
already failed and `remaining = MAX_TRIES - 1 - iterations` more tries allowed after this
one.  Returns the last value of `res` and the calls made. -/
def getStreamsRetry (results : Nat → RS_ERROR) (iterations : Nat) :
    (remaining : Nat) → RS_ERROR × List Event
  | 0 => (results iterations, [.rs_getStreams (results iterations)])
  | remaining + 1 =>
    let res := results iterations
    if res = .RS_ERROR_SUCCESS then (res, [.rs_getStreams res])
    else if res = .RS_ERROR_BUFFER_OVERFLOW then
      let r := getStreamsRetry results (iterations + 1) remaining
      (r.1, .rs_getStreams res :: r.2)
    else (res, [.rs_getStreams res])

/-- The function `getStreams` (lines 143-170): the stream descriptions written by the host,
or the message of the exception thrown. -/
def getStreams (env : Env) : Except String (List StreamDescription) × List Event :=
  let r := getStreamsRetry env.getStreamsResult 0 (MAX_TRIES - 1)
  let trace := Event.rs_getStreamsSize :: r.2
  if r.1 ≠ .RS_ERROR_SUCCESS then (.error "Failed to get streams", trace)
  else if env.streamsBytesWritten < env.sizeofStreamDescriptions then
    (.error "Invalid stream descriptions", trace)
  else (.ok env.streams, trace)

/-- The lookup `renderTargets.at(handle)`, `none` where `at` throws `std::out_of_range`. -/
def renderTargetsAt (m : List (StreamHandle × RenderTarget)) (handle : StreamHandle) :
    Option RenderTarget :=
  match m with
  | [] => none
  | (k, v) :: rest => if k = handle then some v else renderTargetsAt rest handle

/-- Assignment through the reference `renderTargets[handle]`: replaces the entry of `handle`,
or adds one. -/
def renderTargetsSet (m : List (StreamHandle × RenderTarget)) (handle : StreamHandle)
    (target : RenderTarget) : List (StreamHandle × RenderTarget) :=
  match m with
  | [] => [(handle, target)]
  | (k, v) :: rest =>
    if k = handle then (k, target) :: rest else (k, v) :: renderTargetsSet rest handle target

/-- The destructor calls `for (Effect& effect : effects) NvVFX_DestroyEffect(effect.effect)`. -/
def destroyEffects (es : List Effect) : List Event :=
  es.map fun e => Event.NvVFX_DestroyEffect e.effect

/-- The release sequence that precedes every `return` inside the loop: destroy every effect,
destroy the CUDA stream, shut RenderStream down. -/
def releaseAll (env : Env) (st : PipelineState) : List Event :=
  destroyEffects st.effects ++ [.NvVFX_CudaStreamDestroy, .rs_shutdown env.shutdown]

/-- The body of `for (size_t i = 0; i < numStreams; ++i)` at lines 574-621, from stream `i`
on.  A `throw` leaves with `Exit.uncaught`; the handler at line 623 is applied by the caller. -/
def createRenderTargets (env : Env) : Nat → List StreamDescription → PipelineState → Step
  | _, [], st => Step.pass st []
  | i, description :: rest, st =>
    let r := env.renderTarget i
    let target := (renderTargetsAt st.renderTargets description.handle).getD {}
    let p := st.nextPtr
    let e1 := Event.CreateTexture2D description.width description.height
      .DXGI_FORMAT_B8G8R8A8_UNORM r.createTexture
    if !r.createTexture then
      Step.leave { st with renderTargets := renderTargetsSet st.renderTargets description.handle target }
        [e1] (.uncaught "Failed to create render target texture for stream")
    else
      let texture : Texture2D :=
        { ptr := p, width := description.width, height := description.height,
          format := .DXGI_FORMAT_B8G8R8A8_UNORM }
      let target := { target with texture := some texture }
      let e2 := Event.CreateRenderTargetView p r.createView
      if !r.createView then
        Step.leave { st with renderTargets := renderTargetsSet st.renderTargets description.handle target,
                             nextPtr := p + 1 }
          [e1, e2] (.uncaught "Failed to create render target view for stream")
      else
        let target := { target with view := some (p + 1) }
        let e3 := Event.CreateTexture2D description.width description.height
          .DXGI_FORMAT_D24_UNORM_S8_UINT r.createDepth
        if !r.createDepth then
          Step.leave { st with renderTargets := renderTargetsSet st.renderTargets description.handle target,
                               nextPtr := p + 2 }
            [e1, e2, e3] (.uncaught "Failed to create depth texture for stream")
        else
          let depth : Texture2D :=
            { ptr := p + 2, width := description.width, height := description.height,
              format := .DXGI_FORMAT_D24_UNORM_S8_UINT }
          let target := { target with depth := some depth }
          let e4 := Event.CreateDepthStencilView (p + 2) r.createDepthView
          if !r.createDepthView then
            Step.leave { st with renderTargets := renderTargetsSet st.renderTargets description.handle target,
                                 nextPtr := p + 3 }
              [e1, e2, e3, e4] (.uncaught "Failed to create depth view for stream")
          else
            let target := { target with depthView := some (p + 3) }
            Step.after [e1, e2, e3, e4]
              (createRenderTargets env (i + 1) rest
                { st with renderTargets := renderTargetsSet st.renderTargets description.handle target,
                          nextPtr := p + 4 })

/-- The branch `err == RS_ERROR_STREAMS_CHANGED` (lines 567-634). -/
def streamsChanged (env : Env) (st : PipelineState) : Step :=
  match getStreams env with
  | (.error what, trace) =>
    Step.leave st (trace ++ [.tcerr (.what what)] ++ releaseAll env st) (.exit 7)
  | (.ok streams, trace) =>
    let st1 := { st with header := some streams }
    let r := createRenderTargets env 0 streams st1
    match r.exit with
    | some (.uncaught what) =>
      Step.leave r.state (trace ++ r.trace ++ [.tcerr (.what what)] ++ releaseAll env r.state) (.exit 7)
    | _ =>
      Step.leave r.state (trace ++ r.trace ++ [.tcout (.foundStreams streams.length)]) .skip

/-! ## Processing one frame request (lines 645-835) -/

/-- Lines 660-664: the input texture and the effect input image are made anew when the image
size differs from the size of `input` or the scene differs from `lastScene`. -/
def ensureInput (env : Env) (effect : Effect) (fd : FrameData) (image : ImageFrameData)
    (st : PipelineState) : Step :=
  if st.input.width ≠ image.width ∨ st.input.height ≠ image.height ∨ fd.scene ≠ st.lastScene then
    match createTexture env.inputTexture st.nextPtr image.width image.height
        .DXGI_FORMAT_B8G8R8A8_UNORM with
    | (.error what, trace) => Step.leave st trace (.uncaught what)
    | (.ok texture, trace) =>
      let effectInput : NvCVImage :=
        { ptr := st.nextPtr + 3, width := image.width, height := image.height,
          pixelFormat := effect.inputPixelFormat, componentType := effect.inputComponentType,
          layout := effect.inputLayout,
          alignment := if effect.inputLayout = .NVCV_PLANAR then 1 else 32 }
      Step.pass { st with input := texture, effectInput := some effectInput,
                          nextPtr := st.nextPtr + 4 }
        (trace ++ [.makeNvCVImage effectInput])
  else Step.pass st []

/-- Lines 666-673: the host copies the frame image into `input.resource`. -/
def acquireInput (env : Env) (image : ImageFrameData) (st : PipelineState) : Step :=
  let call := Event.rs_getFrameImage image.imageId st.input.resource env.getFrameImage
  if env.getFrameImage ≠ .RS_ERROR_SUCCESS then
    Step.leave st [call, .rs_logToD3 .getImageFailed] .skip
  else Step.pass st [call]

/-- Lines 675-692: map `input.image`, transfer it to `effectInput`, unmap it. -/
def transferInput (env : Env) (st : PipelineState) : Step :=
  let map := Event.NvCVImage_MapResource st.input.image env.mapInput
  if env.mapInput ≠ .NVCV_SUCCESS then
    Step.leave st [map, .rs_logToD3 .mapInputFailed] .skip
  else
    let transfer := Event.NvCVImage_Transfer st.input.image (st.effectInput.map (·.ptr))
      .oneOver255 env.transferInput
    let success := decide (env.transferInput = .NVCV_SUCCESS)
    let transferred :=
      if success then [map, transfer] else [map, transfer, .rs_logToD3 .transferInputFailed]
    let unmap := Event.NvCVImage_UnmapResource st.input.image env.unmapInput
    if env.unmapInput ≠ .NVCV_SUCCESS then
      Step.leave st (transferred ++ [unmap, .rs_logToD3 .unmapInputFailed]) .skip
    else if !success then Step.leave st (transferred ++ [unmap]) .skip
    else Step.pass st (transferred ++ [unmap])

/-- Lines 694-698: bind `effectInput` as the input image of the effect. -/
def setInputImage (env : Env) (effect : Effect) (st : PipelineState) : Step :=
  let call := Event.NvVFX_SetImage effect.effect .NVVFX_INPUT_IMAGE
    (st.effectInput.map (·.ptr)) env.setInputImage
  if env.setInputImage ≠ .NVCV_SUCCESS then
    Step.leave st [call, .rs_logToD3 .setInputFailed] .skip
  else Step.pass st [call]

/-- Lines 701-702: `effect.upscale ? n * 2 : n` in `uint32_t`. -/
def outputSize (effect : Effect) (n : Nat) : Nat :=
  if effect.upscale then (n * 2) % 2 ^ 32 else n

/-- Lines 700-725: the output texture, the effect output image and `outputImage` are made
anew when the output size differs from the size of `output` or the scene differs from
`lastScene`. -/
def ensureOutput (env : Env) (effect : Effect) (fd : FrameData) (image : ImageFrameData)
    (st : PipelineState) : Step :=
  let width := outputSize effect image.width
  let height := outputSize effect image.height
  if st.output.width ≠ width ∨ st.output.height ≠ height ∨ fd.scene ≠ st.lastScene then
    match createTexture env.outputTexture st.nextPtr width height effect.outputTextureFormat with
    | (.error what, trace) => Step.leave st trace (.uncaught what)
    | (.ok texture, trace) =>
      let effectOutput : NvCVImage :=
        { ptr := st.nextPtr + 3, width := width, height := height,
          pixelFormat := effect.outputPixelFormat, componentType := effect.outputComponentType,
          layout := effect.outputLayout,
          alignment := if effect.outputLayout = .NVCV_PLANAR then 1 else 32 }
      let st1 := { st with output := texture, effectOutput := some effectOutput,
                           nextPtr := st.nextPtr + 4 }
      let r := env.fromD3DFormat effect.outputTextureFormat
      let trace1 := trace ++ [.makeNvCVImage effectOutput,
        .NvCVImage_FromD3DFormat effect.outputTextureFormat r.1]
      if r.1 ≠ .NVCV_SUCCESS then
        Step.leave st1 (trace1 ++ [.tcerr .outputFormatFailed] ++ releaseAll env st1) (.exit 84)
      else if effect.outputPixelFormat ≠ r.2.pixelFormat ∨
          effect.outputComponentType ≠ r.2.componentType ∨ effect.outputLayout ≠ r.2.layout then
        let outputImage : NvCVImage :=
          { ptr := st.nextPtr + 4, width := width, height := height,
            pixelFormat := r.2.pixelFormat, componentType := r.2.componentType,
            layout := r.2.layout,
            alignment := if r.2.layout = .NVCV_PLANAR then 1 else 32 }
        Step.pass { st1 with outputImage := some outputImage, nextPtr := st.nextPtr + 5 }
          (trace1 ++ [.makeNvCVImage outputImage])
      else Step.pass { st1 with outputImage := some effectOutput } trace1
  else Step.pass st []

/-- Lines 727-735: bind `effectOutput` as the output image of the effect. -/
def setOutputImage (env : Env) (effect : Effect) (st : PipelineState) : Step :=
  let call := Event.NvVFX_SetImage effect.effect .NVVFX_OUTPUT_IMAGE
    (st.effectOutput.map (·.ptr)) env.setOutputImage
  if env.setOutputImage ≠ .NVCV_SUCCESS then
    Step.leave st ([call, .tcerr .setOutputFailed] ++ releaseAll env st) (.exit 84)
  else Step.pass st [call]

/-- The assignment `effect.loaded = value` through the reference `effects[frameData.scene]`. -/
def setLoaded (st : PipelineState) (scene : Nat) (effect : Effect) (value : Bool) :
    PipelineState :=
  { st with effects := st.effects.set scene { effect with loaded := value } }

/-- Lines 737-742: load the model unless it is loaded, then mark the effect loaded. -/
def loadEffect (env : Env) (effect : Effect) (fd : FrameData) (st : PipelineState) : Step :=
  if !effect.loaded then
    let call := Event.NvVFX_Load effect.effect env.load
    if env.load ≠ .NVCV_SUCCESS then Step.leave st [call, .rs_logToD3 .loadFailed] .skip
    else Step.pass (setLoaded st fd.scene effect true) [call]
  else Step.pass (setLoaded st fd.scene effect true) []

/-- Lines 744-753: run the effect; an initialisation error marks it unloaded. -/
def runEffect (env : Env) (effect : Effect) (fd : FrameData) (st : PipelineState) : Step :=
  let call := Event.NvVFX_Run effect.effect env.run
  let st1 := if env.run = .NVCV_ERR_INITIALIZATION then setLoaded st fd.scene effect false else st
  if env.run ≠ .NVCV_SUCCESS then
    Step.leave st1 [call, .rs_logToD3 (.runFailed effect.name env.run)] .skip
  else Step.pass st1 [call]

/-- Lines 755-759: when `effectOutput` and `outputImage` are different objects, transfer the
first to the second. -/
def transferEffectOutput (env : Env) (st : PipelineState) : Step :=
  if st.effectOutput.map (·.ptr) ≠ st.outputImage.map (·.ptr) then
    let call := Event.NvCVImage_Transfer (st.effectOutput.map (·.ptr))
      (st.outputImage.map (·.ptr)) .times255 env.transferEffectOutput
    if env.transferEffectOutput ≠ .NVCV_SUCCESS then
      Step.leave st [call, .rs_logToD3 .transferEffectOutputFailed] .skip
    else Step.pass st [call]
  else Step.pass st []

/-- Lines 761-778: map `output.image`, transfer `outputImage` to it, unmap it. -/
def transferOutput (env : Env) (st : PipelineState) : Step :=
  let map := Event.NvCVImage_MapResource st.output.image env.mapOutput
  if env.mapOutput ≠ .NVCV_SUCCESS then
    Step.leave st [map, .rs_logToD3 .mapOutputFailed] .skip
  else
    let transfer := Event.NvCVImage_Transfer (st.outputImage.map (·.ptr)) st.output.image
      .one env.transferOutput
    let success := decide (env.transferOutput = .NVCV_SUCCESS)
    let transferred :=
      if success then [map, transfer] else [map, transfer, .rs_logToD3 .transferOutputFailed]
    let unmap := Event.NvCVImage_UnmapResource st.output.image env.unmapOutput
    if env.unmapOutput ≠ .NVCV_SUCCESS then
      Step.leave st (transferred ++ [unmap, .rs_logToD3 .unmapOutputFailed]) .skip
    else if !success then Step.leave st (transferred ++ [unmap]) .skip
    else Step.pass st (transferred ++ [unmap])

/-- The Direct3D calls of lines 791-820 for one stream: bind and clear its render target
and depth buffer, set the viewport, pass the technique, draw the quad sampling `input` and
`output`. -/
def drawQuad (effect : Effect) (st : PipelineState) (description : StreamDescription)
    (target : RenderTarget) : List Event :=
  [ .OMSetRenderTargets target.view target.depthView,
    .ClearRenderTargetView target.view,
    .ClearDepthStencilView target.depthView,
    .RSSetViewports description.width description.height,
    .UpdateSubresource effect.shaderTechnique,
    .Draw st.input.srv st.output.srv ]

/-- The loop `for (size_t i = 0; i < numStreams; ++i)` at lines 782-834, from stream `i` on. -/
def fanOut (env : Env) (effect : Effect) (fd : FrameData) (st : PipelineState) :
    Nat → List StreamDescription → Step
  | _, [] => Step.pass st []
  | i, description :: rest =>
    let query := Event.rs_getFrameCamera description.handle (env.getFrameCamera i)
    if env.getFrameCamera i = .RS_ERROR_SUCCESS then
      match renderTargetsAt st.renderTargets description.handle with
      | none => Step.leave st [query] (.uncaught "unordered_map::at")
      | some target =>
        let response : CameraResponseData := { tTracked := fd.tTracked, camera := env.camera i }
        let send := Event.rs_sendFrame description.handle (target.texture.map (·.ptr)) response
          (env.sendFrame i)
        if env.sendFrame i ≠ .RS_ERROR_SUCCESS then
          Step.leave st
            (query :: drawQuad effect st description target ++
              [send, .tcerr .sendFrameFailed] ++ releaseAll env st)
            (.exit 8)
        else
          Step.after (query :: drawQuad effect st description target ++ [send])
            (fanOut env effect fd st (i + 1) rest)
    else Step.after [query] (fanOut env effect fd st (i + 1) rest)

/-- Lines 660-698: make the input buffers if needed, fetch the frame image, convert it into
the effect input image and bind that image to the effect. -/
def inboundPhase (env : Env) (effect : Effect) (fd : FrameData) (image : ImageFrameData)
    (st : PipelineState) : Step :=
  (ensureInput env effect fd image st).andThen fun st =>
  (acquireInput env image st).andThen fun st =>
  (transferInput env st).andThen fun st =>
  setInputImage env effect st

/-- Lines 700-735: make the output buffers if needed and bind the effect output image. -/
def outputPhase (env : Env) (effect : Effect) (fd : FrameData) (image : ImageFrameData)
    (st : PipelineState) : Step :=
  (ensureOutput env effect fd image st).andThen fun st =>
  setOutputImage env effect st

/-- Lines 737-753: load the model if needed and run the effect. -/
def effectPhase (env : Env) (effect : Effect) (fd : FrameData) (st : PipelineState) : Step :=
  (loadEffect env effect fd st).andThen fun st =>
  runEffect env effect fd st

/-- Lines 755-778: convert the effect output into the output texture. -/
def outboundPhase (env : Env) (st : PipelineState) : Step :=
  (transferEffectOutput env st).andThen fun st =>
  transferOutput env st

/-- Lines 780-835: answer the frame request on every stream of `header`, then record the
scene in `lastScene`. -/
def respondPhase (env : Env) (effect : Effect) (fd : FrameData) (st : PipelineState) : Step :=
  (fanOut env effect fd st 0 (st.header.getD [])).andThen fun st =>
  Step.pass { st with lastScene := fd.scene } []

/-- Lines 660-835: what the loop body does once the scene and its image data are known. -/
def processImage (env : Env) (effect : Effect) (fd : FrameData) (image : ImageFrameData)
    (st : PipelineState) : Step :=
  (inboundPhase env effect fd image st).andThen fun st =>
  (outputPhase env effect fd image st).andThen fun st =>
  (effectPhase env effect fd st).andThen fun st =>
  (outboundPhase env st).andThen fun st =>
  respondPhase env effect fd st

/-- Lines 645-835: the part of the loop body that handles a frame request.  The lookup
`effects[frameData.scene]` is defined because the vector never changes size; the model
leaves with `Exit.uncaught` should it not be. -/
def processFrame (env : Env) (st : PipelineState) : Step :=
  let fd := env.frameData
  if fd.scene ≥ nScenes then Step.leave st [.rs_logToD3 .sceneOutOfBounds] .skip
  else
    match st.effects[fd.scene]? with
    | none => Step.leave st [] (.uncaught "effects[frameData.scene]")
    | some effect =>
      let call := Event.rs_getFrameImageData fd.scene env.getFrameImageData
      if env.getFrameImageData ≠ .RS_ERROR_SUCCESS then
        Step.leave st [call, .rs_logToD3 .getImageDataFailed] .skip
      else Step.after [call] (processImage env effect fd env.image st)

/-! ## The loop -/

/-- The code after the loop (lines 838-848), reached by the `break` at line 642. -/
def shutdownAfterLoop (env : Env) (st : PipelineState) : Step :=
  if env.shutdown ≠ .RS_ERROR_SUCCESS then
    Step.leave st (releaseAll env st ++ [.tcerr .shutdownFailed]) (.exit 99)
  else Step.leave st (releaseAll env st) (.exit 0)

/-- One iteration of `while (true)` (lines 563-836). -/
def mainLoopBody (env : Env) (st : PipelineState) : Step :=
  let wait := Event.rs_awaitFrameData 5000 env.await
  if env.await = .RS_ERROR_STREAMS_CHANGED then Step.after [wait] (streamsChanged env st)
  else if env.await = .RS_ERROR_TIMEOUT then Step.leave st [wait] .skip
  else if env.await ≠ .RS_ERROR_SUCCESS then
    Step.after [wait, .tcerr (.awaitReturned env.await)] (shutdownAfterLoop env st)
  else Step.after [wait] (processFrame env st)

/-- The iteration ends with the loop still running: by a `continue` or by reaching the end
of the body. -/
def Step.continues (s : Step) : Prop :=
  s.exit = none ∨ s.exit = some .skip

instance (s : Step) : Decidable s.continues := by
  unfold Step.continues; exact inferInstance

/-- The states the loop can be in at the top of an iteration. -/
inductive Reachable : PipelineState → Prop where
  | start : Reachable initialState
  | iterate (env : Env) (st : PipelineState) :
      Reachable st → (mainLoopBody env st).continues → Reachable (mainLoopBody env st).state

/-! ## Predicates on states and environments -/

/-- The effect with its `loaded` flag cleared: what the effect declares. -/
def Effect.declared (e : Effect) : Effect := { e with loaded := false }

/-- The effects vector of the state is the one `main` built, up to the `loaded` flags. -/
def Configured (st : PipelineState) : Prop :=
  st.effects.map Effect.declared = effects

instance (st : PipelineState) : Decidable (Configured st) := by
  unfold Configured; exact inferInstance

/-- Every stream of the cached enumeration has an entry in `renderTargets`. -/
def HeaderCovered (st : PipelineState) : Prop :=
  ∀ d ∈ st.header.getD [], ∃ target, renderTargetsAt st.renderTargets d.handle = some target

/-- Every call made before the stream loop of a frame request reports success. -/
structure Env.FrameSucceeds (env : Env) : Prop where
  await : env.await = .RS_ERROR_SUCCESS
  getFrameImageData : env.getFrameImageData = .RS_ERROR_SUCCESS
  inputTexture : env.inputTexture = ⟨true, true, .NVCV_SUCCESS⟩
  getFrameImage : env.getFrameImage = .RS_ERROR_SUCCESS
  mapInput : env.mapInput = .NVCV_SUCCESS
  transferInput : env.transferInput = .NVCV_SUCCESS
  unmapInput : env.unmapInput = .NVCV_SUCCESS
  setInputImage : env.setInputImage = .NVCV_SUCCESS
  outputTexture : env.outputTexture = ⟨true, true, .NVCV_SUCCESS⟩
  fromD3DFormat : ∀ format, (env.fromD3DFormat format).1 = .NVCV_SUCCESS
  setOutputImage : env.setOutputImage = .NVCV_SUCCESS
  load : env.load = .NVCV_SUCCESS
  run : env.run = .NVCV_SUCCESS
  transferEffectOutput : env.transferEffectOutput = .NVCV_SUCCESS
  mapOutput : env.mapOutput = .NVCV_SUCCESS
  transferOutput : env.transferOutput = .NVCV_SUCCESS
  unmapOutput : env.unmapOutput = .NVCV_SUCCESS

/-! ## Kinds of calls -/

/-- The functions the loop calls, one name for each kind of `Event`. -/
inductive Call where
  | rs_awaitFrameData | rs_getStreams | rs_logToD3 | tcerr | tcout
  | rs_getFrameImageData | rs_getFrameImage
  | CreateTexture2D | CreateShaderResourceView | CreateRenderTargetView | CreateDepthStencilView
  | NvCVImage_InitFromD3D11Texture | makeNvCVImage
  | NvCVImage_MapResource | NvCVImage_UnmapResource | NvCVImage_Transfer
  | NvCVImage_FromD3DFormat
  | NvVFX_SetImage | NvVFX_Load | NvVFX_Run
  | rs_getFrameCamera
  | OMSetRenderTargets | ClearRenderTargetView | ClearDepthStencilView | RSSetViewports
  | UpdateSubresource | Draw
  | rs_sendFrame
  | NvVFX_DestroyEffect | NvVFX_CudaStreamDestroy | rs_shutdown
  deriving DecidableEq, Repr

/-- The function an event is a call of. -/
def Event.call : Event → Call
  | .rs_awaitFrameData .. => .rs_awaitFrameData
  | .rs_getStreamsSize => .rs_getStreams
  | .rs_getStreams .. => .rs_getStreams
  | .rs_logToD3 .. => .rs_logToD3
  | .tcerr .. => .tcerr
  | .tcout .. => .tcout
  | .rs_getFrameImageData .. => .rs_getFrameImageData
  | .rs_getFrameImage .. => .rs_getFrameImage
  | .CreateTexture2D .. => .CreateTexture2D
  | .CreateShaderResourceView .. => .CreateShaderResourceView
  | .CreateRenderTargetView .. => .CreateRenderTargetView
  | .CreateDepthStencilView .. => .CreateDepthStencilView
  | .NvCVImage_InitFromD3D11Texture .. => .NvCVImage_InitFromD3D11Texture
  | .makeNvCVImage .. => .makeNvCVImage
  | .NvCVImage_MapResource .. => .NvCVImage_MapResource
  | .NvCVImage_UnmapResource .. => .NvCVImage_UnmapResource
  | .NvCVImage_Transfer .. => .NvCVImage_Transfer
  | .NvCVImage_FromD3DFormat .. => .NvCVImage_FromD3DFormat
  | .NvVFX_SetImage .. => .NvVFX_SetImage
  | .NvVFX_Load .. => .NvVFX_Load
  | .NvVFX_Run .. => .NvVFX_Run
  | .rs_getFrameCamera .. => .rs_getFrameCamera
  | .OMSetRenderTargets .. => .OMSetRenderTargets
  | .ClearRenderTargetView .. => .ClearRenderTargetView
  | .ClearDepthStencilView .. => .ClearDepthStencilView
  | .RSSetViewports .. => .RSSetViewports
  | .UpdateSubresource .. => .UpdateSubresource
  | .Draw .. => .Draw
  | .rs_sendFrame .. => .rs_sendFrame
  | .NvVFX_DestroyEffect .. => .NvVFX_DestroyEffect
  | .NvVFX_CudaStreamDestroy => .NvVFX_CudaStreamDestroy
  | .rs_shutdown .. => .rs_shutdown

/-- The calls of `trace` to one of the functions `cs`, in order. -/
def callsTo (cs : List Call) (trace : List Event) : List Event :=
  trace.filter fun e => decide (e.call ∈ cs)

/-- The Direct3D context calls of lines 791-820 that clear and draw into a render target. -/
def drawCalls : List Call :=
  [.OMSetRenderTargets, .ClearRenderTargetView, .ClearDepthStencilView, .RSSetViewports,
   .UpdateSubresource, .Draw]

/-- The functions called after the output phase (lines 737-835). -/
def afterOutputCalls : List Call :=
  [.NvVFX_Load, .NvVFX_Run, .rs_logToD3, .NvCVImage_MapResource, .NvCVImage_Transfer,
   .NvCVImage_UnmapResource, .rs_getFrameCamera, .OMSetRenderTargets, .ClearRenderTargetView,
   .ClearDepthStencilView, .RSSetViewports, .UpdateSubresource, .Draw, .rs_sendFrame,
   .tcerr, .NvVFX_DestroyEffect, .NvVFX_CudaStreamDestroy, .rs_shutdown]

/-- The `rs_sendFrame` call the stream loop makes for stream `i` when it succeeds: the
stream's handle, the texture of the render target registered for the handle, and a response
holding the request's `tTracked` and the camera data fetched for the stream. -/
def submission (env : Env) (st : PipelineState) (i : Nat) (d : StreamDescription) : Event :=
  .rs_sendFrame d.handle
    ((renderTargetsAt st.renderTargets d.handle).bind fun target =>
      target.texture.map (·.ptr))
    { tTracked := env.frameData.tTracked, camera := env.camera i }
    .RS_ERROR_SUCCESS

/-- The calls the stream loop makes for stream `i` when its submission, if any, succeeds:
the camera query alone when the query fails (or the handle has no render target), otherwise
the query, the clear and draw calls and the submission. -/
def streamCalls (env : Env) (effect : Effect) (st : PipelineState) (i : Nat)
    (d : StreamDescription) : List Event :=
  if env.getFrameCamera i = .RS_ERROR_SUCCESS then
    match renderTargetsAt st.renderTargets d.handle with
    | some target =>
      .rs_getFrameCamera d.handle .RS_ERROR_SUCCESS :: drawQuad effect st d target ++
        [submission env st i d]
    | none => [.rs_getFrameCamera d.handle .RS_ERROR_SUCCESS]
  else [.rs_getFrameCamera d.handle (env.getFrameCamera i)]

/-! ## Sample environments -/

/-- What `NvCVImage_FromD3DFormat` reports in the sample environments: BGRA (code 7), alpha
and RGBA, all 8-bit chunky. -/
def sampleFromD3DFormat : DXGI_FORMAT → NvCV_Status × FormatTriple
  | .DXGI_FORMAT_B8G8R8A8_UNORM => (.NVCV_SUCCESS, ⟨.other 7, .NVCV_U8, .NVCV_CHUNKY⟩)
  | .DXGI_FORMAT_A8_UNORM => (.NVCV_SUCCESS, ⟨.NVCV_A, .NVCV_U8, .NVCV_CHUNKY⟩)
  | .DXGI_FORMAT_R8G8B8A8_UNORM => (.NVCV_SUCCESS, ⟨.NVCV_RGBA, .NVCV_U8, .NVCV_CHUNKY⟩)
  | .DXGI_FORMAT_D24_UNORM_S8_UINT => (.NVCV_SUCCESS, ⟨.other 0, .NVCV_U8, .NVCV_CHUNKY⟩)

/-- A frame request for `scene` with a `width` x `height` image in which every call
succeeds; stream `i` reports camera data `100 + i`. -/
def frameRequest (scene width height : Nat) : Env :=
  { await := .RS_ERROR_SUCCESS
    frameData := { scene := scene, tTracked := 42 }
    sizeofStreamDescriptions := 16
    getStreamsResult := fun _ => .RS_ERROR_SUCCESS
    streamsBytesWritten := 16
    streams := []
    renderTarget := fun _ => ⟨true, true, true, true⟩
    getFrameImageData := .RS_ERROR_SUCCESS
    image := { width := width, height := height, imageId := 7 }
    inputTexture := ⟨true, true, .NVCV_SUCCESS⟩
    getFrameImage := .RS_ERROR_SUCCESS
    mapInput := .NVCV_SUCCESS
    transferInput := .NVCV_SUCCESS
    unmapInput := .NVCV_SUCCESS
    setInputImage := .NVCV_SUCCESS
    outputTexture := ⟨true, true, .NVCV_SUCCESS⟩
    fromD3DFormat := sampleFromD3DFormat
    setOutputImage := .NVCV_SUCCESS
    load := .NVCV_SUCCESS
    run := .NVCV_SUCCESS
    transferEffectOutput := .NVCV_SUCCESS
    mapOutput := .NVCV_SUCCESS
    transferOutput := .NVCV_SUCCESS
    unmapOutput := .NVCV_SUCCESS
    getFrameCamera := fun _ => .RS_ERROR_SUCCESS
    camera := fun i => 100 + i
    sendFrame := fun _ => .RS_ERROR_SUCCESS
    shutdown := .RS_ERROR_SUCCESS }

/-- The frame request `frameRequest scene width height`, except that `rs_getFrameImage`
fails. -/
def imagelessRequest (scene width height : Nat) : Env :=
  { frameRequest scene width height with getFrameImage := .other 1 }

/-- The frame request `frameRequest scene width height`, except that `NvVFX_Run` returns
`status`. -/
def runRequest (scene width height : Nat) (status : NvCV_Status) : Env :=
  { frameRequest scene width height with run := status }

/-- The frame request `frameRequest scene width height`, except that `rs_sendFrame` for
stream `failing` fails. -/
def sendFailure (scene width height failing : Nat) : Env :=
  { frameRequest scene width height with
    sendFrame := fun i => if i = failing then .other 1 else .RS_ERROR_SUCCESS }

/-- The frame request `frameRequest scene width height`, except that `rs_getFrameCamera` for
stream `missing` fails. -/
def cameraFailure (scene width height missing : Nat) : Env :=
  { frameRequest scene width height with
    getFrameCamera := fun i => if i = missing then .other 1 else .RS_ERROR_SUCCESS }

/-- The frame request `frameRequest scene width height`, except that `rs_getFrameCamera`
fails for stream 0 and `rs_sendFrame` fails for stream 1. -/
def cameraAndSendFailure (scene width height : Nat) : Env :=
  { frameRequest scene width height with
    getFrameCamera := fun i => if i = 0 then .other 1 else .RS_ERROR_SUCCESS
    sendFrame := fun i => if i = 1 then .other 1 else .RS_ERROR_SUCCESS }

/-- A streams-changed event that enumerates `streams`; every call succeeds. -/
def streamsChangedEvent (streams : List StreamDescription) : Env :=
  { frameRequest 0 0 0 with await := .RS_ERROR_STREAMS_CHANGED, streams := streams }

/-- Two streams: handle 11 at 1920x1080 and handle 12 at 1280x720. -/
def twoStreams : List StreamDescription :=
  [ { handle := 11, width := 1920, height := 1080 },
    { handle := 12, width := 1280, height := 720 } ]

/-- The state after the host has announced `twoStreams`. -/
def stateWithTwoStreams : PipelineState :=
  (mainLoopBody (streamsChangedEvent twoStreams) initialState).state

/-! ## Kinds of failures -/

/-- Every call of the step that `bad` marks makes the step leave the loop body by `x`. -/
def Step.LeavesOn (bad : Event → Bool) (x : Exit) (s : Step) : Prop :=
  ∀ e ∈ s.trace, bad e = true → s.exit = some x

/-- A step that leaves the loop body by `continue` has posted a diagnostic with
`rs_logToD3`. -/
def Step.LogsOnSkip (s : Step) : Prop :=
  s.exit = some .skip → ∃ d, Event.rs_logToD3 d ∈ s.trace

/-- The failed calls after which the source logs and executes `continue`: a failed
`rs_getFrameImageData` (line 655) or `rs_getFrameImage` (line 669), a failed map, transfer
or unmap (lines 676-691, 755-777), a failed `NvVFX_SetImage` of the input image (line 694), a
failed `NvVFX_Load` (line 737) and a failed `NvVFX_Run` (line 745). -/
def Event.isRecoverableFailure : Event → Bool
  | .rs_getFrameImageData _ result => decide (result ≠ .RS_ERROR_SUCCESS)
  | .rs_getFrameImage _ _ result => decide (result ≠ .RS_ERROR_SUCCESS)
  | .NvCVImage_MapResource _ result => decide (result ≠ .NVCV_SUCCESS)
  | .NvCVImage_Transfer _ _ _ result => decide (result ≠ .NVCV_SUCCESS)
  | .NvCVImage_UnmapResource _ result => decide (result ≠ .NVCV_SUCCESS)
  | .NvVFX_SetImage _ .NVVFX_INPUT_IMAGE _ result => decide (result ≠ .NVCV_SUCCESS)
  | .NvVFX_Load _ result => decide (result ≠ .NVCV_SUCCESS)
  | .NvVFX_Run _ result => decide (result ≠ .NVCV_SUCCESS)
  | _ => false

/-- The functions called outside the handling of a frame image: by the wait, by the
streams-changed branch, by the code after the loop and by the scene check. -/
def outsideFrameCalls : List Call :=
  [.rs_awaitFrameData, .rs_getStreams, .CreateTexture2D, .CreateRenderTargetView,
   .CreateDepthStencilView, .tcerr, .tcout, .NvVFX_DestroyEffect, .NvVFX_CudaStreamDestroy,
   .rs_shutdown, .rs_logToD3]

/-- A Direct3D or interop creation call that failed: `CreateTexture2D`,
`CreateShaderResourceView`, `CreateRenderTargetView` or `CreateDepthStencilView` reporting
failure, or `NvCVImage_InitFromD3D11Texture` returning anything but success. -/
def Event.isCreationFailure : Event → Bool
  | .CreateTexture2D _ _ _ succeeded => !succeeded
  | .CreateShaderResourceView _ succeeded => !succeeded
  | .CreateRenderTargetView _ succeeded => !succeeded
  | .CreateDepthStencilView _ succeeded => !succeeded
  | .NvCVImage_InitFromD3D11Texture _ _ result => decide (result ≠ .NVCV_SUCCESS)
  | _ => false

/-- A failed `NvCVImage_FromD3DFormat` (line 708): the output pixel layout is not known. -/
def Event.isLayoutFailure : Event → Bool
  | .NvCVImage_FromD3DFormat _ result => decide (result ≠ .NVCV_SUCCESS)
  | _ => false

/-- A failed `NvVFX_SetImage` of the output image (line 727). -/
def Event.isOutputBindFailure : Event → Bool
  | .NvVFX_SetImage _ .NVVFX_OUTPUT_IMAGE _ result => decide (result ≠ .NVCV_SUCCESS)
  | _ => false

/-- A failed `rs_sendFrame` (line 824). -/
def Event.isSubmissionFailure : Event → Bool
  | .rs_sendFrame _ _ _ result => decide (result ≠ .RS_ERROR_SUCCESS)
  | _ => false

/-- The frame request `frameRequest scene width height`, except that
`NvCVImage_FromD3DFormat` fails. -/
def layoutFailure (scene width height : Nat) : Env :=
  { frameRequest scene width height with
    fromD3DFormat := fun format => (.other 1, (sampleFromD3DFormat format).2) }

/-- The frame request `frameRequest scene width height`, except that `NvVFX_SetImage` of
the output image fails. -/
def bindOutputFailure (scene width height : Nat) : Env :=
  { frameRequest scene width height with setOutputImage := .other 1 }

/-- An iteration in which `rs_awaitFrameData` reports the error `code`; `rs_shutdown`
succeeds. -/
def waitError (code : Nat) : Env :=
  { frameRequest 0 0 0 with await := .other code }

/-- A streams-changed event that enumerates `streams`, in which the creation of the render
target texture of stream `failing` fails. -/
def renderTargetFailure (streams : List StreamDescription) (failing : Nat) : Env :=
  { streamsChangedEvent streams with
    renderTarget := fun i => ⟨decide (i ≠ failing), true, true, true⟩ }

/-- The frame request `frameRequest scene width height`, except that `createTexture` fails
for the input texture with the results `r`. -/
def inputAllocationFailure (scene width height : Nat) (r : CreateTextureResults) : Env :=
  { frameRequest scene width height with inputTexture := r }

/-- The frame request `frameRequest scene width height`, except that `createTexture` fails
for the output texture with the results `r`. -/
def outputAllocationFailure (scene width height : Nat) (r : CreateTextureResults) : Env :=
  { frameRequest scene width height with outputTexture := r }

/-! ## Scale factors -/

/-- The fraction `n / d` rounded to the nearest integer, a tie going to the even one. -/
def roundHalfEven (n d : Nat) : Nat :=
  let q := n / d
  let r := n % d
  if 2 * r < d then q else if d < 2 * r then q + 1 else if q % 2 = 0 then q else q + 1

/-- The least shift `s'`, searched from `s` upwards in at most `fuel` steps, for which
`a * 2 ^ s' / b` is at least `2 ^ 23`. -/
def significandShift (a b : Nat) : Nat → Nat → Nat
  | s, 0 => s
  | s, fuel + 1 => if 2 ^ 23 * b ≤ a * 2 ^ s then s else significandShift a b (s + 1) fuel

/-- The single-precision (`float`) quotient of the positive integers `a` and `b`, for a
quotient below `2 ^ 24` that is not subnormal: the 24-bit significand and the exponent `s`
of the power of two it is divided by, so that the quotient is `significand / 2 ^ s`.
IEEE 754 division rounds to nearest, ties to even. -/
def float32Div (a b : Nat) : Nat × Nat :=
  let s := significandShift a b 0 149
  (roundHalfEven (a * 2 ^ s) b, s)

/-- The `float` a scale argument of the source evaluates to: `1/255.f` is the `int` 1
converted to `float` and divided by `255.f` in single precision; `255.f` and `1` are the
floats 255 and 1. -/
def TransferScale.value : TransferScale → ℚ
  | .oneOver255 => ((float32Div 1 255).1 : ℚ) / 2 ^ (float32Div 1 255).2
  | .times255 => ((float32Div 255 1).1 : ℚ) / 2 ^ (float32Div 255 1).2
  | .one => ((float32Div 1 1).1 : ℚ) / 2 ^ (float32Div 1 1).2

/-- The scale arguments of the `NvCVImage_Transfer` calls of a trace, in order. -/
def transferScales (trace : List Event) : List TransferScale :=
  trace.filterMap fun e =>
    match e with
    | .NvCVImage_Transfer _ _ scale _ => some scale
    | _ => none

/-! ## Render targets -/

/-- The render target holds a B8G8R8A8 texture and a D24S8 depth texture of the width and
height of the stream `d`, and a view of each. -/
def RenderTarget.sizedFor (t : RenderTarget) (d : StreamDescription) : Bool :=
  match t.texture, t.depth with
  | some texture, some depth =>
    decide (texture.width = d.width ∧ texture.height = d.height ∧
      texture.format = .DXGI_FORMAT_B8G8R8A8_UNORM ∧
      depth.width = d.width ∧ depth.height = d.height ∧
      depth.format = .DXGI_FORMAT_D24_UNORM_S8_UINT) && t.view.isSome && t.depthView.isSome
  | _, _ => false

/-- One stream: handle 11, now at 1280x720. -/
def oneStream : List StreamDescription :=
  [ { handle := 11, width := 1280, height := 720 } ]

/-- The states the loop can be in at the top of an iteration while no streams-changed
event has arrived yet. -/
inductive ReachableBeforeStreams : PipelineState → Prop where
  | start : ReachableBeforeStreams initialState
  | iterate (env : Env) (st : PipelineState) :
      ReachableBeforeStreams st → env.await ≠ .RS_ERROR_STREAMS_CHANGED →
      (mainLoopBody env st).continues → ReachableBeforeStreams (mainLoopBody env st).state

/-! ## Scoped mapping of the interop buffers -/

/-- The images made with `make_shared` (`effectInput`, `effectOutput`, `outputImage`) are
objects other than the interop images `input.image` and `output.image`, and every image
was made before the identity counter reached its present value. -/
def ImagesSeparate (st : PipelineState) : Prop :=
  (∀ p, st.input.image = some p → p < st.nextPtr) ∧
  (∀ p, st.output.image = some p → p < st.nextPtr) ∧
  ∀ image, st.effectInput = some image ∨ st.effectOutput = some image ∨
      st.outputImage = some image →
    image.ptr < st.nextPtr ∧ st.input.image ≠ some image.ptr ∧
      st.output.image ≠ some image.ptr

/-- What a monitor of the mapping discipline remembers while it reads a trace: the image
that is mapped at the moment, if any, and the images whose unmap has succeeded. -/
structure MappingMonitor where
  mapped : Option (Option Nat)
  released : List (Option Nat)
  deriving DecidableEq, Repr

/-- The monitor lets a transfer touch `image`: a non-null image that is one of the interop
images must be the one that is mapped. -/
def MappingMonitor.allows (interop : List (Option Nat)) (m : MappingMonitor)
    (image : Option Nat) : Prop :=
  image.isSome → image ∈ interop → m.mapped = some image

instance (interop : List (Option Nat)) (m : MappingMonitor) (image : Option Nat) :
    Decidable (m.allows interop image) := by
  unfold MappingMonitor.allows; exact inferInstance

/-- One step of the monitor, `none` when the call breaks the discipline.  A map is made
while nothing is mapped, and a successful one opens the scope of its image.  An unmap is
made on the image that is mapped and closes its scope, so that a successful map is followed
by exactly one unmap of the same image.  A transfer from or to an interop image is made
inside the scope of that image.  A draw is made while nothing is mapped and after the unmap
of every interop image has succeeded.  Other calls are not looked at. -/
def MappingMonitor.step (interop : List (Option Nat)) (m : MappingMonitor) :
    Event → Option MappingMonitor
  | .NvCVImage_MapResource image result =>
    if m.mapped.isSome then none
    else some { m with mapped := if result = .NVCV_SUCCESS then some image else none }
  | .NvCVImage_UnmapResource image result =>
    if m.mapped = some image then
      some { mapped := none,
             released := if result = .NVCV_SUCCESS then image :: m.released else m.released }
    else none
  | .NvCVImage_Transfer src dst _ _ =>
    if m.allows interop src ∧ m.allows interop dst then some m else none
  | .Draw _ _ =>
    if m.mapped = none ∧ ∀ image ∈ interop, image ∈ m.released then some m else none
  | _ => some m

/-- The monitor run over a trace. -/
def MappingMonitor.run (interop : List (Option Nat)) (m : MappingMonitor)
    (trace : List Event) : Option MappingMonitor :=
  trace.foldlM (MappingMonitor.step interop) m

/-- The trace keeps the mapping discipline for the interop images `interop`: the monitor,
started with nothing mapped, reads it to the end, and nothing is left mapped. -/
def scopedMapping (interop : List (Option Nat)) (trace : List Event) : Bool :=
  match MappingMonitor.run interop { mapped := none, released := [] } trace with
  | some m => m.mapped.isNone
  | none => false

/-- The calls of the step keep the mapping discipline when the monitor starts with nothing
mapped and the images `released` unmapped: it ends with nothing mapped, forgets no image,
and has seen the unmap of the images `gain` succeed when the step falls through. -/
def Step.Scoped (interop : List (Option Nat)) (s : Step) (released gain : List (Option Nat)) :
    Prop :=
  ∃ released', MappingMonitor.run interop { mapped := none, released := released } s.trace =
      some { mapped := none, released := released' } ∧
    (∀ x ∈ released, x ∈ released') ∧ (s.exit = none → ∀ x ∈ gain, x ∈ released')

/-- The frame request `frameRequest scene width height`, except that the transfer into the
effect input image and the unmap of the output texture fail. -/
def bridgeFailure (scene width height : Nat) (transferInput unmapOutput : NvCV_Status) : Env :=
  { frameRequest scene width height with
    transferInput := transferInput, unmapOutput := unmapOutput }

/-- Every call of the step that `bad` marks makes the step leave the loop body in one of
the ways `X`. -/
def Step.LeavesBy (bad : Event → Bool) (X : Exit → Prop) (s : Step) : Prop :=
  ∀ e ∈ s.trace, bad e = true → ∃ x, s.exit = some x ∧ X x

/-- A call of the release sequence: `NvVFX_DestroyEffect`, `NvVFX_CudaStreamDestroy` or
`rs_shutdown`. -/
def Event.isRelease (e : Event) : Bool :=
  decide (e.call ∈ [Call.NvVFX_DestroyEffect, .NvVFX_CudaStreamDestroy, .rs_shutdown])

/-- Leaving by a `return` of `main`. -/
def Exit.isReturn : Exit → Prop
  | .exit _ => True
  | _ => False

/-- Leaving by an exception that nothing catches. -/
def Exit.isUncaught : Exit → Prop
  | .uncaught _ => True
  | _ => False

/-! ## Requests whose calls succeed up to a point -/

/-- The input buffers are there for the request: the cached ones fit, or `createTexture`
succeeds for the input texture. -/
def Env.inputReady (env : Env) (st : PipelineState) : Prop :=
  ¬(st.input.width ≠ env.image.width ∨ st.input.height ≠ env.image.height ∨
    env.frameData.scene ≠ st.lastScene) ∨
  env.inputTexture = ⟨true, true, .NVCV_SUCCESS⟩

/-- The output buffers are there for the request and the effect output image can be bound:
the cached buffers fit, or `createTexture` succeeds for the output texture and
`NvCVImage_FromD3DFormat` succeeds for its format; and `NvVFX_SetImage` of the output
image succeeds. -/
def Env.outputReady (env : Env) (effect : Effect) (st : PipelineState) : Prop :=
  (¬(st.output.width ≠ outputSize effect env.image.width ∨
      st.output.height ≠ outputSize effect env.image.height ∨
      env.frameData.scene ≠ st.lastScene) ∨
    (env.outputTexture = ⟨true, true, .NVCV_SUCCESS⟩ ∧
      (env.fromD3DFormat effect.outputTextureFormat).1 = .NVCV_SUCCESS)) ∧
  env.setOutputImage = .NVCV_SUCCESS

/-- The frame request `frameRequest scene width height`, except that `NvVFX_SetImage` of
the input image fails. -/
def bindInputFailure (scene width height : Nat) : Env :=
  { frameRequest scene width height with setInputImage := .other 1 }

/-- The frame request `frameRequest scene width height`, except that `NvVFX_Load` fails. -/
def loadFailure (scene width height : Nat) : Env :=
  { frameRequest scene width height with load := .other 1 }

/-- The frame request `frameRequest scene width height`, except that the map of the input
texture fails. -/
def mapInputFailure (scene width height : Nat) : Env :=
  { frameRequest scene width height with mapInput := .other 1 }

/-- The frame request `frameRequest scene width height`, except that the transfer of the
effect output into `outputImage` fails. -/
def stagingFailure (scene width height : Nat) : Env :=
  { frameRequest scene width height with transferEffectOutput := .other 1 }

/-- The frame request `frameRequest scene width height`, except that
`rs_getFrameImageData` fails. -/
def imageDataFailure (scene width height : Nat) : Env :=
  { frameRequest scene width height with getFrameImageData := .other 1 }

/-- The frame request `frameRequest scene width height`, except that the unmap of the
input texture fails. -/
def unmapInputFailure (scene width height : Nat) : Env :=
  { frameRequest scene width height with unmapInput := .other 1 }

/-- The frame request `frameRequest scene width height`, except that the map of the output
texture fails. -/
def mapOutputFailure (scene width height : Nat) : Env :=
  { frameRequest scene width height with mapOutput := .other 1 }

/-- The frame request `frameRequest scene width height`, except that the transfer into the
output texture fails. -/
def transferOutputFailure (scene width height : Nat) : Env :=
  { frameRequest scene width height with transferOutput := .other 1 }


/-! ## Sequencing lemmas -/

@[simp] theorem Step.pass_state (st : PipelineState) (tr : List Event) :
    (Step.pass st tr).state = st := rfl

@[simp] theorem Step.pass_trace (st : PipelineState) (tr : List Event) :
    (Step.pass st tr).trace = tr := rfl

@[simp] theorem Step.pass_exit (st : PipelineState) (tr : List Event) :
    (Step.pass st tr).exit = none := rfl

@[simp] theorem Step.leave_state (st : PipelineState) (tr : List Event) (e : Exit) :
    (Step.leave st tr e).state = st := rfl

@[simp] theorem Step.leave_trace (st : PipelineState) (tr : List Event) (e : Exit) :
    (Step.leave st tr e).trace = tr := rfl

@[simp] theorem Step.leave_exit (st : PipelineState) (tr : List Event) (e : Exit) :
    (Step.leave st tr e).exit = some e := rfl

@[simp] theorem Step.after_state (tr : List Event) (s : Step) :
    (Step.after tr s).state = s.state := rfl

@[simp] theorem Step.after_trace (tr : List Event) (s : Step) :
    (Step.after tr s).trace = tr ++ s.trace := rfl

@[simp] theorem Step.after_exit (tr : List Event) (s : Step) :
    (Step.after tr s).exit = s.exit := rfl

theorem Step.andThen_of_exit_none {a : Step} (f : PipelineState → Step) (h : a.exit = none) :
    a.andThen f = Step.after a.trace (f a.state) := by
  simp [Step.andThen, Step.after, h]

theorem Step.andThen_of_exit_some {a : Step} (f : PipelineState → Step) {e : Exit}
    (h : a.exit = some e) : a.andThen f = a := by
  simp [Step.andThen, h]

@[simp] theorem Step.pass_andThen (st : PipelineState) (tr : List Event)
    (f : PipelineState → Step) : (Step.pass st tr).andThen f = Step.after tr (f st) := rfl

@[simp] theorem Step.leave_andThen (st : PipelineState) (tr : List Event) (e : Exit)
    (f : PipelineState → Step) : (Step.leave st tr e).andThen f = Step.leave st tr e := rfl

theorem Step.after_andThen (tr : List Event) (s : Step) (f : PipelineState → Step) :
    (Step.after tr s).andThen f = Step.after tr (s.andThen f) := by
  cases h : s.exit with
  | none => simp [Step.andThen, Step.after, h]
  | some e => simp [Step.andThen, Step.after, h]

/-- A property of states that every part of a sequence keeps is kept by the sequence. -/
theorem Step.andThen_state_of (P : PipelineState → Prop) (a : Step) (f : PipelineState → Step)
    (ha : P a.state) (hf : ∀ s, P s → P (f s).state) : P (a.andThen f).state := by
  cases h : a.exit with
  | none => rw [Step.andThen_of_exit_none f h]; exact hf _ ha
  | some e => rw [Step.andThen_of_exit_some f h]; exact ha

theorem mainLoopBody_of_success (env : Env) (st : PipelineState)
    (h : env.await = .RS_ERROR_SUCCESS) :
    mainLoopBody env st =
      Step.after [.rs_awaitFrameData 5000 .RS_ERROR_SUCCESS] (processFrame env st) := by
  simp [mainLoopBody, h]

/-! ## What each stage does to the state -/

theorem Step.andThen_exit_none_iff (a : Step) (f : PipelineState → Step) :
    (a.andThen f).exit = none ↔ a.exit = none ∧ (f a.state).exit = none := by
  cases h : a.exit with
  | none => simp [Step.andThen, h]
  | some e => simp [Step.andThen, h]

theorem Step.andThen_state_of_exit_none {a : Step} {f : PipelineState → Step}
    (h : a.exit = none) : (a.andThen f).state = (f a.state).state := by
  simp [Step.andThen, h]

theorem Step.andThen_trace_of_exit_none {a : Step} {f : PipelineState → Step}
    (h : a.exit = none) : (a.andThen f).trace = a.trace ++ (f a.state).trace := by
  simp [Step.andThen, h]

theorem Step.andThen_exit_of_exit_none {a : Step} {f : PipelineState → Step}
    (h : a.exit = none) : (a.andThen f).exit = (f a.state).exit := by
  simp [Step.andThen, h]

theorem createTexture_ok (ptr width height : Nat) (format : DXGI_FORMAT) :
    createTexture ⟨true, true, .NVCV_SUCCESS⟩ ptr width height format =
      (.ok { width := width, height := height, format := some format,
             resource := some ptr, srv := some (ptr + 1), image := some (ptr + 2) },
       [.CreateTexture2D width height format true, .CreateShaderResourceView ptr true,
        .NvCVImage_InitFromD3D11Texture (ptr + 2) ptr .NVCV_SUCCESS]) := by
  simp [createTexture]

/-- When `createTexture` returns, the texture has the size and format asked for and the
identities `ptr`, `ptr + 1`, `ptr + 2`. -/
theorem createTexture_eq_ok {r : CreateTextureResults} {ptr width height : Nat}
    {format : DXGI_FORMAT} {texture : Texture} {trace : List Event}
    (h : createTexture r ptr width height format = (.ok texture, trace)) :
    texture = { width := width, height := height, format := some format,
                resource := some ptr, srv := some (ptr + 1), image := some (ptr + 2) } ∧
    r = ⟨true, true, .NVCV_SUCCESS⟩ := by
  obtain ⟨a, b, c⟩ := r
  unfold createTexture at h
  cases a <;> cases b <;> simp at h
  split at h
  · next hc =>
    subst hc
    simp only [Prod.mk.injEq, Except.ok.injEq] at h
    exact ⟨h.1.symm, rfl⟩
  · simp at h

@[simp]
theorem acquireInput_state (env : Env) (image : ImageFrameData) (st : PipelineState) :
    (acquireInput env image st).state = st := by
  unfold acquireInput; split <;> rfl

@[simp]
theorem transferInput_state (env : Env) (st : PipelineState) :
    (transferInput env st).state = st := by
  unfold transferInput; simp only []; split
  · rfl
  · split
    · rfl
    · split <;> rfl

@[simp]
theorem setInputImage_state (env : Env) (effect : Effect) (st : PipelineState) :
    (setInputImage env effect st).state = st := by
  unfold setInputImage; split <;> rfl

@[simp]
theorem setOutputImage_state (env : Env) (effect : Effect) (st : PipelineState) :
    (setOutputImage env effect st).state = st := by
  unfold setOutputImage; split <;> rfl

@[simp]
theorem transferEffectOutput_state (env : Env) (st : PipelineState) :
    (transferEffectOutput env st).state = st := by
  unfold transferEffectOutput; split
  · split <;> rfl
  · rfl

@[simp]
theorem transferOutput_state (env : Env) (st : PipelineState) :
    (transferOutput env st).state = st := by
  unfold transferOutput; simp only []; split
  · rfl
  · split
    · rfl
    · split <;> rfl

@[simp]
theorem fanOut_state (env : Env) (effect : Effect) (fd : FrameData) (st : PipelineState)
    (i : Nat) (streams : List StreamDescription) :
    (fanOut env effect fd st i streams).state = st := by
  induction streams generalizing i with
  | nil => rfl
  | cons d rest ih =>
    unfold fanOut; simp only []
    split
    · split
      · rfl
      · split
        · rfl
        · simpa using ih (i + 1)
    · simpa using ih (i + 1)

/-! ## Out-of-range scene index -/

/-- C1: a frame request whose scene index is at least the number of scene slots (five)
makes the iteration post the single diagnostic "Scene out of bounds" and `continue`: the
only calls are the wait and that diagnostic, the whole state (buffers, images, every
`loaded` flag, `lastScene`) is the one the iteration found, and the loop goes on. -/
theorem scene_out_of_bounds_is_skipped (env : Env) (st : PipelineState)
    (hawait : env.await = .RS_ERROR_SUCCESS) (hscene : nScenes ≤ env.frameData.scene) :
    nScenes = 5 ∧
    mainLoopBody env st =
      { state := st,
        trace := [.rs_awaitFrameData 5000 .RS_ERROR_SUCCESS, .rs_logToD3 .sceneOutOfBounds],
        exit := some .skip } := by
  refine ⟨rfl, ?_⟩
  rw [mainLoopBody_of_success env st hawait]
  simp [processFrame, hscene, Step.after, Step.leave]

theorem scene_out_of_bounds_is_skipped_witness :
    (frameRequest 5 640 360).await = .RS_ERROR_SUCCESS ∧
    nScenes ≤ (frameRequest 5 640 360).frameData.scene ∧
    nScenes = 5 ∧
    mainLoopBody (frameRequest 5 640 360) stateWithTwoStreams =
      { state := stateWithTwoStreams,
        trace := [.rs_awaitFrameData 5000 .RS_ERROR_SUCCESS, .rs_logToD3 .sceneOutOfBounds],
        exit := some .skip } :=
  ⟨rfl, by decide, scene_out_of_bounds_is_skipped (frameRequest 5 640 360) stateWithTwoStreams
    rfl (by decide)⟩

theorem ensureInput_of_cached {env : Env} {effect : Effect} {fd : FrameData}
    {image : ImageFrameData} {st : PipelineState}
    (h : ¬(st.input.width ≠ image.width ∨ st.input.height ≠ image.height ∨
      fd.scene ≠ st.lastScene)) :
    ensureInput env effect fd image st = Step.pass st [] := by
  unfold ensureInput; rw [if_neg h]

theorem ensureInput_of_changed {env : Env} (effect : Effect) {fd : FrameData}
    {image : ImageFrameData} {st : PipelineState}
    (h : st.input.width ≠ image.width ∨ st.input.height ≠ image.height ∨
      fd.scene ≠ st.lastScene)
    (hok : env.inputTexture = ⟨true, true, .NVCV_SUCCESS⟩) :
    ensureInput env effect fd image st =
      Step.pass
        { st with
          input := { width := image.width, height := image.height,
                     format := some .DXGI_FORMAT_B8G8R8A8_UNORM, resource := some st.nextPtr,
                     srv := some (st.nextPtr + 1), image := some (st.nextPtr + 2) },
          effectInput := some
            { ptr := st.nextPtr + 3, width := image.width, height := image.height,
              pixelFormat := effect.inputPixelFormat,
              componentType := effect.inputComponentType, layout := effect.inputLayout,
              alignment := if effect.inputLayout = .NVCV_PLANAR then 1 else 32 },
          nextPtr := st.nextPtr + 4 }
        [.CreateTexture2D image.width image.height .DXGI_FORMAT_B8G8R8A8_UNORM true,
         .CreateShaderResourceView st.nextPtr true,
         .NvCVImage_InitFromD3D11Texture (st.nextPtr + 2) st.nextPtr .NVCV_SUCCESS,
         .makeNvCVImage
            { ptr := st.nextPtr + 3, width := image.width, height := image.height,
              pixelFormat := effect.inputPixelFormat,
              componentType := effect.inputComponentType, layout := effect.inputLayout,
              alignment := if effect.inputLayout = .NVCV_PLANAR then 1 else 32 }] := by
  unfold ensureInput; rw [if_pos h, hok, createTexture_ok]; rfl

/-- When `ensureInput` falls through after a change, `createTexture` succeeded. -/
theorem ensureInput_exit_none {env : Env} {effect : Effect} {fd : FrameData}
    {image : ImageFrameData} {st : PipelineState}
    (hexit : (ensureInput env effect fd image st).exit = none)
    (h : st.input.width ≠ image.width ∨ st.input.height ≠ image.height ∨
      fd.scene ≠ st.lastScene) :
    env.inputTexture = ⟨true, true, .NVCV_SUCCESS⟩ := by
  unfold ensureInput at hexit; rw [if_pos h] at hexit
  split at hexit
  · simp at hexit
  · next texture trace heq => exact (createTexture_eq_ok heq).2

/-- The fields `ensureInput` leaves alone. -/
theorem ensureInput_frame (env : Env) (effect : Effect) (fd : FrameData)
    (image : ImageFrameData) (st : PipelineState) :
    let s := (ensureInput env effect fd image st).state
    s.effects = st.effects ∧ s.header = st.header ∧ s.renderTargets = st.renderTargets ∧
    s.output = st.output ∧ s.effectOutput = st.effectOutput ∧ s.outputImage = st.outputImage ∧
    s.temporary = st.temporary ∧ s.lastScene = st.lastScene := by
  unfold ensureInput; split
  · split <;> simp
  · simp

/-- After `ensureInput` falls through, `input` has the size of the image. -/
theorem ensureInput_size {env : Env} {effect : Effect} {fd : FrameData}
    {image : ImageFrameData} {st : PipelineState}
    (hexit : (ensureInput env effect fd image st).exit = none) :
    (ensureInput env effect fd image st).state.input.width = image.width ∧
    (ensureInput env effect fd image st).state.input.height = image.height := by
  by_cases h : st.input.width ≠ image.width ∨ st.input.height ≠ image.height ∨
      fd.scene ≠ st.lastScene
  · rw [ensureInput_of_changed effect h (ensureInput_exit_none hexit h)]; simp
  · rw [ensureInput_of_cached h]
    simp only [not_or, not_not] at h
    exact ⟨h.1, h.2.1⟩

theorem ensureOutput_of_cached {env : Env} {effect : Effect} {fd : FrameData}
    {image : ImageFrameData} {st : PipelineState}
    (h : ¬(st.output.width ≠ outputSize effect image.width ∨
      st.output.height ≠ outputSize effect image.height ∨ fd.scene ≠ st.lastScene)) :
    ensureOutput env effect fd image st = Step.pass st [] := by
  unfold ensureOutput; simp only []; rw [if_neg h]

/-- The fields `ensureOutput` leaves alone. -/
theorem ensureOutput_frame (env : Env) (effect : Effect) (fd : FrameData)
    (image : ImageFrameData) (st : PipelineState) :
    let s := (ensureOutput env effect fd image st).state
    s.effects = st.effects ∧ s.header = st.header ∧ s.renderTargets = st.renderTargets ∧
    s.input = st.input ∧ s.effectInput = st.effectInput ∧
    s.temporary = st.temporary ∧ s.lastScene = st.lastScene := by
  unfold ensureOutput; simp only []; split
  · split
    · simp
    · split
      · simp
      · split <;> simp
  · simp

theorem ensureOutput_of_changed (env : Env) (effect : Effect) (fd : FrameData)
    (image : ImageFrameData) (st : PipelineState)
    (h : st.output.width ≠ outputSize effect image.width ∨
      st.output.height ≠ outputSize effect image.height ∨ fd.scene ≠ st.lastScene)
    (hok : env.outputTexture = ⟨true, true, .NVCV_SUCCESS⟩) :
    let r := ensureOutput env effect fd image st
    r.state.output =
      { width := outputSize effect image.width, height := outputSize effect image.height,
        format := some effect.outputTextureFormat, resource := some st.nextPtr,
        srv := some (st.nextPtr + 1), image := some (st.nextPtr + 2) } ∧
    r.state.effectOutput = some
      { ptr := st.nextPtr + 3, width := outputSize effect image.width,
        height := outputSize effect image.height,
        pixelFormat := effect.outputPixelFormat, componentType := effect.outputComponentType,
        layout := effect.outputLayout,
        alignment := if effect.outputLayout = .NVCV_PLANAR then 1 else 32 } ∧
    callsTo [.CreateTexture2D] r.trace =
      [.CreateTexture2D (outputSize effect image.width) (outputSize effect image.height)
        effect.outputTextureFormat true] ∧
    (r.exit = none ∨ r.exit = some (.exit 84)) := by
  unfold ensureOutput; simp only []; rw [if_pos h, hok, createTexture_ok]
  simp only []
  split
  · simp [callsTo, List.filter, Event.call, releaseAll, destroyEffects, List.filter_map]
  · split <;> simp [callsTo, List.filter, Event.call]

/-- After `ensureOutput` falls through, `output` has the output size. -/
theorem ensureOutput_size (env : Env) (effect : Effect) (fd : FrameData)
    (image : ImageFrameData) (st : PipelineState)
    (hok : env.outputTexture = ⟨true, true, .NVCV_SUCCESS⟩) :
    (ensureOutput env effect fd image st).state.output.width = outputSize effect image.width ∧
    (ensureOutput env effect fd image st).state.output.height =
      outputSize effect image.height := by
  by_cases h : st.output.width ≠ outputSize effect image.width ∨
      st.output.height ≠ outputSize effect image.height ∨ fd.scene ≠ st.lastScene
  · have := (ensureOutput_of_changed env effect fd image st h hok).1
    rw [this]; simp
  · rw [ensureOutput_of_cached h]
    simp only [not_or, not_not] at h
    exact ⟨h.1, h.2.1⟩

/-- The fields `loadEffect` leaves alone. -/
theorem loadEffect_frame (env : Env) (effect : Effect) (fd : FrameData) (st : PipelineState) :
    let s := (loadEffect env effect fd st).state
    s.header = st.header ∧ s.renderTargets = st.renderTargets ∧
    s.input = st.input ∧ s.effectInput = st.effectInput ∧
    s.output = st.output ∧ s.effectOutput = st.effectOutput ∧ s.outputImage = st.outputImage ∧
    s.temporary = st.temporary ∧ s.lastScene = st.lastScene ∧ s.nextPtr = st.nextPtr := by
  unfold loadEffect; split
  · split <;> simp [setLoaded]
  · simp [setLoaded]

/-- The fields `runEffect` leaves alone. -/
theorem runEffect_frame (env : Env) (effect : Effect) (fd : FrameData) (st : PipelineState) :
    let s := (runEffect env effect fd st).state
    s.header = st.header ∧ s.renderTargets = st.renderTargets ∧
    s.input = st.input ∧ s.effectInput = st.effectInput ∧
    s.output = st.output ∧ s.effectOutput = st.effectOutput ∧ s.outputImage = st.outputImage ∧
    s.temporary = st.temporary ∧ s.lastScene = st.lastScene ∧ s.nextPtr = st.nextPtr := by
  unfold runEffect; simp only []; split <;> split <;> simp [setLoaded]

/-! ## The effects vector -/

theorem Configured.length {st : PipelineState} (h : Configured st) : st.effects.length = 5 := by
  have := congrArg List.length h
  simpa [effects] using this

theorem Configured.lookup {st : PipelineState} (h : Configured st) {i : Nat} {e : Effect}
    (he : st.effects[i]? = some e) : effects[i]? = some e.declared := by
  have := congrArg (fun l => l[i]?) h
  simp only [List.getElem?_map, he, Option.map_some'] at this
  exact this.symm

theorem Configured.exists_effect {st : PipelineState} (h : Configured st) {i : Nat}
    (hi : i < nScenes) : ∃ e, st.effects[i]? = some e := by
  have hlen := h.length
  have : i < st.effects.length := by rw [hlen]; exact hi
  exact ⟨st.effects[i], List.getElem?_eq_getElem this⟩

theorem Configured.upscale_iff {st : PipelineState} (h : Configured st) {i : Nat} {e : Effect}
    (he : st.effects[i]? = some e) : e.upscale = true ↔ i = 3 ∨ i = 4 := by
  have hl := h.lookup he
  have hi : i < 5 := by
    have := h.length
    have h2 := (List.getElem?_eq_some_iff.mp he).1
    omega
  have hu : e.declared.upscale = e.upscale := rfl
  interval_cases i <;> simp [effects] at hl <;> rw [← hu, ← hl] <;> simp

/-! ## What each phase does to the state -/

/-- The inbound phase changes the state only in `ensureInput`. -/
theorem inboundPhase_state (env : Env) (effect : Effect) (fd : FrameData)
    (image : ImageFrameData) (st : PipelineState) :
    (inboundPhase env effect fd image st).state = (ensureInput env effect fd image st).state := by
  unfold inboundPhase
  refine Step.andThen_state_of (fun s => s = (ensureInput env effect fd image st).state)
    _ _ rfl ?_
  intro s hs
  refine Step.andThen_state_of (fun s => s = (ensureInput env effect fd image st).state)
    _ _ (by rw [acquireInput_state]; exact hs) ?_
  intro s hs
  refine Step.andThen_state_of (fun s => s = (ensureInput env effect fd image st).state)
    _ _ (by rw [transferInput_state]; exact hs) ?_
  intro s hs
  rw [setInputImage_state]; exact hs

/-- The fields the inbound phase leaves alone. -/
theorem inboundPhase_frame (env : Env) (effect : Effect) (fd : FrameData)
    (image : ImageFrameData) (st : PipelineState) :
    let s := (inboundPhase env effect fd image st).state
    s.effects = st.effects ∧ s.header = st.header ∧ s.renderTargets = st.renderTargets ∧
    s.output = st.output ∧ s.effectOutput = st.effectOutput ∧ s.outputImage = st.outputImage ∧
    s.temporary = st.temporary ∧ s.lastScene = st.lastScene := by
  rw [inboundPhase_state]; exact ensureInput_frame env effect fd image st

/-- The output phase changes the state only in `ensureOutput`. -/
theorem outputPhase_state (env : Env) (effect : Effect) (fd : FrameData)
    (image : ImageFrameData) (st : PipelineState) :
    (outputPhase env effect fd image st).state = (ensureOutput env effect fd image st).state := by
  unfold outputPhase
  refine Step.andThen_state_of (fun s => s = (ensureOutput env effect fd image st).state)
    _ _ rfl ?_
  intro s hs
  rw [setOutputImage_state]; exact hs

/-- The fields the output phase leaves alone. -/
theorem outputPhase_frame (env : Env) (effect : Effect) (fd : FrameData)
    (image : ImageFrameData) (st : PipelineState) :
    let s := (outputPhase env effect fd image st).state
    s.effects = st.effects ∧ s.header = st.header ∧ s.renderTargets = st.renderTargets ∧
    s.input = st.input ∧ s.effectInput = st.effectInput ∧
    s.temporary = st.temporary ∧ s.lastScene = st.lastScene := by
  rw [outputPhase_state]; exact ensureOutput_frame env effect fd image st

/-- The effect phase changes nothing but the effects vector. -/
theorem effectPhase_frame (env : Env) (effect : Effect) (fd : FrameData) (st : PipelineState) :
    let s := (effectPhase env effect fd st).state
    s.header = st.header ∧ s.renderTargets = st.renderTargets ∧
    s.input = st.input ∧ s.effectInput = st.effectInput ∧
    s.output = st.output ∧ s.effectOutput = st.effectOutput ∧ s.outputImage = st.outputImage ∧
    s.temporary = st.temporary ∧ s.lastScene = st.lastScene ∧ s.nextPtr = st.nextPtr := by
  unfold effectPhase
  refine Step.andThen_state_of
    (fun s => s.header = st.header ∧ s.renderTargets = st.renderTargets ∧
      s.input = st.input ∧ s.effectInput = st.effectInput ∧
      s.output = st.output ∧ s.effectOutput = st.effectOutput ∧
      s.outputImage = st.outputImage ∧
      s.temporary = st.temporary ∧ s.lastScene = st.lastScene ∧ s.nextPtr = st.nextPtr) _ _
    (loadEffect_frame env effect fd st) ?_
  intro s hs
  have := runEffect_frame env effect fd s
  simp only [] at this
  simp only [this.1, this.2.1, this.2.2.1, this.2.2.2.1, this.2.2.2.2.1, this.2.2.2.2.2.1,
    this.2.2.2.2.2.2.1, this.2.2.2.2.2.2.2.1, this.2.2.2.2.2.2.2.2.1,
    this.2.2.2.2.2.2.2.2.2]
  exact hs

@[simp]
theorem outboundPhase_state (env : Env) (st : PipelineState) :
    (outboundPhase env st).state = st := by
  unfold outboundPhase
  exact Step.andThen_state_of (fun s => s = st) _ _ (by simp) (by intro s hs; simpa using hs)

/-- The respond phase changes nothing but `lastScene`. -/
theorem respondPhase_frame (env : Env) (effect : Effect) (fd : FrameData)
    (st : PipelineState) :
    let s := (respondPhase env effect fd st).state
    s.effects = st.effects ∧ s.header = st.header ∧ s.renderTargets = st.renderTargets ∧
    s.input = st.input ∧ s.effectInput = st.effectInput ∧
    s.output = st.output ∧ s.effectOutput = st.effectOutput ∧ s.outputImage = st.outputImage ∧
    s.temporary = st.temporary ∧ s.nextPtr = st.nextPtr := by
  unfold respondPhase
  refine Step.andThen_state_of
    (fun s => s.effects = st.effects ∧ s.header = st.header ∧
      s.renderTargets = st.renderTargets ∧
      s.input = st.input ∧ s.effectInput = st.effectInput ∧
      s.output = st.output ∧ s.effectOutput = st.effectOutput ∧
      s.outputImage = st.outputImage ∧
      s.temporary = st.temporary ∧ s.nextPtr = st.nextPtr) _ _ (by simp) ?_
  intro s hs
  simpa using hs

/-- Everything after the output phase leaves the five buffers alone. -/
theorem afterOutput_buffers (env : Env) (effect : Effect) (fd : FrameData)
    (st : PipelineState) :
    let s := ((effectPhase env effect fd st).andThen fun st =>
      (outboundPhase env st).andThen fun st => respondPhase env effect fd st).state
    s.input = st.input ∧ s.effectInput = st.effectInput ∧
    s.output = st.output ∧ s.effectOutput = st.effectOutput ∧ s.outputImage = st.outputImage := by
  have h1 := effectPhase_frame env effect fd st
  simp only [] at h1
  refine Step.andThen_state_of
    (fun s => s.input = st.input ∧ s.effectInput = st.effectInput ∧
      s.output = st.output ∧ s.effectOutput = st.effectOutput ∧
      s.outputImage = st.outputImage) _ _
    ⟨h1.2.2.1, h1.2.2.2.1, h1.2.2.2.2.1, h1.2.2.2.2.2.1, h1.2.2.2.2.2.2.1⟩ ?_
  intro s hs
  refine Step.andThen_state_of
    (fun s => s.input = st.input ∧ s.effectInput = st.effectInput ∧
      s.output = st.output ∧ s.effectOutput = st.effectOutput ∧
      s.outputImage = st.outputImage) _ _ (by rw [outboundPhase_state]; exact hs) ?_
  intro s hs
  have h2 := respondPhase_frame env effect fd s
  simp only [] at h2
  simp only [h2.2.2.2.1, h2.2.2.2.2.1, h2.2.2.2.2.2.1, h2.2.2.2.2.2.2.1, h2.2.2.2.2.2.2.2.1]
  exact hs

/-- A frame request for an in-range scene whose image data arrive runs `processImage`. -/
theorem mainLoopBody_of_image {env : Env} {st : PipelineState} {effect : Effect}
    (hawait : env.await = .RS_ERROR_SUCCESS) (hscene : env.frameData.scene < nScenes)
    (heff : st.effects[env.frameData.scene]? = some effect)
    (hdata : env.getFrameImageData = .RS_ERROR_SUCCESS) :
    mainLoopBody env st =
      Step.after [.rs_awaitFrameData 5000 .RS_ERROR_SUCCESS,
          .rs_getFrameImageData env.frameData.scene .RS_ERROR_SUCCESS]
        (processImage env effect env.frameData env.image st) := by
  rw [mainLoopBody_of_success env st hawait]
  have : ¬ env.frameData.scene ≥ nScenes := by omega
  simp [processFrame, this, heff, hdata, Step.after]

/-! ## Which functions each stage calls -/

theorem callsTo_append (cs : List Call) (a b : List Event) :
    callsTo cs (a ++ b) = callsTo cs a ++ callsTo cs b := by
  simp [callsTo]

theorem callsTo_eq_nil_of_calls {tr : List Event} {l cs : List Call}
    (h : ∀ e ∈ tr, e.call ∈ l) (hd : ∀ c ∈ cs, c ∉ l) : callsTo cs tr = [] := by
  simp only [callsTo, List.filter_eq_nil_iff, decide_eq_true_eq]
  intro e he hmem
  exact hd _ hmem (h e he)

theorem calls_mono {tr : List Event} {l₁ l₂ : List Call}
    (h : ∀ e ∈ tr, e.call ∈ l₁) (hsub : ∀ c ∈ l₁, c ∈ l₂) : ∀ e ∈ tr, e.call ∈ l₂ :=
  fun e he => hsub _ (h e he)

theorem Step.andThen_calls {l : List Call} (a : Step) (f : PipelineState → Step)
    (ha : ∀ e ∈ a.trace, e.call ∈ l) (hf : ∀ s, ∀ e ∈ (f s).trace, e.call ∈ l) :
    ∀ e ∈ (a.andThen f).trace, e.call ∈ l := by
  cases h : a.exit with
  | none =>
    rw [Step.andThen_of_exit_none f h]
    intro e he
    simp only [Step.after_trace, List.mem_append] at he
    rcases he with he | he
    · exact ha e he
    · exact hf _ e he
  | some x => rw [Step.andThen_of_exit_some f h]; exact ha

theorem callsTo_andThen_of_exit_none (cs : List Call) {a : Step} (f : PipelineState → Step)
    (h : a.exit = none) :
    callsTo cs (a.andThen f).trace = callsTo cs a.trace ++ callsTo cs (f a.state).trace := by
  rw [Step.andThen_trace_of_exit_none h, callsTo_append]

theorem callsTo_andThen_of_nil (cs : List Call) (a : Step) (f : PipelineState → Step)
    (hf : ∀ s, callsTo cs (f s).trace = []) :
    callsTo cs (a.andThen f).trace = callsTo cs a.trace := by
  cases h : a.exit with
  | none => rw [callsTo_andThen_of_exit_none cs f h, hf, List.append_nil]
  | some x => rw [Step.andThen_of_exit_some f h]

theorem releaseAll_calls (env : Env) (st : PipelineState) :
    ∀ e ∈ releaseAll env st,
      e.call ∈ [Call.NvVFX_DestroyEffect, .NvVFX_CudaStreamDestroy, .rs_shutdown] := by
  intro e he
  simp only [releaseAll, destroyEffects, List.mem_append, List.mem_map, List.mem_cons,
    List.mem_singleton, List.not_mem_nil, or_false] at he
  rcases he with ⟨x, -, rfl⟩ | rfl | rfl <;> simp [Event.call]

theorem createTexture_calls (r : CreateTextureResults) (ptr width height : Nat)
    (format : DXGI_FORMAT) :
    ∀ e ∈ (createTexture r ptr width height format).2,
      e.call ∈ [Call.CreateTexture2D, .CreateShaderResourceView,
        .NvCVImage_InitFromD3D11Texture] := by
  unfold createTexture; simp only []
  split
  · simp [Event.call]
  · split
    · simp [Event.call]
    · split <;> simp [Event.call]

theorem ensureInput_calls (env : Env) (effect : Effect) (fd : FrameData)
    (image : ImageFrameData) (st : PipelineState) :
    ∀ e ∈ (ensureInput env effect fd image st).trace,
      e.call ∈ [Call.CreateTexture2D, .CreateShaderResourceView,
        .NvCVImage_InitFromD3D11Texture, .makeNvCVImage] := by
  unfold ensureInput
  split
  · have hc := createTexture_calls env.inputTexture st.nextPtr image.width image.height
      .DXGI_FORMAT_B8G8R8A8_UNORM
    split
    · next what trace heq =>
      rw [heq] at hc
      exact calls_mono hc (by decide)
    · next texture trace heq =>
      rw [heq] at hc
      intro e he
      simp only [Step.pass_trace, List.mem_append, List.mem_singleton] at he
      rcases he with he | rfl
      · exact calls_mono hc (by decide) e he
      · simp [Event.call]
  · simp

theorem acquireInput_calls (env : Env) (image : ImageFrameData) (st : PipelineState) :
    ∀ e ∈ (acquireInput env image st).trace,
      e.call ∈ [Call.rs_getFrameImage, .rs_logToD3] := by
  unfold acquireInput; split <;> simp [Event.call]

theorem transferInput_calls (env : Env) (st : PipelineState) :
    ∀ e ∈ (transferInput env st).trace,
      e.call ∈ [Call.NvCVImage_MapResource, .NvCVImage_Transfer, .NvCVImage_UnmapResource,
        .rs_logToD3] := by
  unfold transferInput; simp only []
  split
  · simp [Event.call]
  · split
    · split <;> simp [Event.call]
    · split <;> split <;> simp [Event.call]

theorem setInputImage_calls (env : Env) (effect : Effect) (st : PipelineState) :
    ∀ e ∈ (setInputImage env effect st).trace,
      e.call ∈ [Call.NvVFX_SetImage, .rs_logToD3] := by
  unfold setInputImage; split <;> simp [Event.call]

theorem ensureOutput_calls (env : Env) (effect : Effect) (fd : FrameData)
    (image : ImageFrameData) (st : PipelineState) :
    ∀ e ∈ (ensureOutput env effect fd image st).trace,
      e.call ∈ [Call.CreateTexture2D, .CreateShaderResourceView,
        .NvCVImage_InitFromD3D11Texture, .makeNvCVImage, .NvCVImage_FromD3DFormat, .tcerr,
        .NvVFX_DestroyEffect, .NvVFX_CudaStreamDestroy, .rs_shutdown] := by
  unfold ensureOutput; simp only []
  split
  · have hc := createTexture_calls env.outputTexture st.nextPtr (outputSize effect image.width)
      (outputSize effect image.height) effect.outputTextureFormat
    split
    · next what trace heq =>
      rw [heq] at hc
      exact calls_mono hc (by decide)
    · next texture trace heq =>
      rw [heq] at hc
      have hc' : ∀ e ∈ trace, e.call ∈ [Call.CreateTexture2D, .CreateShaderResourceView,
          .NvCVImage_InitFromD3D11Texture, .makeNvCVImage, .NvCVImage_FromD3DFormat, .tcerr,
          .NvVFX_DestroyEffect, .NvVFX_CudaStreamDestroy, .rs_shutdown] :=
        calls_mono hc (by decide)
      split
      · intro e he
        simp only [Step.leave_trace, List.mem_append, List.mem_cons, List.mem_singleton,
          List.not_mem_nil, or_false] at he
        rcases he with ((he | rfl | rfl) | rfl) | he
        · exact hc' e he
        · simp [Event.call]
        · simp [Event.call]
        · simp [Event.call]
        · exact calls_mono (releaseAll_calls env _) (by decide) e he
      · split
        · intro e he
          simp only [Step.pass_trace, List.mem_append, List.mem_cons, List.mem_singleton,
            List.not_mem_nil, or_false] at he
          rcases he with (he | rfl | rfl) | rfl
          · exact hc' e he
          · simp [Event.call]
          · simp [Event.call]
          · simp [Event.call]
        · intro e he
          simp only [Step.pass_trace, List.mem_append, List.mem_cons, List.mem_singleton,
            List.not_mem_nil, or_false] at he
          rcases he with he | rfl | rfl
          · exact hc' e he
          · simp [Event.call]
          · simp [Event.call]
  · simp

theorem setOutputImage_calls (env : Env) (effect : Effect) (st : PipelineState) :
    ∀ e ∈ (setOutputImage env effect st).trace,
      e.call ∈ [Call.NvVFX_SetImage, .tcerr, .NvVFX_DestroyEffect, .NvVFX_CudaStreamDestroy,
        .rs_shutdown] := by
  unfold setOutputImage; simp only []
  split
  · intro e he
    simp only [Step.leave_trace, List.mem_append, List.mem_cons, List.mem_singleton,
      List.not_mem_nil, or_false] at he
    rcases he with (rfl | rfl) | he
    · simp [Event.call]
    · simp [Event.call]
    · exact calls_mono (releaseAll_calls env _) (by decide) e he
  · simp [Event.call]

theorem loadEffect_calls (env : Env) (effect : Effect) (fd : FrameData) (st : PipelineState) :
    ∀ e ∈ (loadEffect env effect fd st).trace, e.call ∈ [Call.NvVFX_Load, .rs_logToD3] := by
  unfold loadEffect; split
  · split <;> simp [Event.call]
  · simp

theorem runEffect_calls (env : Env) (effect : Effect) (fd : FrameData) (st : PipelineState) :
    ∀ e ∈ (runEffect env effect fd st).trace, e.call ∈ [Call.NvVFX_Run, .rs_logToD3] := by
  unfold runEffect; simp only []; split <;> simp [Event.call]

theorem transferEffectOutput_calls (env : Env) (st : PipelineState) :
    ∀ e ∈ (transferEffectOutput env st).trace,
      e.call ∈ [Call.NvCVImage_Transfer, .rs_logToD3] := by
  unfold transferEffectOutput; split
  · split <;> simp [Event.call]
  · simp

theorem transferOutput_calls (env : Env) (st : PipelineState) :
    ∀ e ∈ (transferOutput env st).trace,
      e.call ∈ [Call.NvCVImage_MapResource, .NvCVImage_Transfer, .NvCVImage_UnmapResource,
        .rs_logToD3] := by
  unfold transferOutput; simp only []
  split
  · simp [Event.call]
  · split
    · split <;> simp [Event.call]
    · split <;> split <;> simp [Event.call]

theorem drawQuad_calls (effect : Effect) (st : PipelineState) (d : StreamDescription)
    (target : RenderTarget) : ∀ e ∈ drawQuad effect st d target, e.call ∈ drawCalls := by
  simp [drawQuad, drawCalls, Event.call]

theorem fanOut_calls (env : Env) (effect : Effect) (fd : FrameData) (st : PipelineState)
    (i : Nat) (streams : List StreamDescription) :
    ∀ e ∈ (fanOut env effect fd st i streams).trace,
      e.call ∈ [Call.rs_getFrameCamera, .OMSetRenderTargets, .ClearRenderTargetView,
        .ClearDepthStencilView, .RSSetViewports, .UpdateSubresource, .Draw, .rs_sendFrame,
        .tcerr, .NvVFX_DestroyEffect, .NvVFX_CudaStreamDestroy, .rs_shutdown] := by
  induction streams generalizing i with
  | nil => simp [fanOut]
  | cons d rest ih =>
    unfold fanOut; simp only []
    split
    · split
      · simp [Event.call]
      · next target _ =>
        have hd : ∀ e ∈ drawQuad effect st d target,
            e.call ∈ [Call.rs_getFrameCamera, .OMSetRenderTargets, .ClearRenderTargetView,
              .ClearDepthStencilView, .RSSetViewports, .UpdateSubresource, .Draw,
              .rs_sendFrame, .tcerr, .NvVFX_DestroyEffect, .NvVFX_CudaStreamDestroy,
              .rs_shutdown] :=
          calls_mono (drawQuad_calls effect st d target) (by decide)
        split
        · intro e he
          simp only [Step.leave_trace, List.mem_append, List.mem_cons, List.mem_singleton,
            List.not_mem_nil, or_false, List.cons_append] at he
          rcases he with rfl | (he | rfl | rfl) | he
          · simp [Event.call]
          · exact hd e he
          · simp [Event.call]
          · simp [Event.call]
          · exact calls_mono (releaseAll_calls env _) (by decide) e he
        · intro e he
          simp only [Step.after_trace, List.mem_append, List.mem_cons, List.mem_singleton,
            List.not_mem_nil, or_false, List.cons_append] at he
          rcases he with rfl | (he | rfl) | he
          · simp [Event.call]
          · exact hd e he
          · simp [Event.call]
          · exact ih (i + 1) e he
    · intro e he
      simp only [Step.after_trace, List.mem_append, List.mem_cons, List.mem_singleton,
        List.not_mem_nil, or_false, false_or, List.cons_append] at he
      rcases he with rfl | he
      · simp [Event.call]
      · exact ih (i + 1) e he

/-! ## Frames that are processed to the end -/

/-- When `ensureOutput` does not throw after a change, `createTexture` succeeded. -/
theorem ensureOutput_not_uncaught {env : Env} {effect : Effect} {fd : FrameData}
    {image : ImageFrameData} {st : PipelineState}
    (hexit : ∀ what, (ensureOutput env effect fd image st).exit ≠ some (.uncaught what))
    (h : st.output.width ≠ outputSize effect image.width ∨
      st.output.height ≠ outputSize effect image.height ∨ fd.scene ≠ st.lastScene) :
    env.outputTexture = ⟨true, true, .NVCV_SUCCESS⟩ := by
  unfold ensureOutput at hexit; simp only [] at hexit; rw [if_pos h] at hexit
  split at hexit
  · next what trace heq => exact absurd rfl (hexit what)
  · next texture trace heq => exact (createTexture_eq_ok heq).2

/-- After `ensureOutput` falls through, `output` has the output size. -/
theorem ensureOutput_size_of_exit_none {env : Env} {effect : Effect} {fd : FrameData}
    {image : ImageFrameData} {st : PipelineState}
    (hexit : (ensureOutput env effect fd image st).exit = none) :
    (ensureOutput env effect fd image st).state.output.width = outputSize effect image.width ∧
    (ensureOutput env effect fd image st).state.output.height =
      outputSize effect image.height := by
  by_cases h : st.output.width ≠ outputSize effect image.width ∨
      st.output.height ≠ outputSize effect image.height ∨ fd.scene ≠ st.lastScene
  · exact ensureOutput_size env effect fd image st
      (ensureOutput_not_uncaught (by simp [hexit]) h)
  · rw [ensureOutput_of_cached h]
    simp only [not_or, not_not] at h
    exact ⟨h.1, h.2.1⟩

theorem respondPhase_of_exit_none {env : Env} {effect : Effect} {fd : FrameData}
    {st : PipelineState} (h : (respondPhase env effect fd st).exit = none) :
    (respondPhase env effect fd st).state = { st with lastScene := fd.scene } := by
  unfold respondPhase at h ⊢
  rw [Step.andThen_exit_none_iff] at h
  rw [Step.andThen_state_of_exit_none h.1]
  simp

/-- The five phases of a frame that is processed to the end all fall through. -/
theorem processImage_exit_none {env : Env} {effect : Effect} {fd : FrameData}
    {image : ImageFrameData} {st : PipelineState}
    (h : (processImage env effect fd image st).exit = none) :
    let s1 := (inboundPhase env effect fd image st).state
    let s2 := (outputPhase env effect fd image s1).state
    let s3 := (effectPhase env effect fd s2).state
    (inboundPhase env effect fd image st).exit = none ∧
    (outputPhase env effect fd image s1).exit = none ∧
    (effectPhase env effect fd s2).exit = none ∧
    (outboundPhase env s3).exit = none ∧
    (respondPhase env effect fd s3).exit = none ∧
    (processImage env effect fd image st).state = { s3 with lastScene := fd.scene } := by
  unfold processImage at h ⊢
  simp only [Step.andThen_exit_none_iff, outboundPhase_state] at h
  obtain ⟨h1, h2, h3, h4, h5⟩ := h
  refine ⟨h1, h2, h3, h4, h5, ?_⟩
  rw [Step.andThen_state_of_exit_none h1, Step.andThen_state_of_exit_none h2,
    Step.andThen_state_of_exit_none h3, Step.andThen_state_of_exit_none h4,
    outboundPhase_state]
  exact respondPhase_of_exit_none h5

theorem List.set_eq_self_of_getElem? {α : Type} {l : List α} {i : Nat} {a : α}
    (h : l[i]? = some a) : l.set i a = l := by
  apply List.ext_getElem?
  intro j
  by_cases hij : i = j
  · subst hij
    have hlt := (List.getElem?_eq_some_iff.mp h).1
    simp [List.getElem?_set, hlt, h]
  · simp [List.getElem?_set, hij]

/-- Writing a `loaded` flag does not change what the effects declare. -/
theorem setLoaded_declared {st0 st : PipelineState} {scene : Nat} {effect : Effect}
    (heff : st0.effects[scene]? = some effect) (value : Bool)
    (h : st.effects.map Effect.declared = st0.effects.map Effect.declared) :
    (setLoaded st scene effect value).effects.map Effect.declared =
      st0.effects.map Effect.declared := by
  simp only [setLoaded, List.map_set]
  rw [h]
  apply List.set_eq_self_of_getElem?
  simp [List.getElem?_map, heff, Effect.declared]

theorem loadEffect_declared {env : Env} {st0 st : PipelineState} {fd : FrameData}
    {effect : Effect} (heff : st0.effects[fd.scene]? = some effect)
    (h : st.effects.map Effect.declared = st0.effects.map Effect.declared) :
    (loadEffect env effect fd st).state.effects.map Effect.declared =
      st0.effects.map Effect.declared := by
  unfold loadEffect; split
  · split
    · simpa using h
    · simpa using setLoaded_declared heff true h
  · simpa using setLoaded_declared heff true h

theorem runEffect_declared {env : Env} {st0 st : PipelineState} {fd : FrameData}
    {effect : Effect} (heff : st0.effects[fd.scene]? = some effect)
    (h : st.effects.map Effect.declared = st0.effects.map Effect.declared) :
    (runEffect env effect fd st).state.effects.map Effect.declared =
      st0.effects.map Effect.declared := by
  unfold runEffect; simp only []
  split <;> split <;> first | simpa using h | simpa using setLoaded_declared heff false h

theorem effectPhase_declared {env : Env} {st0 st : PipelineState} {fd : FrameData}
    {effect : Effect} (heff : st0.effects[fd.scene]? = some effect)
    (h : st.effects.map Effect.declared = st0.effects.map Effect.declared) :
    (effectPhase env effect fd st).state.effects.map Effect.declared =
      st0.effects.map Effect.declared := by
  unfold effectPhase
  exact Step.andThen_state_of
    (fun s => s.effects.map Effect.declared = st0.effects.map Effect.declared) _ _
    (loadEffect_declared heff h) (fun s hs => runEffect_declared heff hs)

/-- Processing a frame does not change what the effects declare. -/
theorem processImage_declared (env : Env) {effect : Effect} {fd : FrameData}
    (image : ImageFrameData) {st : PipelineState}
    (heff : st.effects[fd.scene]? = some effect) :
    (processImage env effect fd image st).state.effects.map Effect.declared =
      st.effects.map Effect.declared := by
  unfold processImage
  refine Step.andThen_state_of
    (fun s => s.effects.map Effect.declared = st.effects.map Effect.declared) _ _
    (by show _ = _; rw [(inboundPhase_frame env effect fd image st).1]) ?_
  intro s hs
  refine Step.andThen_state_of
    (fun s => s.effects.map Effect.declared = st.effects.map Effect.declared) _ _
    (by show _ = _; rw [(outputPhase_frame env effect fd image s).1]; exact hs) ?_
  intro s hs
  refine Step.andThen_state_of
    (fun s => s.effects.map Effect.declared = st.effects.map Effect.declared) _ _
    (effectPhase_declared heff hs) ?_
  intro s hs
  refine Step.andThen_state_of
    (fun s => s.effects.map Effect.declared = st.effects.map Effect.declared) _ _
    (by rw [outboundPhase_state]; exact hs) ?_
  intro s hs
  show _ = _
  rw [(respondPhase_frame env effect fd s).1]; exact hs

/-- After a frame processed to the end the cache is keyed by that frame: `lastScene` is its
scene, `input` has the size of its image and `output` the output size. -/
theorem processImage_cache {env : Env} {effect : Effect} {fd : FrameData}
    {image : ImageFrameData} {st : PipelineState}
    (h : (processImage env effect fd image st).exit = none) :
    let s := (processImage env effect fd image st).state
    s.lastScene = fd.scene ∧ s.input.width = image.width ∧ s.input.height = image.height ∧
    s.output.width = outputSize effect image.width ∧
    s.output.height = outputSize effect image.height := by
  obtain ⟨h1, h2, -, -, -, hs⟩ := processImage_exit_none h
  simp only [] at hs ⊢
  rw [hs]
  simp only []
  have e3 := effectPhase_frame env effect fd
    (outputPhase env effect fd image (inboundPhase env effect fd image st).state).state
  simp only [] at e3
  rw [e3.2.2.1, e3.2.2.2.2.1]
  have e2 := outputPhase_frame env effect fd image (inboundPhase env effect fd image st).state
  simp only [] at e2
  rw [e2.2.2.2.1, outputPhase_state, inboundPhase_state]
  have hin : (ensureInput env effect fd image st).exit = none := by
    unfold inboundPhase at h1
    exact ((Step.andThen_exit_none_iff _ _).mp h1).1
  have hout : (ensureOutput env effect fd image
      (ensureInput env effect fd image st).state).exit = none := by
    unfold outputPhase at h2
    rw [inboundPhase_state] at h2
    exact ((Step.andThen_exit_none_iff _ _).mp h2).1
  exact ⟨trivial, (ensureInput_size hin).1, (ensureInput_size hin).2,
    (ensureOutput_size_of_exit_none hout).1, (ensureOutput_size_of_exit_none hout).2⟩

theorem streamsChanged_exit (env : Env) (st : PipelineState) :
    (streamsChanged env st).exit = some .skip ∨ (streamsChanged env st).exit = some (.exit 7) := by
  unfold streamsChanged
  split
  · simp
  · simp only []
    split <;> simp

/-- An iteration that reaches the end of the loop body handled a frame request for an
in-range scene whose image data arrived. -/
theorem mainLoopBody_exit_none {env : Env} {st : PipelineState}
    (h : (mainLoopBody env st).exit = none) :
    env.await = .RS_ERROR_SUCCESS ∧ env.frameData.scene < nScenes ∧
    env.getFrameImageData = .RS_ERROR_SUCCESS ∧
    ∃ effect, st.effects[env.frameData.scene]? = some effect ∧
      (processImage env effect env.frameData env.image st).exit = none := by
  unfold mainLoopBody at h
  simp only [] at h
  split at h
  · rcases streamsChanged_exit env st with h' | h' <;> simp [h'] at h
  · split at h
    · simp at h
    · split at h
      · simp [shutdownAfterLoop] at h
        split at h <;> simp at h
      · next h1 h2 h3 =>
        have hawait : env.await = .RS_ERROR_SUCCESS := by simpa using h3
        refine ⟨hawait, ?_⟩
        simp only [Step.after_exit] at h
        unfold processFrame at h
        simp only [] at h
        split at h
        · simp at h
        · next hs =>
          split at h
          · simp at h
          · next effect heff =>
            split at h
            · simp at h
            · next hd =>
              exact ⟨by omega, by simpa using hd, effect, heff, by simpa using h⟩

/-! ## Which functions each phase calls -/

/-- After `ensureInput` the inbound phase calls only the frame image fetch, the map, transfer
and unmap of the input, the input binding and the logging sink. -/
theorem inboundTail_calls (env : Env) (effect : Effect) (image : ImageFrameData)
    (st : PipelineState) :
    ∀ e ∈ ((acquireInput env image st).andThen fun st =>
        (transferInput env st).andThen fun st => setInputImage env effect st).trace,
      e.call ∈ [Call.rs_getFrameImage, .NvCVImage_MapResource, .NvCVImage_Transfer,
        .NvCVImage_UnmapResource, .NvVFX_SetImage, .rs_logToD3] := by
  refine Step.andThen_calls _ _ (calls_mono (acquireInput_calls env image st) (by decide)) ?_
  intro s
  refine Step.andThen_calls _ _ (calls_mono (transferInput_calls env s) (by decide)) ?_
  intro s
  exact calls_mono (setInputImage_calls env effect s) (by decide)

theorem inboundPhase_calls (env : Env) (effect : Effect) (fd : FrameData)
    (image : ImageFrameData) (st : PipelineState) :
    ∀ e ∈ (inboundPhase env effect fd image st).trace,
      e.call ∈ [Call.CreateTexture2D, .CreateShaderResourceView,
        .NvCVImage_InitFromD3D11Texture, .makeNvCVImage,
        .rs_getFrameImage, .NvCVImage_MapResource, .NvCVImage_Transfer,
        .NvCVImage_UnmapResource, .NvVFX_SetImage, .rs_logToD3] := by
  unfold inboundPhase
  refine Step.andThen_calls _ _ (calls_mono (ensureInput_calls env effect fd image st)
    (by decide)) ?_
  intro s
  exact calls_mono (inboundTail_calls env effect image s) (by decide)

theorem outputPhase_calls (env : Env) (effect : Effect) (fd : FrameData)
    (image : ImageFrameData) (st : PipelineState) :
    ∀ e ∈ (outputPhase env effect fd image st).trace,
      e.call ∈ [Call.CreateTexture2D, .CreateShaderResourceView,
        .NvCVImage_InitFromD3D11Texture, .makeNvCVImage, .NvCVImage_FromD3DFormat,
        .NvVFX_SetImage, .tcerr, .NvVFX_DestroyEffect, .NvVFX_CudaStreamDestroy,
        .rs_shutdown] := by
  unfold outputPhase
  refine Step.andThen_calls _ _ (calls_mono (ensureOutput_calls env effect fd image st)
    (by decide)) ?_
  intro s
  exact calls_mono (setOutputImage_calls env effect s) (by decide)

theorem effectPhase_calls (env : Env) (effect : Effect) (fd : FrameData)
    (st : PipelineState) :
    ∀ e ∈ (effectPhase env effect fd st).trace,
      e.call ∈ [Call.NvVFX_Load, .NvVFX_Run, .rs_logToD3] := by
  unfold effectPhase
  refine Step.andThen_calls _ _ (calls_mono (loadEffect_calls env effect fd st) (by decide)) ?_
  intro s
  exact calls_mono (runEffect_calls env effect fd s) (by decide)

theorem outboundPhase_calls (env : Env) (st : PipelineState) :
    ∀ e ∈ (outboundPhase env st).trace,
      e.call ∈ [Call.NvCVImage_MapResource, .NvCVImage_Transfer, .NvCVImage_UnmapResource,
        .rs_logToD3] := by
  unfold outboundPhase
  refine Step.andThen_calls _ _ (calls_mono (transferEffectOutput_calls env st) (by decide)) ?_
  intro s
  exact transferOutput_calls env s

theorem respondPhase_calls (env : Env) (effect : Effect) (fd : FrameData)
    (st : PipelineState) :
    ∀ e ∈ (respondPhase env effect fd st).trace,
      e.call ∈ [Call.rs_getFrameCamera, .OMSetRenderTargets, .ClearRenderTargetView,
        .ClearDepthStencilView, .RSSetViewports, .UpdateSubresource, .Draw, .rs_sendFrame,
        .tcerr, .NvVFX_DestroyEffect, .NvVFX_CudaStreamDestroy, .rs_shutdown] := by
  unfold respondPhase
  refine Step.andThen_calls _ _ (fanOut_calls env effect fd st 0 _) ?_
  intro s
  simp

theorem afterOutput_calls (env : Env) (effect : Effect) (fd : FrameData)
    (st : PipelineState) :
    ∀ e ∈ ((effectPhase env effect fd st).andThen fun st =>
        (outboundPhase env st).andThen fun st => respondPhase env effect fd st).trace,
      e.call ∈ afterOutputCalls := by
  refine Step.andThen_calls _ _ (calls_mono (effectPhase_calls env effect fd st) (by decide)) ?_
  intro s
  refine Step.andThen_calls _ _ (calls_mono (outboundPhase_calls env s) (by decide)) ?_
  intro s
  exact calls_mono (respondPhase_calls env effect fd s) (by decide)

/-- The `createTexture` calls of a frame are those of `ensureInput` and `ensureOutput`. -/
theorem processImage_createTexture (env : Env) (effect : Effect) (fd : FrameData)
    (image : ImageFrameData) (st : PipelineState)
    (hin : (inboundPhase env effect fd image st).exit = none) :
    callsTo [.CreateTexture2D] (processImage env effect fd image st).trace =
      callsTo [.CreateTexture2D] (ensureInput env effect fd image st).trace ++
      callsTo [.CreateTexture2D]
        (ensureOutput env effect fd image (ensureInput env effect fd image st).state).trace := by
  unfold processImage
  rw [callsTo_andThen_of_exit_none _ _ hin, inboundPhase_state]
  congr 1
  · unfold inboundPhase
    exact callsTo_andThen_of_nil _ _ _ fun s =>
      callsTo_eq_nil_of_calls (inboundTail_calls env effect image s) (by decide)
  · rw [callsTo_andThen_of_nil _ _ _ fun s =>
      callsTo_eq_nil_of_calls (afterOutput_calls env effect fd s) (by decide)]
    unfold outputPhase
    exact callsTo_andThen_of_nil _ _ _ fun s =>
      callsTo_eq_nil_of_calls (setOutputImage_calls env effect s) (by decide)

/-! ## Reuse and replacement of the cached buffers -/

/-- C2 (failing input): from the state on entry to the loop, two requests name scene 1 with
a 640x360 image.  In the first `rs_getFrameImage` fails after the input pair was made, so the
frame is skipped and `lastScene` stays 0; the second request then calls `createTexture`
again for the input (and for the output) and replaces the input texture it found. -/
theorem repeated_request_reallocates_after_skip :
    (mainLoopBody (imagelessRequest 1 640 360) initialState).exit = some .skip ∧
    callsTo [.CreateTexture2D] (mainLoopBody (imagelessRequest 1 640 360) initialState).trace =
      [.CreateTexture2D 640 360 .DXGI_FORMAT_B8G8R8A8_UNORM true] ∧
    (mainLoopBody (imagelessRequest 1 640 360) initialState).state.lastScene = 0 ∧
    (mainLoopBody (imagelessRequest 1 640 360) initialState).state.input.resource = some 1 ∧
    callsTo [.CreateTexture2D]
      (mainLoopBody (frameRequest 1 640 360)
        (mainLoopBody (imagelessRequest 1 640 360) initialState).state).trace =
      [.CreateTexture2D 640 360 .DXGI_FORMAT_B8G8R8A8_UNORM true,
       .CreateTexture2D 640 360 .DXGI_FORMAT_A8_UNORM true] ∧
    (mainLoopBody (frameRequest 1 640 360)
      (mainLoopBody (imagelessRequest 1 640 360) initialState).state).state.input.resource =
        some 5 := by
  decide

theorem outputSize_ne {e e' : Effect} {n m : Nat} (hup : e.upscale = e'.upscale)
    (hn : n < 2 ^ 31) (hm : m < 2 ^ 31) (h : n ≠ m) : outputSize e' m ≠ outputSize e n := by
  unfold outputSize
  rw [hup]
  split
  · rw [Nat.mod_eq_of_lt (by omega), Nat.mod_eq_of_lt (by omega)]; omega
  · exact fun h' => h h'.symm

/-- C3 (counterexample): after scene 3 was processed at 640x360, a request for scene 0 at
640x360 in which `rs_getFrameImage` fails makes the input pair anew but is skipped before the
output pair is touched: one `createTexture` call, and the output texture and effect output
image are still those of scene 3. -/
theorem scene_change_without_output_reallocation :
    (mainLoopBody (frameRequest 3 640 360) stateWithTwoStreams).exit = none ∧
    callsTo [.CreateTexture2D]
      (mainLoopBody (imagelessRequest 0 640 360)
        (mainLoopBody (frameRequest 3 640 360) stateWithTwoStreams).state).trace =
      [.CreateTexture2D 640 360 .DXGI_FORMAT_B8G8R8A8_UNORM true] ∧
    (mainLoopBody (imagelessRequest 0 640 360)
      (mainLoopBody (frameRequest 3 640 360) stateWithTwoStreams).state).state.output =
      (mainLoopBody (frameRequest 3 640 360) stateWithTwoStreams).state.output ∧
    (mainLoopBody (imagelessRequest 0 640 360)
      (mainLoopBody (frameRequest 3 640 360) stateWithTwoStreams).state).state.effectOutput =
      (mainLoopBody (frameRequest 3 640 360) stateWithTwoStreams).state.effectOutput ∧
    (mainLoopBody (frameRequest 3 640 360) stateWithTwoStreams).state.output.width = 1280 := by
  decide

/-- C3 (amended): let a frame be processed to the end, and let the next iteration be a frame
request for an in-range scene whose scene index or image size differs from that frame's
(sizes below 2^31), and in which the calls up to and including the output `createTexture`
succeed.  Then the iteration calls `createTexture` exactly twice, first for the input at the
image size, then for the output at the output size in the slot's output texture format, and
it leaves a new input texture with a new effect input image and a new output texture with a
new effect output image, each of the slot's declared format. -/
theorem change_reallocates_both_pairs (envPrev env : Env) (st0 : PipelineState)
    (effect : Effect)
    (hprev : (mainLoopBody envPrev st0).exit = none)
    (hawait : env.await = .RS_ERROR_SUCCESS)
    (hscene : env.frameData.scene < nScenes)
    (heff : (mainLoopBody envPrev st0).state.effects[env.frameData.scene]? = some effect)
    (hdata : env.getFrameImageData = .RS_ERROR_SUCCESS)
    (hinbound : (inboundPhase env effect env.frameData env.image
      (mainLoopBody envPrev st0).state).exit = none)
    (houtput : env.outputTexture = ⟨true, true, .NVCV_SUCCESS⟩)
    (hchange : env.image.width ≠ envPrev.image.width ∨
      env.image.height ≠ envPrev.image.height ∨
      env.frameData.scene ≠ envPrev.frameData.scene)
    (hw : env.image.width < 2 ^ 31) (hh : env.image.height < 2 ^ 31)
    (hw0 : envPrev.image.width < 2 ^ 31) (hh0 : envPrev.image.height < 2 ^ 31) :
    let st := (mainLoopBody envPrev st0).state
    let r := mainLoopBody env st
    callsTo [.CreateTexture2D] r.trace =
      [.CreateTexture2D env.image.width env.image.height .DXGI_FORMAT_B8G8R8A8_UNORM true,
       .CreateTexture2D (outputSize effect env.image.width)
         (outputSize effect env.image.height) effect.outputTextureFormat true] ∧
    r.state.input =
      { width := env.image.width, height := env.image.height,
        format := some .DXGI_FORMAT_B8G8R8A8_UNORM, resource := some st.nextPtr,
        srv := some (st.nextPtr + 1), image := some (st.nextPtr + 2) } ∧
    r.state.effectInput = some
      { ptr := st.nextPtr + 3, width := env.image.width, height := env.image.height,
        pixelFormat := effect.inputPixelFormat, componentType := effect.inputComponentType,
        layout := effect.inputLayout,
        alignment := if effect.inputLayout = .NVCV_PLANAR then 1 else 32 } ∧
    r.state.output =
      { width := outputSize effect env.image.width,
        height := outputSize effect env.image.height,
        format := some effect.outputTextureFormat, resource := some (st.nextPtr + 4),
        srv := some (st.nextPtr + 5), image := some (st.nextPtr + 6) } ∧
    r.state.effectOutput = some
      { ptr := st.nextPtr + 7, width := outputSize effect env.image.width,
        height := outputSize effect env.image.height,
        pixelFormat := effect.outputPixelFormat, componentType := effect.outputComponentType,
        layout := effect.outputLayout,
        alignment := if effect.outputLayout = .NVCV_PLANAR then 1 else 32 } := by
  intro st r
  -- the previous frame
  obtain ⟨hawait0, hscene0, hdata0, effPrev, heffPrev, hP⟩ := mainLoopBody_exit_none hprev
  have hst : st = (processImage envPrev effPrev envPrev.frameData envPrev.image st0).state := by
    show (mainLoopBody envPrev st0).state = _
    rw [mainLoopBody_of_image hawait0 hscene0 heffPrev hdata0]; rfl
  have hcache := processImage_cache hP
  have hdecl := processImage_declared envPrev envPrev.image heffPrev
  simp only [] at hcache
  rw [← hst] at hcache hdecl
  obtain ⟨hlast, hiw, hih, how, hoh⟩ := hcache
  -- this frame
  have hr : r = Step.after [.rs_awaitFrameData 5000 .RS_ERROR_SUCCESS,
      .rs_getFrameImageData env.frameData.scene .RS_ERROR_SUCCESS]
      (processImage env effect env.frameData env.image st) :=
    mainLoopBody_of_image hawait hscene heff hdata
  have hcin : st.input.width ≠ env.image.width ∨ st.input.height ≠ env.image.height ∨
      env.frameData.scene ≠ st.lastScene := by
    rw [hiw, hih, hlast]
    rcases hchange with h | h | h
    · exact Or.inl (Ne.symm h)
    · exact Or.inr (Or.inl (Ne.symm h))
    · exact Or.inr (Or.inr h)
  have hensure : (ensureInput env effect env.frameData env.image st).exit = none := by
    unfold inboundPhase at hinbound
    exact ((Step.andThen_exit_none_iff _ _).mp hinbound).1
  have hinput := ensureInput_of_changed effect hcin
    (ensureInput_exit_none hensure hcin)
  have hfr := ensureInput_frame env effect env.frameData env.image st
  simp only [] at hfr
  have hcout : (ensureInput env effect env.frameData env.image st).state.output.width ≠
        outputSize effect env.image.width ∨
      (ensureInput env effect env.frameData env.image st).state.output.height ≠
        outputSize effect env.image.height ∨
      env.frameData.scene ≠
        (ensureInput env effect env.frameData env.image st).state.lastScene := by
    rw [hfr.2.2.2.1, hfr.2.2.2.2.2.2.2, how, hoh, hlast]
    by_cases hs : env.frameData.scene = envPrev.frameData.scene
    · have hup : effect.upscale = effPrev.upscale := by
        have h1 := congrArg (fun l => l[env.frameData.scene]?) hdecl
        simp only [List.getElem?_map, heff, hs ▸ heffPrev, Option.map_some',
          Option.some.injEq] at h1
        have h2 : effect.declared.upscale = effPrev.declared.upscale :=
          congrArg Effect.upscale h1
        exact h2
      rcases hchange with h | h | h
      · exact Or.inl (outputSize_ne hup hw hw0 h)
      · exact Or.inr (Or.inl (outputSize_ne hup hh hh0 h))
      · exact absurd hs h
    · exact Or.inr (Or.inr hs)
  have houtp := ensureOutput_of_changed env effect env.frameData env.image _ hcout houtput
  simp only [] at houtp
  obtain ⟨ho1, ho2, ho3, -⟩ := houtp
  have hstate : r.state = (processImage env effect env.frameData env.image st).state := by
    rw [hr]; rfl
  have hbuf : r.state.input = (ensureInput env effect env.frameData env.image st).state.input ∧
      r.state.effectInput =
        (ensureInput env effect env.frameData env.image st).state.effectInput ∧
      r.state.output = (ensureOutput env effect env.frameData env.image
        (ensureInput env effect env.frameData env.image st).state).state.output ∧
      r.state.effectOutput = (ensureOutput env effect env.frameData env.image
        (ensureInput env effect env.frameData env.image st).state).state.effectOutput := by
    rw [hstate]
    unfold processImage
    rw [Step.andThen_state_of_exit_none hinbound]
    refine Step.andThen_state_of
      (fun s => s.input = (ensureInput env effect env.frameData env.image st).state.input ∧
        s.effectInput =
          (ensureInput env effect env.frameData env.image st).state.effectInput ∧
        s.output = (ensureOutput env effect env.frameData env.image
          (ensureInput env effect env.frameData env.image st).state).state.output ∧
        s.effectOutput = (ensureOutput env effect env.frameData env.image
          (ensureInput env effect env.frameData env.image st).state).state.effectOutput)
      _ _ ?_ ?_
    · have h2 := outputPhase_frame env effect env.frameData env.image
        (inboundPhase env effect env.frameData env.image st).state
      simp only [] at h2
      refine ⟨?_, ?_, ?_, ?_⟩
      · rw [h2.2.2.2.1, inboundPhase_state]
      · rw [h2.2.2.2.2.1, inboundPhase_state]
      · rw [outputPhase_state, inboundPhase_state]
      · rw [outputPhase_state, inboundPhase_state]
    · intro s hs
      have h3 := afterOutput_buffers env effect env.frameData s
      simp only [] at h3
      show _ ∧ _ ∧ _ ∧ _
      rw [h3.1, h3.2.1, h3.2.2.1, h3.2.2.2.1]
      exact hs
  refine ⟨?_, ?_, ?_, ?_, ?_⟩
  · rw [hr, Step.after_trace, callsTo_append,
      processImage_createTexture env effect env.frameData env.image st hinbound, ho3, hinput]
    simp [callsTo, Event.call]
  · rw [hbuf.1, hinput]; rfl
  · rw [hbuf.2.1, hinput]; rfl
  · rw [hbuf.2.2.1, ho1, hinput]; rfl
  · rw [hbuf.2.2.2, ho2, hinput]; rfl

theorem change_reallocates_both_pairs_witness :
    (mainLoopBody (frameRequest 3 640 360) stateWithTwoStreams).exit = none ∧
    (frameRequest 0 640 360).frameData.scene ≠ (frameRequest 3 640 360).frameData.scene ∧
    callsTo [.CreateTexture2D]
      (mainLoopBody (frameRequest 0 640 360)
        (mainLoopBody (frameRequest 3 640 360) stateWithTwoStreams).state).trace =
      [.CreateTexture2D 640 360 .DXGI_FORMAT_B8G8R8A8_UNORM true,
       .CreateTexture2D 640 360 .DXGI_FORMAT_B8G8R8A8_UNORM true] :=
  ⟨by decide, by decide,
    (change_reallocates_both_pairs (frameRequest 3 640 360) (frameRequest 0 640 360)
      stateWithTwoStreams (effects.get ⟨0, by decide⟩) (by decide) rfl (by decide) (by decide)
      rfl (by decide) rfl (Or.inr (Or.inr (by decide))) (by decide) (by decide) (by decide)
      (by decide)).1⟩

/-- C4 (failing input): from the state on entry to the loop, a request for scene 2
(artifact reduction, 32-bit float planar input) at 640x360 makes the input pair and is then
skipped because `rs_getFrameImage` fails, so `lastScene` stays 0.  The next request names
scene 0 (transfer, 8-bit chunky input) at 640x360: the loop is in a reachable state, the
input pair is reused, and the float planar image of scene 2 is bound to the transfer effect
and is in place when the effect runs, next to an output image made for scene 0. -/
theorem stale_input_image_is_bound :
    Reachable (mainLoopBody (imagelessRequest 2 640 360) initialState).state ∧
    (mainLoopBody (imagelessRequest 2 640 360) initialState).exit = some .skip ∧
    (mainLoopBody (frameRequest 0 640 360)
      (mainLoopBody (imagelessRequest 2 640 360) initialState).state).exit = none ∧
    Event.NvVFX_SetImage .NVVFX_FX_TRANSFER .NVVFX_INPUT_IMAGE (some 4) .NVCV_SUCCESS ∈
      (mainLoopBody (frameRequest 0 640 360)
        (mainLoopBody (imagelessRequest 2 640 360) initialState).state).trace ∧
    Event.NvVFX_Run .NVVFX_FX_TRANSFER .NVCV_SUCCESS ∈
      (mainLoopBody (frameRequest 0 640 360)
        (mainLoopBody (imagelessRequest 2 640 360) initialState).state).trace ∧
    (mainLoopBody (frameRequest 0 640 360)
      (mainLoopBody (imagelessRequest 2 640 360) initialState).state).state.effectInput =
      some { ptr := 4, width := 640, height := 360, pixelFormat := .NVCV_BGR,
             componentType := .NVCV_F32, layout := .NVCV_PLANAR, alignment := 1 } ∧
    (mainLoopBody (frameRequest 0 640 360)
      (mainLoopBody (imagelessRequest 2 640 360) initialState).state).state.effectOutput =
      some { ptr := 8, width := 640, height := 360, pixelFormat := .NVCV_BGR,
             componentType := .NVCV_U8, layout := .NVCV_CHUNKY, alignment := 32 } ∧
    effects[0]?.map (fun e => (e.inputPixelFormat, e.inputComponentType, e.inputLayout)) =
      some (.NVCV_BGR, .NVCV_U8, .NVCV_CHUNKY) :=
  ⟨Reachable.iterate _ _ Reachable.start (by decide), by decide, by decide, by decide,
    by decide, by decide, by decide, by decide⟩

/-! ## Size of the output buffers -/

/-- Once the inbound phase has fallen through, the buffers the frame leaves are those made
by `ensureInput` and `ensureOutput`. -/
theorem processImage_buffers {env : Env} {effect : Effect} {fd : FrameData}
    {image : ImageFrameData} {st : PipelineState}
    (hin : (inboundPhase env effect fd image st).exit = none) :
    let s := (processImage env effect fd image st).state
    let s1 := (ensureInput env effect fd image st).state
    let s2 := (ensureOutput env effect fd image s1).state
    s.input = s1.input ∧ s.effectInput = s1.effectInput ∧
    s.output = s2.output ∧ s.effectOutput = s2.effectOutput ∧ s.outputImage = s2.outputImage := by
  simp only []
  unfold processImage
  rw [Step.andThen_state_of_exit_none hin]
  refine Step.andThen_state_of
    (fun s => s.input = (ensureInput env effect fd image st).state.input ∧
      s.effectInput = (ensureInput env effect fd image st).state.effectInput ∧
      s.output = (ensureOutput env effect fd image
        (ensureInput env effect fd image st).state).state.output ∧
      s.effectOutput = (ensureOutput env effect fd image
        (ensureInput env effect fd image st).state).state.effectOutput ∧
      s.outputImage = (ensureOutput env effect fd image
        (ensureInput env effect fd image st).state).state.outputImage)
    _ _ ?_ ?_
  · have h2 := outputPhase_frame env effect fd image (inboundPhase env effect fd image st).state
    simp only [] at h2
    refine ⟨?_, ?_, ?_, ?_, ?_⟩
    · rw [h2.2.2.2.1, inboundPhase_state]
    · rw [h2.2.2.2.2.1, inboundPhase_state]
    · rw [outputPhase_state, inboundPhase_state]
    · rw [outputPhase_state, inboundPhase_state]
    · rw [outputPhase_state, inboundPhase_state]
  · intro s hs
    have h3 := afterOutput_buffers env effect fd s
    simp only [] at h3
    show _ ∧ _ ∧ _ ∧ _ ∧ _
    rw [h3.1, h3.2.1, h3.2.2.1, h3.2.2.2.1, h3.2.2.2.2]
    exact hs

theorem outputSize_eq {st : PipelineState} (hcfg : Configured st) {scene : Nat}
    {effect : Effect} (heff : st.effects[scene]? = some effect) {n : Nat}
    (hn : 2 * n < 2 ^ 32) :
    outputSize effect n = (if scene = 3 ∨ scene = 4 then 2 else 1) * n := by
  unfold outputSize
  by_cases h : scene = 3 ∨ scene = 4
  · rw [if_pos ((hcfg.upscale_iff heff).mpr h), if_pos h, Nat.mod_eq_of_lt (by omega)]
    omega
  · have : ¬ effect.upscale = true := fun hu => h ((hcfg.upscale_iff heff).mp hu)
    rw [if_neg this, if_neg h]; omega

/-- C5: in a frame request for an in-range scene that gets as far as the output buffers
(the inbound phase falls through and the output `createTexture` succeeds), with an image of
size (w, h) where 2w and 2h are below 2^32, the output texture the frame leaves has size
(2w, 2h) for scenes 3 and 4, the two slots declared upscaling, and (w, h) for every other
scene; and when the output buffers are made anew in this frame, the texture is created at
that size in the slot's output format and the effect output image has that size too. -/
theorem output_size_follows_upscale (env : Env) (st : PipelineState) (effect : Effect)
    (hcfg : Configured st)
    (hawait : env.await = .RS_ERROR_SUCCESS)
    (hscene : env.frameData.scene < nScenes)
    (heff : st.effects[env.frameData.scene]? = some effect)
    (hdata : env.getFrameImageData = .RS_ERROR_SUCCESS)
    (hinbound : (inboundPhase env effect env.frameData env.image st).exit = none)
    (houtput : env.outputTexture = ⟨true, true, .NVCV_SUCCESS⟩)
    (hw : 2 * env.image.width < 2 ^ 32) (hh : 2 * env.image.height < 2 ^ 32) :
    let r := mainLoopBody env st
    let k := if env.frameData.scene = 3 ∨ env.frameData.scene = 4 then 2 else 1
    (effect.upscale = true ↔ env.frameData.scene = 3 ∨ env.frameData.scene = 4) ∧
    r.state.output.width = k * env.image.width ∧
    r.state.output.height = k * env.image.height ∧
    ((st.output.width ≠ k * env.image.width ∨ st.output.height ≠ k * env.image.height ∨
        env.frameData.scene ≠ st.lastScene) →
      Event.CreateTexture2D (k * env.image.width) (k * env.image.height)
        effect.outputTextureFormat true ∈ r.trace ∧
      ∃ img, r.state.effectOutput = some img ∧
        img.width = k * env.image.width ∧ img.height = k * env.image.height) := by
  intro r k
  have hr : r = Step.after [.rs_awaitFrameData 5000 .RS_ERROR_SUCCESS,
      .rs_getFrameImageData env.frameData.scene .RS_ERROR_SUCCESS]
      (processImage env effect env.frameData env.image st) :=
    mainLoopBody_of_image hawait hscene heff hdata
  have hkw : outputSize effect env.image.width = k * env.image.width :=
    outputSize_eq hcfg heff hw
  have hkh : outputSize effect env.image.height = k * env.image.height :=
    outputSize_eq hcfg heff hh
  have hbuf := processImage_buffers hinbound
  simp only [] at hbuf
  have hstate : r.state = (processImage env effect env.frameData env.image st).state := by
    rw [hr]; rfl
  have hsize := ensureOutput_size env effect env.frameData env.image
    (ensureInput env effect env.frameData env.image st).state houtput
  refine ⟨hcfg.upscale_iff heff, ?_, ?_, ?_⟩
  · rw [hstate, hbuf.2.2.1, hsize.1, hkw]
  · rw [hstate, hbuf.2.2.1, hsize.2, hkh]
  · intro hc
    have hfr := ensureInput_frame env effect env.frameData env.image st
    simp only [] at hfr
    have hcout : (ensureInput env effect env.frameData env.image st).state.output.width ≠
          outputSize effect env.image.width ∨
        (ensureInput env effect env.frameData env.image st).state.output.height ≠
          outputSize effect env.image.height ∨
        env.frameData.scene ≠
          (ensureInput env effect env.frameData env.image st).state.lastScene := by
      rw [hfr.2.2.2.1, hfr.2.2.2.2.2.2.2, hkw, hkh]; exact hc
    have ho := ensureOutput_of_changed env effect env.frameData env.image _ hcout houtput
    simp only [] at ho
    obtain ⟨-, ho2, ho3, -⟩ := ho
    constructor
    · have hct : callsTo [.CreateTexture2D] r.trace =
          callsTo [.CreateTexture2D]
            (ensureInput env effect env.frameData env.image st).trace ++
          [.CreateTexture2D (outputSize effect env.image.width)
            (outputSize effect env.image.height) effect.outputTextureFormat true] := by
        rw [hr, Step.after_trace, callsTo_append,
          processImage_createTexture env effect env.frameData env.image st hinbound, ho3]
        simp [callsTo, Event.call]
      have hm : Event.CreateTexture2D (outputSize effect env.image.width)
          (outputSize effect env.image.height) effect.outputTextureFormat true ∈
          callsTo [.CreateTexture2D] r.trace := by
        rw [hct]; simp
      rw [hkw, hkh] at hm
      exact (List.mem_filter.mp hm).1
    · exact ⟨_, by rw [hstate, hbuf.2.2.2.1, ho2], hkw, hkh⟩

theorem output_size_follows_upscale_witness :
    Configured stateWithTwoStreams ∧
    (mainLoopBody (frameRequest 3 640 360) stateWithTwoStreams).state.output.width = 1280 ∧
    (mainLoopBody (frameRequest 3 640 360) stateWithTwoStreams).state.output.height = 720 :=
  have h := output_size_follows_upscale (frameRequest 3 640 360) stateWithTwoStreams
    (effects.get ⟨3, by decide⟩) (by decide) rfl (by decide) (by decide) rfl (by decide) rfl
    (by decide) (by decide)
  ⟨by decide, h.2.1, h.2.2.1⟩

/-! ## The lifecycle of an effect -/

/-- An unloaded effect whose load fails: the effect phase logs and skips the frame. -/
theorem effectPhase_of_load_failed (env : Env) {effect : Effect} (fd : FrameData)
    (st : PipelineState) (hl : effect.loaded = false) (hf : env.load ≠ .NVCV_SUCCESS) :
    effectPhase env effect fd st =
      Step.leave st [.NvVFX_Load effect.effect env.load, .rs_logToD3 .loadFailed] .skip := by
  simp [effectPhase, loadEffect, hl, hf]

/-- An effect that is loaded, or whose load succeeds: the effect is run, and afterwards it
is marked loaded unless the run reported an initialisation error. -/
theorem effectPhase_of_loaded (env : Env) (effect : Effect) (fd : FrameData)
    (st : PipelineState) (h : ¬(effect.loaded = false ∧ env.load ≠ .NVCV_SUCCESS)) :
    let r := effectPhase env effect fd st
    r.state.effects = st.effects.set fd.scene
      { effect with loaded := decide (env.run ≠ .NVCV_ERR_INITIALIZATION) } ∧
    callsTo [.NvVFX_Run] r.trace = [.NvVFX_Run effect.effect env.run] ∧
    callsTo [.NvVFX_Load] r.trace =
      (if effect.loaded then [] else [.NvVFX_Load effect.effect .NVCV_SUCCESS]) ∧
    r.exit = (if env.run = .NVCV_SUCCESS then none else some .skip) := by
  simp only [not_and, not_not] at h
  unfold effectPhase loadEffect runEffect
  cases hl : effect.loaded
  · have hs := h hl
    by_cases hi : env.run = .NVCV_ERR_INITIALIZATION
    · simp [hs, hi, setLoaded, callsTo, Event.call, Step.after, Step.andThen, Step.pass,
        Step.leave]
    · by_cases hr : env.run = .NVCV_SUCCESS
      · simp [hs, hi, hr, setLoaded, callsTo, Event.call, Step.after, Step.andThen, Step.pass,
          Step.leave]
      · simp [hs, hi, hr, setLoaded, callsTo, Event.call, Step.after, Step.andThen, Step.pass,
          Step.leave]
  · by_cases hi : env.run = .NVCV_ERR_INITIALIZATION
    · simp [hi, setLoaded, callsTo, Event.call, Step.after, Step.andThen, Step.pass,
        Step.leave]
    · by_cases hr : env.run = .NVCV_SUCCESS
      · simp [hi, hr, setLoaded, callsTo, Event.call, Step.after, Step.andThen, Step.pass,
          Step.leave]
      · simp [hi, hr, setLoaded, callsTo, Event.call, Step.after, Step.andThen, Step.pass,
          Step.leave]

/-- A frame whose inbound and output phases fall through is at the load step. -/
theorem processImage_of_bound {env : Env} {effect : Effect} {fd : FrameData}
    {image : ImageFrameData} {st : PipelineState}
    (hin : (inboundPhase env effect fd image st).exit = none)
    (hout : (outputPhase env effect fd image
      (inboundPhase env effect fd image st).state).exit = none) :
    processImage env effect fd image st =
      Step.after
        ((inboundPhase env effect fd image st).trace ++
          (outputPhase env effect fd image (inboundPhase env effect fd image st).state).trace)
        ((effectPhase env effect fd
            (outputPhase env effect fd image
              (inboundPhase env effect fd image st).state).state).andThen fun st =>
          (outboundPhase env st).andThen fun st => respondPhase env effect fd st) := by
  unfold processImage
  rw [Step.andThen_of_exit_none _ hin, Step.andThen_of_exit_none _ hout]
  simp [Step.after, List.append_assoc]

/-- The outbound and respond phases leave the effects vector alone. -/
theorem afterEffect_effects (env : Env) (effect : Effect) (fd : FrameData)
    (st : PipelineState) :
    ((outboundPhase env st).andThen fun st => respondPhase env effect fd st).state.effects =
      st.effects := by
  refine Step.andThen_state_of (fun s => s.effects = st.effects) _ _
    (by rw [outboundPhase_state]) ?_
  intro s hs
  show _ = _
  rw [(respondPhase_frame env effect fd s).1]; exact hs

theorem afterEffect_calls (env : Env) (effect : Effect) (fd : FrameData)
    (st : PipelineState) :
    ∀ e ∈ ((outboundPhase env st).andThen fun st => respondPhase env effect fd st).trace,
      e.call ∈ afterOutputCalls.drop 2 := by
  refine Step.andThen_calls _ _ (calls_mono (outboundPhase_calls env st) (by decide)) ?_
  intro s
  exact calls_mono (respondPhase_calls env effect fd s) (by decide)

/-- C6: in a frame request that reaches the load step for scene `s` (the inbound and output
phases fall through): (i) if the effect is unloaded and `NvVFX_Load` fails, the effects
vector is unchanged (so `s` stays unloaded), `NvVFX_Run` is not called and the iteration ends
with `continue`; (ii) otherwise `NvVFX_Run` is called exactly once and afterwards the effect
of `s` is unloaded if and only if the run status is `NVCV_ERR_INITIALIZATION`, loaded for
success and for every other status; and in every case the entry of every other scene is the
one the iteration found. -/
theorem effect_lifecycle (env : Env) (st : PipelineState) (effect : Effect)
    (hawait : env.await = .RS_ERROR_SUCCESS)
    (hscene : env.frameData.scene < nScenes)
    (heff : st.effects[env.frameData.scene]? = some effect)
    (hdata : env.getFrameImageData = .RS_ERROR_SUCCESS)
    (hinbound : (inboundPhase env effect env.frameData env.image st).exit = none)
    (houtput : (outputPhase env effect env.frameData env.image
      (inboundPhase env effect env.frameData env.image st).state).exit = none) :
    let r := mainLoopBody env st
    (effect.loaded = false ∧ env.load ≠ .NVCV_SUCCESS →
      r.state.effects = st.effects ∧ r.exit = some .skip ∧
      callsTo [.NvVFX_Run] r.trace = []) ∧
    (¬(effect.loaded = false ∧ env.load ≠ .NVCV_SUCCESS) →
      callsTo [.NvVFX_Run] r.trace = [.NvVFX_Run effect.effect env.run] ∧
      r.state.effects[env.frameData.scene]? = some
        { effect with loaded := decide (env.run ≠ .NVCV_ERR_INITIALIZATION) }) ∧
    (∀ j, j ≠ env.frameData.scene → r.state.effects[j]? = st.effects[j]?) := by
  intro r
  have hr : r = Step.after [.rs_awaitFrameData 5000 .RS_ERROR_SUCCESS,
      .rs_getFrameImageData env.frameData.scene .RS_ERROR_SUCCESS]
      (processImage env effect env.frameData env.image st) :=
    mainLoopBody_of_image hawait hscene heff hdata
  have hp := processImage_of_bound hinbound houtput
  have hs2 : (outputPhase env effect env.frameData env.image
      (inboundPhase env effect env.frameData env.image st).state).state.effects = st.effects := by
    rw [(outputPhase_frame env effect env.frameData env.image _).1,
      (inboundPhase_frame env effect env.frameData env.image st).1]
  have hpre : callsTo [.NvVFX_Run] ([Event.rs_awaitFrameData 5000 .RS_ERROR_SUCCESS,
      .rs_getFrameImageData env.frameData.scene .RS_ERROR_SUCCESS] ++
      ((inboundPhase env effect env.frameData env.image st).trace ++
        (outputPhase env effect env.frameData env.image
          (inboundPhase env effect env.frameData env.image st).state).trace)) = [] := by
    rw [callsTo_append, callsTo_append,
      callsTo_eq_nil_of_calls (inboundPhase_calls env effect env.frameData env.image st)
        (by decide),
      callsTo_eq_nil_of_calls (outputPhase_calls env effect env.frameData env.image _)
        (by decide)]
    simp [callsTo, Event.call]
  have hstate : r.state.effects = (effectPhase env effect env.frameData
      (outputPhase env effect env.frameData env.image
        (inboundPhase env effect env.frameData env.image st).state).state).state.effects := by
    rw [hr, hp]
    simp only [Step.after_state]
    refine Step.andThen_state_of (fun s => s.effects = (effectPhase env effect env.frameData
      (outputPhase env effect env.frameData env.image
        (inboundPhase env effect env.frameData env.image st).state).state).state.effects)
      _ _ rfl ?_
    intro s hs
    show _ = _
    rw [afterEffect_effects]; exact hs
  have htrace : callsTo [.NvVFX_Run] r.trace = callsTo [.NvVFX_Run]
      (effectPhase env effect env.frameData
        (outputPhase env effect env.frameData env.image
          (inboundPhase env effect env.frameData env.image st).state).state).trace := by
    rw [hr, hp]
    simp only [Step.after_trace]
    rw [← List.append_assoc, callsTo_append, hpre, List.nil_append]
    exact callsTo_andThen_of_nil _ _ _ fun s =>
      callsTo_eq_nil_of_calls (afterEffect_calls env effect env.frameData s) (by decide)
  refine ⟨?_, ?_, ?_⟩
  · rintro ⟨hl, hf⟩
    have he := effectPhase_of_load_failed env env.frameData
      (outputPhase env effect env.frameData env.image
        (inboundPhase env effect env.frameData env.image st).state).state hl hf
    refine ⟨?_, ?_, ?_⟩
    · rw [hstate, he]; exact hs2
    · rw [hr, hp, he]; rfl
    · rw [htrace, he]; simp [callsTo, Event.call]
  · intro h
    have he := effectPhase_of_loaded env effect env.frameData
      (outputPhase env effect env.frameData env.image
        (inboundPhase env effect env.frameData env.image st).state).state h
    simp only [] at he
    refine ⟨by rw [htrace]; exact he.2.1, ?_⟩
    rw [hstate, he.1, hs2]
    have hlt := (List.getElem?_eq_some_iff.mp heff).1
    simp [List.getElem?_set, hlt]
  · intro j hj
    rw [hstate]
    by_cases h : effect.loaded = false ∧ env.load ≠ .NVCV_SUCCESS
    · rw [effectPhase_of_load_failed env env.frameData _ h.1 h.2]; simp [hs2]
    · have he := effectPhase_of_loaded env effect env.frameData
        (outputPhase env effect env.frameData env.image
          (inboundPhase env effect env.frameData env.image st).state).state h
      simp only [] at he
      rw [he.1, hs2]
      simp [List.getElem?_set, Ne.symm hj]

/-! ## Frames in which every call succeeds -/

theorem inboundPhase_exit_of_succeeds {env : Env} (h : env.FrameSucceeds) (effect : Effect)
    (fd : FrameData) (image : ImageFrameData) (st : PipelineState) :
    (inboundPhase env effect fd image st).exit = none := by
  unfold inboundPhase
  have he : (ensureInput env effect fd image st).exit = none := by
    by_cases hc : st.input.width ≠ image.width ∨ st.input.height ≠ image.height ∨
        fd.scene ≠ st.lastScene
    · rw [ensureInput_of_changed effect hc h.inputTexture]; rfl
    · rw [ensureInput_of_cached hc]; rfl
  simp [Step.andThen_exit_none_iff, he, acquireInput, transferInput, setInputImage,
    h.getFrameImage, h.mapInput, h.transferInput, h.unmapInput, h.setInputImage]

theorem outputPhase_exit_of_succeeds {env : Env} (h : env.FrameSucceeds) (effect : Effect)
    (fd : FrameData) (image : ImageFrameData) (st : PipelineState) :
    (outputPhase env effect fd image st).exit = none := by
  unfold outputPhase
  have he : (ensureOutput env effect fd image st).exit = none := by
    by_cases hc : st.output.width ≠ outputSize effect image.width ∨
        st.output.height ≠ outputSize effect image.height ∨ fd.scene ≠ st.lastScene
    · unfold ensureOutput; simp only []
      rw [if_pos hc, h.outputTexture, createTexture_ok]
      simp only [h.fromD3DFormat, ne_eq, not_true_eq_false, if_false]
      split <;> rfl
    · rw [ensureOutput_of_cached hc]; rfl
  simp [Step.andThen_exit_none_iff, he, setOutputImage, h.setOutputImage]

theorem outboundPhase_exit_of_succeeds {env : Env} (h : env.FrameSucceeds)
    (st : PipelineState) : (outboundPhase env st).exit = none := by
  unfold outboundPhase transferEffectOutput transferOutput
  simp only [h.transferEffectOutput, h.mapOutput, h.transferOutput, h.unmapOutput]
  split <;> simp [Step.andThen, Step.pass, Step.leave]

/-- When every camera query and every submission succeeds and every stream has a render
target, the stream loop runs to its end and submits once per stream, in order. -/
theorem fanOut_of_succeeds (env : Env) (effect : Effect) (st : PipelineState)
    (hcam : ∀ i, env.getFrameCamera i = .RS_ERROR_SUCCESS)
    (hsend : ∀ i, env.sendFrame i = .RS_ERROR_SUCCESS)
    (i : Nat) (streams : List StreamDescription)
    (hcover : ∀ d ∈ streams, ∃ target, renderTargetsAt st.renderTargets d.handle = some target) :
    (fanOut env effect env.frameData st i streams).exit = none ∧
    callsTo [.rs_sendFrame] (fanOut env effect env.frameData st i streams).trace =
      (streams.enumFrom i).map fun p => submission env st p.1 p.2 := by
  induction streams generalizing i with
  | nil => simp [fanOut, callsTo]
  | cons d rest ih =>
    obtain ⟨target, ht⟩ := hcover d (List.mem_cons_self _ _)
    have ih' := ih (i + 1) fun d' hd' => hcover d' (List.mem_cons_of_mem _ hd')
    unfold fanOut
    simp only [hcam i, hsend i, ht, if_true, ne_eq, not_true_eq_false, if_false,
      Step.after_exit, Step.after_trace, List.enumFrom_cons, List.map_cons]
    refine ⟨ih'.1, ?_⟩
    rw [callsTo_append, ih'.2]
    simp [callsTo, Event.call, drawQuad, submission, ht, hsend i]

/-! ## Invariants of the loop -/

theorem renderTargetsAt_set_self (m : List (StreamHandle × RenderTarget)) (h : StreamHandle)
    (t : RenderTarget) : renderTargetsAt (renderTargetsSet m h t) h = some t := by
  induction m with
  | nil => simp [renderTargetsSet, renderTargetsAt]
  | cons p rest ih =>
    obtain ⟨k, v⟩ := p
    unfold renderTargetsSet
    split
    · next hk => simp [renderTargetsAt, hk]
    · next hk => simp [renderTargetsAt, hk, ih]

theorem renderTargetsAt_set_of_ne (m : List (StreamHandle × RenderTarget))
    {h k : StreamHandle} (t : RenderTarget) (hne : h ≠ k) :
    renderTargetsAt (renderTargetsSet m h t) k = renderTargetsAt m k := by
  induction m with
  | nil => simp [renderTargetsSet, renderTargetsAt, hne]
  | cons p rest ih =>
    obtain ⟨k', v⟩ := p
    unfold renderTargetsSet
    split
    · next hk => subst hk; simp [renderTargetsAt, hne]
    · next hk => simp only [renderTargetsAt, ih]

/-- Writing an entry never removes one. -/
theorem renderTargetsAt_set_isSome (m : List (StreamHandle × RenderTarget))
    (h k : StreamHandle) (t : RenderTarget)
    (hk : (renderTargetsAt m k).isSome) :
    (renderTargetsAt (renderTargetsSet m h t) k).isSome := by
  by_cases hne : h = k
  · subst hne; simp [renderTargetsAt_set_self]
  · rw [renderTargetsAt_set_of_ne m t hne]; exact hk

/-- The render-target loop leaves everything but `renderTargets` and the identity counter
alone, throws or falls through, and never removes an entry. -/
theorem createRenderTargets_frame (env : Env) (i : Nat) (streams : List StreamDescription)
    (st : PipelineState) :
    let r := createRenderTargets env i streams st
    r.state.effects = st.effects ∧ r.state.header = st.header ∧
    r.state.input = st.input ∧ r.state.effectInput = st.effectInput ∧
    r.state.output = st.output ∧ r.state.effectOutput = st.effectOutput ∧
    r.state.outputImage = st.outputImage ∧ r.state.temporary = st.temporary ∧
    r.state.lastScene = st.lastScene ∧
    (r.exit = none ∨ ∃ what, r.exit = some (.uncaught what)) ∧
    (∀ k, (renderTargetsAt st.renderTargets k).isSome →
      (renderTargetsAt r.state.renderTargets k).isSome) := by
  induction streams generalizing i st with
  | nil => simp [createRenderTargets]
  | cons d rest ih =>
    unfold createRenderTargets
    simp only []
    split
    · simp only [Step.leave_state, Step.leave_exit, true_and]
      exact ⟨Or.inr ⟨_, rfl⟩, fun k hk => renderTargetsAt_set_isSome _ _ _ _ hk⟩
    · split
      · simp only [Step.leave_state, Step.leave_exit, true_and]
        exact ⟨Or.inr ⟨_, rfl⟩, fun k hk => renderTargetsAt_set_isSome _ _ _ _ hk⟩
      · split
        · simp only [Step.leave_state, Step.leave_exit, true_and]
          exact ⟨Or.inr ⟨_, rfl⟩, fun k hk => renderTargetsAt_set_isSome _ _ _ _ hk⟩
        · split
          · simp only [Step.leave_state, Step.leave_exit, true_and]
            exact ⟨Or.inr ⟨_, rfl⟩, fun k hk => renderTargetsAt_set_isSome _ _ _ _ hk⟩
          · have h := ih (i + 1)
              { st with
                renderTargets := renderTargetsSet st.renderTargets d.handle
                  { (renderTargetsAt st.renderTargets d.handle).getD {} with
                    texture := some
                      { ptr := st.nextPtr, width := d.width, height := d.height,
                        format := .DXGI_FORMAT_B8G8R8A8_UNORM },
                    view := some (st.nextPtr + 1),
                    depth := some
                      { ptr := st.nextPtr + 2, width := d.width, height := d.height,
                        format := .DXGI_FORMAT_D24_UNORM_S8_UINT },
                    depthView := some (st.nextPtr + 3) },
                nextPtr := st.nextPtr + 4 }
            simp only [] at h
            simp only [Step.after_state, Step.after_exit]
            refine ⟨h.1, h.2.1, h.2.2.1, h.2.2.2.1, h.2.2.2.2.1, h.2.2.2.2.2.1,
              h.2.2.2.2.2.2.1, h.2.2.2.2.2.2.2.1, h.2.2.2.2.2.2.2.2.1,
              h.2.2.2.2.2.2.2.2.2.1, ?_⟩
            intro k hk
            exact h.2.2.2.2.2.2.2.2.2.2 k (renderTargetsAt_set_isSome _ _ _ _ hk)

/-- When the render-target loop falls through, every stream it was given has an entry. -/
theorem createRenderTargets_covers (env : Env) (i : Nat) (streams : List StreamDescription)
    (st : PipelineState) (h : (createRenderTargets env i streams st).exit = none) :
    ∀ d ∈ streams,
      (renderTargetsAt (createRenderTargets env i streams st).state.renderTargets
        d.handle).isSome := by
  induction streams generalizing i st with
  | nil => simp
  | cons d rest ih =>
    unfold createRenderTargets at h ⊢
    simp only [] at h ⊢
    split at h
    · simp at h
    · split at h
      · simp at h
      · split at h
        · simp at h
        · split at h
          · simp at h
          · next h1 h2 h3 h4 =>
            simp only [h1, h2, h3, h4, if_false, Bool.false_eq_true, Step.after_state]
            simp only [Step.after_exit] at h
            intro d' hd'
            rcases List.mem_cons.mp hd' with rfl | hd'
            · refine (createRenderTargets_frame env (i + 1) rest _).2.2.2.2.2.2.2.2.2.2 _ ?_
              simp [renderTargetsAt_set_self]
            · exact ih (i + 1) _ h d' hd'

/-- Processing a frame leaves the stream enumeration and the render targets alone. -/
theorem processImage_streams (env : Env) (effect : Effect) (fd : FrameData)
    (image : ImageFrameData) (st : PipelineState) :
    (processImage env effect fd image st).state.header = st.header ∧
    (processImage env effect fd image st).state.renderTargets = st.renderTargets := by
  unfold processImage
  have h1 := inboundPhase_frame env effect fd image st
  simp only [] at h1
  refine Step.andThen_state_of
    (fun s => s.header = st.header ∧ s.renderTargets = st.renderTargets) _ _
    ⟨h1.2.1, h1.2.2.1⟩ ?_
  intro s hs
  have h2 := outputPhase_frame env effect fd image s
  simp only [] at h2
  refine Step.andThen_state_of
    (fun s => s.header = st.header ∧ s.renderTargets = st.renderTargets) _ _
    ⟨h2.2.1.trans hs.1, h2.2.2.1.trans hs.2⟩ ?_
  intro s hs
  have h3 := effectPhase_frame env effect fd s
  simp only [] at h3
  refine Step.andThen_state_of
    (fun s => s.header = st.header ∧ s.renderTargets = st.renderTargets) _ _
    ⟨h3.1.trans hs.1, h3.2.1.trans hs.2⟩ ?_
  intro s hs
  refine Step.andThen_state_of
    (fun s => s.header = st.header ∧ s.renderTargets = st.renderTargets) _ _
    (by rw [outboundPhase_state]; exact hs) ?_
  intro s hs
  have h5 := respondPhase_frame env effect fd s
  simp only [] at h5
  exact ⟨h5.2.1.trans hs.1, h5.2.2.1.trans hs.2⟩

theorem processFrame_streams (env : Env) (st : PipelineState) :
    (processFrame env st).state.header = st.header ∧
    (processFrame env st).state.renderTargets = st.renderTargets := by
  unfold processFrame
  simp only []
  split
  · simp
  · split
    · simp
    · split
      · simp
      · simpa using processImage_streams env _ env.frameData env.image st

theorem processFrame_declared (env : Env) (st : PipelineState) :
    (processFrame env st).state.effects.map Effect.declared =
      st.effects.map Effect.declared := by
  unfold processFrame
  simp only []
  split
  · simp
  · split
    · simp
    · next effect heff =>
      split
      · simp
      · simpa using processImage_declared env env.image heff

theorem streamsChanged_effects (env : Env) (st : PipelineState) :
    (streamsChanged env st).state.effects = st.effects := by
  unfold streamsChanged
  split
  · simp
  · next streams trace _ =>
    simp only []
    have h := (createRenderTargets_frame env 0 streams { st with header := some streams }).1
    split <;> simpa using h

/-- An iteration does not change what the effects declare. -/
theorem mainLoopBody_declared (env : Env) (st : PipelineState) :
    (mainLoopBody env st).state.effects.map Effect.declared =
      st.effects.map Effect.declared := by
  unfold mainLoopBody
  simp only []
  split
  · simp [streamsChanged_effects]
  · split
    · simp
    · split
      · simp only [Step.after_state, shutdownAfterLoop]
        split <;> simp
      · simpa using processFrame_declared env st

/-- An iteration after which the loop goes on leaves every stream of the enumeration with
an entry in `renderTargets`. -/
theorem mainLoopBody_covered (env : Env) (st : PipelineState) (hc : HeaderCovered st)
    (hcont : (mainLoopBody env st).continues) :
    HeaderCovered (mainLoopBody env st).state := by
  unfold mainLoopBody at hcont ⊢
  simp only [] at hcont ⊢
  split
  · next hsc =>
    simp only [hsc, if_true, Step.after_state] at hcont ⊢
    unfold streamsChanged at hcont ⊢
    split
    · next what trace heq =>
      simp only [heq, Step.continues, Step.after_exit, Step.leave_exit] at hcont
      simp at hcont
    · next streams trace heq =>
      simp only [heq] at hcont ⊢
      have hfr := createRenderTargets_frame env 0 streams { st with header := some streams }
      simp only [] at hfr
      rcases hfr.2.2.2.2.2.2.2.2.2.1 with hx | ⟨what, hx⟩
      · have hcov := createRenderTargets_covers env 0 streams _ hx
        simp only [hx, Step.leave_state]
        intro d hd
        rw [hfr.2.1] at hd
        simp only [Option.getD_some] at hd
        have := hcov d hd
        exact Option.isSome_iff_exists.mp this
      · simp only [hx, Step.continues, Step.after_exit, Step.leave_exit] at hcont
        simp at hcont
  · split
    · simpa using hc
    · split
      · simp only [Step.after_state, shutdownAfterLoop]
        split <;> simpa using hc
      · simp only [Step.after_state]
        intro d hd
        rw [(processFrame_streams env st).1] at hd
        rw [(processFrame_streams env st).2]
        exact hc d hd

theorem Reachable.configured {st : PipelineState} (h : Reachable st) : Configured st := by
  induction h with
  | start => decide
  | iterate env st _ _ ih =>
    unfold Configured at ih ⊢
    rw [mainLoopBody_declared, ih]

theorem Reachable.headerCovered {st : PipelineState} (h : Reachable st) :
    HeaderCovered st := by
  induction h with
  | start => intro d hd; simp [initialState] at hd
  | iterate env st _ hcont ih => exact mainLoopBody_covered env st ih hcont

/-! ## Fan-out -/

/-- A frame whose first four phases fall through reaches the stream loop with the calls of
those phases behind it. -/
theorem processImage_of_phases {env : Env} {effect : Effect} {fd : FrameData}
    {image : ImageFrameData} {st : PipelineState}
    (h1 : (inboundPhase env effect fd image st).exit = none)
    (h2 : (outputPhase env effect fd image
      (inboundPhase env effect fd image st).state).exit = none)
    (h3 : (effectPhase env effect fd (outputPhase env effect fd image
      (inboundPhase env effect fd image st).state).state).exit = none)
    (h4 : (outboundPhase env (effectPhase env effect fd (outputPhase env effect fd image
      (inboundPhase env effect fd image st).state).state).state).exit = none) :
    processImage env effect fd image st =
      Step.after
        ((inboundPhase env effect fd image st).trace ++
          ((outputPhase env effect fd image
            (inboundPhase env effect fd image st).state).trace ++
          ((effectPhase env effect fd (outputPhase env effect fd image
            (inboundPhase env effect fd image st).state).state).trace ++
          (outboundPhase env (effectPhase env effect fd (outputPhase env effect fd image
            (inboundPhase env effect fd image st).state).state).state).trace)))
        (respondPhase env effect fd (effectPhase env effect fd (outputPhase env effect fd image
            (inboundPhase env effect fd image st).state).state).state) := by
  unfold processImage
  rw [Step.andThen_of_exit_none _ h1, Step.andThen_of_exit_none _ h2,
    Step.andThen_of_exit_none _ h3, Step.andThen_of_exit_none _ h4]
  simp [Step.after, List.append_assoc]

/-- The calls made before the stream loop are to none of the functions of the loop. -/
theorem beforeRespond_calls (env : Env) (effect : Effect) (fd : FrameData)
    (image : ImageFrameData) (st s1 s2 s3 : PipelineState) :
    ∀ e ∈ (inboundPhase env effect fd image st).trace ++
        ((outputPhase env effect fd image s1).trace ++
        ((effectPhase env effect fd s2).trace ++ (outboundPhase env s3).trace)),
      e.call ∈ [Call.CreateTexture2D, .CreateShaderResourceView,
        .NvCVImage_InitFromD3D11Texture, .makeNvCVImage,
        .rs_getFrameImage, .NvCVImage_MapResource, .NvCVImage_Transfer,
        .NvCVImage_UnmapResource, .NvVFX_SetImage, .rs_logToD3, .NvCVImage_FromD3DFormat,
        .tcerr, .NvVFX_DestroyEffect, .NvVFX_CudaStreamDestroy, .rs_shutdown,
        .NvVFX_Load, .NvVFX_Run] := by
  intro e he
  simp only [List.mem_append] at he
  rcases he with he | he | he | he
  · exact calls_mono (inboundPhase_calls env effect fd image st) (by decide) e he
  · exact calls_mono (outputPhase_calls env effect fd image s1) (by decide) e he
  · exact calls_mono (effectPhase_calls env effect fd s2) (by decide) e he
  · exact calls_mono (outboundPhase_calls env s3) (by decide) e he

theorem effectPhase_exit_of_succeeds {env : Env} (h : env.FrameSucceeds) (effect : Effect)
    (fd : FrameData) (st : PipelineState) : (effectPhase env effect fd st).exit = none := by
  have he := effectPhase_of_loaded env effect fd st (by simp [h.load])
  simp only [] at he
  rw [he.2.2.2, if_pos h.run]

theorem submission_congr (env : Env) {st st' : PipelineState}
    (h : st'.renderTargets = st.renderTargets) (i : Nat) (d : StreamDescription) :
    submission env st' i d = submission env st i d := by
  simp [submission, h]

theorem effectPhase_calls_of_succeeds {env : Env} (h : env.FrameSucceeds) (effect : Effect)
    (fd : FrameData) (st : PipelineState) :
    callsTo [.NvVFX_Load, .NvVFX_Run] (effectPhase env effect fd st).trace =
      (if effect.loaded then [] else [.NvVFX_Load effect.effect .NVCV_SUCCESS]) ++
        [.NvVFX_Run effect.effect .NVCV_SUCCESS] := by
  unfold effectPhase loadEffect runEffect
  cases hl : effect.loaded <;>
    simp [h.load, h.run, callsTo, Event.call, Step.andThen, Step.pass, Step.after]

/-- A frame request for an in-range scene in which every call succeeds, in a state where
every stream has a render target: the frame is processed to the end, `lastScene` becomes the
scene, the effect is left loaded, the model is loaded first if it was not, the effect is run
once, and every stream is sent its frame, in order. -/
theorem mainLoopBody_of_succeeds (env : Env) (st : PipelineState) (effect : Effect)
    (hscene : env.frameData.scene < nScenes)
    (heff : st.effects[env.frameData.scene]? = some effect)
    (hcover : HeaderCovered st)
    (hok : env.FrameSucceeds)
    (hcam : ∀ i, env.getFrameCamera i = .RS_ERROR_SUCCESS)
    (hsend : ∀ i, env.sendFrame i = .RS_ERROR_SUCCESS) :
    let r := mainLoopBody env st
    r.exit = none ∧
    r.state.lastScene = env.frameData.scene ∧
    r.state.effects = st.effects.set env.frameData.scene { effect with loaded := true } ∧
    callsTo [.rs_sendFrame] r.trace =
      ((st.header.getD []).enum.map fun p => submission env st p.1 p.2) ∧
    callsTo [.NvVFX_Load, .NvVFX_Run] r.trace =
      (if effect.loaded then [] else [.NvVFX_Load effect.effect .NVCV_SUCCESS]) ++
        [.NvVFX_Run effect.effect .NVCV_SUCCESS] := by
  intro r
  have hr : r = Step.after [.rs_awaitFrameData 5000 .RS_ERROR_SUCCESS,
      .rs_getFrameImageData env.frameData.scene .RS_ERROR_SUCCESS]
      (processImage env effect env.frameData env.image st) :=
    mainLoopBody_of_image hok.await hscene heff hok.getFrameImageData
  have hp := processImage_of_phases
    (inboundPhase_exit_of_succeeds hok effect env.frameData env.image st)
    (outputPhase_exit_of_succeeds hok effect env.frameData env.image _)
    (effectPhase_exit_of_succeeds hok effect env.frameData _)
    (outboundPhase_exit_of_succeeds hok _)
  -- the state the stream loop starts from
  have hh : (effectPhase env effect env.frameData (outputPhase env effect env.frameData
      env.image (inboundPhase env effect env.frameData env.image st).state).state).state.header
      = st.header := by
    rw [(effectPhase_frame env effect env.frameData _).1,
      (outputPhase_frame env effect env.frameData env.image _).2.1,
      (inboundPhase_frame env effect env.frameData env.image st).2.1]
  have ht : (effectPhase env effect env.frameData (outputPhase env effect env.frameData
      env.image (inboundPhase env effect env.frameData env.image st).state).state).state.renderTargets
      = st.renderTargets := by
    rw [(effectPhase_frame env effect env.frameData _).2.1,
      (outputPhase_frame env effect env.frameData env.image _).2.2.1,
      (inboundPhase_frame env effect env.frameData env.image st).2.2.1]
  have he : (effectPhase env effect env.frameData (outputPhase env effect env.frameData
      env.image (inboundPhase env effect env.frameData env.image st).state).state).state.effects
      = st.effects.set env.frameData.scene { effect with loaded := true } := by
    have h := effectPhase_of_loaded env effect env.frameData
      (outputPhase env effect env.frameData env.image
        (inboundPhase env effect env.frameData env.image st).state).state
      (by simp [hok.load])
    simp only [] at h
    rw [h.1, (outputPhase_frame env effect env.frameData env.image _).1,
      (inboundPhase_frame env effect env.frameData env.image st).1]
    simp [hok.run]
  have hf := fanOut_of_succeeds env effect
    (effectPhase env effect env.frameData (outputPhase env effect env.frameData
      env.image (inboundPhase env effect env.frameData env.image st).state).state).state
    hcam hsend 0 (st.header.getD [])
    (by rw [ht]; exact hcover)
  have hresp : (respondPhase env effect env.frameData
      (effectPhase env effect env.frameData (outputPhase env effect env.frameData
        env.image (inboundPhase env effect env.frameData env.image st).state).state).state).exit
      = none := by
    unfold respondPhase
    rw [hh, Step.andThen_exit_of_exit_none hf.1]
    rfl
  refine ⟨?_, ?_, ?_, ?_, ?_⟩
  · rw [hr, hp]; exact hresp
  · rw [hr, hp]
    simp only [Step.after_state]
    rw [respondPhase_of_exit_none hresp]
  · rw [hr, hp]
    simp only [Step.after_state]
    rw [respondPhase_of_exit_none hresp]
    exact he
  · rw [hr, hp]
    simp only [Step.after_trace]
    rw [callsTo_append, callsTo_append,
      callsTo_eq_nil_of_calls (beforeRespond_calls env effect env.frameData env.image st _ _ _)
        (by decide)]
    unfold respondPhase
    rw [hh, Step.andThen_trace_of_exit_none hf.1, callsTo_append, hf.2]
    simp [callsTo, Event.call, List.enum, submission_congr env ht]
  · rw [hr, hp]
    simp only [Step.after_trace]
    rw [callsTo_append, callsTo_append, callsTo_append, callsTo_append, callsTo_append,
      callsTo_eq_nil_of_calls (inboundPhase_calls env effect env.frameData env.image st)
        (by decide),
      callsTo_eq_nil_of_calls (outputPhase_calls env effect env.frameData env.image _)
        (by decide),
      callsTo_eq_nil_of_calls (outboundPhase_calls env _) (by decide),
      callsTo_eq_nil_of_calls (respondPhase_calls env effect env.frameData _) (by decide),
      effectPhase_calls_of_succeeds hok]
    simp [callsTo, Event.call]

theorem frameRequest_succeeds (scene width height : Nat) :
    (frameRequest scene width height).FrameSucceeds :=
  { await := rfl, getFrameImageData := rfl, inputTexture := rfl, getFrameImage := rfl,
    mapInput := rfl, transferInput := rfl, unmapInput := rfl, setInputImage := rfl,
    outputTexture := rfl, fromD3DFormat := fun format => by cases format <;> rfl,
    setOutputImage := rfl, load := rfl, run := rfl, transferEffectOutput := rfl,
    mapOutput := rfl, transferOutput := rfl, unmapOutput := rfl }

theorem stateWithTwoStreams_reachable : Reachable stateWithTwoStreams :=
  Reachable.iterate _ _ Reachable.start (by decide)

/-- C8: in every reachable state whose cached enumeration holds K streams, a frame request
for an in-range scene in which every call succeeds (those before the stream loop, every
camera query and every submission) is processed to the end and calls `rs_sendFrame` exactly
K times, once per stream in the order of the enumeration, the call for stream `i` carrying
that stream's handle, the texture of the render target registered for the handle (there is
one), the camera data fetched for stream `i` and the `tTracked` of the request. -/
theorem fan_out_is_complete (env : Env) (st : PipelineState)
    (hreach : Reachable st)
    (hscene : env.frameData.scene < nScenes)
    (hok : env.FrameSucceeds)
    (hcam : ∀ i, env.getFrameCamera i = .RS_ERROR_SUCCESS)
    (hsend : ∀ i, env.sendFrame i = .RS_ERROR_SUCCESS) :
    let r := mainLoopBody env st
    r.exit = none ∧
    callsTo [.rs_sendFrame] r.trace =
      ((st.header.getD []).enum.map fun p => submission env st p.1 p.2) ∧
    (callsTo [.rs_sendFrame] r.trace).length = (st.header.getD []).length ∧
    (∀ d ∈ st.header.getD [],
      ∃ target, renderTargetsAt st.renderTargets d.handle = some target) := by
  intro r
  obtain ⟨effect, heff⟩ := hreach.configured.exists_effect hscene
  have h := mainLoopBody_of_succeeds env st effect hscene heff hreach.headerCovered hok
    hcam hsend
  simp only [] at h
  refine ⟨h.1, h.2.2.2.1, ?_, hreach.headerCovered⟩
  rw [h.2.2.2.1]; simp

theorem fan_out_is_complete_witness :
    Reachable stateWithTwoStreams ∧
    (frameRequest 3 640 360).frameData.scene < nScenes ∧
    (mainLoopBody (frameRequest 3 640 360) stateWithTwoStreams).exit = none ∧
    callsTo [.rs_sendFrame] (mainLoopBody (frameRequest 3 640 360) stateWithTwoStreams).trace =
      [.rs_sendFrame 11 (some 1) { tTracked := 42, camera := 100 } .RS_ERROR_SUCCESS,
       .rs_sendFrame 12 (some 5) { tTracked := 42, camera := 101 } .RS_ERROR_SUCCESS] :=
  have h := fan_out_is_complete (frameRequest 3 640 360) stateWithTwoStreams
    stateWithTwoStreams_reachable (by decide) (frameRequest_succeeds 3 640 360)
    (fun _ => rfl) (fun _ => rfl)
  ⟨stateWithTwoStreams_reachable, by decide, h.1, h.2.1⟩

/-! ## Recovery after an initialisation error -/

/-- A frame that reaches the run of the effect and whose run does not succeed: the frame is
skipped, nothing is submitted, the effect is marked unloaded exactly when the status is
`NVCV_ERR_INITIALIZATION`, and the streams and `lastScene` are as before. -/
theorem mainLoopBody_of_run_failed (env : Env) (st : PipelineState) (effect : Effect)
    (hawait : env.await = .RS_ERROR_SUCCESS)
    (hscene : env.frameData.scene < nScenes)
    (heff : st.effects[env.frameData.scene]? = some effect)
    (hdata : env.getFrameImageData = .RS_ERROR_SUCCESS)
    (hinbound : (inboundPhase env effect env.frameData env.image st).exit = none)
    (houtput : (outputPhase env effect env.frameData env.image
      (inboundPhase env effect env.frameData env.image st).state).exit = none)
    (hload : ¬(effect.loaded = false ∧ env.load ≠ .NVCV_SUCCESS))
    (hrun : env.run ≠ .NVCV_SUCCESS) :
    let r := mainLoopBody env st
    r.exit = some .skip ∧
    callsTo [.rs_sendFrame] r.trace = [] ∧
    r.state.effects = st.effects.set env.frameData.scene
      { effect with loaded := decide (env.run ≠ .NVCV_ERR_INITIALIZATION) } ∧
    r.state.header = st.header ∧ r.state.renderTargets = st.renderTargets ∧
    r.state.lastScene = st.lastScene := by
  intro r
  have hr : r = Step.after [.rs_awaitFrameData 5000 .RS_ERROR_SUCCESS,
      .rs_getFrameImageData env.frameData.scene .RS_ERROR_SUCCESS]
      (processImage env effect env.frameData env.image st) :=
    mainLoopBody_of_image hawait hscene heff hdata
  have hp := processImage_of_bound hinbound houtput
  have he := effectPhase_of_loaded env effect env.frameData
    (outputPhase env effect env.frameData env.image
      (inboundPhase env effect env.frameData env.image st).state).state hload
  simp only [] at he
  have hexit : (effectPhase env effect env.frameData
      (outputPhase env effect env.frameData env.image
        (inboundPhase env effect env.frameData env.image st).state).state).exit =
      some .skip := by
    rw [he.2.2.2, if_neg hrun]
  rw [Step.andThen_of_exit_some _ hexit] at hp
  have h2 := outputPhase_frame env effect env.frameData env.image
    (inboundPhase env effect env.frameData env.image st).state
  have h1 := inboundPhase_frame env effect env.frameData env.image st
  have h3 := effectPhase_frame env effect env.frameData
    (outputPhase env effect env.frameData env.image
      (inboundPhase env effect env.frameData env.image st).state).state
  simp only [] at h1 h2 h3
  refine ⟨?_, ?_, ?_, ?_, ?_, ?_⟩
  · rw [hr, hp]; exact hexit
  · rw [hr, hp]
    simp only [Step.after_trace]
    rw [callsTo_append, callsTo_append, callsTo_append,
      callsTo_eq_nil_of_calls (inboundPhase_calls env effect env.frameData env.image st)
        (by decide),
      callsTo_eq_nil_of_calls (outputPhase_calls env effect env.frameData env.image _)
        (by decide),
      callsTo_eq_nil_of_calls (effectPhase_calls env effect env.frameData _) (by decide)]
    simp [callsTo, Event.call]
  · rw [hr, hp]
    simp only [Step.after_state]
    rw [he.1, h2.1, h1.1]
  · rw [hr, hp]
    simp only [Step.after_state]
    rw [h3.1, h2.2.1, h1.2.1]
  · rw [hr, hp]
    simp only [Step.after_state]
    rw [h3.2.1, h2.2.2.1, h1.2.2.1]
  · rw [hr, hp]
    simp only [Step.after_state]
    rw [h3.2.2.2.2.2.2.2.2.1, h2.2.2.2.2.2.2, h1.2.2.2.2.2.2.2]

/-- C7: let frame N, in a reachable state, reach the run of the effect of scene `s` (its
inbound and output phases fall through and the model is loaded or loads) and let the run
return `NVCV_ERR_INITIALIZATION`; let frame N+1 name the same scene and let every call in it
succeed.  Then frame N is skipped without any `rs_sendFrame` call and leaves the effect
unloaded; frame N+1 calls `NvVFX_Load` exactly once, then `NvVFX_Run` exactly once, is
processed to the end of the stream loop with one submission per stream, records the scene in
`lastScene` and leaves the effect loaded. -/
theorem reload_after_initialization_error (envN envN1 : Env) (st : PipelineState)
    (effect : Effect)
    (hreach : Reachable st)
    (hawait : envN.await = .RS_ERROR_SUCCESS)
    (hscene : envN.frameData.scene < nScenes)
    (heff : st.effects[envN.frameData.scene]? = some effect)
    (hdata : envN.getFrameImageData = .RS_ERROR_SUCCESS)
    (hinbound : (inboundPhase envN effect envN.frameData envN.image st).exit = none)
    (houtput : (outputPhase envN effect envN.frameData envN.image
      (inboundPhase envN effect envN.frameData envN.image st).state).exit = none)
    (hload : effect.loaded = true ∨ envN.load = .NVCV_SUCCESS)
    (hrun : envN.run = .NVCV_ERR_INITIALIZATION)
    (hsame : envN1.frameData.scene = envN.frameData.scene)
    (hok : envN1.FrameSucceeds)
    (hcam : ∀ i, envN1.getFrameCamera i = .RS_ERROR_SUCCESS)
    (hsend : ∀ i, envN1.sendFrame i = .RS_ERROR_SUCCESS) :
    let rN := mainLoopBody envN st
    let rN1 := mainLoopBody envN1 rN.state
    rN.exit = some .skip ∧
    callsTo [.rs_sendFrame] rN.trace = [] ∧
    rN.state.effects[envN.frameData.scene]? = some { effect with loaded := false } ∧
    callsTo [.NvVFX_Load, .NvVFX_Run] rN1.trace =
      [.NvVFX_Load effect.effect .NVCV_SUCCESS, .NvVFX_Run effect.effect .NVCV_SUCCESS] ∧
    rN1.exit = none ∧
    (callsTo [.rs_sendFrame] rN1.trace).length = (st.header.getD []).length ∧
    rN1.state.lastScene = envN.frameData.scene ∧
    rN1.state.effects[envN.frameData.scene]? = some { effect with loaded := true } := by
  intro rN rN1
  have hl : ¬(effect.loaded = false ∧ envN.load ≠ .NVCV_SUCCESS) := by
    rintro ⟨h1, h2⟩
    rcases hload with h | h
    · rw [h1] at h; exact absurd h (by decide)
    · exact h2 h
  have hN := mainLoopBody_of_run_failed envN st effect hawait hscene heff hdata hinbound
    houtput hl (by rw [hrun]; decide)
  simp only [] at hN
  obtain ⟨hN1, hN2, hN3, hN4, hN5, -⟩ := hN
  have hlt := (List.getElem?_eq_some_iff.mp heff).1
  have heff' : rN.state.effects[envN1.frameData.scene]? =
      some { effect with loaded := false } := by
    rw [hsame, hN3, hrun]
    simp [List.getElem?_set, hlt]
  have hcover : HeaderCovered rN.state := by
    intro d hd
    rw [hN4] at hd
    rw [hN5]
    exact hreach.headerCovered d hd
  have hN' := mainLoopBody_of_succeeds envN1 rN.state { effect with loaded := false }
    (by rw [hsame]; exact hscene) heff' hcover hok hcam hsend
  simp only [] at hN'
  obtain ⟨hM1, hM2, hM3, hM4, hM5⟩ := hN'
  refine ⟨hN1, hN2, ?_, ?_, hM1, ?_, ?_, ?_⟩
  · rw [← hsame]; exact heff'
  · rw [hM5]; simp
  · rw [hM4, hN4]; simp
  · rw [hM2, hsame]
  · rw [hM3, hsame, hN3]
    simp [List.getElem?_set, hlt]

theorem effect_lifecycle_witness :
    (inboundPhase (runRequest 3 640 360 .NVCV_ERR_INITIALIZATION) (effects.get ⟨3, by decide⟩)
      (runRequest 3 640 360 .NVCV_ERR_INITIALIZATION).frameData
      (runRequest 3 640 360 .NVCV_ERR_INITIALIZATION).image stateWithTwoStreams).exit = none ∧
    callsTo [.NvVFX_Run]
      (mainLoopBody (runRequest 3 640 360 .NVCV_ERR_INITIALIZATION) stateWithTwoStreams).trace =
      [.NvVFX_Run .NVVFX_FX_SUPER_RES .NVCV_ERR_INITIALIZATION] ∧
    (mainLoopBody (runRequest 3 640 360 .NVCV_ERR_INITIALIZATION)
      stateWithTwoStreams).state.effects[3]? =
      some { effects.get ⟨3, by decide⟩ with loaded := false } :=
  have h := effect_lifecycle (runRequest 3 640 360 .NVCV_ERR_INITIALIZATION)
    stateWithTwoStreams (effects.get ⟨3, by decide⟩) rfl (by decide) (by decide) rfl
    (by decide) (by decide)
  ⟨by decide, (h.2.1 (by decide)).1, (h.2.1 (by decide)).2⟩

theorem reload_after_initialization_error_witness :
    Reachable stateWithTwoStreams ∧
    (runRequest 3 640 360 .NVCV_ERR_INITIALIZATION).run = .NVCV_ERR_INITIALIZATION ∧
    (mainLoopBody (runRequest 3 640 360 .NVCV_ERR_INITIALIZATION) stateWithTwoStreams).exit =
      some .skip ∧
    callsTo [.NvVFX_Load, .NvVFX_Run]
      (mainLoopBody (frameRequest 3 640 360)
        (mainLoopBody (runRequest 3 640 360 .NVCV_ERR_INITIALIZATION)
          stateWithTwoStreams).state).trace =
      [.NvVFX_Load .NVVFX_FX_SUPER_RES .NVCV_SUCCESS,
       .NvVFX_Run .NVVFX_FX_SUPER_RES .NVCV_SUCCESS] ∧
    (mainLoopBody (frameRequest 3 640 360)
      (mainLoopBody (runRequest 3 640 360 .NVCV_ERR_INITIALIZATION)
        stateWithTwoStreams).state).exit = none :=
  have h := reload_after_initialization_error
    (runRequest 3 640 360 .NVCV_ERR_INITIALIZATION) (frameRequest 3 640 360)
    stateWithTwoStreams (effects.get ⟨3, by decide⟩) stateWithTwoStreams_reachable rfl
    (by decide) (by decide) rfl (by decide) (by decide) (Or.inr rfl) rfl rfl
    (frameRequest_succeeds 3 640 360) (fun _ => rfl) (fun _ => rfl)
  ⟨stateWithTwoStreams_reachable, rfl, h.1, h.2.2.2.1, h.2.2.2.2.1⟩

/-! ## Which iterations reach the stream loop -/

theorem getStreamsRetry_calls (results : Nat → RS_ERROR) (iterations remaining : Nat) :
    ∀ e ∈ (getStreamsRetry results iterations remaining).2, e.call ∈ [Call.rs_getStreams] := by
  induction remaining generalizing iterations with
  | zero => simp [getStreamsRetry, Event.call]
  | succ n ih =>
    unfold getStreamsRetry
    simp only []
    split
    · simp [Event.call]
    · split
      · intro e he
        simp only [List.mem_cons] at he
        rcases he with rfl | he
        · simp [Event.call]
        · exact ih _ e he
      · simp [Event.call]

theorem getStreams_calls (env : Env) :
    ∀ e ∈ (getStreams env).2, e.call ∈ [Call.rs_getStreams] := by
  have h := getStreamsRetry_calls env.getStreamsResult 0 (MAX_TRIES - 1)
  unfold getStreams
  simp only []
  split
  · intro e he
    simp only [List.mem_cons] at he
    rcases he with rfl | he
    · simp [Event.call]
    · exact h e he
  · split
    · intro e he
      simp only [List.mem_cons] at he
      rcases he with rfl | he
      · simp [Event.call]
      · exact h e he
    · intro e he
      simp only [List.mem_cons] at he
      rcases he with rfl | he
      · simp [Event.call]
      · exact h e he

theorem createRenderTargets_calls (env : Env) (i : Nat) (streams : List StreamDescription)
    (st : PipelineState) :
    ∀ e ∈ (createRenderTargets env i streams st).trace,
      e.call ∈ [Call.CreateTexture2D, .CreateRenderTargetView, .CreateDepthStencilView] := by
  induction streams generalizing i st with
  | nil => simp [createRenderTargets]
  | cons d rest ih =>
    unfold createRenderTargets
    simp only []
    split
    · simp [Event.call]
    · split
      · simp [Event.call]
      · split
        · simp [Event.call]
        · split
          · simp [Event.call]
          · intro e he
            simp only [Step.after_trace, List.mem_append, List.mem_cons, List.mem_singleton,
              List.not_mem_nil, or_false] at he
            rcases he with (rfl | rfl | rfl | rfl) | he
            · simp [Event.call]
            · simp [Event.call]
            · simp [Event.call]
            · simp [Event.call]
            · exact ih _ _ e he

/-- The functions called by an iteration that does not handle a frame request. -/
theorem streamsChanged_calls (env : Env) (st : PipelineState) :
    ∀ e ∈ (streamsChanged env st).trace,
      e.call ∈ [Call.rs_getStreams, .CreateTexture2D, .CreateRenderTargetView,
        .CreateDepthStencilView, .tcerr, .tcout, .NvVFX_DestroyEffect,
        .NvVFX_CudaStreamDestroy, .rs_shutdown] := by
  have hg := getStreams_calls env
  unfold streamsChanged
  split
  · next what trace heq =>
    rw [heq] at hg
    intro e he
    simp only [Step.leave_trace, List.mem_append, List.mem_singleton] at he
    rcases he with (he | rfl) | he
    · exact calls_mono hg (by decide) e he
    · simp [Event.call]
    · exact calls_mono (releaseAll_calls env st) (by decide) e he
  · next streams trace heq =>
    rw [heq] at hg
    simp only []
    have hc := createRenderTargets_calls env 0 streams { st with header := some streams }
    split
    · intro e he
      simp only [Step.leave_trace, List.mem_append, List.mem_singleton] at he
      rcases he with ((he | he) | rfl) | he
      · exact calls_mono hg (by decide) e he
      · exact calls_mono hc (by decide) e he
      · simp [Event.call]
      · exact calls_mono (releaseAll_calls env _) (by decide) e he
    · intro e he
      simp only [Step.leave_trace, List.mem_append, List.mem_singleton] at he
      rcases he with (he | he) | rfl
      · exact calls_mono hg (by decide) e he
      · exact calls_mono hc (by decide) e he
      · simp [Event.call]

/-- The functions only the stream loop calls. -/
theorem respondCalls_subset :
    ∀ c ∈ [Call.rs_getFrameCamera, .rs_sendFrame] ++ drawCalls,
      c ∉ [Call.rs_awaitFrameData, .rs_getFrameImageData, .CreateTexture2D,
        .CreateShaderResourceView, .NvCVImage_InitFromD3D11Texture, .makeNvCVImage,
        .rs_getFrameImage, .NvCVImage_MapResource, .NvCVImage_Transfer,
        .NvCVImage_UnmapResource, .NvVFX_SetImage, .rs_logToD3, .NvCVImage_FromD3DFormat,
        .tcerr, .tcout, .NvVFX_DestroyEffect, .NvVFX_CudaStreamDestroy, .rs_shutdown,
        .NvVFX_Load, .NvVFX_Run, .rs_getStreams, .CreateRenderTargetView,
        .CreateDepthStencilView] := by
  decide

/-- An iteration that calls a function of the stream loop handles a frame request for an
in-range scene, and its first four phases fall through. -/
theorem mainLoopBody_reaches_respond {env : Env} {st : PipelineState} {e : Event}
    (he : e ∈ (mainLoopBody env st).trace)
    (hc : e.call ∈ [Call.rs_getFrameCamera, .rs_sendFrame] ++ drawCalls) :
    env.await = .RS_ERROR_SUCCESS ∧ env.frameData.scene < nScenes ∧
    env.getFrameImageData = .RS_ERROR_SUCCESS ∧
    ∃ effect, st.effects[env.frameData.scene]? = some effect ∧
      (inboundPhase env effect env.frameData env.image st).exit = none ∧
      (outputPhase env effect env.frameData env.image
        (inboundPhase env effect env.frameData env.image st).state).exit = none ∧
      (effectPhase env effect env.frameData (outputPhase env effect env.frameData env.image
        (inboundPhase env effect env.frameData env.image st).state).state).exit = none ∧
      (outboundPhase env (effectPhase env effect env.frameData
        (outputPhase env effect env.frameData env.image
          (inboundPhase env effect env.frameData env.image st).state).state).state).exit =
        none := by
  have key : ∀ {tr : List Event} {l : List Call}, (∀ x ∈ tr, x.call ∈ l) →
      (∀ c ∈ [Call.rs_getFrameCamera, .rs_sendFrame] ++ drawCalls, c ∉ l) → e ∉ tr :=
    fun h hd hmem => hd _ hc (h e hmem)
  unfold mainLoopBody at he
  simp only [] at he
  split at he
  · simp only [Step.after_trace, List.mem_append, List.mem_singleton] at he
    rcases he with rfl | he
    · simp [Event.call, drawCalls] at hc
    · exact absurd he (key (streamsChanged_calls env st) (by decide))
  · split at he
    · simp only [Step.leave_trace, List.mem_singleton] at he
      subst he
      simp [Event.call, drawCalls] at hc
    · split at he
      · simp only [Step.after_trace, shutdownAfterLoop, List.mem_append, List.mem_cons,
          List.mem_singleton, List.not_mem_nil, or_false] at he
        rcases he with (rfl | rfl) | he
        · simp [Event.call, drawCalls] at hc
        · simp [Event.call, drawCalls] at hc
        · split at he
          · simp only [Step.leave_trace, List.mem_append, List.mem_singleton] at he
            rcases he with he | rfl
            · exact absurd he (key (releaseAll_calls env st) (by decide))
            · simp [Event.call, drawCalls] at hc
          · simp only [Step.leave_trace] at he
            exact absurd he (key (releaseAll_calls env st) (by decide))
      · next h1 h2 h3 =>
        have hawait : env.await = .RS_ERROR_SUCCESS := by simpa using h3
        refine ⟨hawait, ?_⟩
        simp only [Step.after_trace, List.mem_append, List.mem_singleton] at he
        rcases he with rfl | he
        · simp [Event.call, drawCalls] at hc
        · unfold processFrame at he
          simp only [] at he
          split at he
          · simp only [Step.leave_trace, List.mem_singleton] at he
            subst he
            simp [Event.call, drawCalls] at hc
          · next hs =>
            split at he
            · simp at he
            · next effect heff =>
              split at he
              · simp only [Step.leave_trace, List.mem_cons, List.mem_singleton,
                  List.not_mem_nil, or_false] at he
                rcases he with rfl | rfl <;> simp [Event.call, drawCalls] at hc
              · next hd =>
                refine ⟨by omega, by simpa using hd, effect, heff, ?_⟩
                simp only [Step.after_trace, List.mem_append, List.mem_singleton] at he
                rcases he with rfl | he
                · simp [Event.call, drawCalls] at hc
                · unfold processImage at he
                  cases h1 : (inboundPhase env effect env.frameData env.image st).exit with
                  | some x =>
                    rw [Step.andThen_of_exit_some _ h1] at he
                    exact absurd he (key (inboundPhase_calls _ _ _ _ _) (by decide))
                  | none =>
                    rw [Step.andThen_of_exit_none _ h1] at he
                    simp only [Step.after_trace, List.mem_append] at he
                    rcases he with he | he
                    · exact absurd he (key (inboundPhase_calls _ _ _ _ _) (by decide))
                    cases h2 : (outputPhase env effect env.frameData env.image
                        (inboundPhase env effect env.frameData env.image st).state).exit with
                    | some x =>
                      rw [Step.andThen_of_exit_some _ h2] at he
                      exact absurd he (key (outputPhase_calls _ _ _ _ _) (by decide))
                    | none =>
                      rw [Step.andThen_of_exit_none _ h2] at he
                      simp only [Step.after_trace, List.mem_append] at he
                      rcases he with he | he
                      · exact absurd he (key (outputPhase_calls _ _ _ _ _) (by decide))
                      cases h3 : (effectPhase env effect env.frameData
                          (outputPhase env effect env.frameData env.image
                            (inboundPhase env effect env.frameData env.image
                              st).state).state).exit with
                      | some x =>
                        rw [Step.andThen_of_exit_some _ h3] at he
                        exact absurd he (key (effectPhase_calls _ _ _ _) (by decide))
                      | none =>
                        rw [Step.andThen_of_exit_none _ h3] at he
                        simp only [Step.after_trace, List.mem_append] at he
                        rcases he with he | he
                        · exact absurd he (key (effectPhase_calls _ _ _ _) (by decide))
                        cases h4 : (outboundPhase env (effectPhase env effect env.frameData
                            (outputPhase env effect env.frameData env.image
                              (inboundPhase env effect env.frameData env.image
                                st).state).state).state).exit with
                        | some x =>
                          rw [Step.andThen_of_exit_some _ h4] at he
                          exact absurd he (key (outboundPhase_calls _ _) (by decide))
                        | none => exact ⟨rfl, rfl, rfl, rfl⟩

/-! ## A submission that fails -/

/-- A failed `rs_sendFrame` in the stream loop is followed by the error line and the release
sequence, and the loop leaves with exit code 8. -/
theorem fanOut_failed_send (env : Env) (effect : Effect) (fd : FrameData)
    (st : PipelineState) (i : Nat) (streams : List StreamDescription)
    {handle : StreamHandle} {resource : Option Nat} {response : CameraResponseData}
    {result : RS_ERROR}
    (he : Event.rs_sendFrame handle resource response result ∈
      (fanOut env effect fd st i streams).trace)
    (hfail : result ≠ .RS_ERROR_SUCCESS) :
    (fanOut env effect fd st i streams).exit = some (.exit 8) ∧
    ∃ before, (fanOut env effect fd st i streams).trace =
      before ++ ([.rs_sendFrame handle resource response result, .tcerr .sendFrameFailed] ++
        releaseAll env st) := by
  induction streams generalizing i with
  | nil => simp [fanOut] at he
  | cons d rest ih =>
    unfold fanOut at he ⊢
    simp only [] at he ⊢
    split
    · next hcam =>
      rw [if_pos hcam] at he
      split
      · next hnone =>
        simp [hnone] at he
      · next target hsome =>
        simp only [hsome] at he
        split
        · next hs =>
          rw [if_pos hs] at he
          simp only [Step.leave_trace, List.cons_append, List.mem_cons,
            List.mem_append, List.mem_singleton, List.not_mem_nil, or_false] at he
          refine ⟨rfl, ?_⟩
          rcases he with he | (he | he | he) | he
          · cases he
          · simp [drawQuad] at he
          · refine ⟨.rs_getFrameCamera d.handle (env.getFrameCamera i) ::
              drawQuad effect st d target, ?_⟩
            rw [he]
            simp [Step.leave]
          · cases he
          · have := releaseAll_calls env st _ he
            simp [Event.call] at this
        · next hs =>
          rw [if_neg hs] at he
          simp only [Step.after_trace, List.cons_append, List.mem_cons,
            List.mem_append, List.mem_singleton, List.not_mem_nil, or_false] at he
          have hs' : env.sendFrame i = .RS_ERROR_SUCCESS := by simpa using hs
          rcases he with he | (he | he) | he
          · cases he
          · simp [drawQuad] at he
          · injection he with _ _ _ h4
            exact absurd (h4.trans hs') hfail
          · obtain ⟨hexit, before, hb⟩ := ih (i + 1) he
            refine ⟨by simpa using hexit, ?_⟩
            refine ⟨(.rs_getFrameCamera d.handle (env.getFrameCamera i) ::
              drawQuad effect st d target ++ [.rs_sendFrame d.handle
                (target.texture.map (·.ptr))
                { tTracked := fd.tTracked, camera := env.camera i } (env.sendFrame i)]) ++
              before, ?_⟩
            simp only [Step.after_trace, hb, List.append_assoc]
    · next hcam =>
      rw [if_neg hcam] at he
      simp only [Step.after_trace, List.mem_append, List.mem_singleton] at he
      rcases he with he | he
      · cases he
      · obtain ⟨hexit, before, hb⟩ := ih (i + 1) he
        refine ⟨by simpa using hexit, ?_⟩
        exact ⟨[.rs_getFrameCamera d.handle (env.getFrameCamera i)] ++ before, by
          simp only [Step.after_trace, hb, List.append_assoc]⟩

theorem destroyEffects_of_declared {es : List Effect}
    (h : es.map Effect.declared = effects) :
    destroyEffects es =
      [.NvVFX_DestroyEffect .NVVFX_FX_TRANSFER, .NvVFX_DestroyEffect .NVVFX_FX_GREEN_SCREEN,
       .NvVFX_DestroyEffect .NVVFX_FX_ARTIFACT_REDUCTION,
       .NvVFX_DestroyEffect .NVVFX_FX_SUPER_RES, .NvVFX_DestroyEffect .NVVFX_FX_SR_UPSCALE] := by
  have h1 : destroyEffects es =
      (es.map Effect.declared).map fun e => Event.NvVFX_DestroyEffect e.effect := by
    simp [destroyEffects, Effect.declared, Function.comp_def]
  rw [h1, h]
  rfl

/-- C10: in a reachable state, if an iteration makes an `rs_sendFrame` call that does not
return success, then `main` returns 8 in that iteration; the failed call is followed by
exactly the error line, one `NvVFX_DestroyEffect` for each of the five effects,
`NvVFX_CudaStreamDestroy` and `rs_shutdown`, so nothing is drawn or submitted after it;
and `lastScene` is the one the iteration found. -/
theorem submission_failure_is_fatal (env : Env) (st : PipelineState)
    (hreach : Reachable st)
    (handle : StreamHandle) (resource : Option Nat) (response : CameraResponseData)
    (result : RS_ERROR)
    (he : Event.rs_sendFrame handle resource response result ∈ (mainLoopBody env st).trace)
    (hfail : result ≠ .RS_ERROR_SUCCESS) :
    let r := mainLoopBody env st
    r.exit = some (.exit 8) ∧
    (∃ before, r.trace = before ++
      [.rs_sendFrame handle resource response result, .tcerr .sendFrameFailed,
       .NvVFX_DestroyEffect .NVVFX_FX_TRANSFER, .NvVFX_DestroyEffect .NVVFX_FX_GREEN_SCREEN,
       .NvVFX_DestroyEffect .NVVFX_FX_ARTIFACT_REDUCTION,
       .NvVFX_DestroyEffect .NVVFX_FX_SUPER_RES, .NvVFX_DestroyEffect .NVVFX_FX_SR_UPSCALE,
       .NvVFX_CudaStreamDestroy, .rs_shutdown env.shutdown]) ∧
    r.state.lastScene = st.lastScene := by
  intro r
  obtain ⟨hawait, hscene, hdata, effect, heff, h1, h2, h3, h4⟩ :=
    mainLoopBody_reaches_respond he (by simp [Event.call])
  have hr : r = Step.after [.rs_awaitFrameData 5000 .RS_ERROR_SUCCESS,
      .rs_getFrameImageData env.frameData.scene .RS_ERROR_SUCCESS]
      (processImage env effect env.frameData env.image st) :=
    mainLoopBody_of_image hawait hscene heff hdata
  have hp := processImage_of_phases h1 h2 h3 h4
  have he' : Event.rs_sendFrame handle resource response result ∈ r.trace := he
  rw [hr, hp] at he'
  simp only [Step.after_trace, List.mem_append, List.mem_cons, List.mem_singleton,
    List.not_mem_nil, or_false] at he'
  have hfan : Event.rs_sendFrame handle resource response result ∈
      (fanOut env effect env.frameData
        (effectPhase env effect env.frameData (outputPhase env effect env.frameData env.image
          (inboundPhase env effect env.frameData env.image st).state).state).state 0
        ((effectPhase env effect env.frameData (outputPhase env effect env.frameData env.image
          (inboundPhase env effect env.frameData env.image st).state).state).state.header.getD
          [])).trace := by
    rcases he' with (he' | he') | he'
    · cases he'
    · cases he'
    rcases he' with he' | he'
    · have := beforeRespond_calls env effect env.frameData env.image st _ _ _ _
        (by simp only [List.mem_append]; exact he')
      simp [Event.call] at this
    · unfold respondPhase at he'
      cases hx : (fanOut env effect env.frameData
        (effectPhase env effect env.frameData (outputPhase env effect env.frameData env.image
          (inboundPhase env effect env.frameData env.image st).state).state).state 0
        ((effectPhase env effect env.frameData (outputPhase env effect env.frameData env.image
          (inboundPhase env effect env.frameData env.image st).state).state).state.header.getD
          [])).exit with
      | none =>
        rw [Step.andThen_trace_of_exit_none hx] at he'
        simpa using he'
      | some x =>
        rw [Step.andThen_of_exit_some _ hx] at he'
        exact he'
  obtain ⟨hexit, before, hb⟩ := fanOut_failed_send _ _ _ _ _ _ hfan hfail
  have hresp : respondPhase env effect env.frameData
      (effectPhase env effect env.frameData (outputPhase env effect env.frameData env.image
        (inboundPhase env effect env.frameData env.image st).state).state).state =
      fanOut env effect env.frameData
        (effectPhase env effect env.frameData (outputPhase env effect env.frameData env.image
          (inboundPhase env effect env.frameData env.image st).state).state).state 0
        ((effectPhase env effect env.frameData (outputPhase env effect env.frameData env.image
          (inboundPhase env effect env.frameData env.image st).state).state).state.header.getD
          []) := by
    unfold respondPhase
    exact Step.andThen_of_exit_some _ hexit
  have hdecl : (effectPhase env effect env.frameData (outputPhase env effect env.frameData
      env.image (inboundPhase env effect env.frameData env.image
        st).state).state).state.effects.map Effect.declared = effects := by
    rw [effectPhase_declared heff (by
      rw [(outputPhase_frame env effect env.frameData env.image _).1,
        (inboundPhase_frame env effect env.frameData env.image st).1])]
    exact hreach.configured
  refine ⟨?_, ?_, ?_⟩
  · rw [hr, hp, hresp]; exact hexit
  · have happ : ∀ (x y z : List Event), (∃ b, y = b ++ z) → ∃ b, x ++ y = b ++ z :=
      fun x y z ⟨b, h⟩ => ⟨x ++ b, by rw [h, List.append_assoc]⟩
    rw [hr, hp, hresp]
    simp only [Step.after_trace]
    refine happ _ _ _ (happ _ _ _ ⟨before, ?_⟩)
    rw [hb]
    simp only [releaseAll, destroyEffects_of_declared hdecl, List.cons_append,
      List.nil_append]
  · rw [hr, hp, hresp]
    simp only [Step.after_state, fanOut_state]
    rw [(effectPhase_frame env effect env.frameData _).2.2.2.2.2.2.2.2.1,
      (outputPhase_frame env effect env.frameData env.image _).2.2.2.2.2.2,
      (inboundPhase_frame env effect env.frameData env.image st).2.2.2.2.2.2.2]

theorem submission_failure_is_fatal_witness :
    Reachable stateWithTwoStreams ∧
    Event.rs_sendFrame 11 (some 1) { tTracked := 42, camera := 100 } (.other 1) ∈
      (mainLoopBody (sendFailure 3 640 360 0) stateWithTwoStreams).trace ∧
    (mainLoopBody (sendFailure 3 640 360 0) stateWithTwoStreams).exit = some (.exit 8) ∧
    (mainLoopBody (sendFailure 3 640 360 0) stateWithTwoStreams).state.lastScene = 0 :=
  have h := submission_failure_is_fatal (sendFailure 3 640 360 0) stateWithTwoStreams
    stateWithTwoStreams_reachable 11 (some 1) { tTracked := 42, camera := 100 } (.other 1)
    (by decide) (by decide)
  ⟨stateWithTwoStreams_reachable, by decide, h.1, h.2.2⟩

/-! ## A stream without camera data -/

/-- When no submission fails and every stream has a render target, the stream loop runs to
its end and makes, stream by stream, the calls of `streamCalls`. -/
theorem fanOut_of_sends (env : Env) (effect : Effect) (st : PipelineState)
    (hsend : ∀ i, env.getFrameCamera i = .RS_ERROR_SUCCESS →
      env.sendFrame i = .RS_ERROR_SUCCESS)
    (i : Nat) (streams : List StreamDescription)
    (hcover : ∀ d ∈ streams, ∃ target, renderTargetsAt st.renderTargets d.handle = some target) :
    (fanOut env effect env.frameData st i streams).exit = none ∧
    (fanOut env effect env.frameData st i streams).trace =
      (streams.enumFrom i).flatMap fun p => streamCalls env effect st p.1 p.2 := by
  induction streams generalizing i with
  | nil => simp [fanOut]
  | cons d rest ih =>
    obtain ⟨target, ht⟩ := hcover d (List.mem_cons_self _ _)
    have ih' := ih (i + 1) fun d' hd' => hcover d' (List.mem_cons_of_mem _ hd')
    unfold fanOut
    by_cases hcam : env.getFrameCamera i = .RS_ERROR_SUCCESS
    · simp only [hcam, hsend i hcam, ht, if_true, ne_eq, not_true_eq_false, if_false,
        Step.after_exit, Step.after_trace, List.enumFrom_cons, List.flatMap_cons]
      refine ⟨ih'.1, ?_⟩
      rw [ih'.2]
      simp [streamCalls, hcam, ht, submission, hsend i hcam]
    · simp only [hcam, if_false, Step.after_exit, Step.after_trace, List.enumFrom_cons,
        List.flatMap_cons]
      refine ⟨ih'.1, ?_⟩
      rw [ih'.2]
      simp [streamCalls, hcam]

/-- The stream loop at a stream whose camera query fails: the query, then the rest. -/
theorem fanOut_cons_of_query_failed (env : Env) (effect : Effect) (fd : FrameData)
    (st : PipelineState) (i : Nat) (d : StreamDescription) (rest : List StreamDescription)
    (hcam : env.getFrameCamera i ≠ .RS_ERROR_SUCCESS) :
    fanOut env effect fd st i (d :: rest) =
      Step.after [.rs_getFrameCamera d.handle (env.getFrameCamera i)]
        (fanOut env effect fd st (i + 1) rest) := by
  rw [fanOut]; simp only []; rw [if_neg hcam]

/-- The stream loop at a stream that is sent its frame. -/
theorem fanOut_cons_of_sent (env : Env) (effect : Effect) (fd : FrameData)
    (st : PipelineState) (i : Nat) (d : StreamDescription) (rest : List StreamDescription)
    {target : RenderTarget}
    (hcam : env.getFrameCamera i = .RS_ERROR_SUCCESS)
    (ht : renderTargetsAt st.renderTargets d.handle = some target)
    (hs : env.sendFrame i = .RS_ERROR_SUCCESS) :
    fanOut env effect fd st i (d :: rest) =
      Step.after
        (.rs_getFrameCamera d.handle (env.getFrameCamera i) ::
          drawQuad effect st d target ++
          [.rs_sendFrame d.handle (target.texture.map (·.ptr))
            { tTracked := fd.tTracked, camera := env.camera i } (env.sendFrame i)])
        (fanOut env effect fd st (i + 1) rest) := by
  rw [fanOut]; simp only [ht]; rw [if_pos hcam, if_neg (by simp [hs])]

/-- The stream loop at a stream whose submission fails. -/
theorem fanOut_cons_of_send_failed (env : Env) (effect : Effect) (fd : FrameData)
    (st : PipelineState) (i : Nat) (d : StreamDescription) (rest : List StreamDescription)
    {target : RenderTarget}
    (hcam : env.getFrameCamera i = .RS_ERROR_SUCCESS)
    (ht : renderTargetsAt st.renderTargets d.handle = some target)
    (hs : env.sendFrame i ≠ .RS_ERROR_SUCCESS) :
    fanOut env effect fd st i (d :: rest) =
      Step.leave st
        (.rs_getFrameCamera d.handle (env.getFrameCamera i) ::
          drawQuad effect st d target ++
          [.rs_sendFrame d.handle (target.texture.map (·.ptr))
            { tTracked := fd.tTracked, camera := env.camera i } (env.sendFrame i),
           .tcerr .sendFrameFailed] ++ releaseAll env st)
        (.exit 8) := by
  rw [fanOut]; simp only [ht]; rw [if_pos hcam, if_pos hs]

/-- The stream loop at a stream whose handle has no render target. -/
theorem fanOut_cons_of_no_target (env : Env) (effect : Effect) (fd : FrameData)
    (st : PipelineState) (i : Nat) (d : StreamDescription) (rest : List StreamDescription)
    (hcam : env.getFrameCamera i = .RS_ERROR_SUCCESS)
    (ht : renderTargetsAt st.renderTargets d.handle = none) :
    fanOut env effect fd st i (d :: rest) =
      Step.leave st [.rs_getFrameCamera d.handle (env.getFrameCamera i)]
        (.uncaught "unordered_map::at") := by
  rw [fanOut]; simp only [ht]; rw [if_pos hcam]

/-- The stream loop reads `lastScene` nowhere. -/
theorem fanOut_lastScene (env : Env) (effect : Effect) (fd : FrameData) (st : PipelineState)
    (scene : Nat) (i : Nat) (streams : List StreamDescription) :
    (fanOut env effect fd { st with lastScene := scene } i streams).trace =
      (fanOut env effect fd st i streams).trace ∧
    (fanOut env effect fd { st with lastScene := scene } i streams).exit =
      (fanOut env effect fd st i streams).exit := by
  induction streams generalizing i with
  | nil => exact ⟨rfl, rfl⟩
  | cons d rest ih =>
    by_cases hcam : env.getFrameCamera i = .RS_ERROR_SUCCESS
    · cases ht : renderTargetsAt st.renderTargets d.handle with
      | none =>
        rw [fanOut_cons_of_no_target env effect fd { st with lastScene := scene } i d rest hcam ht,
          fanOut_cons_of_no_target env effect fd st i d rest hcam ht]
        exact ⟨rfl, rfl⟩
      | some target =>
        by_cases hs : env.sendFrame i = .RS_ERROR_SUCCESS
        · rw [fanOut_cons_of_sent env effect fd { st with lastScene := scene } i d rest hcam ht hs,
            fanOut_cons_of_sent env effect fd st i d rest hcam ht hs]
          simp only [Step.after_trace, Step.after_exit, (ih (i + 1)).1, (ih (i + 1)).2]
          exact ⟨rfl, trivial⟩
        · rw [fanOut_cons_of_send_failed env effect fd { st with lastScene := scene } i d rest hcam ht hs,
            fanOut_cons_of_send_failed env effect fd st i d rest hcam ht hs]
          exact ⟨rfl, rfl⟩
    · rw [fanOut_cons_of_query_failed env effect fd { st with lastScene := scene } i d rest hcam,
        fanOut_cons_of_query_failed env effect fd st i d rest hcam]
      simp only [Step.after_trace, Step.after_exit, (ih (i + 1)).1, (ih (i + 1)).2]
      exact ⟨trivial, trivial⟩

/-- A failed camera query in the stream loop belongs to one stream of the enumeration, and
is followed at once by the loop over the streams after it. -/
theorem fanOut_failed_query (env : Env) (effect : Effect) (fd : FrameData)
    (st : PipelineState) (i : Nat) (streams : List StreamDescription)
    {handle : StreamHandle} {result : RS_ERROR}
    (he : Event.rs_getFrameCamera handle result ∈ (fanOut env effect fd st i streams).trace)
    (hfail : result ≠ .RS_ERROR_SUCCESS) :
    ∃ earlier d later before,
      streams = earlier ++ d :: later ∧ d.handle = handle ∧
      env.getFrameCamera (i + earlier.length) = result ∧
      (fanOut env effect fd st i streams).trace =
        before ++ .rs_getFrameCamera handle result ::
          (fanOut env effect fd st (i + earlier.length + 1) later).trace ∧
      (fanOut env effect fd st i streams).exit =
        (fanOut env effect fd st (i + earlier.length + 1) later).exit := by
  induction streams generalizing i with
  | nil => simp [fanOut] at he
  | cons d rest ih =>
    have step : ∀ pre : List Event,
        Event.rs_getFrameCamera handle result ∈ (fanOut env effect fd st (i + 1) rest).trace →
        (fanOut env effect fd st i (d :: rest)) =
          Step.after pre (fanOut env effect fd st (i + 1) rest) →
        ∃ earlier d' later before,
          d :: rest = earlier ++ d' :: later ∧ d'.handle = handle ∧
          env.getFrameCamera (i + earlier.length) = result ∧
          (fanOut env effect fd st i (d :: rest)).trace =
            before ++ .rs_getFrameCamera handle result ::
              (fanOut env effect fd st (i + earlier.length + 1) later).trace ∧
          (fanOut env effect fd st i (d :: rest)).exit =
            (fanOut env effect fd st (i + earlier.length + 1) later).exit := by
      intro pre hmem heq
      obtain ⟨earlier, d', later, before, h1, h2, h3, h4, h5⟩ := ih (i + 1) hmem
      have e1 : i + (d :: earlier).length = i + 1 + earlier.length := by
        simp only [List.length_cons]; omega
      refine ⟨d :: earlier, d', later, pre ++ before, ?_, h2, ?_, ?_, ?_⟩
      · rw [h1]; rfl
      · rw [e1]; exact h3
      · rw [e1, heq, Step.after_trace, h4, List.append_assoc]
      · rw [e1, heq, Step.after_exit, h5]
    by_cases hcam : env.getFrameCamera i = .RS_ERROR_SUCCESS
    · cases ht : renderTargetsAt st.renderTargets d.handle with
      | none =>
        rw [fanOut_cons_of_no_target env effect fd st i d rest hcam ht] at he
        simp only [Step.leave_trace, List.mem_singleton] at he
        injection he with _ h2
        exact absurd (h2.trans hcam) hfail
      | some target =>
        by_cases hs : env.sendFrame i = .RS_ERROR_SUCCESS
        · have heq := fanOut_cons_of_sent env effect fd st i d rest hcam ht hs
          rw [heq] at he
          simp only [Step.after_trace, List.cons_append, List.mem_cons,
            List.mem_append, List.mem_singleton, List.not_mem_nil, or_false] at he
          rcases he with he | (he | he) | he
          · injection he with _ h2
            exact absurd (h2.trans hcam) hfail
          · simp [drawQuad] at he
          · cases he
          · exact step _ he heq
        · rw [fanOut_cons_of_send_failed env effect fd st i d rest hcam ht hs] at he
          simp only [Step.leave_trace, List.cons_append, List.mem_cons,
            List.mem_append, List.mem_singleton, List.not_mem_nil, or_false] at he
          rcases he with he | (he | he | he) | he
          · injection he with _ h2
            exact absurd (h2.trans hcam) hfail
          · simp [drawQuad] at he
          · cases he
          · cases he
          · have := releaseAll_calls env st _ he
            simp [Event.call] at this
    · have heq := fanOut_cons_of_query_failed env effect fd st i d rest hcam
      have he' := he
      rw [heq] at he'
      simp only [Step.after_trace, List.mem_append, List.mem_singleton] at he'
      rcases he' with he' | he'
      · injection he' with h1 h2
        refine ⟨[], d, rest, [], rfl, h1.symm, by simpa using h2.symm, ?_, ?_⟩
        · rw [heq, h1, h2]; rfl
        · rw [heq]; rfl
      · exact step _ he' heq

/-- The respond phase makes the calls of the stream loop and leaves as the loop does. -/
theorem respondPhase_eq_fanOut (env : Env) (effect : Effect) (fd : FrameData)
    (st : PipelineState) :
    (respondPhase env effect fd st).trace =
      (fanOut env effect fd st 0 (st.header.getD [])).trace ∧
    (respondPhase env effect fd st).exit =
      (fanOut env effect fd st 0 (st.header.getD [])).exit ∧
    (respondPhase env effect fd st).state =
      { st with lastScene := (respondPhase env effect fd st).state.lastScene } := by
  unfold respondPhase
  cases hx : (fanOut env effect fd st 0 (st.header.getD [])).exit with
  | none =>
    rw [Step.andThen_of_exit_none _ hx]
    simp
  | some x =>
    rw [Step.andThen_of_exit_some _ hx]
    simp [hx]

/-- C9 (counterexample): two streams, scene 3 at 640x360; the camera query of stream 0 fails
and the submission of stream 1 fails.  The iteration returns 8 and `lastScene` is still 0. -/
theorem missing_camera_then_failed_submission :
    (cameraAndSendFailure 3 640 360).getFrameCamera 0 ≠ .RS_ERROR_SUCCESS ∧
    Event.rs_getFrameCamera 11 (.other 1) ∈
      (mainLoopBody (cameraAndSendFailure 3 640 360) stateWithTwoStreams).trace ∧
    (mainLoopBody (cameraAndSendFailure 3 640 360) stateWithTwoStreams).exit =
      some (.exit 8) ∧
    (mainLoopBody (cameraAndSendFailure 3 640 360) stateWithTwoStreams).state.lastScene = 0 := by
  decide

/-- C9 (amended): in a reachable state, let an iteration make an `rs_getFrameCamera` call
that does not return success.  The call is the query of one stream of the cached
enumeration; it is followed at once by the stream loop over the streams after that one, so
nothing is cleared, drawn or submitted for the stream, and the iteration leaves the loop body
exactly as the loop over the remaining streams does.  If moreover no submission fails (every
stream whose camera query succeeds is sent successfully), the iteration reaches the end of
the loop body, sets `lastScene` to the processed scene, and its calls from the first camera
query on are, stream by stream in the order of the enumeration, those of `streamCalls`. -/
theorem missing_camera_skips_stream (env : Env) (st : PipelineState)
    (hreach : Reachable st)
    (handle : StreamHandle) (result : RS_ERROR)
    (hq : Event.rs_getFrameCamera handle result ∈ (mainLoopBody env st).trace)
    (hfail : result ≠ .RS_ERROR_SUCCESS) :
    let r := mainLoopBody env st
    ∃ effect earlier d later before,
      st.effects[env.frameData.scene]? = some effect ∧
      st.header.getD [] = earlier ++ d :: later ∧ d.handle = handle ∧
      env.getFrameCamera earlier.length = result ∧
      r.trace = before ++ .rs_getFrameCamera handle result ::
        (fanOut env effect env.frameData r.state (earlier.length + 1) later).trace ∧
      r.exit = (fanOut env effect env.frameData r.state (earlier.length + 1) later).exit ∧
      ((∀ i, env.getFrameCamera i = .RS_ERROR_SUCCESS →
          env.sendFrame i = .RS_ERROR_SUCCESS) →
        r.exit = none ∧ r.state.lastScene = env.frameData.scene ∧
        ∃ start,
          r.trace = start ++
            ((st.header.getD []).enum.flatMap fun p =>
              streamCalls env effect r.state p.1 p.2) ∧
          callsTo ([.rs_getFrameCamera, .rs_sendFrame] ++ drawCalls) start = [] ∧
          streamCalls env effect r.state earlier.length d =
            [.rs_getFrameCamera handle result]) := by
  intro r
  obtain ⟨hawait, hscene, hdata, effect, heff, h1, h2, h3, h4⟩ :=
    mainLoopBody_reaches_respond hq (by simp [Event.call])
  have hr : r = Step.after [.rs_awaitFrameData 5000 .RS_ERROR_SUCCESS,
      .rs_getFrameImageData env.frameData.scene .RS_ERROR_SUCCESS]
      (processImage env effect env.frameData env.image st) :=
    mainLoopBody_of_image hawait hscene heff hdata
  have hp := processImage_of_phases h1 h2 h3 h4
  have hh : (effectPhase env effect env.frameData (outputPhase env effect env.frameData
      env.image (inboundPhase env effect env.frameData env.image st).state).state).state.header
      = st.header := by
    rw [(effectPhase_frame env effect env.frameData _).1,
      (outputPhase_frame env effect env.frameData env.image _).2.1,
      (inboundPhase_frame env effect env.frameData env.image st).2.1]
  have ht : (effectPhase env effect env.frameData (outputPhase env effect env.frameData
      env.image (inboundPhase env effect env.frameData env.image st).state).state).state.renderTargets
      = st.renderTargets := by
    rw [(effectPhase_frame env effect env.frameData _).2.1,
      (outputPhase_frame env effect env.frameData env.image _).2.2.1,
      (inboundPhase_frame env effect env.frameData env.image st).2.2.1]
  have hpre := beforeRespond_calls env effect env.frameData env.image st
    (inboundPhase env effect env.frameData env.image st).state
    (outputPhase env effect env.frameData env.image
      (inboundPhase env effect env.frameData env.image st).state).state
    (effectPhase env effect env.frameData (outputPhase env effect env.frameData
      env.image (inboundPhase env effect env.frameData env.image st).state).state).state
  generalize (inboundPhase env effect env.frameData env.image st).trace ++
    ((outputPhase env effect env.frameData env.image
      (inboundPhase env effect env.frameData env.image st).state).trace ++
    ((effectPhase env effect env.frameData (outputPhase env effect env.frameData env.image
      (inboundPhase env effect env.frameData env.image st).state).state).trace ++
    (outboundPhase env (effectPhase env effect env.frameData
      (outputPhase env effect env.frameData env.image
        (inboundPhase env effect env.frameData env.image st).state).state).state).trace))
    = pre at hp hpre
  generalize (effectPhase env effect env.frameData (outputPhase env effect env.frameData
    env.image (inboundPhase env effect env.frameData env.image st).state).state).state = s3
    at hp hh ht
  obtain ⟨hrt, hre, hrs⟩ := respondPhase_eq_fanOut env effect env.frameData s3
  have hstate : r.state = { s3 with lastScene := r.state.lastScene } := by
    rw [hr, hp]; exact hrs
  have htrace : r.trace = ([.rs_awaitFrameData 5000 .RS_ERROR_SUCCESS,
      .rs_getFrameImageData env.frameData.scene .RS_ERROR_SUCCESS] ++ pre) ++
      (fanOut env effect env.frameData s3 0 (st.header.getD [])).trace := by
    rw [hr, hp]
    simp only [Step.after_trace, hrt, hh, List.append_assoc]
  have hexit : r.exit = (fanOut env effect env.frameData s3 0 (st.header.getD [])).exit := by
    rw [hr, hp]
    simp only [Step.after_exit, hre, hh]
  have hbefore : callsTo ([.rs_getFrameCamera, .rs_sendFrame] ++ drawCalls)
      ([.rs_awaitFrameData 5000 .RS_ERROR_SUCCESS,
        .rs_getFrameImageData env.frameData.scene .RS_ERROR_SUCCESS] ++ pre) = [] := by
    rw [callsTo_append, callsTo_eq_nil_of_calls hpre (by decide)]
    simp [callsTo, Event.call, drawCalls]
  have hfan : Event.rs_getFrameCamera handle result ∈
      (fanOut env effect env.frameData s3 0 (st.header.getD [])).trace := by
    have hq' : Event.rs_getFrameCamera handle result ∈ r.trace := hq
    rw [htrace, List.mem_append] at hq'
    rcases hq' with hq' | hq'
    · have hm : Event.rs_getFrameCamera handle result ∈
          callsTo ([.rs_getFrameCamera, .rs_sendFrame] ++ drawCalls)
            ([.rs_awaitFrameData 5000 .RS_ERROR_SUCCESS,
              .rs_getFrameImageData env.frameData.scene .RS_ERROR_SUCCESS] ++ pre) :=
        List.mem_filter.mpr ⟨hq', by simp [Event.call]⟩
      rw [hbefore] at hm
      cases hm
    · exact hq'
  obtain ⟨earlier, d, later, before, e1, e2, e3, e4, e5⟩ :=
    fanOut_failed_query env effect env.frameData s3 0 (st.header.getD []) hfan hfail
  simp only [Nat.zero_add] at e3 e4 e5
  have hl := fanOut_lastScene env effect env.frameData s3 r.state.lastScene
    (earlier.length + 1) later
  refine ⟨effect, earlier, d, later,
    ([.rs_awaitFrameData 5000 .RS_ERROR_SUCCESS,
      .rs_getFrameImageData env.frameData.scene .RS_ERROR_SUCCESS] ++ pre) ++ before,
    heff, e1, e2, e3, ?_, ?_, ?_⟩
  · rw [hstate, hl.1, htrace, e4]
    simp only [List.append_assoc]
  · rw [hstate, hl.2, hexit, e5]
  · intro hsend
    have hf := fanOut_of_sends env effect s3 hsend 0 (st.header.getD [])
      (by rw [ht]; exact hreach.headerCovered)
    have hlast : r.state.lastScene = env.frameData.scene := by
      rw [hr, hp]
      simp only [Step.after_state]
      have hx : (respondPhase env effect env.frameData s3).exit = none := by
        rw [hre, hh]; exact hf.1
      rw [respondPhase_of_exit_none hx]
    have hcalls : ∀ i d', streamCalls env effect r.state i d' =
        streamCalls env effect s3 i d' := by
      intro i d'
      rw [hstate]; rfl
    refine ⟨by rw [hexit]; exact hf.1, hlast,
      [.rs_awaitFrameData 5000 .RS_ERROR_SUCCESS,
        .rs_getFrameImageData env.frameData.scene .RS_ERROR_SUCCESS] ++ pre, ?_, hbefore, ?_⟩
    · rw [htrace, hf.2]
      simp only [hcalls, List.enum]
    · have hne : env.getFrameCamera earlier.length ≠ .RS_ERROR_SUCCESS := by
        rw [e3]; exact hfail
      rw [streamCalls, if_neg hne, e2, e3]

theorem missing_camera_skips_stream_witness :
    Reachable stateWithTwoStreams ∧
    Event.rs_getFrameCamera 11 (.other 1) ∈
      (mainLoopBody (cameraFailure 3 640 360 0) stateWithTwoStreams).trace ∧
    (mainLoopBody (cameraFailure 3 640 360 0) stateWithTwoStreams).exit = none ∧
    (mainLoopBody (cameraFailure 3 640 360 0) stateWithTwoStreams).state.lastScene = 3 :=
  have h := missing_camera_skips_stream (cameraFailure 3 640 360 0) stateWithTwoStreams
    stateWithTwoStreams_reachable 11 (.other 1) (by decide) (by decide)
  have hsend : ∀ i, (cameraFailure 3 640 360 0).getFrameCamera i = .RS_ERROR_SUCCESS →
      (cameraFailure 3 640 360 0).sendFrame i = .RS_ERROR_SUCCESS := fun _ _ => rfl
  match h with
  | ⟨_, _, _, _, _, _, _, _, _, _, _, h7⟩ =>
    ⟨stateWithTwoStreams_reachable, by decide, (h7 hsend).1, (h7 hsend).2.1⟩

/-! ## Properties that hold stage by stage -/

theorem Step.leavesOn_andThen {bad : Event → Bool} {x : Exit} (a : Step)
    (f : PipelineState → Step) (ha : a.LeavesOn bad x) (hf : ∀ s, (f s).LeavesOn bad x) :
    (a.andThen f).LeavesOn bad x := by
  cases h : a.exit with
  | none =>
    rw [Step.andThen_of_exit_none f h]
    intro e he hb
    simp only [Step.after_trace, List.mem_append] at he
    rcases he with he | he
    · have := ha e he hb
      rw [h] at this
      exact absurd this (by simp)
    · simpa using hf _ e he hb
  | some y => rw [Step.andThen_of_exit_some f h]; exact ha

theorem Step.leavesOn_after {bad : Event → Bool} {x : Exit} {tr : List Event} {s : Step}
    (htr : ∀ e ∈ tr, bad e = false) (hs : s.LeavesOn bad x) :
    (Step.after tr s).LeavesOn bad x := by
  intro e he hb
  simp only [Step.after_trace, List.mem_append] at he
  rcases he with he | he
  · rw [htr e he] at hb; exact absurd hb (by simp)
  · simpa using hs e he hb

theorem Step.leavesOn_of_calls {bad : Event → Bool} (x : Exit) {s : Step} {l cs : List Call}
    (hl : ∀ e ∈ s.trace, e.call ∈ l) (hbad : ∀ e, bad e = true → e.call ∈ cs)
    (hd : ∀ c ∈ cs, c ∉ l) : s.LeavesOn bad x :=
  fun e he hb => absurd (hl e he) (hd _ (hbad e hb))

theorem Step.logsOnSkip_andThen (a : Step) (f : PipelineState → Step) (ha : a.LogsOnSkip)
    (hf : ∀ s, (f s).LogsOnSkip) : (a.andThen f).LogsOnSkip := by
  cases h : a.exit with
  | none =>
    rw [Step.andThen_of_exit_none f h]
    intro hx
    obtain ⟨d, hd⟩ := hf a.state (by simpa using hx)
    exact ⟨d, by simp [hd]⟩
  | some y => rw [Step.andThen_of_exit_some f h]; exact ha

/-- A property of steps that sequencing preserves holds of the handling of a frame image as
soon as it holds of each of its eleven stages. -/
theorem processImage_stages (R : Step → Prop)
    (hseq : ∀ (a : Step) (f : PipelineState → Step), R a → (∀ s, R (f s)) → R (a.andThen f))
    (env : Env) (effect : Effect) (fd : FrameData) (image : ImageFrameData)
    (h1 : ∀ s, R (ensureInput env effect fd image s))
    (h2 : ∀ s, R (acquireInput env image s))
    (h3 : ∀ s, R (transferInput env s))
    (h4 : ∀ s, R (setInputImage env effect s))
    (h5 : ∀ s, R (ensureOutput env effect fd image s))
    (h6 : ∀ s, R (setOutputImage env effect s))
    (h7 : ∀ s, R (loadEffect env effect fd s))
    (h8 : ∀ s, R (runEffect env effect fd s))
    (h9 : ∀ s, R (transferEffectOutput env s))
    (h10 : ∀ s, R (transferOutput env s))
    (h11 : ∀ s, R (fanOut env effect fd s 0 (s.header.getD [])))
    (h12 : ∀ s : PipelineState, R (Step.pass { s with lastScene := fd.scene } []))
    (st : PipelineState) : R (processImage env effect fd image st) := by
  unfold processImage inboundPhase outputPhase effectPhase outboundPhase respondPhase
  exact hseq _ _
    (hseq _ _ (h1 _) fun _ => hseq _ _ (h2 _) fun _ => hseq _ _ (h3 _) fun _ => h4 _)
    fun _ => hseq _ _ (hseq _ _ (h5 _) fun _ => h6 _)
    fun _ => hseq _ _ (hseq _ _ (h7 _) fun _ => h8 _)
    fun _ => hseq _ _ (hseq _ _ (h9 _) fun _ => h10 _)
    fun _ => hseq _ _ (h11 _) fun _ => h12 _

/-! ## Frame-local failures -/

theorem Event.isRecoverableFailure_call {e : Event} (h : e.isRecoverableFailure = true) :
    e.call ∈ [Call.rs_getFrameImageData, .rs_getFrameImage, .NvCVImage_MapResource,
      .NvCVImage_Transfer, .NvCVImage_UnmapResource, .NvVFX_SetImage, .NvVFX_Load,
      .NvVFX_Run] := by
  cases e <;> simp [Event.isRecoverableFailure] at h <;> simp [Event.call]

/-- Outside the handling of a frame request the loop calls only the functions of
`outsideFrameCalls`. -/
theorem mainLoopBody_outside_calls (env : Env) (st : PipelineState)
    (h : env.await ≠ .RS_ERROR_SUCCESS) :
    ∀ e ∈ (mainLoopBody env st).trace, e.call ∈ outsideFrameCalls := by
  unfold mainLoopBody
  simp only []
  split
  · intro e he
    simp only [Step.after_trace, List.mem_append, List.mem_singleton] at he
    rcases he with he | he
    · subst he; simp [Event.call, outsideFrameCalls]
    · exact calls_mono (streamsChanged_calls env st) (by decide) e he
  · split
    · intro e he
      simp only [Step.leave_trace, List.mem_singleton] at he
      subst he; simp [Event.call, outsideFrameCalls]
    · intro e he
      unfold shutdownAfterLoop at he
      split at he
      · simp only [Step.after_trace, Step.leave_trace, List.mem_append, List.mem_cons,
          List.mem_singleton, List.not_mem_nil, or_false] at he
        rcases he with (he | he) | he | he
        · subst he; simp [Event.call, outsideFrameCalls]
        · subst he; simp [Event.call, outsideFrameCalls]
        · exact calls_mono (releaseAll_calls env st) (by decide) e he
        · subst he; simp [Event.call, outsideFrameCalls]
      · simp only [Step.after_trace, Step.leave_trace, List.mem_append, List.mem_cons,
          List.mem_singleton, List.not_mem_nil, or_false] at he
        rcases he with (he | he) | he
        · subst he; simp [Event.call, outsideFrameCalls]
        · subst he; simp [Event.call, outsideFrameCalls]
        · exact calls_mono (releaseAll_calls env st) (by decide) e he

/-- The scheme by which a failure that the handling of a frame image answers with `x` is
answered with `x` by the whole iteration. -/
theorem mainLoopBody_leavesOn {bad : Event → Bool} {x : Exit} {cs : List Call}
    (hbad : ∀ e, bad e = true → e.call ∈ cs) (hd : ∀ c ∈ cs, c ∉ outsideFrameCalls)
    (env : Env) (st : PipelineState)
    (hdata : bad (.rs_getFrameImageData env.frameData.scene env.getFrameImageData) = true →
      env.getFrameImageData ≠ .RS_ERROR_SUCCESS ∧ x = .skip)
    (himg : ∀ effect, (processImage env effect env.frameData env.image st).LeavesOn bad x) :
    (mainLoopBody env st).LeavesOn bad x := by
  by_cases hw : env.await = .RS_ERROR_SUCCESS
  · rw [mainLoopBody_of_success env st hw]
    refine Step.leavesOn_after ?_ ?_
    · intro e he
      simp only [List.mem_singleton] at he
      subst he
      cases hb : bad (.rs_awaitFrameData 5000 .RS_ERROR_SUCCESS) with
      | false => rfl
      | true => exact absurd (by decide) (hd _ (hbad _ hb))
    · unfold processFrame
      simp only []
      split
      · intro e he hb
        simp only [Step.leave_trace, List.mem_singleton] at he
        subst he
        exact absurd (by decide) (hd _ (hbad _ hb))
      · split
        · intro e he; simp at he
        · split
          · next hfail =>
            intro e he hb
            simp only [Step.leave_trace, List.mem_cons, List.mem_singleton,
              List.not_mem_nil, or_false] at he
            rcases he with he | he
            · subst he; simp [(hdata hb).2]
            · subst he; exact absurd (by decide) (hd _ (hbad _ hb))
          · next hok =>
            refine Step.leavesOn_after ?_ (himg _)
            intro e he
            simp only [List.mem_singleton] at he
            subst he
            cases hb : bad (.rs_getFrameImageData env.frameData.scene env.getFrameImageData) with
            | false => rfl
            | true => exact absurd (hdata hb).1 hok
  · intro e he hb
    exact absurd (mainLoopBody_outside_calls env st hw e he) (hd _ (hbad _ hb))

theorem fanOut_exit_ne_skip (env : Env) (effect : Effect) (fd : FrameData) (st : PipelineState)
    (i : Nat) (streams : List StreamDescription) :
    (fanOut env effect fd st i streams).exit ≠ some .skip := by
  induction streams generalizing i with
  | nil => simp [fanOut]
  | cons d rest ih =>
    unfold fanOut; simp only []
    split
    · split
      · simp
      · split
        · simp
        · simpa using ih (i + 1)
    · simpa using ih (i + 1)

theorem ensureInput_exit_ne_skip (env : Env) (effect : Effect) (fd : FrameData)
    (image : ImageFrameData) (st : PipelineState) :
    (ensureInput env effect fd image st).exit ≠ some .skip := by
  unfold ensureInput
  split
  · split <;> simp
  · simp

theorem ensureOutput_exit_ne_skip (env : Env) (effect : Effect) (fd : FrameData)
    (image : ImageFrameData) (st : PipelineState) :
    (ensureOutput env effect fd image st).exit ≠ some .skip := by
  unfold ensureOutput
  simp only []
  split
  · split
    · simp
    · split
      · simp
      · split <;> simp
  · simp

/-- Each stage that leaves the handling of a frame image by `continue` has logged. -/
theorem processImage_logsOnSkip (env : Env) (effect : Effect) (fd : FrameData)
    (image : ImageFrameData) (st : PipelineState) :
    (processImage env effect fd image st).LogsOnSkip := by
  refine processImage_stages Step.LogsOnSkip Step.logsOnSkip_andThen env effect fd image
    ?_ ?_ ?_ ?_ ?_ ?_ ?_ ?_ ?_ ?_ ?_ ?_ st
  · intro s h; exact absurd h (ensureInput_exit_ne_skip env effect fd image s)
  · intro s; unfold acquireInput Step.LogsOnSkip; simp only []
    split <;> simp
  · intro s; unfold transferInput Step.LogsOnSkip; simp only []
    split
    · simp
    · split
      · simp
      · split
        · next hs => intro _; simp at hs; simp [hs]
        · simp
  · intro s; unfold setInputImage Step.LogsOnSkip; simp only []
    split <;> simp
  · intro s h; exact absurd h (ensureOutput_exit_ne_skip env effect fd image s)
  · intro s; unfold setOutputImage Step.LogsOnSkip; simp only []
    split <;> simp
  · intro s; unfold loadEffect Step.LogsOnSkip
    split
    · simp only []; split <;> simp
    · simp
  · intro s; unfold runEffect Step.LogsOnSkip; simp only []
    split <;> simp
  · intro s; unfold transferEffectOutput Step.LogsOnSkip
    split
    · simp only []; split <;> simp
    · simp
  · intro s; unfold transferOutput Step.LogsOnSkip; simp only []
    split
    · simp
    · split
      · simp
      · split
        · next hs => intro _; simp at hs; simp [hs]
        · simp
  · intro s h; exact absurd h (fanOut_exit_ne_skip env effect fd s 0 _)
  · intro s; simp [Step.LogsOnSkip]

theorem processFrame_logsOnSkip (env : Env) (st : PipelineState) :
    (processFrame env st).LogsOnSkip := by
  unfold processFrame
  simp only []
  split
  · intro _; exact ⟨.sceneOutOfBounds, by simp⟩
  · split
    · simp [Step.LogsOnSkip]
    · split
      · intro _; exact ⟨.getImageDataFailed, by simp⟩
      · intro h
        obtain ⟨d, hd⟩ := processImage_logsOnSkip env _ env.frameData env.image st
          (by simpa using h)
        exact ⟨d, by simp [hd]⟩

/-- Each stage answers a frame-local failure with `continue`. -/
theorem processImage_recoverable (env : Env) (effect : Effect) (fd : FrameData)
    (image : ImageFrameData) (st : PipelineState) :
    (processImage env effect fd image st).LeavesOn Event.isRecoverableFailure .skip := by
  refine processImage_stages (Step.LeavesOn Event.isRecoverableFailure .skip)
    Step.leavesOn_andThen env effect fd image ?_ ?_ ?_ ?_ ?_ ?_ ?_ ?_ ?_ ?_ ?_ ?_ st
  · intro s
    exact Step.leavesOn_of_calls _ (ensureInput_calls env effect fd image s)
      (fun e => Event.isRecoverableFailure_call) (by decide)
  · intro s; unfold acquireInput Step.LeavesOn; simp only []
    split <;> simp_all [Event.isRecoverableFailure]
  · intro s; unfold transferInput Step.LeavesOn; simp only []
    split
    · simp
    · split
      · simp
      · split
        · simp
        · simp_all [Event.isRecoverableFailure]
  · intro s; unfold setInputImage Step.LeavesOn; simp only []
    split <;> simp_all [Event.isRecoverableFailure]
  · intro s
    exact Step.leavesOn_of_calls _ (ensureOutput_calls env effect fd image s)
      (fun e => Event.isRecoverableFailure_call) (by decide)
  · intro s; unfold setOutputImage Step.LeavesOn; simp only []
    split
    · intro e he hb
      simp only [Step.leave_trace, List.cons_append, List.nil_append, List.mem_cons] at he
      rcases he with he | he | he
      · subst he; simp [Event.isRecoverableFailure] at hb
      · subst he; simp [Event.isRecoverableFailure] at hb
      · exact absurd (releaseAll_calls env s e he)
          (by have := Event.isRecoverableFailure_call hb; revert this; generalize e.call = c
              intro h1 h2; revert h1 h2 c; decide)
    · simp [Event.isRecoverableFailure]
  · intro s; unfold loadEffect Step.LeavesOn
    split
    · simp only []; split <;> simp_all [Event.isRecoverableFailure]
    · simp
  · intro s; unfold runEffect Step.LeavesOn; simp only []
    split <;> simp_all [Event.isRecoverableFailure]
  · intro s; unfold transferEffectOutput Step.LeavesOn
    split
    · simp only []; split <;> simp_all [Event.isRecoverableFailure]
    · simp
  · intro s; unfold transferOutput Step.LeavesOn; simp only []
    split
    · simp
    · split
      · simp
      · split
        · simp
        · simp_all [Event.isRecoverableFailure]
  · intro s
    exact Step.leavesOn_of_calls _ (fanOut_calls env effect fd s 0 _)
      (fun e => Event.isRecoverableFailure_call) (by decide)
  · intro s; simp [Step.LeavesOn]

theorem Step.andThen_lastScene {n : Nat} (a : Step) (f : PipelineState → Step)
    (ha : a.state.lastScene = n)
    (hf : ∀ s, s.lastScene = n → (f s).exit ≠ none → (f s).state.lastScene = n)
    (h : (a.andThen f).exit ≠ none) : (a.andThen f).state.lastScene = n := by
  cases hx : a.exit with
  | none =>
    rw [Step.andThen_of_exit_none f hx] at h ⊢
    exact hf _ ha (by simpa using h)
  | some y => rw [Step.andThen_of_exit_some f hx]; exact ha

/-- Only an iteration that reaches the end of the loop body writes `lastScene`. -/
theorem processImage_lastScene {env : Env} {effect : Effect} {fd : FrameData}
    {image : ImageFrameData} {st : PipelineState}
    (h : (processImage env effect fd image st).exit ≠ none) :
    (processImage env effect fd image st).state.lastScene = st.lastScene := by
  unfold processImage at h ⊢
  refine Step.andThen_lastScene _ _
    (inboundPhase_frame env effect fd image st).2.2.2.2.2.2.2 ?_ h
  intro s1 h1 h
  refine Step.andThen_lastScene _ _
    ((outputPhase_frame env effect fd image s1).2.2.2.2.2.2.trans h1) ?_ h
  intro s2 h2 h
  refine Step.andThen_lastScene _ _
    ((effectPhase_frame env effect fd s2).2.2.2.2.2.2.2.2.1.trans h2) ?_ h
  intro s3 h3 h
  refine Step.andThen_lastScene _ _ (by rw [outboundPhase_state]; exact h3) ?_ h
  intro s4 h4 h
  unfold respondPhase at h ⊢
  cases hx : (fanOut env effect fd s4 0 (s4.header.getD [])).exit with
  | none => rw [Step.andThen_of_exit_none _ hx] at h; simp at h
  | some y => rw [Step.andThen_of_exit_some _ hx, fanOut_state]; exact h4

theorem processFrame_lastScene {env : Env} {st : PipelineState}
    (h : (processFrame env st).exit ≠ none) :
    (processFrame env st).state.lastScene = st.lastScene := by
  unfold processFrame at h ⊢
  simp only [] at h ⊢
  split
  · rfl
  · split
    · rfl
    · split
      · rfl
      · next effect heff hdata =>
        rw [if_neg (by assumption)] at h
        simp only [heff, if_neg hdata] at h
        exact processImage_lastScene (by simpa using h)

/-- An iteration that makes a call of the stream loop does not end by `continue`. -/
theorem mainLoopBody_respond_ne_skip {env : Env} {st : PipelineState} {e : Event}
    (he : e ∈ (mainLoopBody env st).trace)
    (hc : e.call ∈ [Call.rs_getFrameCamera, .rs_sendFrame] ++ drawCalls) :
    (mainLoopBody env st).exit ≠ some .skip := by
  obtain ⟨hawait, hscene, hdata, effect, heff, h1, h2, h3, h4⟩ :=
    mainLoopBody_reaches_respond he hc
  rw [mainLoopBody_of_image hawait hscene heff hdata, processImage_of_phases h1 h2 h3 h4]
  simp only [Step.after_exit]
  rw [(respondPhase_eq_fanOut env effect env.frameData _).2.1]
  exact fanOut_exit_ne_skip _ _ _ _ _ _

theorem mainLoopBody_skip_calls {env : Env} {st : PipelineState}
    (h : (mainLoopBody env st).exit = some .skip) :
    callsTo ([Call.rs_getFrameCamera, .rs_sendFrame] ++ drawCalls)
      (mainLoopBody env st).trace = [] := by
  simp only [callsTo, List.filter_eq_nil_iff, decide_eq_true_eq]
  intro e he hc
  exact mainLoopBody_respond_ne_skip he hc h

/-- An iteration whose calls include a failed one of the frame-local, recoverable kind
(`Event.isRecoverableFailure`) posts at least one diagnostic with `rs_logToD3`, makes no
`rs_sendFrame` call, leaves `lastScene` as it was, and ends with `continue`. -/
theorem mainLoopBody_of_recoverable_event (env : Env) (st : PipelineState) (e : Event)
    (he : e ∈ (mainLoopBody env st).trace) (hfail : e.isRecoverableFailure = true) :
    let r := mainLoopBody env st
    1 ≤ (callsTo [.rs_logToD3] r.trace).length ∧
    callsTo [.rs_sendFrame] r.trace = [] ∧
    r.state.lastScene = st.lastScene ∧
    r.exit = some .skip := by
  intro r
  have hskip : r.exit = some .skip :=
    mainLoopBody_leavesOn (fun _ => Event.isRecoverableFailure_call) (by decide) env st
      (by simp [Event.isRecoverableFailure])
      (fun effect => processImage_recoverable env effect env.frameData env.image st) e he hfail
  have hawait : env.await = .RS_ERROR_SUCCESS := by
    by_contra hw
    have h1 := mainLoopBody_outside_calls env st hw e he
    have h2 := Event.isRecoverableFailure_call hfail
    revert h1 h2
    generalize e.call = c
    revert c
    decide
  have hr : r = Step.after [.rs_awaitFrameData 5000 .RS_ERROR_SUCCESS] (processFrame env st) :=
    mainLoopBody_of_success env st hawait
  have hskip' : (processFrame env st).exit = some .skip := by
    rw [hr] at hskip; simpa using hskip
  refine ⟨?_, ?_, ?_, hskip⟩
  · obtain ⟨d, hd⟩ := processFrame_logsOnSkip env st hskip'
    have hmem : Event.rs_logToD3 d ∈ callsTo [.rs_logToD3] r.trace := by
      rw [hr]
      simp [callsTo, Event.call, hd]
    exact List.length_pos_of_mem hmem
  · have h := mainLoopBody_skip_calls hskip
    simp only [callsTo, List.filter_eq_nil_iff, decide_eq_true_eq] at h ⊢
    intro x hx hc
    exact h x hx (by simp only [List.mem_singleton] at hc; simp [hc])
  · rw [hr]
    simp only [Step.after_state]
    exact processFrame_lastScene (by rw [hskip']; simp)

/-! ## Fatal exits -/

theorem createRenderTargets_creationFailure (env : Env) (i : Nat)
    (streams : List StreamDescription) (st : PipelineState) :
    ∀ e ∈ (createRenderTargets env i streams st).trace, e.isCreationFailure = true →
      ∃ what, (createRenderTargets env i streams st).exit = some (.uncaught what) := by
  induction streams generalizing i st with
  | nil => simp [createRenderTargets]
  | cons d rest ih =>
    unfold createRenderTargets
    simp only []
    split
    · intro e he hb; exact ⟨_, rfl⟩
    · split
      · intro e he hb; exact ⟨_, rfl⟩
      · split
        · intro e he hb; exact ⟨_, rfl⟩
        · split
          · intro e he hb; exact ⟨_, rfl⟩
          · intro e he hb
            simp only [Step.after_trace, List.mem_append, List.mem_cons, List.mem_singleton,
              List.not_mem_nil, or_false] at he
            rcases he with (he | he | he | he) | he
            · subst he; simp_all [Event.isCreationFailure]
            · subst he; simp_all [Event.isCreationFailure]
            · subst he; simp_all [Event.isCreationFailure]
            · subst he; simp_all [Event.isCreationFailure]
            · simpa using ih (i + 1) _ e he hb

/-- A streams-changed event during which a creation call fails makes `main` return 7. -/
theorem streamsChanged_creationFailure (env : Env) (st : PipelineState) :
    (streamsChanged env st).LeavesOn Event.isCreationFailure (.exit 7) := by
  intro e he hb
  unfold streamsChanged at he ⊢
  split at he
  · simp
  · next streams trace hg =>
    simp only [hg]
    have hgs : ∀ x ∈ trace, x.isCreationFailure = false := by
      intro x hx
      have h1 := getStreams_calls env x (by rw [hg]; exact hx)
      cases hb : x.isCreationFailure with
      | false => rfl
      | true =>
        exfalso
        cases x <;> simp [Event.isCreationFailure] at hb <;> simp [Event.call] at h1
    cases hx : (createRenderTargets env 0 streams { st with header := some streams }).exit with
    | none =>
      exfalso
      simp only [hx, Step.leave_trace, List.mem_append, List.mem_singleton] at he
      rcases he with (he | he) | he
      · rw [hgs e he] at hb; exact absurd hb (by simp)
      · obtain ⟨what, hw⟩ := createRenderTargets_creationFailure env 0 streams _ e he hb
        rw [hx] at hw; exact absurd hw (by simp)
      · subst he; simp [Event.isCreationFailure] at hb
    | some y =>
      cases y with
      | uncaught what => simp
      | skip =>
        exfalso
        have := (createRenderTargets_frame env 0 streams
          { st with header := some streams }).2.2.2.2.2.2.2.2.2.1
        simp [hx] at this
      | exit n =>
        exfalso
        have := (createRenderTargets_frame env 0 streams
          { st with header := some streams }).2.2.2.2.2.2.2.2.2.1
        simp [hx] at this

theorem Event.isLayoutFailure_call {e : Event} (h : e.isLayoutFailure = true) :
    e.call ∈ [Call.NvCVImage_FromD3DFormat] := by
  cases e <;> simp [Event.isLayoutFailure] at h
  simp [Event.call]

theorem Event.isOutputBindFailure_call {e : Event} (h : e.isOutputBindFailure = true) :
    e.call ∈ [Call.NvVFX_SetImage] := by
  cases e <;> simp [Event.isOutputBindFailure] at h
  simp [Event.call]

theorem Event.isSubmissionFailure_call {e : Event} (h : e.isSubmissionFailure = true) :
    e.call ∈ [Call.rs_sendFrame] := by
  cases e <;> simp [Event.isSubmissionFailure] at h
  simp [Event.call]

/-- A failed `NvCVImage_FromD3DFormat` makes the stage return 84. -/
theorem ensureOutput_layoutFailure (env : Env) (effect : Effect) (fd : FrameData)
    (image : ImageFrameData) (st : PipelineState) :
    (ensureOutput env effect fd image st).LeavesOn Event.isLayoutFailure (.exit 84) := by
  unfold ensureOutput Step.LeavesOn; simp only []
  split
  · have hc := createTexture_calls env.outputTexture st.nextPtr (outputSize effect image.width)
      (outputSize effect image.height) effect.outputTextureFormat
    have key : ∀ tr : List Event, (∀ e ∈ tr, e.call ∈ [Call.CreateTexture2D,
        .CreateShaderResourceView, .NvCVImage_InitFromD3D11Texture]) →
        ∀ e ∈ tr, e.isLayoutFailure = true → False := by
      intro tr htr e he hb
      have h1 := htr e he
      have h2 := Event.isLayoutFailure_call hb
      revert h1 h2; generalize e.call = c; revert c; decide
    split
    · next what trace heq =>
      rw [heq] at hc
      intro e he hb
      exact (key trace hc e he hb).elim
    · next texture trace heq =>
      rw [heq] at hc
      split
      · simp
      · next hok =>
        split
        · intro e he hb
          simp only [Step.pass_trace, List.mem_append, List.mem_cons, List.mem_singleton,
            List.not_mem_nil, or_false] at he
          rcases he with (he | rfl | rfl) | rfl
          · exact (key trace hc e he hb).elim
          · simp [Event.isLayoutFailure] at hb
          · simp [Event.isLayoutFailure] at hb; exact absurd hb hok
          · simp [Event.isLayoutFailure] at hb
        · intro e he hb
          simp only [Step.pass_trace, List.mem_append, List.mem_cons, List.mem_singleton,
            List.not_mem_nil, or_false] at he
          rcases he with he | rfl | rfl
          · exact (key trace hc e he hb).elim
          · simp [Event.isLayoutFailure] at hb
          · simp [Event.isLayoutFailure] at hb; exact absurd hb hok
  · simp

theorem processImage_layoutFailure (env : Env) (effect : Effect) (fd : FrameData)
    (image : ImageFrameData) (st : PipelineState) :
    (processImage env effect fd image st).LeavesOn Event.isLayoutFailure (.exit 84) := by
  refine processImage_stages (Step.LeavesOn Event.isLayoutFailure (.exit 84))
    Step.leavesOn_andThen env effect fd image ?_ ?_ ?_ ?_ ?_ ?_ ?_ ?_ ?_ ?_ ?_ ?_ st
  · intro s
    exact Step.leavesOn_of_calls _ (ensureInput_calls env effect fd image s)
      (fun e => Event.isLayoutFailure_call) (by decide)
  · intro s
    exact Step.leavesOn_of_calls _ (acquireInput_calls env image s)
      (fun e => Event.isLayoutFailure_call) (by decide)
  · intro s
    exact Step.leavesOn_of_calls _ (transferInput_calls env s)
      (fun e => Event.isLayoutFailure_call) (by decide)
  · intro s
    exact Step.leavesOn_of_calls _ (setInputImage_calls env effect s)
      (fun e => Event.isLayoutFailure_call) (by decide)
  · exact ensureOutput_layoutFailure env effect fd image
  · intro s
    exact Step.leavesOn_of_calls _ (setOutputImage_calls env effect s)
      (fun e => Event.isLayoutFailure_call) (by decide)
  · intro s
    exact Step.leavesOn_of_calls _ (loadEffect_calls env effect fd s)
      (fun e => Event.isLayoutFailure_call) (by decide)
  · intro s
    exact Step.leavesOn_of_calls _ (runEffect_calls env effect fd s)
      (fun e => Event.isLayoutFailure_call) (by decide)
  · intro s
    exact Step.leavesOn_of_calls _ (transferEffectOutput_calls env s)
      (fun e => Event.isLayoutFailure_call) (by decide)
  · intro s
    exact Step.leavesOn_of_calls _ (transferOutput_calls env s)
      (fun e => Event.isLayoutFailure_call) (by decide)
  · intro s
    exact Step.leavesOn_of_calls _ (fanOut_calls env effect fd s 0 _)
      (fun e => Event.isLayoutFailure_call) (by decide)
  · intro s; simp [Step.LeavesOn]

theorem processImage_outputBindFailure (env : Env) (effect : Effect) (fd : FrameData)
    (image : ImageFrameData) (st : PipelineState) :
    (processImage env effect fd image st).LeavesOn Event.isOutputBindFailure (.exit 84) := by
  refine processImage_stages (Step.LeavesOn Event.isOutputBindFailure (.exit 84))
    Step.leavesOn_andThen env effect fd image ?_ ?_ ?_ ?_ ?_ ?_ ?_ ?_ ?_ ?_ ?_ ?_ st
  · intro s
    exact Step.leavesOn_of_calls _ (ensureInput_calls env effect fd image s)
      (fun e => Event.isOutputBindFailure_call) (by decide)
  · intro s
    exact Step.leavesOn_of_calls _ (acquireInput_calls env image s)
      (fun e => Event.isOutputBindFailure_call) (by decide)
  · intro s
    exact Step.leavesOn_of_calls _ (transferInput_calls env s)
      (fun e => Event.isOutputBindFailure_call) (by decide)
  · intro s; unfold setInputImage Step.LeavesOn; simp only []
    split <;> simp [Event.isOutputBindFailure]
  · intro s
    exact Step.leavesOn_of_calls _ (ensureOutput_calls env effect fd image s)
      (fun e => Event.isOutputBindFailure_call) (by decide)
  · intro s; unfold setOutputImage Step.LeavesOn; simp only []
    split
    · simp
    · simp_all [Event.isOutputBindFailure]
  · intro s
    exact Step.leavesOn_of_calls _ (loadEffect_calls env effect fd s)
      (fun e => Event.isOutputBindFailure_call) (by decide)
  · intro s
    exact Step.leavesOn_of_calls _ (runEffect_calls env effect fd s)
      (fun e => Event.isOutputBindFailure_call) (by decide)
  · intro s
    exact Step.leavesOn_of_calls _ (transferEffectOutput_calls env s)
      (fun e => Event.isOutputBindFailure_call) (by decide)
  · intro s
    exact Step.leavesOn_of_calls _ (transferOutput_calls env s)
      (fun e => Event.isOutputBindFailure_call) (by decide)
  · intro s
    exact Step.leavesOn_of_calls _ (fanOut_calls env effect fd s 0 _)
      (fun e => Event.isOutputBindFailure_call) (by decide)
  · intro s; simp [Step.LeavesOn]

theorem processImage_submissionFailure (env : Env) (effect : Effect) (fd : FrameData)
    (image : ImageFrameData) (st : PipelineState) :
    (processImage env effect fd image st).LeavesOn Event.isSubmissionFailure (.exit 8) := by
  refine processImage_stages (Step.LeavesOn Event.isSubmissionFailure (.exit 8))
    Step.leavesOn_andThen env effect fd image ?_ ?_ ?_ ?_ ?_ ?_ ?_ ?_ ?_ ?_ ?_ ?_ st
  · intro s
    exact Step.leavesOn_of_calls _ (ensureInput_calls env effect fd image s)
      (fun e => Event.isSubmissionFailure_call) (by decide)
  · intro s
    exact Step.leavesOn_of_calls _ (acquireInput_calls env image s)
      (fun e => Event.isSubmissionFailure_call) (by decide)
  · intro s
    exact Step.leavesOn_of_calls _ (transferInput_calls env s)
      (fun e => Event.isSubmissionFailure_call) (by decide)
  · intro s
    exact Step.leavesOn_of_calls _ (setInputImage_calls env effect s)
      (fun e => Event.isSubmissionFailure_call) (by decide)
  · intro s
    exact Step.leavesOn_of_calls _ (ensureOutput_calls env effect fd image s)
      (fun e => Event.isSubmissionFailure_call) (by decide)
  · intro s
    exact Step.leavesOn_of_calls _ (setOutputImage_calls env effect s)
      (fun e => Event.isSubmissionFailure_call) (by decide)
  · intro s
    exact Step.leavesOn_of_calls _ (loadEffect_calls env effect fd s)
      (fun e => Event.isSubmissionFailure_call) (by decide)
  · intro s
    exact Step.leavesOn_of_calls _ (runEffect_calls env effect fd s)
      (fun e => Event.isSubmissionFailure_call) (by decide)
  · intro s
    exact Step.leavesOn_of_calls _ (transferEffectOutput_calls env s)
      (fun e => Event.isSubmissionFailure_call) (by decide)
  · intro s
    exact Step.leavesOn_of_calls _ (transferOutput_calls env s)
      (fun e => Event.isSubmissionFailure_call) (by decide)
  · intro s e he hb
    cases e <;> simp [Event.isSubmissionFailure] at hb
    exact (fanOut_failed_send env effect fd s 0 _ he hb).1
  · intro s; simp [Step.LeavesOn]

/-- C13 (counterexample): with two streams announced, a failed `NvCVImage_FromD3DFormat`
and a failed `NvVFX_SetImage` of the output image are two failure sites whose iterations
both return 84; and an iteration in which `rs_awaitFrameData` reports an error returns 0,
the value of the `return 0` that ends `main` when nothing failed. -/
theorem two_sites_return_84_and_wait_error_returns_0 :
    (mainLoopBody (layoutFailure 0 640 360) stateWithTwoStreams).exit = some (.exit 84) ∧
    (mainLoopBody (bindOutputFailure 0 640 360) stateWithTwoStreams).exit = some (.exit 84) ∧
    Event.NvCVImage_FromD3DFormat .DXGI_FORMAT_B8G8R8A8_UNORM (.other 1) ∈
      (mainLoopBody (layoutFailure 0 640 360) stateWithTwoStreams).trace ∧
    Event.NvVFX_SetImage .NVVFX_FX_TRANSFER .NVVFX_OUTPUT_IMAGE (some 16) (.other 1) ∈
      (mainLoopBody (bindOutputFailure 0 640 360) stateWithTwoStreams).trace ∧
    (mainLoopBody (waitError 1) stateWithTwoStreams).exit = some (.exit 0) ∧
    (mainLoopBody (waitError 1) stateWithTwoStreams).trace =
      [.rs_awaitFrameData 5000 (.other 1), .tcerr (.awaitReturned (.other 1)),
       .NvVFX_DestroyEffect .NVVFX_FX_TRANSFER, .NvVFX_DestroyEffect .NVVFX_FX_GREEN_SCREEN,
       .NvVFX_DestroyEffect .NVVFX_FX_ARTIFACT_REDUCTION,
       .NvVFX_DestroyEffect .NVVFX_FX_SUPER_RES, .NvVFX_DestroyEffect .NVVFX_FX_SR_UPSCALE,
       .NvVFX_CudaStreamDestroy, .rs_shutdown .RS_ERROR_SUCCESS] := by
  decide

/-- C13 (as the code has it): in every iteration, a creation call that fails while a
streams-changed event is handled makes `main` return 7, a failed
`NvCVImage_FromD3DFormat` makes it return 84 and a failed `rs_sendFrame` makes it return 8,
three different codes, none of them 0; a failed `NvVFX_SetImage` of the output image makes
it return a code that is none of 0, 7 and 8; and an error reported by `rs_awaitFrameData`
ends the loop and makes `main` return 0 when `rs_shutdown` succeeds and 99 when it does
not. -/
theorem fatal_sites_exit_codes (env : Env) (st : PipelineState) :
    let r := mainLoopBody env st
    (env.await = .RS_ERROR_STREAMS_CHANGED →
      ∀ e ∈ r.trace, e.isCreationFailure = true → r.exit = some (.exit 7)) ∧
    (∀ e ∈ r.trace, e.isLayoutFailure = true → r.exit = some (.exit 84)) ∧
    (∀ e ∈ r.trace, e.isSubmissionFailure = true → r.exit = some (.exit 8)) ∧
    (∀ e ∈ r.trace, e.isOutputBindFailure = true →
      ∃ code, r.exit = some (.exit code) ∧ code ∉ [0, 7, 8]) ∧
    (env.await ≠ .RS_ERROR_SUCCESS → env.await ≠ .RS_ERROR_STREAMS_CHANGED →
      env.await ≠ .RS_ERROR_TIMEOUT →
      r.exit = some (.exit (if env.shutdown = .RS_ERROR_SUCCESS then 0 else 99))) := by
  intro r
  refine ⟨?_, ?_, ?_, ?_, ?_⟩
  · intro hsc e he hb
    have hr : r = Step.after [.rs_awaitFrameData 5000 env.await] (streamsChanged env st) := by
      simp [r, mainLoopBody, hsc]
    rw [hr] at he ⊢
    exact Step.leavesOn_after (by simp [Event.isCreationFailure])
      (streamsChanged_creationFailure env st) e he hb
  · exact mainLoopBody_leavesOn (fun _ => Event.isLayoutFailure_call) (by decide) env st
      (by simp [Event.isLayoutFailure])
      (fun effect => processImage_layoutFailure env effect env.frameData env.image st)
  · exact mainLoopBody_leavesOn (fun _ => Event.isSubmissionFailure_call) (by decide) env st
      (by simp [Event.isSubmissionFailure])
      (fun effect => processImage_submissionFailure env effect env.frameData env.image st)
  · intro e he hb
    exact ⟨84, mainLoopBody_leavesOn (fun _ => Event.isOutputBindFailure_call) (by decide)
      env st (by simp [Event.isOutputBindFailure])
      (fun effect => processImage_outputBindFailure env effect env.frameData env.image st)
      e he hb, by decide⟩
  · intro h1 h2 h3
    simp only [r, mainLoopBody, if_neg h2, if_neg h3]
    rw [if_pos h1]
    unfold shutdownAfterLoop
    split
    · next hs => simp [hs]
    · next hs => simp only [ne_eq, Decidable.not_not] at hs; simp [hs]

/-- C13 (witness): a streams-changed event for `twoStreams` in which the render target
texture of stream 1 cannot be created returns 7. -/
theorem fatal_sites_exit_codes_witness :
    (mainLoopBody (renderTargetFailure twoStreams 1) initialState).exit = some (.exit 7) :=
  (fatal_sites_exit_codes (renderTargetFailure twoStreams 1) initialState).1 rfl
    (.CreateTexture2D 1280 720 .DXGI_FORMAT_B8G8R8A8_UNORM false) (by decide) rfl

/-! ## Which exits release the handles -/

theorem Step.leavesBy_andThen {bad : Event → Bool} {X : Exit → Prop} (a : Step)
    (f : PipelineState → Step) (ha : a.LeavesBy bad X) (hf : ∀ s, (f s).LeavesBy bad X) :
    (a.andThen f).LeavesBy bad X := by
  cases h : a.exit with
  | none =>
    rw [Step.andThen_of_exit_none f h]
    intro e he hb
    simp only [Step.after_trace, List.mem_append] at he
    rcases he with he | he
    · obtain ⟨x, hx, _⟩ := ha e he hb
      rw [h] at hx
      exact absurd hx (by simp)
    · simpa using hf _ e he hb
  | some y => rw [Step.andThen_of_exit_some f h]; exact ha

theorem Step.leavesBy_after {bad : Event → Bool} {X : Exit → Prop} {tr : List Event}
    {s : Step} (htr : ∀ e ∈ tr, bad e = false) (hs : s.LeavesBy bad X) :
    (Step.after tr s).LeavesBy bad X := by
  intro e he hb
  simp only [Step.after_trace, List.mem_append] at he
  rcases he with he | he
  · rw [htr e he] at hb; exact absurd hb (by simp)
  · simpa using hs e he hb

theorem Step.leavesBy_of_calls {bad : Event → Bool} (X : Exit → Prop) {s : Step}
    {l cs : List Call} (hl : ∀ e ∈ s.trace, e.call ∈ l)
    (hbad : ∀ e, bad e = true → e.call ∈ cs) (hd : ∀ c ∈ cs, c ∉ l) : s.LeavesBy bad X :=
  fun e he hb => absurd (hl e he) (hd _ (hbad e hb))

theorem Event.isRelease_call {e : Event} (h : e.isRelease = true) :
    e.call ∈ [Call.NvVFX_DestroyEffect, .NvVFX_CudaStreamDestroy, .rs_shutdown] := by
  simpa [Event.isRelease] using h

theorem Event.isCreationFailure_call {e : Event} (h : e.isCreationFailure = true) :
    e.call ∈ [Call.CreateTexture2D, .CreateShaderResourceView, .CreateRenderTargetView,
      .CreateDepthStencilView, .NvCVImage_InitFromD3D11Texture] := by
  cases e <;> simp [Event.isCreationFailure] at h <;> simp [Event.call]

theorem fanOut_release (env : Env) (effect : Effect) (fd : FrameData) (st : PipelineState)
    (i : Nat) (streams : List StreamDescription) :
    (fanOut env effect fd st i streams).LeavesBy Event.isRelease Exit.isReturn := by
  induction streams generalizing i with
  | nil => intro e he; simp [fanOut] at he
  | cons d rest ih =>
    unfold fanOut
    simp only []
    split
    · split
      · intro e he hb
        simp only [Step.leave_trace, List.mem_singleton] at he
        subst he
        simp [Event.isRelease, Event.call] at hb
      · split
        · intro e he hb
          exact ⟨_, rfl, trivial⟩
        · refine Step.leavesBy_after ?_ (ih (i + 1))
          intro e he
          simp only [drawQuad, List.cons_append, List.nil_append, List.mem_cons,
            List.mem_singleton, List.not_mem_nil, or_false] at he
          rcases he with he | he | he | he | he | he | he | he <;> subst he <;> rfl
    · refine Step.leavesBy_after ?_ (ih (i + 1))
      intro e he
      simp only [List.mem_singleton] at he
      subst he; rfl

/-- Inside the handling of a frame image, the release sequence is run only on the way to a
`return` of `main`. -/
theorem processImage_release (env : Env) (effect : Effect) (fd : FrameData)
    (image : ImageFrameData) (st : PipelineState) :
    (processImage env effect fd image st).LeavesBy Event.isRelease Exit.isReturn := by
  refine processImage_stages (Step.LeavesBy Event.isRelease Exit.isReturn)
    Step.leavesBy_andThen env effect fd image ?_ ?_ ?_ ?_ ?_ ?_ ?_ ?_ ?_ ?_ ?_ ?_ st
  · intro s
    exact Step.leavesBy_of_calls _ (ensureInput_calls env effect fd image s)
      (fun e => Event.isRelease_call) (by decide)
  · intro s
    exact Step.leavesBy_of_calls _ (acquireInput_calls env image s)
      (fun e => Event.isRelease_call) (by decide)
  · intro s
    exact Step.leavesBy_of_calls _ (transferInput_calls env s)
      (fun e => Event.isRelease_call) (by decide)
  · intro s
    exact Step.leavesBy_of_calls _ (setInputImage_calls env effect s)
      (fun e => Event.isRelease_call) (by decide)
  · intro s
    unfold ensureOutput Step.LeavesBy
    simp only []
    split
    · have hc := createTexture_calls env.outputTexture s.nextPtr
        (outputSize effect image.width) (outputSize effect image.height)
        effect.outputTextureFormat
      have key : ∀ tr : List Event, (∀ e ∈ tr, e.call ∈ [Call.CreateTexture2D,
          .CreateShaderResourceView, .NvCVImage_InitFromD3D11Texture]) →
          ∀ e ∈ tr, e.isRelease = true → False := by
        intro tr htr e he hb
        have h1 := htr e he
        have h2 := Event.isRelease_call hb
        revert h1 h2; generalize e.call = c; revert c; decide
      split
      · next what trace heq =>
        rw [heq] at hc
        intro e he hb
        exact (key trace hc e he hb).elim
      · next texture trace heq =>
        rw [heq] at hc
        split
        · intro e he hb; exact ⟨_, rfl, trivial⟩
        · split
          · intro e he hb
            simp only [Step.pass_trace, List.mem_append, List.mem_cons, List.mem_singleton,
              List.not_mem_nil, or_false] at he
            rcases he with (he | rfl | rfl) | rfl
            · exact (key trace hc e he hb).elim
            · simp [Event.isRelease, Event.call] at hb
            · simp [Event.isRelease, Event.call] at hb
            · simp [Event.isRelease, Event.call] at hb
          · intro e he hb
            simp only [Step.pass_trace, List.mem_append, List.mem_cons, List.mem_singleton,
              List.not_mem_nil, or_false] at he
            rcases he with he | rfl | rfl
            · exact (key trace hc e he hb).elim
            · simp [Event.isRelease, Event.call] at hb
            · simp [Event.isRelease, Event.call] at hb
    · simp
  · intro s; unfold setOutputImage Step.LeavesBy; simp only []
    split
    · intro e he hb; exact ⟨_, rfl, trivial⟩
    · simp [Event.isRelease, Event.call]
  · intro s
    exact Step.leavesBy_of_calls _ (loadEffect_calls env effect fd s)
      (fun e => Event.isRelease_call) (by decide)
  · intro s
    exact Step.leavesBy_of_calls _ (runEffect_calls env effect fd s)
      (fun e => Event.isRelease_call) (by decide)
  · intro s
    exact Step.leavesBy_of_calls _ (transferEffectOutput_calls env s)
      (fun e => Event.isRelease_call) (by decide)
  · intro s
    exact Step.leavesBy_of_calls _ (transferOutput_calls env s)
      (fun e => Event.isRelease_call) (by decide)
  · intro s
    exact fanOut_release env effect fd s 0 _
  · intro s e he; simp at he

theorem createTexture_trace_of_ok {r : CreateTextureResults} {ptr width height : Nat}
    {format : DXGI_FORMAT} {texture : Texture} {trace : List Event}
    (h : createTexture r ptr width height format = (.ok texture, trace)) :
    ∀ e ∈ trace, e.isCreationFailure = false := by
  have hr := (createTexture_eq_ok h).2
  rw [hr, createTexture_ok] at h
  simp only [Prod.mk.injEq] at h
  rw [← h.2]
  intro e he
  simp only [List.mem_cons, List.mem_singleton, List.not_mem_nil, or_false] at he
  rcases he with rfl | rfl | rfl <;> rfl

/-- Inside the handling of a frame image, a creation call that fails is a call of
`createTexture`, and the exception it throws is caught nowhere. -/
theorem processImage_creationFailure (env : Env) (effect : Effect) (fd : FrameData)
    (image : ImageFrameData) (st : PipelineState) :
    (processImage env effect fd image st).LeavesBy Event.isCreationFailure
      Exit.isUncaught := by
  refine processImage_stages (Step.LeavesBy Event.isCreationFailure Exit.isUncaught)
    Step.leavesBy_andThen env effect fd image ?_ ?_ ?_ ?_ ?_ ?_ ?_ ?_ ?_ ?_ ?_ ?_ st
  · intro s
    unfold ensureInput Step.LeavesBy
    split
    · split
      · intro e he hb; exact ⟨_, rfl, trivial⟩
      · next texture trace heq =>
        intro e he hb
        simp only [Step.pass_trace, List.mem_append, List.mem_singleton] at he
        rcases he with he | rfl
        · rw [createTexture_trace_of_ok heq e he] at hb; exact absurd hb (by simp)
        · simp [Event.isCreationFailure] at hb
    · simp
  · intro s
    exact Step.leavesBy_of_calls _ (acquireInput_calls env image s)
      (fun e => Event.isCreationFailure_call) (by decide)
  · intro s
    exact Step.leavesBy_of_calls _ (transferInput_calls env s)
      (fun e => Event.isCreationFailure_call) (by decide)
  · intro s
    exact Step.leavesBy_of_calls _ (setInputImage_calls env effect s)
      (fun e => Event.isCreationFailure_call) (by decide)
  · intro s
    unfold ensureOutput Step.LeavesBy
    simp only []
    split
    · split
      · intro e he hb; exact ⟨_, rfl, trivial⟩
      · next texture trace heq =>
        have hok := createTexture_trace_of_ok heq
        have hrel : ∀ s' : PipelineState, ∀ e ∈ releaseAll env s',
            e.isCreationFailure = true → False := by
          intro s' e he hb
          have h1 := releaseAll_calls env s' e he
          have h2 := Event.isCreationFailure_call hb
          revert h1 h2; generalize e.call = c; revert c; decide
        split
        · intro e he hb
          exfalso
          simp only [Step.leave_trace, List.mem_append, List.mem_cons, List.mem_singleton,
            List.not_mem_nil, or_false] at he
          rcases he with ((he | rfl | rfl) | rfl) | he
          · rw [hok e he] at hb; exact absurd hb (by simp)
          · simp [Event.isCreationFailure] at hb
          · simp [Event.isCreationFailure] at hb
          · simp [Event.isCreationFailure] at hb
          · exact hrel _ e he hb
        · split
          · intro e he hb
            exfalso
            simp only [Step.pass_trace, List.mem_append, List.mem_cons, List.mem_singleton,
              List.not_mem_nil, or_false] at he
            rcases he with (he | rfl | rfl) | rfl
            · rw [hok e he] at hb; exact absurd hb (by simp)
            · simp [Event.isCreationFailure] at hb
            · simp [Event.isCreationFailure] at hb
            · simp [Event.isCreationFailure] at hb
          · intro e he hb
            exfalso
            simp only [Step.pass_trace, List.mem_append, List.mem_cons, List.mem_singleton,
              List.not_mem_nil, or_false] at he
            rcases he with he | rfl | rfl
            · rw [hok e he] at hb; exact absurd hb (by simp)
            · simp [Event.isCreationFailure] at hb
            · simp [Event.isCreationFailure] at hb
    · simp
  · intro s
    exact Step.leavesBy_of_calls _ (setOutputImage_calls env effect s)
      (fun e => Event.isCreationFailure_call) (by decide)
  · intro s
    exact Step.leavesBy_of_calls _ (loadEffect_calls env effect fd s)
      (fun e => Event.isCreationFailure_call) (by decide)
  · intro s
    exact Step.leavesBy_of_calls _ (runEffect_calls env effect fd s)
      (fun e => Event.isCreationFailure_call) (by decide)
  · intro s
    exact Step.leavesBy_of_calls _ (transferEffectOutput_calls env s)
      (fun e => Event.isCreationFailure_call) (by decide)
  · intro s
    exact Step.leavesBy_of_calls _ (transferOutput_calls env s)
      (fun e => Event.isCreationFailure_call) (by decide)
  · intro s
    exact Step.leavesBy_of_calls _ (fanOut_calls env effect fd s 0 _)
      (fun e => Event.isCreationFailure_call) (by decide)
  · intro s e he; simp at he

/-- The handling of a frame request carries a property of the handling of a frame image
over, when the calls before it are not marked. -/
theorem processFrame_leavesBy {bad : Event → Bool} {X : Exit → Prop} (env : Env)
    (st : PipelineState)
    (hlog : ∀ d, bad (.rs_logToD3 d) = false)
    (hdata : ∀ scene result, bad (.rs_getFrameImageData scene result) = false)
    (himg : ∀ effect, (processImage env effect env.frameData env.image st).LeavesBy bad X) :
    (processFrame env st).LeavesBy bad X := by
  unfold processFrame
  simp only []
  split
  · intro e he hb
    simp only [Step.leave_trace, List.mem_singleton] at he
    subst he; rw [hlog] at hb; exact absurd hb (by simp)
  · split
    · intro e he; simp at he
    · split
      · intro e he hb
        simp only [Step.leave_trace, List.mem_cons, List.mem_singleton, List.not_mem_nil,
          or_false] at he
        rcases he with rfl | rfl
        · rw [hdata] at hb; exact absurd hb (by simp)
        · rw [hlog] at hb; exact absurd hb (by simp)
      · refine Step.leavesBy_after ?_ (himg _)
        intro e he
        simp only [List.mem_singleton] at he
        subst he; exact hdata _ _

/-- In every iteration that handles a frame request, a creation call that fails (in
`createTexture`, lines 201-236) ends the iteration with an exception that nothing catches,
and the iteration makes no call of the release sequence. -/
theorem createTexture_failure_is_uncaught (env : Env) (st : PipelineState)
    (hw : env.await = .RS_ERROR_SUCCESS) (e : Event) (he : e ∈ (mainLoopBody env st).trace)
    (hb : e.isCreationFailure = true) :
    (∃ what, (mainLoopBody env st).exit = some (.uncaught what)) ∧
    callsTo [.NvVFX_DestroyEffect, .NvVFX_CudaStreamDestroy, .rs_shutdown]
      (mainLoopBody env st).trace = [] := by
  rw [mainLoopBody_of_success env st hw] at he ⊢
  have h1 : (Step.after [.rs_awaitFrameData 5000 .RS_ERROR_SUCCESS]
      (processFrame env st)).LeavesBy Event.isCreationFailure Exit.isUncaught :=
    Step.leavesBy_after (by simp [Event.isCreationFailure])
      (processFrame_leavesBy env st (fun _ => rfl) (fun _ _ => rfl)
        (fun effect => processImage_creationFailure env effect env.frameData env.image st))
  have h2 : (Step.after [.rs_awaitFrameData 5000 .RS_ERROR_SUCCESS]
      (processFrame env st)).LeavesBy Event.isRelease Exit.isReturn :=
    Step.leavesBy_after (by simp [Event.isRelease, Event.call])
      (processFrame_leavesBy env st (fun _ => rfl) (fun _ _ => rfl)
        (fun effect => processImage_release env effect env.frameData env.image st))
  obtain ⟨x, hx, hX⟩ := h1 e he hb
  cases x with
  | uncaught what =>
    refine ⟨⟨what, hx⟩, ?_⟩
    simp only [callsTo, List.filter_eq_nil_iff, decide_eq_true_eq]
    intro e' he' hc
    obtain ⟨y, hy, hY⟩ := h2 e' he' (by simpa [Event.isRelease] using hc)
    rw [hx] at hy
    cases hy
    exact hY
  | skip => exact absurd hX (by simp [Exit.isUncaught])
  | exit n => exact absurd hX (by simp [Exit.isUncaught])

theorem fanOut_return (env : Env) (effect : Effect) (fd : FrameData) (st : PipelineState)
    (i : Nat) (streams : List StreamDescription) (n : Nat)
    (h : (fanOut env effect fd st i streams).exit = some (.exit n)) :
    ∃ before, (fanOut env effect fd st i streams).trace = before ++ releaseAll env st := by
  induction streams generalizing i with
  | nil => simp [fanOut] at h
  | cons d rest ih =>
    unfold fanOut at h ⊢
    simp only [] at h ⊢
    split
    · next hq =>
      rw [if_pos hq] at h
      split
      · next hnone => simp [hnone] at h
      · next target htarget =>
        simp only [htarget] at h
        split
        · exact ⟨_, rfl⟩
        · next hs =>
          rw [if_neg hs] at h
          obtain ⟨before, hb⟩ := ih (i + 1) (by simpa using h)
          exact ⟨_, by simp only [Step.after_trace]; rw [hb, ← List.append_assoc]⟩
    · next hq =>
      rw [if_neg hq] at h
      obtain ⟨before, hb⟩ := ih (i + 1) (by simpa using h)
      exact ⟨_, by simp only [Step.after_trace]; rw [hb, ← List.append_assoc]⟩

/-- Inside the handling of a frame image, every `return` of `main` is preceded by the
release sequence: the trace ends with it. -/
theorem processImage_return (env : Env) (effect : Effect) (fd : FrameData)
    (image : ImageFrameData) (st : PipelineState) (n : Nat)
    (h : (processImage env effect fd image st).exit = some (.exit n)) :
    ∃ before, (processImage env effect fd image st).trace =
      before ++ releaseAll env (processImage env effect fd image st).state := by
  revert h
  refine processImage_stages
    (fun s => s.exit = some (.exit n) → ∃ before, s.trace = before ++ releaseAll env s.state)
    ?_ env effect fd image ?_ ?_ ?_ ?_ ?_ ?_ ?_ ?_ ?_ ?_ ?_ ?_ st
  · intro a f ha hf
    cases hx : a.exit with
    | none =>
      rw [Step.andThen_of_exit_none f hx]
      intro h
      obtain ⟨before, hb⟩ := hf a.state (by simpa using h)
      exact ⟨a.trace ++ before, by simp only [Step.after_trace, Step.after_state]; rw [hb, List.append_assoc]⟩
    | some x => rw [Step.andThen_of_exit_some f hx]; exact ha
  · intro s h; unfold ensureInput at h; split at h
    · split at h <;> simp at h
    · simp at h
  · intro s h; unfold acquireInput at h; simp only [] at h; split at h <;> simp at h
  · intro s h; unfold transferInput at h; simp only [] at h
    split at h
    · simp at h
    · split at h
      · simp at h
      · split at h <;> simp at h
  · intro s h; unfold setInputImage at h; simp only [] at h; split at h <;> simp at h
  · intro s
    unfold ensureOutput
    simp only []
    split
    · split
      · simp
      · split
        · intro _; exact ⟨_, rfl⟩
        · split <;> simp
    · simp
  · intro s
    unfold setOutputImage
    simp only []
    split
    · intro _; exact ⟨_, rfl⟩
    · simp
  · intro s h; unfold loadEffect at h; split at h
    · simp only [] at h; split at h <;> simp at h
    · simp at h
  · intro s h; unfold runEffect at h; simp only [] at h; split at h <;> simp at h
  · intro s h; unfold transferEffectOutput at h; split at h
    · simp only [] at h; split at h <;> simp at h
    · simp at h
  · intro s h; unfold transferOutput at h; simp only [] at h
    split at h
    · simp at h
    · split at h
      · simp at h
      · split at h <;> simp at h
  · intro s h
    rw [fanOut_state]
    exact fanOut_return env effect fd s 0 _ n h
  · intro s h; simp at h

/-- Every iteration that makes `main` return has run the release sequence just before:
each effect handle is destroyed, in the order of the effects vector, then the CUDA stream,
then `rs_shutdown` is called; only the line written when `rs_shutdown` fails (line 844)
comes after it. -/
theorem mainLoopBody_return_releases (env : Env) (st : PipelineState) (n : Nat)
    (h : (mainLoopBody env st).exit = some (.exit n)) :
    ∃ before after, (mainLoopBody env st).trace =
        before ++ releaseAll env (mainLoopBody env st).state ++ after ∧
      (after = [] ∨ after = [.tcerr .shutdownFailed]) := by
  unfold mainLoopBody at h ⊢
  simp only [] at h ⊢
  split
  · next hsc =>
    rw [if_pos hsc] at h
    simp only [Step.after_exit, Step.after_trace, Step.after_state] at h ⊢
    unfold streamsChanged at h ⊢
    split
    · next what trace heq =>
      exact ⟨[.rs_awaitFrameData 5000 env.await] ++ (trace ++ [.tcerr (.what what)]), [],
        by simp [List.append_assoc], Or.inl rfl⟩
    · next streams trace heq =>
      simp only [heq] at h
      simp only [] at h ⊢
      split
      · next what hx =>
        exact ⟨[.rs_awaitFrameData 5000 env.await] ++ (trace ++
          (createRenderTargets env 0 streams { st with header := some streams }).trace ++
          [.tcerr (.what what)]), [], by simp [List.append_assoc], Or.inl rfl⟩
      · next hne =>
        exfalso
        split at h
        · next hx => exact hne _ hx
        · simp at h
  · next hsc =>
    rw [if_neg hsc] at h
    split
    · next ht => rw [if_pos ht] at h; simp at h
    · next ht =>
      rw [if_neg ht] at h
      split
      · unfold shutdownAfterLoop
        split
        · exact ⟨[.rs_awaitFrameData 5000 env.await, .tcerr (.awaitReturned env.await)],
            [.tcerr .shutdownFailed], by simp, Or.inr rfl⟩
        · exact ⟨[.rs_awaitFrameData 5000 env.await, .tcerr (.awaitReturned env.await)],
            [], by simp, Or.inl rfl⟩
      · next hs =>
        rw [if_neg hs] at h
        simp only [Step.after_exit, Step.after_trace, Step.after_state] at h ⊢
        unfold processFrame at h ⊢
        simp only [] at h ⊢
        split
        · next hscene => rw [if_pos hscene] at h; simp at h
        · next hscene =>
          rw [if_neg hscene] at h
          split
          · next heff => simp [heff] at h
          · next effect heff =>
            simp only [heff] at h
            split
            · next hd => rw [if_pos hd] at h; simp at h
            · next hd =>
              rw [if_neg hd] at h
              obtain ⟨before, hb⟩ := processImage_return env effect env.frameData env.image
                st n (by simpa using h)
              refine ⟨[.rs_awaitFrameData 5000 env.await] ++
                ([.rs_getFrameImageData env.frameData.scene env.getFrameImageData] ++ before),
                [], ?_, Or.inl rfl⟩
              simp only [Step.after_trace, Step.after_state, List.append_nil]
              rw [hb]
              simp only [List.append_assoc]

/-- C14 (code at the failing input): with two streams announced, a frame request for scene
0 at 640x360 during which `CreateTexture2D` fails for the input texture: `createTexture`
throws at line 208, no handler catches the exception, and the iteration ends right after
the failed call, with no `NvVFX_DestroyEffect`, `NvVFX_CudaStreamDestroy` or `rs_shutdown`
call.  The same holds when the interop registration of the output texture fails (line 233).
The streams-changed branch, whose creation calls are inside a `try` block, does release
everything and returns 7 when the texture of a render target cannot be created. -/
theorem allocation_failure_skips_release :
    (mainLoopBody (inputAllocationFailure 0 640 360 ⟨false, true, .NVCV_SUCCESS⟩)
      stateWithTwoStreams).exit =
      some (.uncaught "Failed to create texture for image parameter") ∧
    (mainLoopBody (inputAllocationFailure 0 640 360 ⟨false, true, .NVCV_SUCCESS⟩)
      stateWithTwoStreams).trace =
      [.rs_awaitFrameData 5000 .RS_ERROR_SUCCESS, .rs_getFrameImageData 0 .RS_ERROR_SUCCESS,
       .CreateTexture2D 640 360 .DXGI_FORMAT_B8G8R8A8_UNORM false] ∧
    (mainLoopBody (outputAllocationFailure 0 640 360 ⟨true, true, .other 1⟩)
      stateWithTwoStreams).exit =
      some (.uncaught "Failed to create Nvidia CV image for image parameter") ∧
    callsTo [.NvVFX_DestroyEffect, .NvVFX_CudaStreamDestroy, .rs_shutdown]
      (mainLoopBody (outputAllocationFailure 0 640 360 ⟨true, true, .other 1⟩)
        stateWithTwoStreams).trace = [] ∧
    (mainLoopBody (renderTargetFailure twoStreams 0) initialState).exit = some (.exit 7) ∧
    (mainLoopBody (renderTargetFailure twoStreams 0) initialState).trace =
      [.rs_awaitFrameData 5000 .RS_ERROR_STREAMS_CHANGED, .rs_getStreamsSize,
       .rs_getStreams .RS_ERROR_SUCCESS,
       .CreateTexture2D 1920 1080 .DXGI_FORMAT_B8G8R8A8_UNORM false,
       .tcerr (.what "Failed to create render target texture for stream"),
       .NvVFX_DestroyEffect .NVVFX_FX_TRANSFER, .NvVFX_DestroyEffect .NVVFX_FX_GREEN_SCREEN,
       .NvVFX_DestroyEffect .NVVFX_FX_ARTIFACT_REDUCTION,
       .NvVFX_DestroyEffect .NVVFX_FX_SUPER_RES, .NvVFX_DestroyEffect .NVVFX_FX_SR_UPSCALE,
       .NvVFX_CudaStreamDestroy, .rs_shutdown .RS_ERROR_SUCCESS] := by
  decide

/-! ## The transfers of the format bridge -/

theorem transferInput_transfers {env : Env} {st : PipelineState}
    (h : (transferInput env st).exit = none) :
    callsTo [.NvCVImage_Transfer] (transferInput env st).trace =
      [.NvCVImage_Transfer st.input.image (st.effectInput.map (·.ptr)) .oneOver255
        .NVCV_SUCCESS] := by
  unfold transferInput at h ⊢
  simp only [] at h ⊢
  split at h
  · simp at h
  · split at h
    · simp at h
    · split at h
      · simp at h
      · next h1 h2 h3 =>
        simp only [ne_eq, Decidable.not_not] at h1 h2
        simp only [Bool.not_eq_true, Bool.not_eq_false', decide_eq_true_eq, Bool.not_not]
          at h3
        simp [h1, h2, h3, callsTo, Event.call]

theorem transferOutput_transfers {env : Env} {st : PipelineState}
    (h : (transferOutput env st).exit = none) :
    callsTo [.NvCVImage_Transfer] (transferOutput env st).trace =
      [.NvCVImage_Transfer (st.outputImage.map (·.ptr)) st.output.image .one
        .NVCV_SUCCESS] := by
  unfold transferOutput at h ⊢
  simp only [] at h ⊢
  split at h
  · simp at h
  · split at h
    · simp at h
    · split at h
      · simp at h
      · next h1 h2 h3 =>
        simp only [ne_eq, Decidable.not_not] at h1 h2
        simp only [Bool.not_eq_true, Bool.not_eq_false', decide_eq_true_eq, Bool.not_not]
          at h3
        simp [h1, h2, h3, callsTo, Event.call]

theorem transferEffectOutput_transfers {env : Env} {st : PipelineState}
    (h : (transferEffectOutput env st).exit = none) :
    callsTo [.NvCVImage_Transfer] (transferEffectOutput env st).trace =
      if st.effectOutput.map (·.ptr) ≠ st.outputImage.map (·.ptr) then
        [.NvCVImage_Transfer (st.effectOutput.map (·.ptr)) (st.outputImage.map (·.ptr))
          .times255 .NVCV_SUCCESS]
      else [] := by
  unfold transferEffectOutput at h ⊢
  split
  · next hne =>
    rw [if_pos hne] at h
    simp only [] at h ⊢
    split at h
    · simp at h
    · next hok =>
      simp only [ne_eq, Decidable.not_not] at hok
      simp [hok, callsTo, Event.call]
  · simp [callsTo]

theorem inboundPhase_transfers {env : Env} {effect : Effect} {fd : FrameData}
    {image : ImageFrameData} {st : PipelineState}
    (h : (inboundPhase env effect fd image st).exit = none) :
    callsTo [.NvCVImage_Transfer] (inboundPhase env effect fd image st).trace =
      [.NvCVImage_Transfer (inboundPhase env effect fd image st).state.input.image
        ((inboundPhase env effect fd image st).state.effectInput.map (·.ptr)) .oneOver255
        .NVCV_SUCCESS] := by
  rw [inboundPhase_state]
  unfold inboundPhase at h ⊢
  obtain ⟨h1, h⟩ := (Step.andThen_exit_none_iff _ _).1 h
  obtain ⟨h2, h⟩ := (Step.andThen_exit_none_iff _ _).1 h
  obtain ⟨h3, h4⟩ := (Step.andThen_exit_none_iff _ _).1 h
  rw [callsTo_andThen_of_exit_none _ _ h1, callsTo_andThen_of_exit_none _ _ h2,
    callsTo_andThen_of_exit_none _ _ h3,
    callsTo_eq_nil_of_calls (ensureInput_calls env effect fd image st) (by decide),
    callsTo_eq_nil_of_calls (acquireInput_calls env image _) (by decide),
    callsTo_eq_nil_of_calls (setInputImage_calls env effect _) (by decide),
    transferInput_transfers h3, acquireInput_state]
  simp

theorem outboundPhase_transfers {env : Env} {st : PipelineState}
    (h : (outboundPhase env st).exit = none) :
    callsTo [.NvCVImage_Transfer] (outboundPhase env st).trace =
      (if st.effectOutput.map (·.ptr) ≠ st.outputImage.map (·.ptr) then
        [.NvCVImage_Transfer (st.effectOutput.map (·.ptr)) (st.outputImage.map (·.ptr))
          .times255 .NVCV_SUCCESS]
      else []) ++
      [.NvCVImage_Transfer (st.outputImage.map (·.ptr)) st.output.image .one
        .NVCV_SUCCESS] := by
  unfold outboundPhase at h ⊢
  obtain ⟨h1, h2⟩ := (Step.andThen_exit_none_iff _ _).1 h
  rw [callsTo_andThen_of_exit_none _ _ h1, transferEffectOutput_transfers h1,
    transferOutput_transfers h2, transferEffectOutput_state]

/-- The `NvCVImage_Transfer` calls of an iteration that reaches the end of the loop body:
the input texture into the effect input image with scale `1/255.f`; the effect output into
`outputImage` with scale `255.f` when the two are different objects; `outputImage` into
the output texture with scale `1`. -/
theorem mainLoopBody_transfers {env : Env} {st : PipelineState}
    (h : (mainLoopBody env st).exit = none) :
    let s := (mainLoopBody env st).state
    callsTo [.NvCVImage_Transfer] (mainLoopBody env st).trace =
      [.NvCVImage_Transfer s.input.image (s.effectInput.map (·.ptr)) .oneOver255
        .NVCV_SUCCESS] ++
      (if s.effectOutput.map (·.ptr) ≠ s.outputImage.map (·.ptr) then
        [.NvCVImage_Transfer (s.effectOutput.map (·.ptr)) (s.outputImage.map (·.ptr))
          .times255 .NVCV_SUCCESS]
      else []) ++
      [.NvCVImage_Transfer (s.outputImage.map (·.ptr)) s.output.image .one
        .NVCV_SUCCESS] := by
  obtain ⟨hawait, hscene, hdata, effect, heff, hp⟩ := mainLoopBody_exit_none h
  obtain ⟨h1, h2, h3, h4, h5, hs⟩ := processImage_exit_none hp
  have hr := mainLoopBody_of_image hawait hscene heff hdata
  have hf2 := outputPhase_frame env effect env.frameData env.image
    (inboundPhase env effect env.frameData env.image st).state
  have hf3 := effectPhase_frame env effect env.frameData
    (outputPhase env effect env.frameData env.image
      (inboundPhase env effect env.frameData env.image st).state).state
  simp only [] at hf2 hf3
  intro s
  have hs' : s = { (effectPhase env effect env.frameData
      (outputPhase env effect env.frameData env.image
        (inboundPhase env effect env.frameData env.image st).state).state).state with
      lastScene := env.frameData.scene } := by
    simp only [s, hr, Step.after_state]; exact hs
  rw [hr, processImage_of_phases h1 h2 h3 h4]
  simp only [Step.after_trace, callsTo_append]
  rw [inboundPhase_transfers h1, outboundPhase_transfers h4,
    callsTo_eq_nil_of_calls (outputPhase_calls env effect env.frameData env.image _)
      (by decide),
    callsTo_eq_nil_of_calls (effectPhase_calls env effect env.frameData _) (by decide),
    callsTo_eq_nil_of_calls (respondPhase_calls env effect env.frameData _) (by decide)]
  simp only [hs', hf3.2.2.1, hf3.2.2.2.1, hf3.2.2.2.2.1, hf3.2.2.2.2.2.1, hf3.2.2.2.2.2.2.1,
    hf2.2.2.2.1, hf2.2.2.2.2.1]
  simp [callsTo, Event.call]

/-! ## The staging image -/

theorem Step.mem_andThen_trace {a : Step} (f : PipelineState → Step) {e : Event}
    (h : e ∈ a.trace) : e ∈ (a.andThen f).trace := by
  cases hx : a.exit with
  | none => rw [Step.andThen_trace_of_exit_none hx]; exact List.mem_append_left _ h
  | some x => rw [Step.andThen_of_exit_some f hx]; exact h

/-- What `ensureOutput` leaves in `outputImage` when it makes the output buffers anew and
the format of the output texture is known (lines 721-724). -/
theorem ensureOutput_staging (env : Env) (effect : Effect) (fd : FrameData)
    (image : ImageFrameData) (st : PipelineState)
    (h : st.output.width ≠ outputSize effect image.width ∨
      st.output.height ≠ outputSize effect image.height ∨ fd.scene ≠ st.lastScene)
    (hok : env.outputTexture = ⟨true, true, .NVCV_SUCCESS⟩)
    (hfmt : (env.fromD3DFormat effect.outputTextureFormat).1 = .NVCV_SUCCESS) :
    let r := ensureOutput env effect fd image st
    let derived := (env.fromD3DFormat effect.outputTextureFormat).2
    let staging : NvCVImage :=
      { ptr := st.nextPtr + 4, width := outputSize effect image.width,
        height := outputSize effect image.height, pixelFormat := derived.pixelFormat,
        componentType := derived.componentType, layout := derived.layout,
        alignment := if derived.layout = .NVCV_PLANAR then 1 else 32 }
    ((effect.outputPixelFormat ≠ derived.pixelFormat ∨
        effect.outputComponentType ≠ derived.componentType ∨
        effect.outputLayout ≠ derived.layout) →
      r.state.outputImage = some staging ∧ Event.makeNvCVImage staging ∈ r.trace) ∧
    (¬ (effect.outputPixelFormat ≠ derived.pixelFormat ∨
        effect.outputComponentType ≠ derived.componentType ∨
        effect.outputLayout ≠ derived.layout) →
      r.state.outputImage = r.state.effectOutput) := by
  unfold ensureOutput
  simp only []
  rw [if_pos h, hok, createTexture_ok]
  simp only [hfmt, ne_eq, not_true_eq_false, if_false]
  constructor
  · intro hd
    rw [if_pos hd]
    simp
  · intro hd
    rw [if_neg hd]
    simp

/-- C15: take a frame request for an in-range scene whose input conversion succeeds.  If
the output buffers are made anew (the output size or the scene differs from the cached
one), the output texture can be created and `NvCVImage_FromD3DFormat` succeeds, then
`outputImage` is an object different from `effectOutput` exactly when the output pixel
format, component type or layout the effect declares differs from the triple derived from
its output texture format; in that case it is an image made in this iteration with the
output width and height and the derived triple, and otherwise `outputImage` is
`effectOutput` itself.  And in every iteration that reaches the end of the loop body, an
`NvCVImage_Transfer` with scale `255.f` (effect output to `outputImage`) is made exactly
when `effectOutput` and `outputImage` are different objects. -/
theorem staging_image_iff_formats_differ (env : Env) (st : PipelineState) (effect : Effect)
    (hawait : env.await = .RS_ERROR_SUCCESS) (hscene : env.frameData.scene < nScenes)
    (heff : st.effects[env.frameData.scene]? = some effect)
    (hdata : env.getFrameImageData = .RS_ERROR_SUCCESS)
    (hin : (inboundPhase env effect env.frameData env.image st).exit = none) :
    let r := mainLoopBody env st
    let width := outputSize effect env.image.width
    let height := outputSize effect env.image.height
    let derived := (env.fromD3DFormat effect.outputTextureFormat).2
    let differs := effect.outputPixelFormat ≠ derived.pixelFormat ∨
      effect.outputComponentType ≠ derived.componentType ∨
      effect.outputLayout ≠ derived.layout
    ((st.output.width ≠ width ∨ st.output.height ≠ height ∨
        env.frameData.scene ≠ st.lastScene) →
      env.outputTexture = ⟨true, true, .NVCV_SUCCESS⟩ →
      (env.fromD3DFormat effect.outputTextureFormat).1 = .NVCV_SUCCESS →
      ∃ native staging, r.state.effectOutput = some native ∧
        r.state.outputImage = some staging ∧
        (staging.ptr ≠ native.ptr ↔ differs) ∧
        (differs → Event.makeNvCVImage staging ∈ r.trace ∧
          staging.width = width ∧ staging.height = height ∧
          staging.pixelFormat = derived.pixelFormat ∧
          staging.componentType = derived.componentType ∧
          staging.layout = derived.layout) ∧
        (¬ differs → staging = native)) ∧
    (r.exit = none →
      ((∃ src dst result, Event.NvCVImage_Transfer src dst .times255 result ∈ r.trace) ↔
        r.state.effectOutput.map (·.ptr) ≠ r.state.outputImage.map (·.ptr))) := by
  intro r width height derived differs
  have hr : r = Step.after [.rs_awaitFrameData 5000 .RS_ERROR_SUCCESS,
      .rs_getFrameImageData env.frameData.scene .RS_ERROR_SUCCESS]
      (processImage env effect env.frameData env.image st) :=
    mainLoopBody_of_image hawait hscene heff hdata
  constructor
  · intro hch hok hfmt
    have hb := processImage_buffers hin
    simp only [] at hb
    have hf1 := ensureInput_frame env effect env.frameData env.image st
    simp only [] at hf1
    have hch' : (ensureInput env effect env.frameData env.image st).state.output.width ≠
        outputSize effect env.image.width ∨
        (ensureInput env effect env.frameData env.image st).state.output.height ≠
          outputSize effect env.image.height ∨
        env.frameData.scene ≠
          (ensureInput env effect env.frameData env.image st).state.lastScene := by
      rw [hf1.2.2.2.1, hf1.2.2.2.2.2.2.2]; exact hch
    have h2 := ensureOutput_of_changed env effect env.frameData env.image _ hch' hok
    have h3 := ensureOutput_staging env effect env.frameData env.image _ hch' hok hfmt
    simp only [] at h2 h3
    have hmem : ∀ e, e ∈ (ensureOutput env effect env.frameData env.image
        (ensureInput env effect env.frameData env.image st).state).trace → e ∈ r.trace := by
      intro e he
      rw [hr]
      simp only [Step.after_trace]
      refine List.mem_append_right _ ?_
      unfold processImage
      rw [Step.andThen_trace_of_exit_none hin]
      refine List.mem_append_right _ (Step.mem_andThen_trace _ ?_)
      unfold outputPhase
      rw [inboundPhase_state]
      exact Step.mem_andThen_trace _ he
    have hso : r.state.outputImage = (ensureOutput env effect env.frameData env.image
        (ensureInput env effect env.frameData env.image st).state).state.outputImage := by
      rw [hr]; exact hb.2.2.2.2
    have hse : r.state.effectOutput = (ensureOutput env effect env.frameData env.image
        (ensureInput env effect env.frameData env.image st).state).state.effectOutput := by
      rw [hr]; exact hb.2.2.2.1
    by_cases hd : differs
    · obtain ⟨h4, h5⟩ := h3.1 hd
      refine ⟨_, _, hse.trans h2.2.1, hso.trans h4, ?_, ?_, ?_⟩
      · simp only [hd, iff_true]; simp
      · intro _; exact ⟨hmem _ h5, rfl, rfl, rfl, rfl, rfl⟩
      · intro hn; exact absurd hd hn
    · have h4 := h3.2 hd
      refine ⟨_, _, hse.trans h2.2.1, hso.trans (h4.trans h2.2.1), ?_, ?_, ?_⟩
      · simp only [hd, iff_false]; simp
      · intro h; exact absurd h hd
      · intro _; rfl
  · intro hx
    have ht := mainLoopBody_transfers hx
    simp only [] at ht
    constructor
    · rintro ⟨src, dst, result, hmem⟩
      have hmem' : Event.NvCVImage_Transfer src dst .times255 result ∈
          callsTo [.NvCVImage_Transfer] r.trace := by
        simp [callsTo, Event.call, hmem]
      rw [ht] at hmem'
      intro heq
      rw [if_neg (not_not.2 heq)] at hmem'
      simp at hmem'
    · intro hne
      refine ⟨r.state.effectOutput.map (·.ptr), r.state.outputImage.map (·.ptr),
        .NVCV_SUCCESS, ?_⟩
      have : Event.NvCVImage_Transfer (r.state.effectOutput.map (·.ptr))
          (r.state.outputImage.map (·.ptr)) .times255 .NVCV_SUCCESS ∈
          callsTo [.NvCVImage_Transfer] r.trace := by
        rw [ht, if_pos hne]; simp
      exact (List.mem_filter.1 this).1

/-- C15 (witness): scene 0 at 640x360 with two streams announced.  The output buffers are
made anew; the effect declares BGR and the output texture is BGRA, so `outputImage` is an
image of its own, image 17, at 640x360, and the transfer with scale `255.f` is made. -/
theorem staging_image_iff_formats_differ_witness :
    (inboundPhase (frameRequest 0 640 360) (effects.get ⟨0, by decide⟩)
      (frameRequest 0 640 360).frameData (frameRequest 0 640 360).image
      stateWithTwoStreams).exit = none ∧
    (∃ native staging,
      (mainLoopBody (frameRequest 0 640 360) stateWithTwoStreams).state.effectOutput =
        some native ∧
      (mainLoopBody (frameRequest 0 640 360) stateWithTwoStreams).state.outputImage =
        some staging ∧
      staging.ptr ≠ native.ptr) ∧
    (mainLoopBody (frameRequest 0 640 360) stateWithTwoStreams).state.outputImage =
      some { ptr := 17, width := 640, height := 360, pixelFormat := .other 7,
             componentType := .NVCV_U8, layout := .NVCV_CHUNKY, alignment := 32 } ∧
    (mainLoopBody (frameRequest 0 640 360) stateWithTwoStreams).exit = none ∧
    ((∃ src dst result, Event.NvCVImage_Transfer src dst .times255 result ∈
        (mainLoopBody (frameRequest 0 640 360) stateWithTwoStreams).trace) ↔
      (mainLoopBody (frameRequest 0 640 360) stateWithTwoStreams).state.effectOutput.map
          (·.ptr) ≠
        (mainLoopBody (frameRequest 0 640 360) stateWithTwoStreams).state.outputImage.map
          (·.ptr)) :=
  have h := staging_image_iff_formats_differ (frameRequest 0 640 360) stateWithTwoStreams
    (effects.get ⟨0, by decide⟩) rfl (by decide) (by decide) rfl (by decide)
  ⟨by decide,
   (h.1 (by decide) rfl rfl).imp fun _ h1 =>
     h1.imp fun _ h2 => ⟨h2.1, h2.2.1, h2.2.2.1.2 (by decide)⟩,
   by decide, by decide, h.2 (by decide)⟩

/-! ## Scale factors of the format bridge -/

theorem transferScales_eq_of_callsTo (trace : List Event) :
    transferScales trace = transferScales (callsTo [.NvCVImage_Transfer] trace) := by
  unfold transferScales callsTo
  rw [List.filterMap_filter]
  congr 1
  funext e
  cases e <;> rfl

/-- Known single-precision quotients: `1.f/3` is `0x3EAAAAAB` and `1.f/10` is
`0x3DCCCCCD`. -/
theorem float32Div_known_values :
    float32Div 1 3 = (11184811, 25) ∧ float32Div 1 10 = (13421773, 27) := by
  decide

/-- The float `1/255.f` is `0x3B808081`, that is 8421505 / 2^31: a little more than
1/255. -/
theorem TransferScale.value_oneOver255 :
    TransferScale.value .oneOver255 = 8421505 / 2 ^ 31 := by
  have h : float32Div 1 255 = (8421505, 31) := by decide
  simp only [TransferScale.value, h]
  norm_num

theorem TransferScale.value_times255 : TransferScale.value .times255 = 255 := by
  have h : float32Div 255 1 = (255 * 2 ^ 16, 16) := by decide
  simp only [TransferScale.value, h]
  norm_num

theorem TransferScale.value_one : TransferScale.value .one = 1 := by
  have h : float32Div 1 1 = (2 ^ 23, 23) := by decide
  simp only [TransferScale.value, h]
  norm_num

/-- C16 (counterexample): scene 1 (green screen) at 640x360 with two streams announced.
The frame is processed and handed out, the effect output is the alpha image that the A8
output texture takes as it is, so `outputImage` is `effectOutput`: the only transfers are
the inbound one with scale `1/255.f` and the final one with scale `1`.  No transfer has
scale `255.f`, and the product of the scale factors is the float `1/255.f` itself.  That
float is 8421505 / 2^31 and not 1/255, so that also for scene 2, where the transfer with
scale `255.f` is made, the product of the three factors is 1 + 127 / 2^31 and not 1. -/
theorem aliased_output_is_not_scaled_by_255 :
    (mainLoopBody (frameRequest 1 640 360) stateWithTwoStreams).exit = none ∧
    transferScales (mainLoopBody (frameRequest 1 640 360) stateWithTwoStreams).trace =
      [.oneOver255, .one] ∧
    ((transferScales (mainLoopBody (frameRequest 1 640 360) stateWithTwoStreams).trace).map
      TransferScale.value).prod = 8421505 / 2 ^ 31 ∧
    TransferScale.value .oneOver255 ≠ 1 / 255 ∧
    (mainLoopBody (frameRequest 2 640 360) stateWithTwoStreams).exit = none ∧
    ((transferScales (mainLoopBody (frameRequest 2 640 360) stateWithTwoStreams).trace).map
      TransferScale.value).prod ≠ 1 := by
  have h1 : transferScales (mainLoopBody (frameRequest 1 640 360) stateWithTwoStreams).trace =
      [.oneOver255, .one] := by decide
  have h2 : transferScales (mainLoopBody (frameRequest 2 640 360) stateWithTwoStreams).trace =
      [.oneOver255, .times255, .one] := by decide
  refine ⟨by decide, h1, ?_, ?_, by decide, ?_⟩
  · rw [h1]
    simp only [List.map, List.prod_cons, List.prod_nil, TransferScale.value_oneOver255,
      TransferScale.value_one]
    norm_num
  · rw [TransferScale.value_oneOver255]; norm_num
  · rw [h2]
    simp only [List.map, List.prod_cons, List.prod_nil, TransferScale.value_oneOver255,
      TransferScale.value_times255, TransferScale.value_one]
    norm_num

/-- C16 (as the code has it): in every iteration that reaches the end of the loop body the
transfers are, in order: the inbound one with scale `1/255.f`; one with scale `255.f`, from
the effect output to `outputImage`, exactly when the two are different objects; the final
one into the output texture with scale `1`.  With `1/255.f` the float 8421505 / 2^31, the
product of the scale factors is 1 + 127 / 2^31 when `outputImage` is an object of its own
and 8421505 / 2^31 when it is `effectOutput`. -/
theorem scale_factors_of_processed_frame (env : Env) (st : PipelineState)
    (h : (mainLoopBody env st).exit = none) :
    let r := mainLoopBody env st
    let distinct := r.state.effectOutput.map (·.ptr) ≠ r.state.outputImage.map (·.ptr)
    transferScales r.trace =
      [.oneOver255] ++ (if distinct then [.times255] else []) ++ [.one] ∧
    ((transferScales r.trace).map TransferScale.value).prod =
      if distinct then 1 + 127 / 2 ^ 31 else 8421505 / 2 ^ 31 := by
  intro r distinct
  have ht := mainLoopBody_transfers h
  simp only [] at ht
  have hs : transferScales r.trace =
      [.oneOver255] ++ (if distinct then [.times255] else []) ++ [.one] := by
    rw [transferScales_eq_of_callsTo, ht]
    by_cases hd : distinct
    · rw [if_pos hd, if_pos hd]; simp [transferScales]
    · rw [if_neg hd, if_neg hd]; simp [transferScales]
  refine ⟨hs, ?_⟩
  rw [hs]
  by_cases hd : distinct
  · rw [if_pos hd, if_pos hd]
    simp only [List.cons_append, List.nil_append, List.map, List.prod_cons, List.prod_nil,
      TransferScale.value_oneOver255, TransferScale.value_times255, TransferScale.value_one]
    norm_num
  · rw [if_neg hd, if_neg hd]
    simp only [List.cons_append, List.nil_append, List.map, List.prod_cons, List.prod_nil,
      TransferScale.value_oneOver255, TransferScale.value_one]
    norm_num

/-- C16 (witness): scene 2 (artifact reduction, planar float) at 640x360 with two streams
announced: the three transfers have scales `1/255.f`, `255.f` and `1`, with the product
1 + 127 / 2^31. -/
theorem scale_factors_of_processed_frame_witness :
    (mainLoopBody (frameRequest 2 640 360) stateWithTwoStreams).exit = none ∧
    transferScales (mainLoopBody (frameRequest 2 640 360) stateWithTwoStreams).trace =
      [.oneOver255, .times255, .one] ∧
    ((transferScales (mainLoopBody (frameRequest 2 640 360) stateWithTwoStreams).trace).map
      TransferScale.value).prod = 1 + 127 / 2 ^ 31 :=
  have h := scale_factors_of_processed_frame (frameRequest 2 640 360) stateWithTwoStreams
    (by decide)
  ⟨by decide, by decide, h.2.trans (if_pos (by decide))⟩

/-! ## The render-target pool after a streams-changed event -/

/-- When the render-target loop falls through, the entry of every handle it met is sized
for a stream of the enumeration with that handle, and every other entry is as before. -/
theorem createRenderTargets_sized (env : Env) (i : Nat) (streams : List StreamDescription)
    (st : PipelineState) (h : (createRenderTargets env i streams st).exit = none)
    (k : StreamHandle) :
    (k ∉ streams.map (·.handle) →
      renderTargetsAt (createRenderTargets env i streams st).state.renderTargets k =
        renderTargetsAt st.renderTargets k) ∧
    (k ∈ streams.map (·.handle) →
      ∃ target d, d ∈ streams ∧ d.handle = k ∧
        renderTargetsAt (createRenderTargets env i streams st).state.renderTargets k =
          some target ∧ target.sizedFor d = true) := by
  induction streams generalizing i st with
  | nil => simp [createRenderTargets]
  | cons d rest ih =>
    unfold createRenderTargets at h ⊢
    simp only [] at h ⊢
    split at h
    · simp at h
    · split at h
      · simp at h
      · split at h
        · simp at h
        · split at h
          · simp at h
          · next h1 h2 h3 h4 =>
            simp only [h1, h2, h3, h4, if_false, Bool.false_eq_true, Step.after_state]
            simp only [Step.after_exit] at h
            obtain ⟨ih1, ih2⟩ := ih (i + 1) _ h
            constructor
            · intro hk
              simp only [List.map_cons, List.mem_cons, not_or] at hk
              rw [ih1 hk.2]
              exact renderTargetsAt_set_of_ne _ _ (Ne.symm hk.1)
            · intro hk
              by_cases hr : k ∈ rest.map (·.handle)
              · obtain ⟨target, d', hd', hh, hat, hs⟩ := ih2 hr
                exact ⟨target, d', List.mem_cons_of_mem _ hd', hh, hat, hs⟩
              · simp only [List.map_cons, List.mem_cons] at hk
                have hkd : k = d.handle := hk.resolve_right hr
                subst hkd
                have hat := (ih1 hr).trans (renderTargetsAt_set_self _ _ _)
                exact ⟨_, d, List.mem_cons_self _ _, rfl, hat, by simp [RenderTarget.sizedFor]⟩

theorem getStreams_ok {env : Env} {streams : List StreamDescription} {trace : List Event}
    (h : getStreams env = (.ok streams, trace)) : streams = env.streams := by
  unfold getStreams at h
  simp only [] at h
  split at h
  · simp at h
  · split at h
    · simp at h
    · simp only [Prod.mk.injEq, Except.ok.injEq] at h
      exact h.1.symm

/-- A streams-changed event that ends with `continue` has run the render-target loop to
its end over the streams the host enumerated. -/
theorem streamsChanged_of_skip {env : Env} {st : PipelineState}
    (h : (streamsChanged env st).exit = some .skip) :
    (createRenderTargets env 0 env.streams { st with header := some env.streams }).exit =
      none ∧
    (streamsChanged env st).state =
      (createRenderTargets env 0 env.streams { st with header := some env.streams }).state := by
  unfold streamsChanged at h ⊢
  split at h
  · simp at h
  · next streams trace hg =>
    have hs := getStreams_ok hg
    subst hs
    simp only [hg]
    have hx := (createRenderTargets_frame env 0 env.streams
      { st with header := some env.streams }).2.2.2.2.2.2.2.2.2.1
    rcases hx with hx | ⟨what, hx⟩
    · simp [hx]
    · simp [hx] at h

/-- C17 (counterexample): the host first announces streams 11 and 12, then only stream 11,
now at 1280x720.  The second event is handled (the iteration ends with `continue`), the
cached enumeration holds stream 11 alone, and the pool still has the entry of handle 12,
unchanged. -/
theorem stale_render_target_is_kept :
    (mainLoopBody (streamsChangedEvent oneStream) stateWithTwoStreams).exit = some .skip ∧
    (mainLoopBody (streamsChangedEvent oneStream) stateWithTwoStreams).state.header =
      some oneStream ∧
    12 ∉ oneStream.map (·.handle) ∧
    renderTargetsAt
      (mainLoopBody (streamsChangedEvent oneStream) stateWithTwoStreams).state.renderTargets
      12 =
      some { texture := some ⟨5, 1280, 720, .DXGI_FORMAT_B8G8R8A8_UNORM⟩, view := some 6,
             depth := some ⟨7, 1280, 720, .DXGI_FORMAT_D24_UNORM_S8_UINT⟩,
             depthView := some 8 } := by
  decide

/-- C17 (as the code has it): after a streams-changed event that is handled (the iteration
ends with `continue`), the cached enumeration is the one the host reported; every
enumerated handle has an entry in `renderTargets` that holds a render target texture and a
depth texture, with their views, of the width and height of an enumerated stream with that
handle, which is that very stream when the enumerated handles are pairwise different; and
the entry of every handle that is not enumerated is what it was before the event. -/
theorem streams_changed_populates_pool (env : Env) (st : PipelineState)
    (hsc : env.await = .RS_ERROR_STREAMS_CHANGED)
    (hok : (mainLoopBody env st).exit = some .skip) :
    let r := mainLoopBody env st
    r.state.header = some env.streams ∧
    (∀ d ∈ env.streams, ∃ target d', d' ∈ env.streams ∧ d'.handle = d.handle ∧
      renderTargetsAt r.state.renderTargets d.handle = some target ∧
      target.sizedFor d' = true) ∧
    ((env.streams.map (·.handle)).Nodup →
      ∀ d ∈ env.streams, ∃ target,
        renderTargetsAt r.state.renderTargets d.handle = some target ∧
        target.sizedFor d = true) ∧
    (∀ k, k ∉ env.streams.map (·.handle) →
      renderTargetsAt r.state.renderTargets k = renderTargetsAt st.renderTargets k) := by
  intro r
  have hr : r = Step.after [.rs_awaitFrameData 5000 env.await] (streamsChanged env st) := by
    simp [r, mainLoopBody, hsc]
  have hskip : (streamsChanged env st).exit = some .skip := by
    have := hok
    rw [show mainLoopBody env st = r from rfl, hr] at this
    simpa using this
  obtain ⟨hx, hstate⟩ := streamsChanged_of_skip hskip
  have hrs : r.state =
      (createRenderTargets env 0 env.streams { st with header := some env.streams }).state := by
    rw [hr]; simpa using hstate
  have hsized := createRenderTargets_sized env 0 env.streams
    { st with header := some env.streams } hx
  have hgen : ∀ d ∈ env.streams, ∃ target d', d' ∈ env.streams ∧ d'.handle = d.handle ∧
      renderTargetsAt r.state.renderTargets d.handle = some target ∧
      target.sizedFor d' = true := by
    intro d hd
    rw [hrs]
    exact (hsized d.handle).2 (List.mem_map_of_mem _ hd)
  refine ⟨?_, hgen, ?_, ?_⟩
  · rw [hrs, (createRenderTargets_frame env 0 env.streams _).2.1]
  · intro hnd d hd
    obtain ⟨target, d', hd', hh, hat, hs⟩ := hgen d hd
    have : d' = d := List.inj_on_of_nodup_map hnd hd' hd hh
    subst this
    exact ⟨target, hat, hs⟩
  · intro k hk
    rw [hrs]
    exact (hsized k).1 hk

/-- C17 (witness): the host announces `twoStreams` to the initial state. -/
theorem streams_changed_populates_pool_witness :
    (mainLoopBody (streamsChangedEvent twoStreams) initialState).exit = some .skip ∧
    (∀ d ∈ twoStreams, ∃ target,
      renderTargetsAt
        (mainLoopBody (streamsChangedEvent twoStreams) initialState).state.renderTargets
        d.handle = some target ∧ target.sizedFor d = true) :=
  ⟨by decide,
   (streams_changed_populates_pool (streamsChangedEvent twoStreams) initialState rfl
     (by decide)).2.2.1 (by decide)⟩

/-! ## The lookup of a render target in the stream loop -/

theorem createTexture_error_ne {r : CreateTextureResults} {ptr width height : Nat}
    {format : DXGI_FORMAT} {what : String} {trace : List Event}
    (h : createTexture r ptr width height format = (.error what, trace)) :
    what ≠ "unordered_map::at" := by
  unfold createTexture at h
  simp only [] at h
  split at h
  · simp only [Prod.mk.injEq, Except.error.injEq] at h
    rw [← h.1]; decide
  · split at h
    · simp only [Prod.mk.injEq, Except.error.injEq] at h
      rw [← h.1]; decide
    · split at h
      · simp only [Prod.mk.injEq, Except.error.injEq] at h
        rw [← h.1]; decide
      · simp at h

/-- The stream loop finds a render target for every stream when the streams it runs over
all have an entry in `renderTargets`. -/
theorem fanOut_lookup_defined (env : Env) (effect : Effect) (fd : FrameData)
    (st : PipelineState) (i : Nat) (streams : List StreamDescription)
    (hc : ∀ d ∈ streams, ∃ target, renderTargetsAt st.renderTargets d.handle = some target)
    (what : String) : (fanOut env effect fd st i streams).exit ≠ some (.uncaught what) := by
  induction streams generalizing i with
  | nil => simp [fanOut]
  | cons d rest ih =>
    obtain ⟨target, ht⟩ := hc d (List.mem_cons_self _ _)
    have hrest := ih (i := i + 1) (fun d' hd' => hc d' (List.mem_cons_of_mem _ hd'))
    unfold fanOut
    simp only [ht]
    split
    · split
      · simp
      · simpa using hrest
    · simpa using hrest

/-- No statement of the handling of a frame image but the lookup `renderTargets.at` throws
`std::out_of_range`, and the lookup does not when the cached enumeration is covered. -/
theorem processImage_lookup_defined (env : Env) (effect : Effect) (fd : FrameData)
    (image : ImageFrameData) (st : PipelineState) (hc : HeaderCovered st) :
    (processImage env effect fd image st).exit ≠ some (.uncaught "unordered_map::at") := by
  have key : HeaderCovered (processImage env effect fd image st).state →
      (processImage env effect fd image st).exit ≠ some (.uncaught "unordered_map::at") := by
    refine processImage_stages
      (fun s => HeaderCovered s.state → s.exit ≠ some (.uncaught "unordered_map::at"))
      ?_ env effect fd image ?_ ?_ ?_ ?_ ?_ ?_ ?_ ?_ ?_ ?_ ?_ ?_ st
    · intro a f ha hf
      cases hx : a.exit with
      | none => rw [Step.andThen_of_exit_none f hx]; simpa using hf a.state
      | some x => rw [Step.andThen_of_exit_some f hx]; exact ha
    · intro s _
      unfold ensureInput
      split
      · split
        · next what trace heq => simpa using createTexture_error_ne heq
        · simp
      · simp
    · intro s _; unfold acquireInput; simp only []; split <;> simp
    · intro s _; unfold transferInput; simp only []
      split
      · simp
      · split
        · simp
        · split <;> simp
    · intro s _; unfold setInputImage; simp only []; split <;> simp
    · intro s _
      unfold ensureOutput
      simp only []
      split
      · split
        · next what trace heq => simpa using createTexture_error_ne heq
        · split
          · simp
          · split <;> simp
      · simp
    · intro s _; unfold setOutputImage; simp only []; split <;> simp
    · intro s _; unfold loadEffect
      split
      · simp only []; split <;> simp
      · simp
    · intro s _; unfold runEffect; simp only []; split <;> simp
    · intro s _; unfold transferEffectOutput
      split
      · simp only []; split <;> simp
      · simp
    · intro s _; unfold transferOutput; simp only []
      split
      · simp
      · split
        · simp
        · split <;> simp
    · intro s hs
      rw [fanOut_state] at hs
      exact fanOut_lookup_defined env effect fd s 0 _ hs _
    · intro s _; simp
  apply key
  have hs := processImage_streams env effect fd image st
  unfold HeaderCovered
  rw [hs.1, hs.2]
  exact hc

/-- In a state whose cached enumeration is covered, no iteration ends with the exception
of `renderTargets.at`. -/
theorem mainLoopBody_lookup_defined (env : Env) (st : PipelineState) (hc : HeaderCovered st) :
    (mainLoopBody env st).exit ≠ some (.uncaught "unordered_map::at") := by
  unfold mainLoopBody
  simp only []
  split
  · rcases streamsChanged_exit env st with h | h <;> simp [h]
  · split
    · simp
    · split
      · unfold shutdownAfterLoop; split <;> simp
      · unfold processFrame
        simp only []
        split
        · simp
        · split
          · simp only [Step.after_exit, Step.leave_exit, ne_eq, Option.some.injEq,
              Exit.uncaught.injEq]
            decide
          · split
            · simp
            · simpa using processImage_lookup_defined env _ env.frameData env.image st hc

/-- A call of the stream loop is made by `fanOut`, run over the cached enumeration of the
state the iteration started from. -/
theorem mainLoopBody_respond_event {env : Env} {st : PipelineState} {e : Event}
    (he : e ∈ (mainLoopBody env st).trace)
    (hc : e.call ∈ [Call.rs_getFrameCamera, .rs_sendFrame] ++ drawCalls) :
    ∃ effect s, s.header = st.header ∧ s.renderTargets = st.renderTargets ∧
      e ∈ (fanOut env effect env.frameData s 0 (s.header.getD [])).trace := by
  obtain ⟨hawait, hscene, hdata, effect, heff, h1, h2, h3, h4⟩ :=
    mainLoopBody_reaches_respond he hc
  rw [mainLoopBody_of_image hawait hscene heff hdata, processImage_of_phases h1 h2 h3 h4] at he
  simp only [Step.after_trace, List.mem_append, List.mem_cons, List.mem_singleton,
    List.not_mem_nil, or_false] at he
  have hf1 := inboundPhase_frame env effect env.frameData env.image st
  have hf2 := outputPhase_frame env effect env.frameData env.image
    (inboundPhase env effect env.frameData env.image st).state
  have hf3 := effectPhase_frame env effect env.frameData
    (outputPhase env effect env.frameData env.image
      (inboundPhase env effect env.frameData env.image st).state).state
  simp only [] at hf1 hf2 hf3
  refine ⟨effect, (effectPhase env effect env.frameData
    (outputPhase env effect env.frameData env.image
      (inboundPhase env effect env.frameData env.image st).state).state).state,
    by rw [hf3.1, hf2.2.1, hf1.2.1], by rw [hf3.2.1, hf2.2.2.1, hf1.2.2.1], ?_⟩
  rcases he with (he | he) | he
  · subst he; simp [Event.call, drawCalls] at hc
  · subst he; simp [Event.call, drawCalls] at hc
  rcases he with he | he
  · exfalso
    have := beforeRespond_calls env effect env.frameData env.image st _ _ _ e
      (by simp only [List.mem_append]; exact he)
    revert this hc
    generalize e.call = c
    revert c
    decide
  · rw [(respondPhase_eq_fanOut env effect env.frameData _).1] at he
    exact he

theorem ReachableBeforeStreams.reachable {st : PipelineState}
    (h : ReachableBeforeStreams st) : Reachable st := by
  induction h with
  | start => exact Reachable.start
  | iterate env st _ _ hcont ih => exact Reachable.iterate env st ih hcont

/-- Only a streams-changed event writes `header`. -/
theorem mainLoopBody_header (env : Env) (st : PipelineState)
    (h : env.await ≠ .RS_ERROR_STREAMS_CHANGED) :
    (mainLoopBody env st).state.header = st.header := by
  unfold mainLoopBody
  simp only [if_neg h]
  split
  · rfl
  · split
    · unfold shutdownAfterLoop; split <;> rfl
    · exact (processFrame_streams env st).1

theorem ReachableBeforeStreams.header {st : PipelineState}
    (h : ReachableBeforeStreams st) : st.header = none := by
  induction h with
  | start => rfl
  | iterate env st _ hne _ ih => rw [mainLoopBody_header env st hne]; exact ih

/-- C18: in every state the loop can reach, every stream of the cached enumeration has an
entry in `renderTargets`, and no iteration started there ends with the `std::out_of_range`
that `renderTargets.at` throws; and while no streams-changed event has arrived, the cached
enumeration is the null pointer and an iteration makes no call of the stream loop (no
camera query, no draw, no submission). -/
theorem render_target_lookup_never_fails (st : PipelineState) (h : Reachable st) :
    HeaderCovered st ∧
    (∀ env, (mainLoopBody env st).exit ≠ some (.uncaught "unordered_map::at")) ∧
    (ReachableBeforeStreams st →
      st.header = none ∧
      ∀ env, callsTo ([.rs_getFrameCamera, .rs_sendFrame] ++ drawCalls)
        (mainLoopBody env st).trace = []) := by
  refine ⟨h.headerCovered, fun env => mainLoopBody_lookup_defined env st h.headerCovered, ?_⟩
  intro hb
  refine ⟨hb.header, fun env => ?_⟩
  simp only [callsTo, List.filter_eq_nil_iff, decide_eq_true_eq]
  intro e he hc
  obtain ⟨effect, s, hs, _, hmem⟩ := mainLoopBody_respond_event he hc
  rw [hs, hb.header] at hmem
  simp [fanOut] at hmem

/-- C18 (witness): the state after the host announced two streams, and the initial
state. -/
theorem render_target_lookup_never_fails_witness :
    Reachable stateWithTwoStreams ∧ HeaderCovered stateWithTwoStreams ∧
    (mainLoopBody (frameRequest 0 640 360) stateWithTwoStreams).exit ≠
      some (.uncaught "unordered_map::at") ∧
    callsTo ([.rs_getFrameCamera, .rs_sendFrame] ++ drawCalls)
      (mainLoopBody (frameRequest 0 640 360) initialState).trace = [] :=
  ⟨stateWithTwoStreams_reachable,
   (render_target_lookup_never_fails stateWithTwoStreams stateWithTwoStreams_reachable).1,
   (render_target_lookup_never_fails stateWithTwoStreams stateWithTwoStreams_reachable).2.1 _,
   ((render_target_lookup_never_fails initialState Reachable.start).2.2
     ReachableBeforeStreams.start).2 _⟩

/-! ## The mapping monitor -/

/-- What the monitor rejects: a map that is never closed, a transfer from an interop image
outside its scope, a second unmap, and a draw after a failed unmap. -/
theorem scopedMapping_rejects :
    scopedMapping [some 3, some 7] [.NvCVImage_MapResource (some 3) .NVCV_SUCCESS] = false ∧
    scopedMapping [some 3, some 7]
      [.NvCVImage_Transfer (some 3) (some 4) .oneOver255 .NVCV_SUCCESS] = false ∧
    scopedMapping [some 3, some 7]
      [.NvCVImage_MapResource (some 3) .NVCV_SUCCESS,
       .NvCVImage_UnmapResource (some 3) .NVCV_SUCCESS,
       .NvCVImage_UnmapResource (some 3) .NVCV_SUCCESS] = false ∧
    scopedMapping [some 3, some 7]
      [.NvCVImage_MapResource (some 3) .NVCV_SUCCESS,
       .NvCVImage_UnmapResource (some 3) .NVCV_SUCCESS,
       .NvCVImage_MapResource (some 7) .NVCV_SUCCESS,
       .NvCVImage_UnmapResource (some 7) (.other 1),
       .Draw (some 2) (some 6)] = false := by
  decide

theorem MappingMonitor.run_nil (interop : List (Option Nat)) (m : MappingMonitor) :
    MappingMonitor.run interop m [] = some m := rfl

theorem MappingMonitor.run_cons (interop : List (Option Nat)) (m : MappingMonitor)
    (e : Event) (trace : List Event) :
    MappingMonitor.run interop m (e :: trace) =
      (MappingMonitor.step interop m e).bind fun m' => MappingMonitor.run interop m' trace := by
  simp [MappingMonitor.run, List.foldlM_cons]

theorem MappingMonitor.run_append (interop : List (Option Nat)) (m : MappingMonitor)
    (a b : List Event) :
    MappingMonitor.run interop m (a ++ b) =
      (MappingMonitor.run interop m a).bind fun m' => MappingMonitor.run interop m' b := by
  induction a generalizing m with
  | nil => simp [MappingMonitor.run_nil]
  | cons e rest ih =>
    rw [List.cons_append, MappingMonitor.run_cons, MappingMonitor.run_cons]
    cases MappingMonitor.step interop m e with
    | none => rfl
    | some m' => simpa using ih m'

theorem MappingMonitor.run_append_of_eq {interop : List (Option Nat)}
    {m m' : MappingMonitor} {a : List Event} (b : List Event)
    (h : MappingMonitor.run interop m a = some m') :
    MappingMonitor.run interop m (a ++ b) = MappingMonitor.run interop m' b := by
  rw [MappingMonitor.run_append, h]; rfl

theorem MappingMonitor.step_of_call (interop : List (Option Nat)) (m : MappingMonitor)
    {e : Event}
    (h : e.call ∉ [Call.NvCVImage_MapResource, .NvCVImage_UnmapResource, .NvCVImage_Transfer,
      .Draw]) : MappingMonitor.step interop m e = some m := by
  cases e <;> first | rfl | (exfalso; revert h; simp [Event.call])

/-- The monitor does not look at calls other than map, unmap, transfer and draw. -/
theorem MappingMonitor.run_of_calls (interop : List (Option Nat)) (m : MappingMonitor)
    {trace : List Event} {l : List Call} (hl : ∀ e ∈ trace, e.call ∈ l)
    (hd : ∀ c ∈ [Call.NvCVImage_MapResource, .NvCVImage_UnmapResource, .NvCVImage_Transfer,
      .Draw], c ∉ l) : MappingMonitor.run interop m trace = some m := by
  induction trace with
  | nil => rfl
  | cons e rest ih =>
    rw [MappingMonitor.run_cons, MappingMonitor.step_of_call interop m
      (fun hc => hd _ hc (hl e (List.mem_cons_self _ _)))]
    exact ih fun x hx => hl x (List.mem_cons_of_mem _ hx)

/-- The monitor lets draws pass once nothing is mapped and every interop image has been
unmapped with success. -/
theorem MappingMonitor.run_of_draws (interop : List (Option Nat)) (released : List (Option Nat))
    {trace : List Event} {l : List Call} (hl : ∀ e ∈ trace, e.call ∈ l)
    (hd : ∀ c ∈ [Call.NvCVImage_MapResource, .NvCVImage_UnmapResource, .NvCVImage_Transfer],
      c ∉ l)
    (hr : ∀ image ∈ interop, image ∈ released) :
    MappingMonitor.run interop { mapped := none, released := released } trace =
      some { mapped := none, released := released } := by
  induction trace with
  | nil => rfl
  | cons e rest ih =>
    rw [MappingMonitor.run_cons]
    have he := hl e (List.mem_cons_self _ _)
    have hstep : MappingMonitor.step interop { mapped := none, released := released } e =
        some { mapped := none, released := released } := by
      by_cases hdraw : e.call = .Draw
      · cases e <;> simp [Event.call] at hdraw
        simp only [MappingMonitor.step, true_and]
        rw [if_pos hr]
      · refine MappingMonitor.step_of_call _ _ ?_
        intro hc
        simp only [List.mem_cons, List.mem_singleton, List.not_mem_nil, or_false] at hc
        rcases hc with hc | hc | hc | hc
        · exact hd _ (by simp) (hc ▸ he)
        · exact hd _ (by simp) (hc ▸ he)
        · exact hd _ (by simp) (hc ▸ he)
        · exact hdraw hc
    rw [hstep]
    exact ih fun x hx => hl x (List.mem_cons_of_mem _ hx)

theorem MappingMonitor.allows_of_mapped (interop : List (Option Nat))
    (released : List (Option Nat)) (image : Option Nat) :
    MappingMonitor.allows interop { mapped := some image, released := released } image :=
  fun _ _ => rfl

theorem MappingMonitor.allows_of_not_mem {interop : List (Option Nat)} (m : MappingMonitor)
    {image : Option Nat} (h : ∀ p, image = some p → some p ∉ interop) :
    m.allows interop image := by
  intro hs hm
  cases image with
  | none => simp at hs
  | some p => exact absurd hm (h p rfl)

/-- The monitor over the calls of lines 675-692: started with nothing mapped it ends with
nothing mapped, and when the stage falls through the input image has been unmapped with
success. -/
theorem transferInput_run (interop : List (Option Nat)) (env : Env) (st : PipelineState)
    (released : List (Option Nat))
    (hsep : ∀ p, st.effectInput.map (·.ptr) = some p → some p ∉ interop) :
    ∃ released', MappingMonitor.run interop { mapped := none, released := released }
        (transferInput env st).trace = some { mapped := none, released := released' } ∧
      (∀ x ∈ released, x ∈ released') ∧
      ((transferInput env st).exit = none → st.input.image ∈ released') := by
  have h1 := MappingMonitor.allows_of_mapped interop released st.input.image
  have h2 : MappingMonitor.allows interop
      { mapped := some st.input.image, released := released }
      (st.effectInput.map (·.ptr)) := MappingMonitor.allows_of_not_mem _ hsep
  unfold transferInput
  simp only []
  split
  · next hm =>
    refine ⟨released, ?_, fun x hx => hx, by simp⟩
    simp [MappingMonitor.run_cons, MappingMonitor.run_nil, MappingMonitor.step, hm]
  · next hm =>
    simp only [ne_eq, Decidable.not_not] at hm
    by_cases hu : env.unmapInput = .NVCV_SUCCESS
    · refine ⟨st.input.image :: released, ?_, fun x hx => List.mem_cons_of_mem _ hx,
        fun _ => List.mem_cons_self _ _⟩
      by_cases ht : env.transferInput = .NVCV_SUCCESS
      · simp [MappingMonitor.run_cons, MappingMonitor.run_nil, MappingMonitor.step, hm, hu,
          ht, h1, h2]
      · simp [MappingMonitor.run_cons, MappingMonitor.run_nil, MappingMonitor.step, hm, hu,
          ht, h1, h2]
    · refine ⟨released, ?_, fun x hx => hx, by simp [hu]⟩
      by_cases ht : env.transferInput = .NVCV_SUCCESS
      · simp [MappingMonitor.run_cons, MappingMonitor.run_nil, MappingMonitor.step, hm, hu,
          ht, h1, h2]
      · simp [MappingMonitor.run_cons, MappingMonitor.run_nil, MappingMonitor.step, hm, hu,
          ht, h1, h2]

/-- The monitor over the calls of lines 761-778. -/
theorem transferOutput_run (interop : List (Option Nat)) (env : Env) (st : PipelineState)
    (released : List (Option Nat))
    (hsep : ∀ p, st.outputImage.map (·.ptr) = some p → some p ∉ interop) :
    ∃ released', MappingMonitor.run interop { mapped := none, released := released }
        (transferOutput env st).trace = some { mapped := none, released := released' } ∧
      (∀ x ∈ released, x ∈ released') ∧
      ((transferOutput env st).exit = none → st.output.image ∈ released') := by
  have h1 := MappingMonitor.allows_of_mapped interop released st.output.image
  have h2 : MappingMonitor.allows interop
      { mapped := some st.output.image, released := released }
      (st.outputImage.map (·.ptr)) := MappingMonitor.allows_of_not_mem _ hsep
  unfold transferOutput
  simp only []
  split
  · next hm =>
    refine ⟨released, ?_, fun x hx => hx, by simp⟩
    simp [MappingMonitor.run_cons, MappingMonitor.run_nil, MappingMonitor.step, hm]
  · next hm =>
    simp only [ne_eq, Decidable.not_not] at hm
    by_cases hu : env.unmapOutput = .NVCV_SUCCESS
    · refine ⟨st.output.image :: released, ?_, fun x hx => List.mem_cons_of_mem _ hx,
        fun _ => List.mem_cons_self _ _⟩
      by_cases ht : env.transferOutput = .NVCV_SUCCESS
      · simp [MappingMonitor.run_cons, MappingMonitor.run_nil, MappingMonitor.step, hm, hu,
          ht, h1, h2]
      · simp [MappingMonitor.run_cons, MappingMonitor.run_nil, MappingMonitor.step, hm, hu,
          ht, h1, h2]
    · refine ⟨released, ?_, fun x hx => hx, by simp [hu]⟩
      by_cases ht : env.transferOutput = .NVCV_SUCCESS
      · simp [MappingMonitor.run_cons, MappingMonitor.run_nil, MappingMonitor.step, hm, hu,
          ht, h1, h2]
      · simp [MappingMonitor.run_cons, MappingMonitor.run_nil, MappingMonitor.step, hm, hu,
          ht, h1, h2]

/-- The monitor over the call of lines 755-759: neither image is an interop image. -/
theorem transferEffectOutput_run (interop : List (Option Nat)) (env : Env)
    (st : PipelineState) (m : MappingMonitor)
    (hsrc : ∀ p, st.effectOutput.map (·.ptr) = some p → some p ∉ interop)
    (hdst : ∀ p, st.outputImage.map (·.ptr) = some p → some p ∉ interop) :
    MappingMonitor.run interop m (transferEffectOutput env st).trace = some m := by
  have h1 : m.allows interop (st.effectOutput.map (·.ptr)) :=
    MappingMonitor.allows_of_not_mem _ hsrc
  have h2 : m.allows interop (st.outputImage.map (·.ptr)) :=
    MappingMonitor.allows_of_not_mem _ hdst
  unfold transferEffectOutput
  split
  · simp only []
    split
    · simp [MappingMonitor.run_cons, MappingMonitor.run_nil, MappingMonitor.step, h1, h2]
    · simp [MappingMonitor.run_cons, MappingMonitor.run_nil, MappingMonitor.step, h1, h2]
  · simp [MappingMonitor.run_nil]

theorem Step.scoped_andThen {interop : List (Option Nat)} {a : Step}
    {f : PipelineState → Step} {released : List (Option Nat)}
    (gain gain' : List (Option Nat)) {total : List (Option Nat)}
    (ha : a.Scoped interop released gain)
    (hf : a.exit = none → ∀ released', (∀ x ∈ released, x ∈ released') →
      (∀ x ∈ gain, x ∈ released') → (f a.state).Scoped interop released' gain')
    (ht : ∀ x ∈ total, x ∈ gain ∨ x ∈ gain') :
    (a.andThen f).Scoped interop released total := by
  obtain ⟨r1, hrun, hsub, hgain⟩ := ha
  cases hx : a.exit with
  | none =>
    obtain ⟨r2, hrun2, hsub2, hgain2⟩ := hf hx r1 hsub (hgain hx)
    refine ⟨r2, ?_, fun x h => hsub2 x (hsub x h), ?_⟩
    · rw [Step.andThen_trace_of_exit_none hx, MappingMonitor.run_append_of_eq _ hrun]
      exact hrun2
    · intro hnone x hmem
      rw [Step.andThen_exit_of_exit_none hx] at hnone
      rcases ht x hmem with h | h
      · exact hsub2 x (hgain hx x h)
      · exact hgain2 hnone x h
  | some y =>
    rw [Step.andThen_of_exit_some f hx]
    exact ⟨r1, hrun, hsub, fun h => by rw [hx] at h; exact absurd h (by simp)⟩

theorem Step.scoped_of_calls (interop : List (Option Nat)) {s : Step}
    (released : List (Option Nat)) {l : List Call} (hl : ∀ e ∈ s.trace, e.call ∈ l)
    (hd : ∀ c ∈ [Call.NvCVImage_MapResource, .NvCVImage_UnmapResource, .NvCVImage_Transfer,
      .Draw], c ∉ l) : s.Scoped interop released [] :=
  ⟨released, MappingMonitor.run_of_calls interop _ hl hd, fun _ h => h, fun _ _ h => by simp at h⟩

theorem Step.scoped_after {interop : List (Option Nat)} {s : Step}
    {released gain : List (Option Nat)} {trace : List Event} {l : List Call}
    (hl : ∀ e ∈ trace, e.call ∈ l)
    (hd : ∀ c ∈ [Call.NvCVImage_MapResource, .NvCVImage_UnmapResource, .NvCVImage_Transfer,
      .Draw], c ∉ l) (hs : s.Scoped interop released gain) :
    (Step.after trace s).Scoped interop released gain := by
  obtain ⟨r1, hrun, hsub, hgain⟩ := hs
  refine ⟨r1, ?_, hsub, by simpa using hgain⟩
  rw [Step.after_trace,
    MappingMonitor.run_append_of_eq _ (MappingMonitor.run_of_calls interop _ hl hd)]
  exact hrun

/-- The inbound phase keeps the mapping discipline when the effect input image is no
interop image. -/
theorem inboundPhase_scoped (interop : List (Option Nat)) (env : Env) (effect : Effect)
    (fd : FrameData) (image : ImageFrameData) (st : PipelineState)
    (released : List (Option Nat))
    (hsep : ∀ p, (ensureInput env effect fd image st).state.effectInput.map (·.ptr) = some p →
      some p ∉ interop) :
    (inboundPhase env effect fd image st).Scoped interop released
      [(ensureInput env effect fd image st).state.input.image] := by
  unfold inboundPhase
  have h3 : ∀ r2, ((transferInput env (ensureInput env effect fd image st).state).andThen
      fun st => setInputImage env effect st).Scoped interop r2
      [(ensureInput env effect fd image st).state.input.image] := by
    intro r2
    refine Step.scoped_andThen [(ensureInput env effect fd image st).state.input.image] []
      ?_ (fun _ r3 _ _ => ?_) (fun x hx => Or.inl hx)
    · obtain ⟨r, h1, h2, h3⟩ := transferInput_run interop env _ r2 hsep
      exact ⟨r, h1, h2, fun hx x hmem => by
        simp only [List.mem_singleton] at hmem; subst hmem; exact h3 hx⟩
    · exact Step.scoped_of_calls interop r3 (setInputImage_calls env effect _) (by decide)
  have h2 : ∀ r1, ((acquireInput env image (ensureInput env effect fd image st).state).andThen
      fun st => (transferInput env st).andThen fun st =>
        setInputImage env effect st).Scoped interop r1
      [(ensureInput env effect fd image st).state.input.image] := by
    intro r1
    refine Step.scoped_andThen [] [(ensureInput env effect fd image st).state.input.image]
      (Step.scoped_of_calls interop r1 (acquireInput_calls env image _) (by decide))
      (fun _ r2 _ _ => ?_) (fun x hx => Or.inr hx)
    rw [acquireInput_state]
    exact h3 r2
  exact Step.scoped_andThen [] [(ensureInput env effect fd image st).state.input.image]
    (Step.scoped_of_calls interop released (ensureInput_calls env effect fd image st)
      (by decide))
    (fun _ r1 _ _ => h2 r1) (fun x hx => Or.inr hx)

/-- The outbound phase keeps the mapping discipline when neither the effect output image
nor `outputImage` is an interop image. -/
theorem outboundPhase_scoped (interop : List (Option Nat)) (env : Env) (st : PipelineState)
    (released : List (Option Nat))
    (hsrc : ∀ p, st.effectOutput.map (·.ptr) = some p → some p ∉ interop)
    (hdst : ∀ p, st.outputImage.map (·.ptr) = some p → some p ∉ interop) :
    (outboundPhase env st).Scoped interop released [st.output.image] := by
  unfold outboundPhase
  refine Step.scoped_andThen [] [st.output.image]
    ⟨released, transferEffectOutput_run interop env st _ hsrc hdst, fun _ h => h,
      fun _ _ h => by simp at h⟩
    (fun _ r1 _ _ => ?_) (fun x hx => Or.inr hx)
  rw [transferEffectOutput_state]
  obtain ⟨r, h1, h2, h3⟩ := transferOutput_run interop env st r1 hdst
  exact ⟨r, h1, h2, fun hx x hmem => by
    simp only [List.mem_singleton] at hmem; subst hmem; exact h3 hx⟩

/-- The stream loop keeps the mapping discipline once both interop images have been
unmapped with success. -/
theorem respondPhase_scoped (interop : List (Option Nat)) (env : Env) (effect : Effect)
    (fd : FrameData) (st : PipelineState) (released : List (Option Nat))
    (hr : ∀ image ∈ interop, image ∈ released) :
    (respondPhase env effect fd st).Scoped interop released [] := by
  refine ⟨released, ?_, fun _ h => h, fun _ _ h => by simp at h⟩
  exact MappingMonitor.run_of_draws interop released (respondPhase_calls env effect fd st)
    (by decide) hr

/-! ## Object identities of the images -/

theorem initialState_separate : ImagesSeparate initialState := by
  refine ⟨?_, ?_, ?_⟩
  · intro p hp; simp [initialState] at hp
  · intro p hp; simp [initialState] at hp
  · intro image h; simp [initialState] at h

theorem ensureInput_separate (env : Env) (effect : Effect) (fd : FrameData)
    (image : ImageFrameData) (st : PipelineState) (h : ImagesSeparate st) :
    ImagesSeparate (ensureInput env effect fd image st).state := by
  obtain ⟨hi, ho, hn⟩ := h
  unfold ensureInput
  split
  · split
    · exact ⟨hi, ho, hn⟩
    · next texture trace heq =>
      obtain ⟨ht, _⟩ := createTexture_eq_ok heq
      subst ht
      refine ⟨?_, ?_, ?_⟩
      · intro p hp
        simp only [Step.pass_state, Option.some.injEq] at hp ⊢
        omega
      · intro p hp
        have := ho p hp
        simp only [Step.pass_state] at hp ⊢
        omega
      · intro img himg
        simp only [Step.pass_state, Option.some.injEq, ne_eq] at himg ⊢
        rcases himg with himg | himg | himg
        · subst himg
          dsimp only
          refine ⟨by omega, by omega, ?_⟩
          intro hc
          have := ho _ hc
          omega
        · have := hn img (Or.inr (Or.inl himg))
          exact ⟨by omega, by omega, this.2.2⟩
        · have := hn img (Or.inr (Or.inr himg))
          exact ⟨by omega, by omega, this.2.2⟩
  · exact ⟨hi, ho, hn⟩

theorem ensureOutput_separate (env : Env) (effect : Effect) (fd : FrameData)
    (image : ImageFrameData) (st : PipelineState) (h : ImagesSeparate st) :
    ImagesSeparate (ensureOutput env effect fd image st).state := by
  obtain ⟨hi, ho, hn⟩ := h
  unfold ensureOutput
  simp only []
  split
  · split
    · exact ⟨hi, ho, hn⟩
    · next texture trace heq =>
      obtain ⟨ht, _⟩ := createTexture_eq_ok heq
      subst ht
      have hold : ∀ img, st.effectInput = some img →
          img.ptr < st.nextPtr ∧ st.input.image ≠ some img.ptr :=
        fun img himg => ⟨(hn img (Or.inl himg)).1, (hn img (Or.inl himg)).2.1⟩
      have hin : ∀ k, st.nextPtr ≤ k → st.input.image ≠ some k := by
        intro k hk hc
        have := hi _ hc
        omega
      split
      · refine ⟨?_, ?_, ?_⟩
        · intro p hp
          have := hi p hp
          simp only [Step.leave_state] at hp ⊢
          omega
        · intro p hp
          simp only [Step.leave_state, Option.some.injEq] at hp ⊢
          omega
        · intro img himg
          simp only [Step.leave_state, Option.some.injEq, ne_eq] at himg ⊢
          rcases himg with himg | himg | himg
          · have := hold img himg
            exact ⟨by omega, this.2, by omega⟩
          · subst himg
            dsimp only
            exact ⟨by omega, hin _ (by omega), by omega⟩
          · have := hn img (Or.inr (Or.inr himg))
            exact ⟨by omega, this.2.1, by omega⟩
      · split
        · refine ⟨?_, ?_, ?_⟩
          · intro p hp
            have := hi p hp
            simp only [Step.pass_state] at hp ⊢
            omega
          · intro p hp
            simp only [Step.pass_state, Option.some.injEq] at hp ⊢
            omega
          · intro img himg
            simp only [Step.pass_state, Option.some.injEq, ne_eq] at himg ⊢
            rcases himg with himg | himg | himg
            · have := hold img himg
              exact ⟨by omega, this.2, by omega⟩
            · subst himg
              dsimp only
              exact ⟨by omega, hin _ (by omega), by omega⟩
            · subst himg
              dsimp only
              exact ⟨by omega, hin _ (by omega), by omega⟩
        · refine ⟨?_, ?_, ?_⟩
          · intro p hp
            have := hi p hp
            simp only [Step.pass_state] at hp ⊢
            omega
          · intro p hp
            simp only [Step.pass_state, Option.some.injEq] at hp ⊢
            omega
          · intro img himg
            simp only [Step.pass_state, Option.some.injEq, ne_eq] at himg ⊢
            rcases himg with himg | himg | himg
            · have := hold img himg
              exact ⟨by omega, this.2, by omega⟩
            · subst himg
              dsimp only
              exact ⟨by omega, hin _ (by omega), by omega⟩
            · subst himg
              dsimp only
              exact ⟨by omega, hin _ (by omega), by omega⟩
  · exact ⟨hi, ho, hn⟩

/-- A state that differs only in fields other than the images and that has a counter at
least as large keeps the images separate. -/
theorem ImagesSeparate.of_frame {st s : PipelineState} (h : ImagesSeparate st)
    (h1 : s.input = st.input) (h2 : s.effectInput = st.effectInput)
    (h3 : s.output = st.output) (h4 : s.effectOutput = st.effectOutput)
    (h5 : s.outputImage = st.outputImage) (h6 : st.nextPtr ≤ s.nextPtr) :
    ImagesSeparate s := by
  obtain ⟨hi, ho, hn⟩ := h
  refine ⟨?_, ?_, ?_⟩
  · intro p hp
    rw [h1] at hp
    exact lt_of_lt_of_le (hi p hp) h6
  · intro p hp
    rw [h3] at hp
    exact lt_of_lt_of_le (ho p hp) h6
  · intro img himg
    rw [h2, h4, h5] at himg
    rw [h1, h3]
    exact ⟨lt_of_lt_of_le (hn img himg).1 h6, (hn img himg).2⟩

theorem processImage_separate (env : Env) (effect : Effect) (fd : FrameData)
    (image : ImageFrameData) (st : PipelineState) (h : ImagesSeparate st) :
    ImagesSeparate (processImage env effect fd image st).state := by
  unfold processImage
  refine Step.andThen_state_of ImagesSeparate _ _
    (by rw [inboundPhase_state]; exact ensureInput_separate env effect fd image st h) ?_
  intro s1 h1
  refine Step.andThen_state_of ImagesSeparate _ _
    (by rw [outputPhase_state]; exact ensureOutput_separate env effect fd image s1 h1) ?_
  intro s2 h2
  have hf := effectPhase_frame env effect fd s2
  simp only [] at hf
  refine Step.andThen_state_of ImagesSeparate _ _
    (h2.of_frame hf.2.2.1 hf.2.2.2.1 hf.2.2.2.2.1 hf.2.2.2.2.2.1 hf.2.2.2.2.2.2.1
      (le_of_eq hf.2.2.2.2.2.2.2.2.2.symm)) ?_
  intro s3 h3
  refine Step.andThen_state_of ImagesSeparate _ _ (by rw [outboundPhase_state]; exact h3) ?_
  intro s4 h4
  have hr := respondPhase_frame env effect fd s4
  simp only [] at hr
  exact h4.of_frame hr.2.2.2.1 hr.2.2.2.2.1 hr.2.2.2.2.2.1 hr.2.2.2.2.2.2.1
    hr.2.2.2.2.2.2.2.1 (le_of_eq hr.2.2.2.2.2.2.2.2.2.symm)

theorem createRenderTargets_nextPtr (env : Env) (i : Nat) (streams : List StreamDescription)
    (st : PipelineState) :
    st.nextPtr ≤ (createRenderTargets env i streams st).state.nextPtr := by
  induction streams generalizing i st with
  | nil => simp [createRenderTargets]
  | cons d rest ih =>
    unfold createRenderTargets
    simp only []
    split
    · simp
    · split
      · simp
      · split
        · simp
        · split
          · simp
          · have := ih (i + 1) { st with
              renderTargets := renderTargetsSet st.renderTargets d.handle
                { texture := some { ptr := st.nextPtr, width := d.width, height := d.height,
                                    format := .DXGI_FORMAT_B8G8R8A8_UNORM },
                  view := some (st.nextPtr + 1),
                  depth := some { ptr := st.nextPtr + 2, width := d.width,
                                  height := d.height,
                                  format := .DXGI_FORMAT_D24_UNORM_S8_UINT },
                  depthView := some (st.nextPtr + 3) },
              nextPtr := st.nextPtr + 4 }
            simp only [Step.after_state]
            simp only [] at this
            omega

theorem mainLoopBody_separate (env : Env) (st : PipelineState) (h : ImagesSeparate st) :
    ImagesSeparate (mainLoopBody env st).state := by
  unfold mainLoopBody
  simp only []
  split
  · simp only [Step.after_state]
    unfold streamsChanged
    split
    · exact h
    · next streams trace hg =>
      have hf := createRenderTargets_frame env 0 streams { st with header := some streams }
      have hp := createRenderTargets_nextPtr env 0 streams { st with header := some streams }
      simp only [] at hf hp
      have hs : ImagesSeparate
          (createRenderTargets env 0 streams { st with header := some streams }).state :=
        h.of_frame hf.2.2.1 hf.2.2.2.1 hf.2.2.2.2.1 hf.2.2.2.2.2.1 hf.2.2.2.2.2.2.1 hp
      simp only []
      split <;> exact hs
  · split
    · exact h
    · split
      · unfold shutdownAfterLoop; split <;> exact h
      · unfold processFrame
        simp only []
        split
        · exact h
        · split
          · exact h
          · split
            · exact h
            · exact processImage_separate env _ env.frameData env.image st h

theorem Reachable.imagesSeparate {st : PipelineState} (h : Reachable st) :
    ImagesSeparate st := by
  induction h with
  | start => exact initialState_separate
  | iterate env st _ _ ih => exact mainLoopBody_separate env st ih

/-- The handling of a frame image keeps the mapping discipline for the interop images of
the state it leaves, when the images of that state are separate. -/
theorem processImage_scoped (env : Env) (effect : Effect) (fd : FrameData)
    (image : ImageFrameData) (st : PipelineState)
    (hsep : ImagesSeparate (processImage env effect fd image st).state) :
    (processImage env effect fd image st).Scoped
      [(processImage env effect fd image st).state.input.image,
       (processImage env effect fd image st).state.output.image] [] [] := by
  obtain ⟨_, _, hn⟩ := hsep
  have hnot : ∀ img : NvCVImage,
      (processImage env effect fd image st).state.input.image ≠ some img.ptr ∧
        (processImage env effect fd image st).state.output.image ≠ some img.ptr →
      some img.ptr ∉ [(processImage env effect fd image st).state.input.image,
        (processImage env effect fd image st).state.output.image] := by
    intro img h hm
    simp only [List.mem_cons, List.mem_singleton, List.not_mem_nil, or_false] at hm
    rcases hm with hm | hm
    · exact h.1 hm.symm
    · exact h.2 hm.symm
  have hptr : ∀ (o : Option NvCVImage),
      ((processImage env effect fd image st).state.effectInput = o ∨
        (processImage env effect fd image st).state.effectOutput = o ∨
        (processImage env effect fd image st).state.outputImage = o) →
      ∀ p, o.map (·.ptr) = some p →
        some p ∉ [(processImage env effect fd image st).state.input.image,
          (processImage env effect fd image st).state.output.image] := by
    intro o ho p hp
    cases o with
    | none => simp at hp
    | some img =>
      simp only [Option.map_some', Option.some.injEq] at hp
      subst hp
      exact hnot img (hn img ho).2
  -- the effect input image is the one `ensureInput` leaves
  have hEI : (processImage env effect fd image st).state.effectInput =
      (ensureInput env effect fd image st).state.effectInput := by
    cases hx : (inboundPhase env effect fd image st).exit with
    | none => exact (processImage_buffers hx).2.1
    | some x =>
      unfold processImage
      rw [Step.andThen_of_exit_some _ hx, inboundPhase_state]
  have h1 := inboundPhase_scoped _ env effect fd image st [] (hptr _ (Or.inl hEI))
  generalize hK : [(processImage env effect fd image st).state.input.image,
    (processImage env effect fd image st).state.output.image] = K at h1 hptr ⊢
  have hbuf : (inboundPhase env effect fd image st).exit = none →
      K = [(ensureInput env effect fd image st).state.input.image,
        (ensureOutput env effect fd image
          (ensureInput env effect fd image st).state).state.output.image] ∧
      (∀ p, (ensureOutput env effect fd image
          (ensureInput env effect fd image st).state).state.effectOutput.map (·.ptr) =
            some p → some p ∉ K) ∧
      (∀ p, (ensureOutput env effect fd image
          (ensureInput env effect fd image st).state).state.outputImage.map (·.ptr) =
            some p → some p ∉ K) := by
    intro hx
    have hb := processImage_buffers hx
    simp only [] at hb
    refine ⟨?_, hptr _ (Or.inr (Or.inl hb.2.2.2.1)), hptr _ (Or.inr (Or.inr hb.2.2.2.2))⟩
    rw [← hK, hb.1, hb.2.2.1]
  unfold processImage
  refine Step.scoped_andThen [(ensureInput env effect fd image st).state.input.image] [] h1
    (fun hx r1 _ hg1 => ?_) (fun x hx => by simp at hx)
  obtain ⟨hKeq, hsrc, hdst⟩ := hbuf hx
  rw [inboundPhase_state]
  refine Step.scoped_andThen [] []
    (Step.scoped_of_calls K r1 (outputPhase_calls env effect fd image _) (by decide))
    (fun _ r2 hs2 _ => ?_) (fun x hx => by simp at hx)
  rw [outputPhase_state]
  refine Step.scoped_andThen [] []
    (Step.scoped_of_calls K r2 (effectPhase_calls env effect fd _) (by decide))
    (fun _ r3 hs3 _ => ?_) (fun x hx => by simp at hx)
  have hf := effectPhase_frame env effect fd
    (ensureOutput env effect fd image (ensureInput env effect fd image st).state).state
  simp only [] at hf
  refine Step.scoped_andThen
    [(ensureOutput env effect fd image
      (ensureInput env effect fd image st).state).state.output.image] []
    (by
      have := outboundPhase_scoped K env (effectPhase env effect fd
        (ensureOutput env effect fd image (ensureInput env effect fd image st).state).state).state
        r3 (by rw [hf.2.2.2.2.2.1]; exact hsrc) (by rw [hf.2.2.2.2.2.2.1]; exact hdst)
      rw [hf.2.2.2.2.1] at this
      exact this)
    (fun _ r4 hs4 hg4 => ?_) (fun x hx => by simp at hx)
  refine respondPhase_scoped K env effect fd _ r4 ?_
  intro x hxK
  rw [hKeq] at hxK
  simp only [List.mem_cons, List.mem_singleton, List.not_mem_nil, or_false] at hxK
  rcases hxK with hxK | hxK
  · subst hxK
    exact hs4 _ (hs3 _ (hs2 _ (hg1 _ (List.mem_singleton_self _))))
  · subst hxK
    exact hg4 _ (List.mem_singleton_self _)

/-- Every iteration keeps the mapping discipline for the interop images of the state it
leaves, when the images of that state are separate. -/
theorem mainLoopBody_scoped (env : Env) (st : PipelineState)
    (hsep : ImagesSeparate (mainLoopBody env st).state) :
    (mainLoopBody env st).Scoped
      [(mainLoopBody env st).state.input.image, (mainLoopBody env st).state.output.image]
      [] [] := by
  by_cases hw : env.await = .RS_ERROR_SUCCESS
  · rw [mainLoopBody_of_success env st hw] at hsep ⊢
    simp only [Step.after_state] at hsep ⊢
    refine Step.scoped_after (l := [.rs_awaitFrameData]) (by simp [Event.call]) (by decide) ?_
    unfold processFrame at hsep ⊢
    simp only [] at hsep ⊢
    split
    · exact Step.scoped_of_calls _ _ (l := [.rs_logToD3]) (by simp [Event.call]) (by decide)
    · split
      · exact Step.scoped_of_calls _ _ (l := []) (by simp) (by decide)
      · next effect heff =>
        split
        · exact Step.scoped_of_calls _ _ (l := [.rs_getFrameImageData, .rs_logToD3])
            (by simp [Event.call]) (by decide)
        · next hdata =>
          rw [if_neg (by assumption)] at hsep
          simp only [heff, if_neg hdata, Step.after_state] at hsep
          simp only [Step.after_state]
          exact Step.scoped_after (l := [.rs_getFrameImageData]) (by simp [Event.call])
            (by decide) (processImage_scoped env effect env.frameData env.image st hsep)
  · exact Step.scoped_of_calls _ _ (mainLoopBody_outside_calls env st hw) (by decide)

/-- C11: in every iteration started in a reachable state, the calls keep the mapping
discipline for the two interop images, `input.image` and `output.image`, of the state the
iteration leaves.  Read by the monitor `MappingMonitor.step`, this says: every successful
`NvCVImage_MapResource` is followed by exactly one `NvCVImage_UnmapResource`, of the same
image, before any other map and before the iteration ends, whatever the transfer between
them returned; every `NvCVImage_Transfer` from or to an interop image is made between the
map and the unmap of that image; and a `Draw` of the stream loop is made only after the
unmap of both interop images has returned success. -/
theorem interop_mapping_is_scoped (env : Env) (st : PipelineState) (h : Reachable st) :
    scopedMapping
      [(mainLoopBody env st).state.input.image, (mainLoopBody env st).state.output.image]
      (mainLoopBody env st).trace = true := by
  obtain ⟨released, hrun, _, _⟩ :=
    mainLoopBody_scoped env st (mainLoopBody_separate env st h.imagesSeparate)
  unfold scopedMapping
  rw [hrun]
  rfl

/-- C11 (witness): scene 0 at 640x360 with two streams announced.  When the transfer into
the effect input image fails, the input image 11 is still unmapped, once, and the
iteration ends with `continue`; when every call succeeds, both images are mapped,
transferred and unmapped in turn before the two draws. -/
theorem interop_mapping_is_scoped_witness :
    Reachable stateWithTwoStreams ∧
    scopedMapping
      [(mainLoopBody (bridgeFailure 0 640 360 (.other 1) .NVCV_SUCCESS)
          stateWithTwoStreams).state.input.image,
       (mainLoopBody (bridgeFailure 0 640 360 (.other 1) .NVCV_SUCCESS)
          stateWithTwoStreams).state.output.image]
      (mainLoopBody (bridgeFailure 0 640 360 (.other 1) .NVCV_SUCCESS)
        stateWithTwoStreams).trace = true ∧
    (mainLoopBody (bridgeFailure 0 640 360 (.other 1) .NVCV_SUCCESS)
      stateWithTwoStreams).state.input.image = some 11 ∧
    callsTo [.NvCVImage_MapResource, .NvCVImage_Transfer, .NvCVImage_UnmapResource, .Draw]
      (mainLoopBody (bridgeFailure 0 640 360 (.other 1) .NVCV_SUCCESS)
        stateWithTwoStreams).trace =
      [.NvCVImage_MapResource (some 11) .NVCV_SUCCESS,
       .NvCVImage_Transfer (some 11) (some 12) .oneOver255 (.other 1),
       .NvCVImage_UnmapResource (some 11) .NVCV_SUCCESS] ∧
    scopedMapping
      [(mainLoopBody (frameRequest 0 640 360) stateWithTwoStreams).state.input.image,
       (mainLoopBody (frameRequest 0 640 360) stateWithTwoStreams).state.output.image]
      (mainLoopBody (frameRequest 0 640 360) stateWithTwoStreams).trace = true ∧
    (mainLoopBody (frameRequest 0 640 360) stateWithTwoStreams).state.input.image =
      some 11 ∧
    (mainLoopBody (frameRequest 0 640 360) stateWithTwoStreams).state.output.image =
      some 15 ∧
    callsTo [.NvCVImage_MapResource, .NvCVImage_Transfer, .NvCVImage_UnmapResource, .Draw]
      (mainLoopBody (frameRequest 0 640 360) stateWithTwoStreams).trace =
      [.NvCVImage_MapResource (some 11) .NVCV_SUCCESS,
       .NvCVImage_Transfer (some 11) (some 12) .oneOver255 .NVCV_SUCCESS,
       .NvCVImage_UnmapResource (some 11) .NVCV_SUCCESS,
       .NvCVImage_Transfer (some 16) (some 17) .times255 .NVCV_SUCCESS,
       .NvCVImage_MapResource (some 15) .NVCV_SUCCESS,
       .NvCVImage_Transfer (some 17) (some 15) .one .NVCV_SUCCESS,
       .NvCVImage_UnmapResource (some 15) .NVCV_SUCCESS,
       .Draw (some 10) (some 14), .Draw (some 10) (some 14)] :=
  ⟨stateWithTwoStreams_reachable,
   interop_mapping_is_scoped (bridgeFailure 0 640 360 (.other 1) .NVCV_SUCCESS)
     stateWithTwoStreams stateWithTwoStreams_reachable,
   by decide, by decide,
   interop_mapping_is_scoped (frameRequest 0 640 360) stateWithTwoStreams
     stateWithTwoStreams_reachable,
   by decide, by decide, by decide⟩

/-! ## Frame-local failures, from what the calls return -/

theorem Step.mem_andThen_of_exit_none {a : Step} {f : PipelineState → Step} {e : Event}
    (hx : a.exit = none) (h : e ∈ (f a.state).trace) : e ∈ (a.andThen f).trace := by
  rw [Step.andThen_trace_of_exit_none hx]; exact List.mem_append_right _ h

theorem ensureInput_exit_of_ready (env : Env) (effect : Effect) {fd : FrameData}
    {image : ImageFrameData} {st : PipelineState}
    (h : ¬(st.input.width ≠ image.width ∨ st.input.height ≠ image.height ∨
        fd.scene ≠ st.lastScene) ∨ env.inputTexture = ⟨true, true, .NVCV_SUCCESS⟩) :
    (ensureInput env effect fd image st).exit = none := by
  unfold ensureInput
  split
  · next hc =>
    rcases h with h | h
    · exact absurd hc h
    · rw [h, createTexture_ok]
      rfl
  · rfl

theorem ensureOutput_exit_of_ready {env : Env} {effect : Effect} {fd : FrameData}
    {image : ImageFrameData} {st : PipelineState}
    (h : ¬(st.output.width ≠ outputSize effect image.width ∨
        st.output.height ≠ outputSize effect image.height ∨ fd.scene ≠ st.lastScene) ∨
      (env.outputTexture = ⟨true, true, .NVCV_SUCCESS⟩ ∧
        (env.fromD3DFormat effect.outputTextureFormat).1 = .NVCV_SUCCESS)) :
    (ensureOutput env effect fd image st).exit = none := by
  unfold ensureOutput
  simp only []
  split
  · next hc =>
    rcases h with h | ⟨h1, h2⟩
    · exact absurd hc h
    · rw [h1, createTexture_ok]
      simp only [h2, ne_eq, not_true_eq_false, if_false]
      split <;> rfl
  · rfl

/-- The inbound phase, from what its calls return: each failed call is made, and when
every call succeeds the phase falls through. -/
theorem inboundPhase_of_results (env : Env) (effect : Effect) (fd : FrameData)
    (image : ImageFrameData) (st : PipelineState)
    (hready : ¬(st.input.width ≠ image.width ∨ st.input.height ≠ image.height ∨
        fd.scene ≠ st.lastScene) ∨ env.inputTexture = ⟨true, true, .NVCV_SUCCESS⟩) :
    let r := inboundPhase env effect fd image st
    (env.getFrameImage ≠ .RS_ERROR_SUCCESS →
      ∃ e ∈ r.trace, e.isRecoverableFailure = true) ∧
    (env.getFrameImage = .RS_ERROR_SUCCESS →
      (env.mapInput ≠ .NVCV_SUCCESS → ∃ e ∈ r.trace, e.isRecoverableFailure = true) ∧
      (env.mapInput = .NVCV_SUCCESS →
        (env.transferInput ≠ .NVCV_SUCCESS → ∃ e ∈ r.trace, e.isRecoverableFailure = true) ∧
        (env.unmapInput ≠ .NVCV_SUCCESS → ∃ e ∈ r.trace, e.isRecoverableFailure = true) ∧
        (env.transferInput = .NVCV_SUCCESS → env.unmapInput = .NVCV_SUCCESS →
          (env.setInputImage ≠ .NVCV_SUCCESS →
            ∃ e ∈ r.trace, e.isRecoverableFailure = true) ∧
          (env.setInputImage = .NVCV_SUCCESS → r.exit = none)))) := by
  intro r
  have h1 := ensureInput_exit_of_ready env effect hready
  have hr : r = Step.after (ensureInput env effect fd image st).trace
      ((acquireInput env image (ensureInput env effect fd image st).state).andThen fun st =>
        (transferInput env st).andThen fun st => setInputImage env effect st) := by
    simp only [r, inboundPhase]
    rw [Step.andThen_of_exit_none _ h1]
  have lift : ∀ s : Step, (∃ e ∈ s.trace, e.isRecoverableFailure = true) →
      ∃ e ∈ (Step.after (ensureInput env effect fd image st).trace s).trace,
        e.isRecoverableFailure = true := by
    rintro s ⟨e, he, hb⟩
    exact ⟨e, by simp [he], hb⟩
  rw [hr]
  generalize (ensureInput env effect fd image st).state = s1
  refine ⟨fun hg => lift _ ?_, fun hg => ⟨fun hm => lift _ ?_, fun hm =>
    ⟨fun ht => lift _ ?_, fun hu => lift _ ?_, fun ht hu =>
      ⟨fun hs => lift _ ?_, fun hs => ?_⟩⟩⟩⟩
  · refine ⟨.rs_getFrameImage image.imageId s1.input.resource env.getFrameImage,
      Step.mem_andThen_trace _ ?_, by simp [Event.isRecoverableFailure, hg]⟩
    simp [acquireInput, hg]
  · have ha : (acquireInput env image s1).exit = none := by simp [acquireInput, hg]
    refine ⟨.NvCVImage_MapResource s1.input.image env.mapInput,
      Step.mem_andThen_of_exit_none ha (Step.mem_andThen_trace _ ?_),
      by simp [Event.isRecoverableFailure, hm]⟩
    rw [acquireInput_state]
    simp [transferInput, hm]
  · have ha : (acquireInput env image s1).exit = none := by simp [acquireInput, hg]
    refine ⟨.NvCVImage_Transfer s1.input.image (s1.effectInput.map (·.ptr)) .oneOver255
        env.transferInput,
      Step.mem_andThen_of_exit_none ha (Step.mem_andThen_trace _ ?_),
      by simp [Event.isRecoverableFailure, ht]⟩
    rw [acquireInput_state]
    by_cases hu : env.unmapInput = .NVCV_SUCCESS
    · simp [transferInput, hm, ht, hu]
    · simp [transferInput, hm, ht, hu]
  · have ha : (acquireInput env image s1).exit = none := by simp [acquireInput, hg]
    refine ⟨.NvCVImage_UnmapResource s1.input.image env.unmapInput,
      Step.mem_andThen_of_exit_none ha (Step.mem_andThen_trace _ ?_),
      by simp [Event.isRecoverableFailure, hu]⟩
    rw [acquireInput_state]
    by_cases ht : env.transferInput = .NVCV_SUCCESS
    · simp [transferInput, hm, ht, hu]
    · simp [transferInput, hm, ht, hu]
  · have ha : (acquireInput env image s1).exit = none := by simp [acquireInput, hg]
    have hti : (transferInput env s1).exit = none := by simp [transferInput, hm, ht, hu]
    refine ⟨.NvVFX_SetImage effect.effect .NVVFX_INPUT_IMAGE (s1.effectInput.map (·.ptr))
        env.setInputImage,
      Step.mem_andThen_of_exit_none ha ?_, by simp [Event.isRecoverableFailure, hs]⟩
    rw [acquireInput_state]
    refine Step.mem_andThen_of_exit_none hti ?_
    rw [transferInput_state]
    simp [setInputImage, hs]
  · have ha : (acquireInput env image s1).exit = none := by simp [acquireInput, hg]
    have hti : (transferInput env s1).exit = none := by simp [transferInput, hm, ht, hu]
    simp only [Step.after_exit]
    rw [Step.andThen_exit_of_exit_none ha, acquireInput_state,
      Step.andThen_exit_of_exit_none hti, transferInput_state]
    simp [setInputImage, hs]

theorem outputPhase_exit_of_ready {env : Env} {effect : Effect} {fd : FrameData}
    {image : ImageFrameData} {st : PipelineState}
    (h : ¬(st.output.width ≠ outputSize effect image.width ∨
        st.output.height ≠ outputSize effect image.height ∨ fd.scene ≠ st.lastScene) ∨
      (env.outputTexture = ⟨true, true, .NVCV_SUCCESS⟩ ∧
        (env.fromD3DFormat effect.outputTextureFormat).1 = .NVCV_SUCCESS))
    (hs : env.setOutputImage = .NVCV_SUCCESS) :
    (outputPhase env effect fd image st).exit = none := by
  unfold outputPhase
  rw [Step.andThen_exit_of_exit_none (ensureOutput_exit_of_ready h)]
  simp [setOutputImage, hs]

/-- The effect phase, from what its calls return. -/
theorem effectPhase_of_results (env : Env) (effect : Effect) (fd : FrameData)
    (st : PipelineState) :
    let r := effectPhase env effect fd st
    (effect.loaded = false → env.load ≠ .NVCV_SUCCESS →
      ∃ e ∈ r.trace, e.isRecoverableFailure = true) ∧
    (effect.loaded = true ∨ env.load = .NVCV_SUCCESS →
      (env.run ≠ .NVCV_SUCCESS → ∃ e ∈ r.trace, e.isRecoverableFailure = true) ∧
      (env.run = .NVCV_SUCCESS → r.exit = none)) := by
  intro r
  refine ⟨fun hl hf => ?_, fun hl => ?_⟩
  · refine ⟨.NvVFX_Load effect.effect env.load, Step.mem_andThen_trace _ ?_,
      by simp [Event.isRecoverableFailure, hf]⟩
    simp [loadEffect, hl, hf]
  · have hx : (loadEffect env effect fd st).exit = none := by
      unfold loadEffect
      rcases hl with hl | hl
      · simp [hl]
      · split
        · simp [hl]
        · rfl
    refine ⟨fun hr => ?_, fun hr => ?_⟩
    · refine ⟨.NvVFX_Run effect.effect env.run, Step.mem_andThen_of_exit_none hx ?_,
        by simp [Event.isRecoverableFailure, hr]⟩
      simp [runEffect, hr]
    · simp only [r, effectPhase]
      rw [Step.andThen_exit_of_exit_none hx]
      simp [runEffect, hr]

/-- The outbound phase, from what its calls return. -/
theorem outboundPhase_of_results (env : Env) (st : PipelineState) :
    let r := outboundPhase env st
    let distinct := st.effectOutput.map (·.ptr) ≠ st.outputImage.map (·.ptr)
    (distinct → env.transferEffectOutput ≠ .NVCV_SUCCESS →
      ∃ e ∈ r.trace, e.isRecoverableFailure = true) ∧
    (¬distinct ∨ env.transferEffectOutput = .NVCV_SUCCESS →
      (env.mapOutput ≠ .NVCV_SUCCESS → ∃ e ∈ r.trace, e.isRecoverableFailure = true) ∧
      (env.mapOutput = .NVCV_SUCCESS →
        (env.transferOutput ≠ .NVCV_SUCCESS →
          ∃ e ∈ r.trace, e.isRecoverableFailure = true) ∧
        (env.unmapOutput ≠ .NVCV_SUCCESS →
          ∃ e ∈ r.trace, e.isRecoverableFailure = true))) := by
  intro r distinct
  refine ⟨fun hd hf => ?_, fun hd => ?_⟩
  · refine ⟨.NvCVImage_Transfer (st.effectOutput.map (·.ptr)) (st.outputImage.map (·.ptr))
        .times255 env.transferEffectOutput, Step.mem_andThen_trace _ ?_,
      by simp [Event.isRecoverableFailure, hf]⟩
    unfold transferEffectOutput
    rw [if_pos hd]
    simp [hf]
  · have hx : (transferEffectOutput env st).exit = none := by
      unfold transferEffectOutput
      split
      · next hne =>
        rcases hd with hd | hd
        · exact absurd hne hd
        · simp [hd]
      · rfl
    have hmem : ∀ e, e ∈ (transferOutput env st).trace → e ∈ r.trace := by
      intro e he
      refine Step.mem_andThen_of_exit_none hx ?_
      rw [transferEffectOutput_state]; exact he
    refine ⟨fun hm => ?_, fun hm => ⟨fun ht => ?_, fun hu => ?_⟩⟩
    · exact ⟨.NvCVImage_MapResource st.output.image env.mapOutput,
        hmem _ (by simp [transferOutput, hm]), by simp [Event.isRecoverableFailure, hm]⟩
    · refine ⟨.NvCVImage_Transfer (st.outputImage.map (·.ptr)) st.output.image .one
          env.transferOutput, hmem _ ?_, by simp [Event.isRecoverableFailure, ht]⟩
      by_cases hu : env.unmapOutput = .NVCV_SUCCESS
      · simp [transferOutput, hm, ht, hu]
      · simp [transferOutput, hm, ht, hu]
    · refine ⟨.NvCVImage_UnmapResource st.output.image env.unmapOutput, hmem _ ?_,
        by simp [Event.isRecoverableFailure, hu]⟩
      by_cases ht : env.transferOutput = .NVCV_SUCCESS
      · simp [transferOutput, hm, ht, hu]
      · simp [transferOutput, hm, ht, hu]

/-- C12: take a frame request for an in-range scene, and follow the calls of the
iteration in order for as long as they succeed (the buffers being cached or their
creation succeeding).  Whichever frame-local call returns a failure first, namely
`rs_getFrameImageData`, `rs_getFrameImage`, the map, the transfer or the unmap of the
input texture, `NvVFX_SetImage` of the input image, `NvVFX_Load` of an effect that is not
loaded, `NvVFX_Run`, the transfer of the effect output into an `outputImage` that is an
object of its own, the map, the transfer or the unmap of the output texture, the
iteration posts at least one diagnostic with `rs_logToD3`, makes no `rs_sendFrame` call,
leaves `lastScene` as it was, and ends with `continue`, so the loop goes on. -/
theorem recoverable_failure_skips_frame (env : Env) (st : PipelineState) (effect : Effect)
    (hawait : env.await = .RS_ERROR_SUCCESS) (hscene : env.frameData.scene < nScenes)
    (heff : st.effects[env.frameData.scene]? = some effect) :
    let r := mainLoopBody env st
    let skipped := 1 ≤ (callsTo [.rs_logToD3] r.trace).length ∧
      callsTo [.rs_sendFrame] r.trace = [] ∧
      r.state.lastScene = st.lastScene ∧
      r.exit = some .skip
    let distinct := r.state.effectOutput.map (·.ptr) ≠ r.state.outputImage.map (·.ptr)
    (env.getFrameImageData ≠ .RS_ERROR_SUCCESS → skipped) ∧
    (env.getFrameImageData = .RS_ERROR_SUCCESS → env.inputReady st →
      (env.getFrameImage ≠ .RS_ERROR_SUCCESS → skipped) ∧
      (env.getFrameImage = .RS_ERROR_SUCCESS →
        (env.mapInput ≠ .NVCV_SUCCESS → skipped) ∧
        (env.mapInput = .NVCV_SUCCESS →
          (env.transferInput ≠ .NVCV_SUCCESS → skipped) ∧
          (env.unmapInput ≠ .NVCV_SUCCESS → skipped) ∧
          (env.transferInput = .NVCV_SUCCESS → env.unmapInput = .NVCV_SUCCESS →
            (env.setInputImage ≠ .NVCV_SUCCESS → skipped) ∧
            (env.setInputImage = .NVCV_SUCCESS → env.outputReady effect st →
              (effect.loaded = false → env.load ≠ .NVCV_SUCCESS → skipped) ∧
              (effect.loaded = true ∨ env.load = .NVCV_SUCCESS →
                (env.run ≠ .NVCV_SUCCESS → skipped) ∧
                (env.run = .NVCV_SUCCESS →
                  (distinct → env.transferEffectOutput ≠ .NVCV_SUCCESS → skipped) ∧
                  (¬distinct ∨ env.transferEffectOutput = .NVCV_SUCCESS →
                    (env.mapOutput ≠ .NVCV_SUCCESS → skipped) ∧
                    (env.mapOutput = .NVCV_SUCCESS →
                      (env.transferOutput ≠ .NVCV_SUCCESS → skipped) ∧
                      (env.unmapOutput ≠ .NVCV_SUCCESS → skipped)))))))))) := by
  intro r skipped distinct
  have ofEvent : (∃ e ∈ r.trace, e.isRecoverableFailure = true) → skipped := by
    rintro ⟨e, he, hb⟩
    exact mainLoopBody_of_recoverable_event env st e he hb
  refine ⟨fun hdata => ofEvent ?_, fun hdata hready => ?_⟩
  · refine ⟨.rs_getFrameImageData env.frameData.scene env.getFrameImageData, ?_,
      by simp [Event.isRecoverableFailure, hdata]⟩
    have : ¬ env.frameData.scene ≥ nScenes := by omega
    simp [r, mainLoopBody_of_success env st hawait, processFrame, this, heff, hdata]
  have hr : r = Step.after [.rs_awaitFrameData 5000 .RS_ERROR_SUCCESS,
      .rs_getFrameImageData env.frameData.scene .RS_ERROR_SUCCESS]
      (processImage env effect env.frameData env.image st) :=
    mainLoopBody_of_image hawait hscene heff hdata
  have ofImage : (∃ e ∈ (processImage env effect env.frameData env.image st).trace,
      e.isRecoverableFailure = true) → skipped := by
    rintro ⟨e, he, hb⟩
    exact ofEvent ⟨e, by rw [hr]; simp [he], hb⟩
  have ofInbound : (∃ e ∈ (inboundPhase env effect env.frameData env.image st).trace,
      e.isRecoverableFailure = true) → skipped := by
    rintro ⟨e, he, hb⟩
    exact ofImage ⟨e, by unfold processImage; exact Step.mem_andThen_trace _ he, hb⟩
  obtain ⟨i1, i2⟩ := inboundPhase_of_results env effect env.frameData env.image st hready
  refine ⟨fun h => ofInbound (i1 h), fun hg => ?_⟩
  obtain ⟨i3, i4⟩ := i2 hg
  refine ⟨fun h => ofInbound (i3 h), fun hm => ?_⟩
  obtain ⟨i5, i6, i7⟩ := i4 hm
  refine ⟨fun h => ofInbound (i5 h), fun h => ofInbound (i6 h), fun ht hu => ?_⟩
  obtain ⟨i8, i9⟩ := i7 ht hu
  refine ⟨fun h => ofInbound (i8 h), fun hs hout => ?_⟩
  have hin := i9 hs
  have hf1 := inboundPhase_frame env effect env.frameData env.image st
  simp only [] at hf1
  have hx2 : (outputPhase env effect env.frameData env.image
      (inboundPhase env effect env.frameData env.image st).state).exit = none := by
    refine outputPhase_exit_of_ready ?_ hout.2
    rw [hf1.2.2.2.1, hf1.2.2.2.2.2.2.2]
    exact hout.1
  have ofEffect : (∃ e ∈ (effectPhase env effect env.frameData
      (outputPhase env effect env.frameData env.image
        (inboundPhase env effect env.frameData env.image st).state).state).trace,
      e.isRecoverableFailure = true) → skipped := by
    rintro ⟨e, he, hb⟩
    refine ofImage ⟨e, ?_, hb⟩
    unfold processImage
    exact Step.mem_andThen_of_exit_none hin
      (Step.mem_andThen_of_exit_none hx2 (Step.mem_andThen_trace _ he))
  obtain ⟨e1, e2⟩ := effectPhase_of_results env effect env.frameData
    (outputPhase env effect env.frameData env.image
      (inboundPhase env effect env.frameData env.image st).state).state
  refine ⟨fun hl hf => ofEffect (e1 hl hf), fun hl => ?_⟩
  obtain ⟨e3, e4⟩ := e2 hl
  refine ⟨fun h => ofEffect (e3 h), fun hrun => ?_⟩
  have hx3 := e4 hrun
  have ofOutbound : (∃ e ∈ (outboundPhase env (effectPhase env effect env.frameData
      (outputPhase env effect env.frameData env.image
        (inboundPhase env effect env.frameData env.image st).state).state).state).trace,
      e.isRecoverableFailure = true) → skipped := by
    rintro ⟨e, he, hb⟩
    refine ofImage ⟨e, ?_, hb⟩
    unfold processImage
    exact Step.mem_andThen_of_exit_none hin
      (Step.mem_andThen_of_exit_none hx2
        (Step.mem_andThen_of_exit_none hx3 (Step.mem_andThen_trace _ he)))
  have hb := processImage_buffers hin
  have hf3 := effectPhase_frame env effect env.frameData
    (outputPhase env effect env.frameData env.image
      (inboundPhase env effect env.frameData env.image st).state).state
  simp only [] at hb hf3
  have hdist : distinct ↔
      (effectPhase env effect env.frameData
        (outputPhase env effect env.frameData env.image
          (inboundPhase env effect env.frameData env.image st).state).state).state.effectOutput.map
          (·.ptr) ≠
      (effectPhase env effect env.frameData
        (outputPhase env effect env.frameData env.image
          (inboundPhase env effect env.frameData env.image st).state).state).state.outputImage.map
          (·.ptr) := by
    simp only [distinct, hr, Step.after_state]
    rw [hb.2.2.2.1, hb.2.2.2.2, hf3.2.2.2.2.2.1, hf3.2.2.2.2.2.2.1, outputPhase_state,
      inboundPhase_state]
  obtain ⟨o1, o2⟩ := outboundPhase_of_results env
    (effectPhase env effect env.frameData
      (outputPhase env effect env.frameData env.image
        (inboundPhase env effect env.frameData env.image st).state).state).state
  refine ⟨fun hd hf => ofOutbound (o1 (hdist.1 hd) hf), fun hd => ?_⟩
  obtain ⟨o3, o4⟩ := o2 (hd.imp (fun h => fun h' => h (hdist.2 h')) id)
  refine ⟨fun h => ofOutbound (o3 h), fun hm => ?_⟩
  obtain ⟨o5, o6⟩ := o4 hm
  exact ⟨fun h => ofOutbound (o5 h), fun h => ofOutbound (o6 h)⟩

/-- C12 (witness): scene 0 at 640x360 with two streams announced, one request for each of
the twelve calls, in which that call is the first to fail (for the transfer into
`outputImage`, the staging image is an object of its own in scene 0).  Each of the twelve
iterations posts a diagnostic, sends no frame, keeps `lastScene` and ends with
`continue`. -/
theorem recoverable_failure_skips_frame_witness :
    (1 ≤ (callsTo [.rs_logToD3]
        (mainLoopBody (imageDataFailure 0 640 360) stateWithTwoStreams).trace).length ∧
      callsTo [.rs_sendFrame]
        (mainLoopBody (imageDataFailure 0 640 360) stateWithTwoStreams).trace = [] ∧
      (mainLoopBody (imageDataFailure 0 640 360) stateWithTwoStreams).state.lastScene =
        stateWithTwoStreams.lastScene ∧
      (mainLoopBody (imageDataFailure 0 640 360) stateWithTwoStreams).exit = some .skip) ∧
    (mainLoopBody (imagelessRequest 0 640 360) stateWithTwoStreams).exit = some .skip ∧
    (mainLoopBody (mapInputFailure 0 640 360) stateWithTwoStreams).exit = some .skip ∧
    (mainLoopBody (bridgeFailure 0 640 360 (.other 1) .NVCV_SUCCESS)
      stateWithTwoStreams).exit = some .skip ∧
    (mainLoopBody (unmapInputFailure 0 640 360) stateWithTwoStreams).exit = some .skip ∧
    (mainLoopBody (bindInputFailure 0 640 360) stateWithTwoStreams).exit = some .skip ∧
    (mainLoopBody (loadFailure 0 640 360) stateWithTwoStreams).exit = some .skip ∧
    (mainLoopBody (runRequest 0 640 360 (.other 1)) stateWithTwoStreams).exit = some .skip ∧
    ((mainLoopBody (stagingFailure 0 640 360) stateWithTwoStreams).state.effectOutput.map
        (·.ptr) ≠
      (mainLoopBody (stagingFailure 0 640 360) stateWithTwoStreams).state.outputImage.map
        (·.ptr) ∧
      1 ≤ (callsTo [.rs_logToD3]
        (mainLoopBody (stagingFailure 0 640 360) stateWithTwoStreams).trace).length ∧
      callsTo [.rs_sendFrame]
        (mainLoopBody (stagingFailure 0 640 360) stateWithTwoStreams).trace = [] ∧
      (mainLoopBody (stagingFailure 0 640 360) stateWithTwoStreams).state.lastScene =
        stateWithTwoStreams.lastScene ∧
      (mainLoopBody (stagingFailure 0 640 360) stateWithTwoStreams).exit = some .skip) ∧
    (mainLoopBody (mapOutputFailure 0 640 360) stateWithTwoStreams).exit = some .skip ∧
    (mainLoopBody (transferOutputFailure 0 640 360) stateWithTwoStreams).exit =
      some .skip ∧
    (1 ≤ (callsTo [.rs_logToD3]
        (mainLoopBody (bridgeFailure 0 640 360 .NVCV_SUCCESS (.other 1))
          stateWithTwoStreams).trace).length ∧
      callsTo [.rs_sendFrame]
        (mainLoopBody (bridgeFailure 0 640 360 .NVCV_SUCCESS (.other 1))
          stateWithTwoStreams).trace = [] ∧
      (mainLoopBody (bridgeFailure 0 640 360 .NVCV_SUCCESS (.other 1))
        stateWithTwoStreams).state.lastScene = stateWithTwoStreams.lastScene ∧
      (mainLoopBody (bridgeFailure 0 640 360 .NVCV_SUCCESS (.other 1))
        stateWithTwoStreams).exit = some .skip) := by
  have hd : (mainLoopBody (stagingFailure 0 640 360) stateWithTwoStreams).state.effectOutput.map
        (·.ptr) ≠
      (mainLoopBody (stagingFailure 0 640 360) stateWithTwoStreams).state.outputImage.map
        (·.ptr) := by decide
  refine ⟨?_, ?_, ?_, ?_, ?_, ?_, ?_, ?_, ⟨hd, ?_⟩, ?_, ?_, ?_⟩
  · exact (recoverable_failure_skips_frame (imageDataFailure 0 640 360) stateWithTwoStreams
      (effects.get ⟨0, by decide⟩) rfl (by decide) (by decide)).1 (by decide)
  · exact ((recoverable_failure_skips_frame (imagelessRequest 0 640 360) stateWithTwoStreams
      (effects.get ⟨0, by decide⟩) rfl (by decide) (by decide)).2 rfl (Or.inr rfl)).1
      (by decide) |>.2.2.2
  · exact (((recoverable_failure_skips_frame (mapInputFailure 0 640 360) stateWithTwoStreams
      (effects.get ⟨0, by decide⟩) rfl (by decide) (by decide)).2 rfl (Or.inr rfl)).2 rfl).1
      (by decide) |>.2.2.2
  · exact ((((recoverable_failure_skips_frame (bridgeFailure 0 640 360 (.other 1) .NVCV_SUCCESS)
      stateWithTwoStreams (effects.get ⟨0, by decide⟩) rfl (by decide) (by decide)).2 rfl
      (Or.inr rfl)).2 rfl).2 rfl).1 (by decide) |>.2.2.2
  · exact ((((recoverable_failure_skips_frame (unmapInputFailure 0 640 360)
      stateWithTwoStreams (effects.get ⟨0, by decide⟩) rfl (by decide) (by decide)).2 rfl
      (Or.inr rfl)).2 rfl).2 rfl).2.1 (by decide) |>.2.2.2
  · exact (((((recoverable_failure_skips_frame (bindInputFailure 0 640 360)
      stateWithTwoStreams (effects.get ⟨0, by decide⟩) rfl (by decide) (by decide)).2 rfl
      (Or.inr rfl)).2 rfl).2 rfl).2.2 rfl rfl).1 (by decide) |>.2.2.2
  · exact ((((((recoverable_failure_skips_frame (loadFailure 0 640 360)
      stateWithTwoStreams (effects.get ⟨0, by decide⟩) rfl (by decide) (by decide)).2 rfl
      (Or.inr rfl)).2 rfl).2 rfl).2.2 rfl rfl).2 rfl ⟨Or.inr ⟨rfl, rfl⟩, rfl⟩).1 rfl
      (by decide) |>.2.2.2
  · exact (((((((recoverable_failure_skips_frame (runRequest 0 640 360 (.other 1))
      stateWithTwoStreams (effects.get ⟨0, by decide⟩) rfl (by decide) (by decide)).2 rfl
      (Or.inr rfl)).2 rfl).2 rfl).2.2 rfl rfl).2 rfl ⟨Or.inr ⟨rfl, rfl⟩, rfl⟩).2
      (Or.inr rfl)).1 (by decide) |>.2.2.2
  · exact ((((((((recoverable_failure_skips_frame (stagingFailure 0 640 360)
      stateWithTwoStreams (effects.get ⟨0, by decide⟩) rfl (by decide) (by decide)).2 rfl
      (Or.inr rfl)).2 rfl).2 rfl).2.2 rfl rfl).2 rfl ⟨Or.inr ⟨rfl, rfl⟩, rfl⟩).2
      (Or.inr rfl)).2 rfl).1 hd (by decide)
  · exact (((((((((recoverable_failure_skips_frame (mapOutputFailure 0 640 360)
      stateWithTwoStreams (effects.get ⟨0, by decide⟩) rfl (by decide) (by decide)).2 rfl
      (Or.inr rfl)).2 rfl).2 rfl).2.2 rfl rfl).2 rfl ⟨Or.inr ⟨rfl, rfl⟩, rfl⟩).2
      (Or.inr rfl)).2 rfl).2 (Or.inr rfl)).1 (by decide) |>.2.2.2
  · exact ((((((((((recoverable_failure_skips_frame (transferOutputFailure 0 640 360)
      stateWithTwoStreams (effects.get ⟨0, by decide⟩) rfl (by decide) (by decide)).2 rfl
      (Or.inr rfl)).2 rfl).2 rfl).2.2 rfl rfl).2 rfl ⟨Or.inr ⟨rfl, rfl⟩, rfl⟩).2
      (Or.inr rfl)).2 rfl).2 (Or.inr rfl)).2 rfl).1 (by decide) |>.2.2.2
  · exact ((((((((((recoverable_failure_skips_frame
      (bridgeFailure 0 640 360 .NVCV_SUCCESS (.other 1))
      stateWithTwoStreams (effects.get ⟨0, by decide⟩) rfl (by decide) (by decide)).2 rfl
      (Or.inr rfl)).2 rfl).2 rfl).2.2 rfl rfl).2 rfl ⟨Or.inr ⟨rfl, rfl⟩, rfl⟩).2
      (Or.inr rfl)).2 rfl).2 (Or.inr rfl)).2 rfl).2 (by decide)

end RenderStreamNvVFX
